import Mathlib

/-! MomentShadowMapping: render-target abstraction, point-light grid and frame loop.

A shallow embedding of `framebuffer.cpp` / `framebuffer.h` (class `FrameBuffer`), of
`shader_s.h` (class `Shader`), and of `MomentShadows.cpp`: the point-light grid routines
(`configurePointLights`, `updatePointLights`), the set-up of the two render targets, and the
stages of one iteration of the render loop of `main` with its controls.

Conventions of the embedding.

* The OpenGL context is a value of type `GLContext`: the ordered log of the commands issued so far,
  the object names the driver hands out next, and the value it reports for
  `GL_MAX_COLOR_ATTACHMENTS`.  Every method takes the context and returns the new one.
* A C++ method becomes a function returning a `Step`: how the call ended (`Outcome`), the object
  after the call and the context after the call.  A thrown exception leaves the object alive, so
  the state after a throw is part of the result.
* Executions the C++ standard leaves undefined (an unchecked `operator[]` outside the container,
  a read of a never written array cell, signed overflow) end the call with `Outcome.undefined`.
* `float` / `double` values are data of the IEEE 754 formats binary32 / binary64 (`FloatVal`:
  a finite number, an infinity or a NaN), and every arithmetic operation is rounded to the
  nearest value of the format of its C++ type, ties to even.  What the C and GLM libraries
  supply (`rand()`, `RAND_MAX`, `cos`, `sin`, `glm::pi<float>()`) is an input (`CLib`).
* The render loop is state passing on `App` (the option variables of `main`, the lights, the
  context).  OpenGL state that a claim speaks of (draw framebuffer, draw buffers, viewport,
  clear colour, switches, texture and image units) is obtained by replaying the command log
  (`GLState.run`, `TexUnits.run`).  Calls into libraries whose code is not in the sources
  (`Model::draw`, Dear ImGui, GLFW) are single log entries that leave this state alone, and
  what the widgets report in a frame is an input (`Widgets`).
-/

namespace MomentShadows

/-! ## OpenGL enumerants (values of the OpenGL registry, as declared by `glad.h`) -/

/-! The OpenGL types `GLenum` and `GLuint` (unsigned) are `Nat`, and `GLint` is `Int`. -/

def GL_FALSE : Nat := 0
def GL_TRUE : Nat := 1
def GL_BACK : Nat := 0x0405
def GL_TEXTURE_2D : Nat := 0x0DE1
def GL_UNSIGNED_BYTE : Nat := 0x1401
def GL_UNSIGNED_INT : Nat := 0x1405
def GL_FLOAT : Nat := 0x1406
def GL_STENCIL_INDEX : Nat := 0x1901
def GL_DEPTH_COMPONENT : Nat := 0x1902
def GL_RGB : Nat := 0x1907
def GL_RGBA : Nat := 0x1908
def GL_LUMINANCE : Nat := 0x1909
def GL_LUMINANCE_ALPHA : Nat := 0x190A
def GL_NEAREST : Nat := 0x2600
def GL_LINEAR : Nat := 0x2601
def GL_TEXTURE_MAG_FILTER : Nat := 0x2800
def GL_TEXTURE_MIN_FILTER : Nat := 0x2801
def GL_LUMINANCE8 : Nat := 0x8040
def GL_LUMINANCE16 : Nat := 0x8042
def GL_LUMINANCE8_ALPHA8 : Nat := 0x8045
def GL_LUMINANCE16_ALPHA16 : Nat := 0x8048
def GL_RGB8 : Nat := 0x8051
def GL_RGBA8 : Nat := 0x8058
def GL_DEPTH_COMPONENT24 : Nat := 0x81A6
def GL_DEPTH_STENCIL_ATTACHMENT : Nat := 0x821A
def GL_TEXTURE0 : Nat := 0x84C0
def GL_DEPTH_STENCIL : Nat := 0x84F9
def GL_UNSIGNED_INT_24_8 : Nat := 0x84FA
def GL_RGBA32F : Nat := 0x8814
def GL_RGB32F : Nat := 0x8815
def GL_RGBA16F : Nat := 0x881A
def GL_RGB16F : Nat := 0x881B
def GL_ARRAY_BUFFER : Nat := 0x8892
def GL_READ_WRITE : Nat := 0x88BA
def GL_STATIC_DRAW : Nat := 0x88E4
def GL_DEPTH24_STENCIL8 : Nat := 0x88F0
def GL_READ_FRAMEBUFFER : Nat := 0x8CA8
def GL_DRAW_FRAMEBUFFER : Nat := 0x8CA9
def GL_MAX_COLOR_ATTACHMENTS : Nat := 0x8CDF
def GL_FRAMEBUFFER_COMPLETE : Nat := 0x8CD5
def GL_COLOR_ATTACHMENT0 : Nat := 0x8CE0
def GL_DEPTH_ATTACHMENT : Nat := 0x8D00
def GL_STENCIL_ATTACHMENT : Nat := 0x8D20
def GL_FRAMEBUFFER : Nat := 0x8D40
def GL_RENDERBUFFER : Nat := 0x8D41
def GL_STENCIL_INDEX1 : Nat := 0x8D46
def GL_STENCIL_INDEX4 : Nat := 0x8D47
def GL_STENCIL_INDEX8 : Nat := 0x8D48
def GL_STENCIL_INDEX16 : Nat := 0x8D49
def GL_TEXTURE_2D_MULTISAMPLE : Nat := 0x9100
def GL_DEPTH_BUFFER_BIT : Nat := 0x00000100
def GL_COLOR_BUFFER_BIT : Nat := 0x00004000
def GL_TRIANGLES : Nat := 0x0004
def GL_TRIANGLE_STRIP : Nat := 0x0005
def GL_ONE : Nat := 1
def GL_SRC_ALPHA : Nat := 0x0302
def GL_ONE_MINUS_SRC_ALPHA : Nat := 0x0303
def GL_FRONT_AND_BACK : Nat := 0x0408
def GL_CW : Nat := 0x0900
def GL_CCW : Nat := 0x0901
def GL_CULL_FACE : Nat := 0x0B44
def GL_DEPTH_TEST : Nat := 0x0B71
def GL_BLEND : Nat := 0x0BE2
def GL_LINE : Nat := 0x1B01
def GL_FILL : Nat := 0x1B02
def GL_TEXTURE_WRAP_S : Nat := 0x2802
def GL_TEXTURE_WRAP_T : Nat := 0x2803
def GL_TEXTURE_BORDER_COLOR : Nat := 0x1004
def GL_CLAMP_TO_BORDER : Nat := 0x812D
def GL_TEXTURE4 : Nat := 0x84C4
def GL_TEXTURE_CUBE_MAP : Nat := 0x8513
def GL_SHADER_IMAGE_ACCESS_BARRIER_BIT : Nat := 0x00000020

/-- Largest value of the C type `int` (32 bits). -/
def INT_MAX : Int := 2147483647

/-! ## Floating-point arithmetic

The C++ types `float` and `double` are the IEEE 754 formats binary32 and binary64.  Every
operation is rounded once, to the format of its C++ type, to the nearest value with ties to
even; operations are not contracted into fused ones and carry no excess precision.  The two
zeros are one value: the embedded code has no operation that tells them apart. -/

/-- A datum of type `float` or `double`: a finite number, an infinity, or a NaN. -/
inductive FloatVal where
  | finite (v : ℚ)
  | infinite (negative : Bool)
  | nan
  deriving DecidableEq, Repr

/-- A binary floating-point format: the precision in bits and the largest exponent. -/
structure FloatFormat where
  prec : Nat
  emax : Int
  deriving DecidableEq

/-- The format of `float`. -/
def binary32 : FloatFormat := ⟨24, 127⟩

/-- The format of `double`. -/
def binary64 : FloatFormat := ⟨53, 1023⟩

/-- The integer nearest to `x`, the even one of the two when `x` lies half way. -/
def nearestEven (x : ℚ) : Int :=
  if x - ⌊x⌋ < 1 / 2 then ⌊x⌋
  else if 1 / 2 < x - ⌊x⌋ then ⌊x⌋ + 1
  else if ⌊x⌋ % 2 = 0 then ⌊x⌋ else ⌊x⌋ + 1

/-- Exponent of the quantum (unit in the last place) of the format at magnitude `a`: that of
the binade of `a`, and that of the subnormal numbers below the smallest normal number. -/
def FloatFormat.ulpExp (f : FloatFormat) (a : ℚ) : Int :=
  max (Int.log 2 a) (1 - f.emax) - (f.prec - 1)

/-- Rounding of a magnitude `a >= 0` to the nearest multiple of its quantum, ties to even;
`none` when the result is too large for the format. -/
def FloatFormat.roundMag (f : FloatFormat) (a : ℚ) : Option ℚ :=
  let v := (nearestEven (a / 2 ^ f.ulpExp a) : ℚ) * 2 ^ f.ulpExp a
  if v < 2 ^ (f.emax + 1) then some v else none

/-- Rounding of a real result to the format: round to nearest, ties to even, overflow to the
infinity of the sign. -/
def FloatFormat.round (f : FloatFormat) (q : ℚ) : FloatVal :=
  match f.roundMag |q| with
  | some v => FloatVal.finite (if q < 0 then -v else v)
  | none => FloatVal.infinite (decide (q < 0))

/-- The bound `2^-prec` of the relative rounding error. -/
def FloatFormat.unitRoundoff (f : FloatFormat) : ℚ := 2 ^ (-(f.prec : Int))

/-- The bound of the absolute rounding error among the subnormal numbers: half the smallest
of them. -/
def FloatFormat.halfMin (f : FloatFormat) : ℚ := 2 ^ (1 - f.emax - (f.prec : Int))

/-- A number the format holds exactly: rounding leaves it as it is. -/
def FloatFormat.represents (f : FloatFormat) (v : ℚ) : Prop := f.round v = FloatVal.finite v

/-- Unary minus. -/
def FloatVal.neg : FloatVal → FloatVal
  | FloatVal.finite v => FloatVal.finite (-v)
  | FloatVal.infinite s => FloatVal.infinite (!s)
  | FloatVal.nan => FloatVal.nan

/-- The comparison `a < b`, false when an operand is a NaN. -/
def FloatVal.lt : FloatVal → FloatVal → Bool
  | FloatVal.finite a, FloatVal.finite b => decide (a < b)
  | FloatVal.finite _, FloatVal.infinite t => !t
  | FloatVal.infinite s, FloatVal.finite _ => s
  | FloatVal.infinite s, FloatVal.infinite t => s && !t
  | _, _ => false

/-- The sum `a + b` in format `f`. -/
def FloatFormat.add (f : FloatFormat) : FloatVal → FloatVal → FloatVal
  | FloatVal.finite a, FloatVal.finite b => f.round (a + b)
  | FloatVal.finite _, FloatVal.infinite t => FloatVal.infinite t
  | FloatVal.infinite s, FloatVal.finite _ => FloatVal.infinite s
  | FloatVal.infinite s, FloatVal.infinite t =>
      if s = t then FloatVal.infinite s else FloatVal.nan
  | _, _ => FloatVal.nan

/-- The difference `a - b` in format `f`. -/
def FloatFormat.sub (f : FloatFormat) (a b : FloatVal) : FloatVal := f.add a b.neg

/-- The product `a * b` in format `f`. -/
def FloatFormat.mul (f : FloatFormat) : FloatVal → FloatVal → FloatVal
  | FloatVal.finite a, FloatVal.finite b => f.round (a * b)
  | FloatVal.finite a, FloatVal.infinite t =>
      if a = 0 then FloatVal.nan else FloatVal.infinite (xor (decide (a < 0)) t)
  | FloatVal.infinite s, FloatVal.finite b =>
      if b = 0 then FloatVal.nan else FloatVal.infinite (xor s (decide (b < 0)))
  | FloatVal.infinite s, FloatVal.infinite t => FloatVal.infinite (xor s t)
  | _, _ => FloatVal.nan

/-- The quotient `a / b` in format `f`; a zero divisor counts as the positive zero. -/
def FloatFormat.div (f : FloatFormat) : FloatVal → FloatVal → FloatVal
  | FloatVal.finite a, FloatVal.finite b =>
      if b = 0 then
        if a = 0 then FloatVal.nan else FloatVal.infinite (decide (a < 0))
      else f.round (a / b)
  | FloatVal.finite _, FloatVal.infinite _ => FloatVal.finite 0
  | FloatVal.infinite s, FloatVal.finite b => FloatVal.infinite (xor s (decide (b < 0)))
  | _, _ => FloatVal.nan

/-- Conversion of an unsigned integer to format `f`. -/
def FloatFormat.ofNat (f : FloatFormat) (n : Nat) : FloatVal := f.round n

/-- Conversion of a floating-point datum to format `f` (exact when `f` is the wider one). -/
def FloatFormat.cast (f : FloatFormat) : FloatVal → FloatVal
  | FloatVal.finite v => f.round v
  | x => x

/-! ## The OpenGL context -/

set_option maxHeartbeats 4000000 in
/-- One OpenGL command as issued by the program, with the arguments it was given.  For the
`glGen*` commands the argument is the name the driver returned.  The `GLfloat` arguments of
`glClearColor` and `glTexParameterfv` are the literals `0.0f` and `1.0f` in these sources and
are held as the numbers 0 and 1. -/
inductive GLCall where
  | GetIntegerv (pname : Nat)
  | GenFramebuffers (id : Nat)
  | GenRenderbuffers (id : Nat)
  | GenTextures (id : Nat)
  | DeleteTextures (id : Nat)
  | DeleteRenderbuffers (id : Nat)
  | DeleteFramebuffers (id : Nat)
  | BindFramebuffer (target : Nat) (id : Nat)
  | BindRenderbuffer (target : Nat) (id : Nat)
  | RenderbufferStorageMultisample (target : Nat) (samples : Nat) (iformat : Nat)
      (width height : Int)
  | RenderbufferStorage (target : Nat) (iformat : Nat) (width height : Int)
  | FramebufferRenderbuffer (target attachment rbtarget : Nat) (id : Nat)
  | BindTexture (target : Nat) (id : Nat)
  | TexImage2DMultisample (target : Nat) (samples : Nat) (iformat : Nat)
      (width height : Int) (fixedLocations : Nat)
  | TexImage2D (target : Nat) (level : Int) (iformat : Nat) (width height : Int)
      (border : Int) (format type : Nat)
  | TexParameteri (target pname : Nat) (param : Int)
  | TexParameterfv (target pname : Nat) (params : List ℚ)
  | FramebufferTexture2D (target attachment textarget : Nat) (id : Nat) (level : Int)
  | ActiveTexture (unit : Nat)
  | DrawBuffer (buf : Nat)
  | DrawBuffers (n : Nat) (bufs : List Nat)
  | BindImageTexture (unit : Nat) (texture : Nat) (level : Int) (layered : Nat) (layer : Int)
      (access format : Nat)
  | BindBuffer (target : Nat) (id : Nat)
  | BufferData (target : Nat) (size : Nat) (data : List FloatVal) (usage : Nat)
  | CheckFramebufferStatus (target : Nat)
  | ClearColor (red green blue alpha : ℚ)
  | Clear (mask : Nat)
  | Enable (cap : Nat)
  | Disable (cap : Nat)
  | Viewport (x y : Int) (width height : Int)
  | FrontFace (mode : Nat)
  | BlendFunc (sfactor dfactor : Nat)
  | PolygonMode (face mode : Nat)
  | UseProgram (program : Nat)
  /-- Any `glUniform*` command on the location of `name` in `program`; the value is not
  recorded. -/
  | Uniform (program : Nat) (name : String)
  | GenVertexArrays (id : Nat)
  | GenBuffers (id : Nat)
  | BindVertexArray (id : Nat)
  | EnableVertexAttribArray (index : Nat)
  | VertexAttribPointer (index : Nat) (size : Int) (type normalized : Nat) (stride : Int)
      (offset : Nat)
  | DrawArrays (mode : Nat) (first count : Int)
  | DrawElementsInstanced (mode : Nat) (count : Nat) (type : Nat) (instancecount : Nat)
  | DispatchCompute (num_groups_x num_groups_y num_groups_z : Nat)
  | MemoryBarrier (barriers : Nat)
  | BlitFramebuffer (srcX0 srcY0 srcX1 srcY1 dstX0 dstY0 dstX1 dstY1 : Int) (mask filter : Nat)
  /-- The call `draw(shader)` on a `Model` object (class `Model` is not part of these
  sources): `model` numbers the object, `program` is the shader handed over. -/
  | ModelDraw (model : Nat) (program : Nat)
  /-- A call into Dear ImGui or GLFW, named by the function called. -/
  | Library (name : String)
  deriving DecidableEq, Repr

/-- The OpenGL context: the commands issued so far (oldest first), the next unused texture,
renderbuffer and framebuffer names, the platform's `GL_MAX_COLOR_ATTACHMENTS`, and the next
unused vertex-array and buffer names. -/
structure GLContext where
  log : List GLCall
  nextTexture : Nat
  nextRenderbuffer : Nat
  nextFramebuffer : Nat
  maxColorAttachments : Int
  nextVertexArray : Nat := 1
  nextBuffer : Nat := 1
  deriving DecidableEq, Repr

/-- Issue one command. -/
def GLContext.call (gl : GLContext) (c : GLCall) : GLContext := { gl with log := gl.log ++ [c] }

/-- Issue several commands in order. -/
def GLContext.calls (gl : GLContext) (cs : List GLCall) : GLContext := { gl with log := gl.log ++ cs }

/-- The command `glGenTextures(1, &id)`: returns an unused texture name. -/
def GLContext.genTexture (gl : GLContext) : Nat × GLContext :=
  (gl.nextTexture,
    { gl with log := gl.log ++ [GLCall.GenTextures gl.nextTexture],
              nextTexture := gl.nextTexture + 1 })

/-- The command `glGenRenderbuffers(1, &id)`: returns an unused renderbuffer name. -/
def GLContext.genRenderbuffer (gl : GLContext) : Nat × GLContext :=
  (gl.nextRenderbuffer,
    { gl with log := gl.log ++ [GLCall.GenRenderbuffers gl.nextRenderbuffer],
              nextRenderbuffer := gl.nextRenderbuffer + 1 })

/-- The command `glGenFramebuffers(1, &id)`: returns an unused framebuffer name. -/
def GLContext.genFramebuffer (gl : GLContext) : Nat × GLContext :=
  (gl.nextFramebuffer,
    { gl with log := gl.log ++ [GLCall.GenFramebuffers gl.nextFramebuffer],
              nextFramebuffer := gl.nextFramebuffer + 1 })

/-- The command `glGenVertexArrays(1, &id)`: returns an unused vertex-array name. -/
def GLContext.genVertexArray (gl : GLContext) : Nat × GLContext :=
  (gl.nextVertexArray,
    { gl with log := gl.log ++ [GLCall.GenVertexArrays gl.nextVertexArray],
              nextVertexArray := gl.nextVertexArray + 1 })

/-- The command `glGenBuffers(1, &id)`: returns an unused buffer name. -/
def GLContext.genBuffer (gl : GLContext) : Nat × GLContext :=
  (gl.nextBuffer,
    { gl with log := gl.log ++ [GLCall.GenBuffers gl.nextBuffer],
              nextBuffer := gl.nextBuffer + 1 })

/-- A context in which nothing has been issued yet; object names start at 1 (0 is reserved). -/
def GLContext.fresh (maxColorAttachments : Int) : GLContext :=
  { log := [], nextTexture := 1, nextRenderbuffer := 1, nextFramebuffer := 1,
    maxColorAttachments := maxColorAttachments }

/-- Texture-unit state of the context: the active unit and, per unit and target, the bound
texture name. -/
structure TexUnits where
  active : Nat
  bound : Nat → Nat → Nat

/-- Initial texture-unit state: unit `GL_TEXTURE0` is active and nothing is bound. -/
def TexUnits.initial : TexUnits := { active := GL_TEXTURE0, bound := fun _ _ => 0 }

/-- Effect of one command on the texture units: `glActiveTexture` selects the unit,
`glBindTexture` binds on the active unit, every other command leaves the units alone. -/
def TexUnits.step (s : TexUnits) : GLCall → TexUnits
  | GLCall.ActiveTexture u => { s with active := u }
  | GLCall.BindTexture target id =>
      { s with bound := fun u t => if u = s.active ∧ t = target then id else s.bound u t }
  | _ => s

/-- Texture-unit state after a whole command log. -/
def texUnitsAfter (log : List GLCall) : TexUnits := log.foldl TexUnits.step TexUnits.initial

/-! ## Outcomes -/

/-- The exception classes the `FrameBuffer` methods throw. -/
inductive Exn where
  | domain_error
  | invalid_argument
  | out_of_range
  deriving DecidableEq, Repr

/-- Executions the C++ standard leaves undefined. -/
inductive Undefined where
  /-- Unchecked `operator[]` on a `std::vector` with an index outside `0..size-1`. -/
  | vectorIndex (index : Int)
  /-- Access to the `buffers` array outside its allocation. -/
  | arrayIndex (index : Int)
  /-- Read of an array cell that was never written. -/
  | uninitialisedRead
  /-- Overflow of a signed `int` computation. -/
  | signedOverflow
  deriving DecidableEq, Repr

/-- How a call ended. -/
inductive Outcome where
  | ok
  | threw (e : Exn)
  | undefined (u : Undefined)
  deriving DecidableEq, Repr

/-- Result of a call on an object of type `σ`: outcome, object afterwards, context afterwards. -/
structure Step (σ : Type) where
  result : Outcome
  st : σ
  gl : GLContext

/-! ## `FrameBuffer` -/

/-- Data members of `class FrameBuffer` (`framebuffer.h`).  `buffers` is the `GLenum` array
allocated by the constructor; a cell is `none` until it is written. -/
structure FrameBuffer where
  max_color_attachments : Int
  width : Int
  height : Int
  buffers : List (Option Nat)
  frame_id : Nat
  depth_id : Nat
  stencil_id : Nat
  tex_ids : List Nat
  deriving DecidableEq, Repr

/-- Constructor `FrameBuffer::FrameBuffer()`.  The array `new GLenum[max_color_attachments]`
has `max_color_attachments` unwritten cells (none when the reported maximum is not
positive). -/
def FrameBuffer.new (gl : GLContext) : FrameBuffer × GLContext :=
  let gl1 := gl.call (GLCall.GetIntegerv GL_MAX_COLOR_ATTACHMENTS)
  let max_color_attachments := gl1.maxColorAttachments
  let buffers : List (Option Nat) := List.replicate max_color_attachments.toNat none
  let (frame_id, gl2) := gl1.genFramebuffer
  ({ max_color_attachments := max_color_attachments, width := 0, height := 0,
     buffers := buffers, frame_id := frame_id, depth_id := 0, stencil_id := 0, tex_ids := [] },
   gl2)

/-- Constructor `FrameBuffer::FrameBuffer(int width_, int height_)`. -/
def FrameBuffer.newSized (gl : GLContext) (width_ height_ : Int) : FrameBuffer × GLContext :=
  let gl1 := gl.call (GLCall.GetIntegerv GL_MAX_COLOR_ATTACHMENTS)
  let max_color_attachments := gl1.maxColorAttachments
  let buffers : List (Option Nat) := List.replicate max_color_attachments.toNat none
  let (frame_id, gl2) := gl1.genFramebuffer
  ({ max_color_attachments := max_color_attachments, width := width_, height := height_,
     buffers := buffers, frame_id := frame_id, depth_id := 0, stencil_id := 0, tex_ids := [] },
   gl2)

/-- Inline member `FrameBuffer::setSize`. -/
def FrameBuffer.setSize (fb : FrameBuffer) (width_ height_ : Int) : FrameBuffer :=
  { fb with width := width_, height := height_ }

/-- The attachment point `attachRender` selects for an internal format (`none`: the format is
not recognized and the method throws). -/
def renderAttachment (iformat : Nat) : Option Nat :=
  if iformat = GL_DEPTH_COMPONENT24 ∨ iformat = GL_DEPTH_COMPONENT then
    some GL_DEPTH_ATTACHMENT
  else if iformat = GL_STENCIL_INDEX1 ∨ iformat = GL_STENCIL_INDEX4 ∨ iformat = GL_STENCIL_INDEX8 ∨
      iformat = GL_STENCIL_INDEX16 ∨ iformat = GL_STENCIL_INDEX then
    some GL_STENCIL_ATTACHMENT
  else if iformat = GL_DEPTH24_STENCIL8 ∨ iformat = GL_DEPTH_STENCIL then
    some GL_DEPTH_STENCIL_ATTACHMENT
  else
    none

/-- The OpenGL commands `attachRender` issues after `glGenRenderbuffers` returned
`render_id` (lines 95-106). -/
def renderCommands (fb : FrameBuffer) (iformat : Nat) (multisample : Bool)
    (attachment : Nat) (render_id : Nat) : List GLCall :=
  [GLCall.BindFramebuffer GL_FRAMEBUFFER fb.frame_id,
   GLCall.BindRenderbuffer GL_RENDERBUFFER render_id,
   (if multisample then
      GLCall.RenderbufferStorageMultisample GL_RENDERBUFFER 4 GL_DEPTH24_STENCIL8
        fb.width fb.height
    else
      GLCall.RenderbufferStorage GL_RENDERBUFFER iformat fb.width fb.height),
   GLCall.FramebufferRenderbuffer GL_FRAMEBUFFER attachment GL_RENDERBUFFER render_id]

/-- Method `FrameBuffer::attachRender(GLenum iformat, bool multisample)`. -/
def FrameBuffer.attachRender (fb : FrameBuffer) (gl : GLContext) (iformat : Nat)
    (multisample : Bool) : Step FrameBuffer :=
  if fb.width = 0 ∨ fb.height = 0 then
    ⟨Outcome.threw Exn.domain_error, fb, gl⟩
  else
    match renderAttachment iformat with
    | none => ⟨Outcome.threw Exn.invalid_argument, fb, gl⟩
    | some attachment =>
      let render_id := gl.genRenderbuffer.1
      let gl1 := gl.genRenderbuffer.2.calls
        (renderCommands fb iformat multisample attachment render_id)
      if attachment = GL_DEPTH_ATTACHMENT ∨ attachment = GL_DEPTH_STENCIL_ATTACHMENT then
        ⟨Outcome.ok, { fb with depth_id := render_id }, gl1⟩
      else if attachment = GL_STENCIL_ATTACHMENT then
        ⟨Outcome.ok, { fb with stencil_id := render_id }, gl1⟩
      else
        ⟨Outcome.ok, fb, gl1⟩

/-- The locals `format`, `type`, `attachment`, `filter` of `attachTexture` after its format
dispatch. -/
structure TexLayout where
  format : Nat
  type : Nat
  attachment : Nat
  filter : Int
  deriving DecidableEq, Repr

/-- The format dispatch of `FrameBuffer::attachTexture`: `attachment` and `filter` come in with
the values they have before the `if` chain (`GL_COLOR_ATTACHMENT0 + tex_ids.size()` and the
argument); `none` is the final `else`, which throws. -/
def texLayout (iformat : Nat) (attachment : Nat) (filter : Int) : Option TexLayout :=
  if iformat = GL_RGBA16F ∨ iformat = GL_RGBA32F then
    some ⟨GL_RGBA, GL_FLOAT, attachment, filter⟩
  else if iformat = GL_RGB16F ∨ iformat = GL_RGB32F then
    some ⟨GL_RGB, GL_FLOAT, attachment, filter⟩
  else if iformat = GL_LUMINANCE16_ALPHA16 then
    some ⟨GL_LUMINANCE_ALPHA, GL_FLOAT, attachment, filter⟩
  else if iformat = GL_LUMINANCE16 then
    some ⟨GL_LUMINANCE, GL_FLOAT, attachment, filter⟩
  else if iformat = GL_RGBA8 ∨ iformat = GL_RGBA ∨ iformat = 4 then
    some ⟨GL_RGBA, GL_UNSIGNED_BYTE, attachment, filter⟩
  else if iformat = GL_RGB8 ∨ iformat = GL_RGB ∨ iformat = 3 then
    some ⟨GL_RGB, GL_UNSIGNED_BYTE, attachment, filter⟩
  else if iformat = GL_LUMINANCE8_ALPHA8 ∨ iformat = GL_LUMINANCE_ALPHA ∨ iformat = 2 then
    some ⟨GL_LUMINANCE_ALPHA, GL_UNSIGNED_BYTE, attachment, filter⟩
  else if iformat = GL_LUMINANCE8 ∨ iformat = GL_LUMINANCE16 ∨ iformat = GL_LUMINANCE ∨
      iformat = 1 then
    some ⟨GL_LUMINANCE, GL_UNSIGNED_BYTE, attachment, filter⟩
  else if iformat = GL_DEPTH_COMPONENT24 ∨ iformat = GL_DEPTH_COMPONENT then
    some ⟨GL_DEPTH_COMPONENT, GL_UNSIGNED_INT, GL_DEPTH_ATTACHMENT, GL_NEAREST⟩
  else if iformat = GL_STENCIL_INDEX1 ∨ iformat = GL_STENCIL_INDEX4 ∨ iformat = GL_STENCIL_INDEX8 ∨
      iformat = GL_STENCIL_INDEX16 ∨ iformat = GL_STENCIL_INDEX then
    some ⟨GL_STENCIL_INDEX, GL_UNSIGNED_BYTE, GL_STENCIL_ATTACHMENT, GL_NEAREST⟩
  else if iformat = GL_DEPTH24_STENCIL8 ∨ iformat = GL_DEPTH_STENCIL then
    some ⟨GL_DEPTH_STENCIL, GL_UNSIGNED_INT_24_8, GL_DEPTH_STENCIL_ATTACHMENT, GL_NEAREST⟩
  else if iformat = GL_TEXTURE_2D_MULTISAMPLE then
    some ⟨GL_TEXTURE_2D_MULTISAMPLE, GL_RGB, GL_COLOR_ATTACHMENT0, filter⟩
  else
    none

/-- The statement `buffers[i] = v`: a write inside the allocation, undefined outside it. -/
def writeBuffer (buffers : List (Option Nat)) (i : Nat) (v : Nat) :
    Option (List (Option Nat)) :=
  if i < buffers.length then some (buffers.set i (some v)) else none

/-- The OpenGL commands `attachTexture` issues after `glGenTextures` returned `tex_id`:
creation of the image (multisample or plain 2D, lines 199-211), then the attachment to the
framebuffer (lines 213-226). -/
def textureCommands (fb : FrameBuffer) (iformat : Nat) (l : TexLayout) (tex_id : Nat) :
    List GLCall :=
  (if l.format = GL_TEXTURE_2D_MULTISAMPLE then
    [GLCall.BindTexture GL_TEXTURE_2D_MULTISAMPLE tex_id,
     GLCall.TexImage2DMultisample GL_TEXTURE_2D_MULTISAMPLE 4 GL_RGB fb.width fb.height GL_TRUE]
  else
    [GLCall.BindFramebuffer GL_FRAMEBUFFER fb.frame_id,
     GLCall.BindTexture GL_TEXTURE_2D tex_id,
     GLCall.TexImage2D GL_TEXTURE_2D 0 iformat fb.width fb.height 0 l.format l.type,
     GLCall.TexParameteri GL_TEXTURE_2D GL_TEXTURE_MAG_FILTER l.filter,
     GLCall.TexParameteri GL_TEXTURE_2D GL_TEXTURE_MIN_FILTER l.filter]) ++
  (if l.format = GL_DEPTH_STENCIL then
    [GLCall.FramebufferTexture2D GL_FRAMEBUFFER GL_DEPTH_ATTACHMENT GL_TEXTURE_2D tex_id 0,
     GLCall.FramebufferTexture2D GL_FRAMEBUFFER GL_STENCIL_ATTACHMENT GL_TEXTURE_2D tex_id 0]
  else if l.format = GL_TEXTURE_2D_MULTISAMPLE then
    [GLCall.FramebufferTexture2D GL_FRAMEBUFFER GL_COLOR_ATTACHMENT0 GL_TEXTURE_2D_MULTISAMPLE
      tex_id 0]
  else
    [GLCall.FramebufferTexture2D GL_FRAMEBUFFER l.attachment GL_TEXTURE_2D tex_id 0])

/-- Method `FrameBuffer::attachTexture(GLenum iformat, GLint filter)`. -/
def FrameBuffer.attachTexture (fb : FrameBuffer) (gl : GLContext) (iformat : Nat)
    (filter : Int) : Step FrameBuffer :=
  if fb.width = 0 ∨ fb.height = 0 then
    ⟨Outcome.threw Exn.domain_error, fb, gl⟩
  else if (fb.tex_ids.length : Int) = fb.max_color_attachments then
    ⟨Outcome.threw Exn.out_of_range, fb, gl⟩
  else
    match texLayout iformat (GL_COLOR_ATTACHMENT0 + fb.tex_ids.length) filter with
    | none => ⟨Outcome.threw Exn.invalid_argument, fb, gl⟩
    | some l =>
      let tex_id := gl.genTexture.1
      let gl1 := gl.genTexture.2.calls (textureCommands fb iformat l tex_id)
      let tex_ids := fb.tex_ids ++ [tex_id]
      match writeBuffer fb.buffers (tex_ids.length - 1) l.attachment with
      | none =>
        ⟨Outcome.undefined (Undefined.arrayIndex ((tex_ids.length : Int) - 1)),
          { fb with tex_ids := tex_ids }, gl1⟩
      | some buffers => ⟨Outcome.ok, { fb with tex_ids := tex_ids, buffers := buffers }, gl1⟩

/-- Method `FrameBuffer::bindInput()`: the loop over all textures. -/
def FrameBuffer.bindInput (fb : FrameBuffer) (gl : GLContext) : Step FrameBuffer :=
  ⟨Outcome.ok, fb,
    (List.range fb.tex_ids.length).foldl
      (fun g i =>
        (g.call (GLCall.ActiveTexture (GL_TEXTURE0 + i))).call
          (GLCall.BindTexture GL_TEXTURE_2D (fb.tex_ids[i]?.getD 0)))
      gl⟩

/-- The unchecked access `tex_ids[num]` of `std::vector`: the element when `num` is inside
`0..size-1`, `none` (undefined behaviour) otherwise. -/
def vectorAt (tex_ids : List Nat) (num : Int) : Option Nat :=
  if 0 ≤ num then tex_ids[num.toNat]? else none

/-- The read `buffers[num]` of the draw-buffer array. -/
def readBuffer (buffers : List (Option Nat)) (num : Int) : Except Undefined Nat :=
  if 0 ≤ num then
    match buffers[num.toNat]? with
    | some (some v) => Except.ok v
    | some none => Except.error Undefined.uninitialisedRead
    | none => Except.error (Undefined.arrayIndex num)
  else
    Except.error (Undefined.arrayIndex num)

/-- The `n` cells `buffers[0..n-1]` that `glDrawBuffers(n, buffers)` reads through the
pointer. -/
def readBuffers (buffers : List (Option Nat)) (n : Nat) : Except Undefined (List Nat) :=
  if buffers.length < n then
    Except.error (Undefined.arrayIndex buffers.length)
  else if (buffers.take n).all Option.isSome then
    Except.ok ((buffers.take n).filterMap id)
  else
    Except.error Undefined.uninitialisedRead

/-- Method `FrameBuffer::bindInput(int num)`. -/
def FrameBuffer.bindInput_num (fb : FrameBuffer) (gl : GLContext) (num : Int) :
    Step FrameBuffer :=
  if num + 1 > INT_MAX then
    ⟨Outcome.undefined Undefined.signedOverflow, fb, gl⟩
  else if num + 1 > (fb.tex_ids.length : Int) then
    ⟨Outcome.threw Exn.out_of_range, fb, gl⟩
  else
    match vectorAt fb.tex_ids num with
    | none => ⟨Outcome.undefined (Undefined.vectorIndex num), fb, gl⟩
    | some t => ⟨Outcome.ok, fb, gl.call (GLCall.BindTexture GL_TEXTURE_2D t)⟩

/-- Method `FrameBuffer::bindOutput()`. -/
def FrameBuffer.bindOutput (fb : FrameBuffer) (gl : GLContext) : Step FrameBuffer :=
  if fb.tex_ids = [] then
    ⟨Outcome.threw Exn.domain_error, fb, gl⟩
  else
    let gl1 := gl.call (GLCall.BindFramebuffer GL_FRAMEBUFFER fb.frame_id)
    if fb.tex_ids.length = 1 then
      match readBuffer fb.buffers 0 with
      | Except.ok b => ⟨Outcome.ok, fb, gl1.call (GLCall.DrawBuffer b)⟩
      | Except.error u => ⟨Outcome.undefined u, fb, gl1⟩
    else
      match readBuffers fb.buffers fb.tex_ids.length with
      | Except.ok bs => ⟨Outcome.ok, fb, gl1.call (GLCall.DrawBuffers fb.tex_ids.length bs)⟩
      | Except.error u => ⟨Outcome.undefined u, fb, gl1⟩

/-- Method `FrameBuffer::bindOutput(int num)`. -/
def FrameBuffer.bindOutput_num (fb : FrameBuffer) (gl : GLContext) (num : Int) :
    Step FrameBuffer :=
  if num + 1 > INT_MAX then
    ⟨Outcome.undefined Undefined.signedOverflow, fb, gl⟩
  else if num + 1 > (fb.tex_ids.length : Int) then
    ⟨Outcome.threw Exn.out_of_range, fb, gl⟩
  else
    let gl1 := gl.call (GLCall.BindFramebuffer GL_FRAMEBUFFER fb.frame_id)
    match readBuffer fb.buffers num with
    | Except.ok b => ⟨Outcome.ok, fb, gl1.call (GLCall.DrawBuffer b)⟩
    | Except.error u => ⟨Outcome.undefined u, fb, gl1⟩

/-- Method `FrameBuffer::bindTex(int num)`, implemented through `bindInput(num)`. -/
def FrameBuffer.bindTex (fb : FrameBuffer) (gl : GLContext) (num : Int) : Step FrameBuffer :=
  fb.bindInput_num gl num

/-- Method `FrameBuffer::bindImage(unsigned unit, int num, GLenum format, GLenum access)`. -/
def FrameBuffer.bindImage (fb : FrameBuffer) (gl : GLContext) (unit : Nat) (num : Int)
    (format access : Nat) : Step FrameBuffer :=
  if num + 1 > INT_MAX then
    ⟨Outcome.undefined Undefined.signedOverflow, fb, gl⟩
  else if num + 1 > (fb.tex_ids.length : Int) then
    ⟨Outcome.threw Exn.out_of_range, fb, gl⟩
  else
    match vectorAt fb.tex_ids num with
    | none => ⟨Outcome.undefined (Undefined.vectorIndex num), fb, gl⟩
    | some t => ⟨Outcome.ok, fb, gl.call (GLCall.BindImageTexture unit t 0 GL_FALSE 0 access format)⟩

/-- Method `FrameBuffer::bindRead()`. -/
def FrameBuffer.bindRead (fb : FrameBuffer) (gl : GLContext) : Step FrameBuffer :=
  ⟨Outcome.ok, fb, gl.call (GLCall.BindFramebuffer GL_READ_FRAMEBUFFER fb.frame_id)⟩

/-- Method `FrameBuffer::bindWrite()`. -/
def FrameBuffer.bindWrite (fb : FrameBuffer) (gl : GLContext) : Step FrameBuffer :=
  ⟨Outcome.ok, fb, gl.call (GLCall.BindFramebuffer GL_DRAW_FRAMEBUFFER fb.frame_id)⟩

/-- Static method `FrameBuffer::unbind()`. -/
def FrameBuffer.unbind (gl : GLContext) : GLContext :=
  gl.calls [GLCall.BindFramebuffer GL_FRAMEBUFFER 0, GLCall.DrawBuffer GL_BACK]

/-- Destructor `FrameBuffer::~FrameBuffer()`: the commands it issues. -/
def FrameBuffer.destroy (fb : FrameBuffer) (gl : GLContext) : GLContext :=
  let gl1 := fb.tex_ids.foldl (fun g tex_id => g.call (GLCall.DeleteTextures tex_id)) gl
  let gl2 := if fb.depth_id ≠ 0 then gl1.call (GLCall.DeleteRenderbuffers fb.depth_id) else gl1
  let gl3 := if fb.stencil_id ≠ 0 then gl2.call (GLCall.DeleteRenderbuffers fb.stencil_id) else gl2
  gl3.call (GLCall.DeleteFramebuffers fb.frame_id)

/-- A sequence of `attachTexture` calls, one per `(iformat, filter)` pair, each on the object
and context the previous call left. The outcomes are returned in call order. -/
def attachTextures (fb : FrameBuffer) (gl : GLContext) :
    List (Nat × Int) → List Outcome × FrameBuffer × GLContext
  | [] => ([], fb, gl)
  | (iformat, filter) :: rest =>
    let s := fb.attachTexture gl iformat filter
    let r := attachTextures s.st s.gl rest
    (s.result :: r.1, r.2.1, r.2.2)

/-! ## Point-light grid (`MomentShadows.cpp`) -/

/-- Constant `LIGHT_GRID_WIDTH`: point light grid size. -/
def LIGHT_GRID_WIDTH : Nat := 5

/-- Constant `LIGHT_GRID_HEIGHT`: point light vertical grid height. -/
def LIGHT_GRID_HEIGHT : Nat := 4

/-- Constant `INITIAL_POINT_LIGHT_RADIUS`: the literal `0.870f`, the `float` nearest to
0.870. -/
def INITIAL_POINT_LIGHT_RADIUS : FloatVal := binary32.round (870 / 1000)

/-- Size in bytes of a `glm::mat4` (sixteen `float`s). -/
def SIZEOF_MAT4 : Nat := 64

/-- The type `glm::vec3`. -/
structure Vec3 where
  x : FloatVal
  y : FloatVal
  z : FloatVal
  deriving DecidableEq

/-- The type `glm::vec4`. -/
structure Vec4 where
  x : FloatVal
  y : FloatVal
  z : FloatVal
  w : FloatVal
  deriving DecidableEq

/-- Componentwise sum of two `glm::vec4`. -/
def Vec4.add (a b : Vec4) : Vec4 :=
  ⟨binary32.add a.x b.x, binary32.add a.y b.y, binary32.add a.z b.z, binary32.add a.w b.w⟩

/-- Product of a `glm::vec4` with a scalar. -/
def Vec4.scale (a : Vec4) (s : FloatVal) : Vec4 :=
  ⟨binary32.mul a.x s, binary32.mul a.y s, binary32.mul a.z s, binary32.mul a.w s⟩

/-- The type `glm::mat4`, stored by columns: `m[i]` is column `ci`, and `c3` is the
translation column. -/
structure Mat4 where
  c0 : Vec4
  c1 : Vec4
  c2 : Vec4
  c3 : Vec4
  deriving DecidableEq

/-- The matrix `glm::mat4(1.0f)`. -/
def Mat4.identity : Mat4 :=
  ⟨⟨FloatVal.finite 1, FloatVal.finite 0, FloatVal.finite 0, FloatVal.finite 0⟩,
   ⟨FloatVal.finite 0, FloatVal.finite 1, FloatVal.finite 0, FloatVal.finite 0⟩,
   ⟨FloatVal.finite 0, FloatVal.finite 0, FloatVal.finite 1, FloatVal.finite 0⟩,
   ⟨FloatVal.finite 0, FloatVal.finite 0, FloatVal.finite 0, FloatVal.finite 1⟩⟩

/-- The function `glm::translate(m, v)`: columns 0..2 are kept and
`Result[3] = m[0] * v[0] + m[1] * v[1] + m[2] * v[2] + m[3]`. -/
def translate (m : Mat4) (v : Vec3) : Mat4 :=
  { m with c3 := (((m.c0.scale v.x).add (m.c1.scale v.y)).add (m.c2.scale v.z)).add m.c3 }

/-- The sixteen floats of a matrix in memory order (column after column). -/
def Mat4.floats (m : Mat4) : List FloatVal :=
  [m.c0.x, m.c0.y, m.c0.z, m.c0.w, m.c1.x, m.c1.y, m.c1.z, m.c1.w,
   m.c2.x, m.c2.y, m.c2.z, m.c2.w, m.c3.x, m.c3.y, m.c3.z, m.c3.w]

/-- What the C and GLM libraries supply to `configurePointLights`: `RAND_MAX`, the stream of
values `rand()` returns after the `srand` call (`rand k` is the value of call number `k`,
counted from 0), the `float` constant `glm::pi<float>()` and the `double` functions `cos` and
`sin`. -/
structure CLib where
  RAND_MAX : Nat
  rand : Nat → Nat
  pi : FloatVal
  cos : FloatVal → FloatVal
  sin : FloatVal → FloatVal

/-- The two instance sequences `modelMatrices` and `modelColorSizes`. -/
structure Lights where
  modelMatrices : List Mat4
  modelColorSizes : List Vec4
  deriving DecidableEq

/-- The index expression `x * W * H + z * H + y` of both light routines. -/
def gridIndex (W H x z y : Nat) : Nat := x * W * H + z * H + y

/-- Local `xOffset` of `configurePointLights` for the light whose first `rand()` call has
number `k`: `angle` and `length` are computed in `double`, and the `double` product
`cos(angle) * length` is converted to `float`. -/
def xOffset (C : CLib) (k : Nat) : FloatVal :=
  let angle := binary64.div
    (binary64.mul (binary64.mul (binary64.ofNat (C.rand k)) (FloatVal.finite 2)) C.pi)
    (binary64.ofNat C.RAND_MAX)
  let length := binary64.div
    (binary64.mul (binary64.ofNat (C.rand (k + 1))) (FloatVal.finite (1 / 2)))
    (binary64.ofNat C.RAND_MAX)
  binary32.cast (binary64.mul (C.cos angle) length)

/-- Local `zOffset` of `configurePointLights` for the light whose first `rand()` call has
number `k`: `sin(angle) * length`, converted to `float`. -/
def zOffset (C : CLib) (k : Nat) : FloatVal :=
  let angle := binary64.div
    (binary64.mul (binary64.mul (binary64.ofNat (C.rand k)) (FloatVal.finite 2)) C.pi)
    (binary64.ofNat C.RAND_MAX)
  let length := binary64.div
    (binary64.mul (binary64.ofNat (C.rand (k + 1))) (FloatVal.finite (1 / 2)))
    (binary64.ofNat C.RAND_MAX)
  binary32.cast (binary64.mul (C.sin angle) length)

/-- The factor `(lightIndex - (N - 1.0f) / 2.0f)` of both light routines, for the loop index
`i` and the grid size `N`: the `unsigned int` operands are converted to `float`. -/
def gridCoord (N i : Nat) : FloatVal :=
  binary32.sub (binary32.ofNat i)
    (binary32.div (binary32.sub (binary32.ofNat N) (FloatVal.finite 1)) (FloatVal.finite 2))

/-- The matrix `model` that `configurePointLights` builds for grid cell `(x, z, y)` when the
first `rand()` call of the iteration has number `k`. -/
def cellModel (C : CLib) (radius separation yOffset : FloatVal) (x z y k : Nat) : Mat4 :=
  let diameter := binary32.mul (FloatVal.finite 2) radius
  let xPos := binary32.mul (gridCoord LIGHT_GRID_WIDTH x) (binary32.mul diameter separation)
  let zPos := binary32.mul (gridCoord LIGHT_GRID_WIDTH z) (binary32.mul diameter separation)
  let yPos := binary32.add
    (binary32.mul (gridCoord LIGHT_GRID_HEIGHT y) (binary32.mul diameter separation)) yOffset
  let xPos := binary32.add xPos (xOffset C k)
  let zPos := binary32.add zPos (zOffset C k)
  translate Mat4.identity ⟨xPos, yPos, zPos⟩

/-- A colour component `((rand() % 100) / 200.0f) + 0.5` for the value `r` of the `rand()`
call: the quotient is a `float`, the sum with the `double` literal is a `double`, and the
initialisation converts it to `float`. -/
def randomColor (r : Nat) : FloatVal :=
  binary32.cast (binary64.add
    (binary32.div (binary32.ofNat (r % 100)) (FloatVal.finite 200)) (FloatVal.finite (1 / 2)))

/-- The record `glm::vec4(rColor, gColor, bColor, radius)` that `configurePointLights` builds
in the iteration whose first `rand()` call has number `k` (the colours are calls `k+2..k+4`). -/
def cellColorSize (C : CLib) (radius : FloatVal) (k : Nat) : Vec4 :=
  let rColor := randomColor (C.rand (k + 2))
  let gColor := randomColor (C.rand (k + 3))
  let bColor := randomColor (C.rand (k + 4))
  ⟨rColor, gColor, bColor, radius⟩

/-- Body of the innermost loop of `configurePointLights`.  The state is the two sequences and
the number of `rand()` calls made so far; the iteration makes five and appends one record to
each sequence. -/
def configureCell (C : CLib) (radius separation yOffset : FloatVal) (s : Lights × Nat)
    (x z y : Nat) : Lights × Nat :=
  (⟨s.1.modelMatrices ++ [cellModel C radius separation yOffset x z y s.2],
    s.1.modelColorSizes ++ [cellColorSize C radius s.2]⟩, s.2 + 5)

/-- Function `configurePointLights(modelMatrices, modelColorSizes, radius, separation,
yOffset)`: three nested loops over `x`, `z`, `y`, after `srand` restarted the `rand()`
stream. -/
def configurePointLights (C : CLib) (L : Lights) (radius separation yOffset : FloatVal) :
    Lights :=
  ((List.range LIGHT_GRID_WIDTH).foldl
    (fun sx x => (List.range LIGHT_GRID_WIDTH).foldl
      (fun sz z => (List.range LIGHT_GRID_HEIGHT).foldl
        (fun sy y => configureCell C radius separation yOffset sy x z y) sz) sx)
    (L, 0)).1

/-- The translation column `glm::vec4(xPos, yPos + yOffset, zPos, 1.0)` that `updatePointLights`
computes for grid cell `(x, z, y)`. -/
def updateTranslation (separation yOffset : FloatVal) (x z y : Nat) : Vec4 :=
  let diameter := binary32.mul (FloatVal.finite 2) INITIAL_POINT_LIGHT_RADIUS
  let xPos := binary32.mul (gridCoord LIGHT_GRID_WIDTH x) (binary32.mul diameter separation)
  let zPos := binary32.mul (gridCoord LIGHT_GRID_WIDTH z) (binary32.mul diameter separation)
  let yPos := binary32.mul (gridCoord LIGHT_GRID_HEIGHT y) (binary32.mul diameter separation)
  ⟨xPos, binary32.add yPos yOffset, zPos, FloatVal.finite 1⟩

/-- Body of the innermost loop of `updatePointLights`: the two unchecked element writes
`modelMatrices[curLight][3] = ...` and `modelColorSizes[curLight].w = radius`.  Once an access
has left a sequence nothing more is executed. -/
def updateCell (separation yOffset radius : FloatVal) (s : Outcome × Lights) (x z y : Nat) :
    Outcome × Lights :=
  if s.1 ≠ Outcome.ok then s
  else
    let curLight := gridIndex LIGHT_GRID_WIDTH LIGHT_GRID_HEIGHT x z y
    match s.2.modelMatrices[curLight]? with
    | none => (Outcome.undefined (Undefined.vectorIndex curLight), s.2)
    | some m =>
      let mm := s.2.modelMatrices.set curLight
        { m with c3 := updateTranslation separation yOffset x z y }
      match s.2.modelColorSizes[curLight]? with
      | none => (Outcome.undefined (Undefined.vectorIndex curLight), ⟨mm, s.2.modelColorSizes⟩)
      | some c => (Outcome.ok, ⟨mm, s.2.modelColorSizes.set curLight { c with w := radius }⟩)

/-- The three nested loops of `updatePointLights`. -/
def updateLoops (separation yOffset radius : FloatVal) (L : Lights) : Outcome × Lights :=
  (List.range LIGHT_GRID_WIDTH).foldl
    (fun sx x => (List.range LIGHT_GRID_WIDTH).foldl
      (fun sz z => (List.range LIGHT_GRID_HEIGHT).foldl
        (fun sy y => updateCell separation yOffset radius sy x z y) sz) sx)
    (Outcome.ok, L)

/-- Function `updatePointLights(modelMatrices, modelColorSizes, separation, yOffset, radius)`;
`matrixBuffer` is the module-level buffer handle it uploads to. -/
def updatePointLights (matrixBuffer : Nat) (L : Lights) (gl : GLContext)
    (separation yOffset radius : FloatVal) : Step Lights :=
  if separation.lt (FloatVal.finite 0) then
    ⟨Outcome.ok, L, gl⟩
  else
    let r := updateLoops separation yOffset radius L
    match r.1 with
    | Outcome.ok =>
      ⟨Outcome.ok, r.2, gl.calls
        [GLCall.BindBuffer GL_ARRAY_BUFFER matrixBuffer,
         GLCall.BufferData GL_ARRAY_BUFFER
           (LIGHT_GRID_WIDTH * LIGHT_GRID_WIDTH * LIGHT_GRID_HEIGHT * SIZEOF_MAT4)
           ((r.2.modelMatrices.take
              (LIGHT_GRID_WIDTH * LIGHT_GRID_WIDTH * LIGHT_GRID_HEIGHT)).flatMap Mat4.floats)
           GL_STATIC_DRAW,
         GLCall.BindBuffer GL_ARRAY_BUFFER 0]⟩
    | o => ⟨o, r.2, gl⟩

/-- A point of space with rational coordinates. -/
structure Point where
  x : ℚ
  y : ℚ
  z : ℚ
  deriving DecidableEq

/-- The translation (first three components of column 3) of an instance transform as a
point; `none` when a component is an infinity or a NaN. -/
def Mat4.translation (m : Mat4) : Option Point :=
  match m.c3.x, m.c3.y, m.c3.z with
  | FloatVal.finite x, FloatVal.finite y, FloatVal.finite z => some ⟨x, y, z⟩
  | _, _, _ => none

/-- Squared Euclidean distance between two points. -/
def Point.distSq (a b : Point) : ℚ := (a.x - b.x) ^ 2 + (a.y - b.y) ^ 2 + (a.z - b.z) ^ 2

/-- The translation read back from the instance transform that `configurePointLights`,
called on empty sequences, generates for grid cell `(x, z, y)`; `none` when a component of it
is not finite. -/
def generatedTranslation (C : CLib) (radius separation yOffset : FloatVal) (x z y : Nat) :
    Option Point :=
  ((configurePointLights C ⟨[], []⟩ radius separation yOffset).modelMatrices[
    gridIndex LIGHT_GRID_WIDTH LIGHT_GRID_HEIGHT x z y]?).bind Mat4.translation

/-- Bound of the rounding error in the distance of two generated lights: `rv`, `sv`, `ov` are
the radius, the separation and the yOffset, and `j` is the sum of the magnitudes of the four
jitter offsets of the two lights. -/
def spacingMargin (rv sv ov j : ℚ) : ℚ :=
  1 / 2 ^ 16 * |rv * sv| + 1 / 2 ^ 23 * |ov| + 1 / 2 ^ 24 * j + 1 / 2 ^ 145 * |sv| + 1 / 2 ^ 144

/-- The commands the loop of `bindInput()` issues for the textures `ids`, unit numbers
starting at `GL_TEXTURE0`. -/
def bindInputCommands (ids : List Nat) : List GLCall :=
  (List.range ids.length).flatMap
    (fun i => [GLCall.ActiveTexture (GL_TEXTURE0 + i), GLCall.BindTexture GL_TEXTURE_2D (ids[i]?.getD 0)])

/-- The internal formats `attachTexture` recognizes, in the order of its `if` chain. -/
def recognizedTextureFormats : List Nat :=
  [GL_RGBA16F, GL_RGBA32F, GL_RGB16F, GL_RGB32F, GL_LUMINANCE16_ALPHA16, GL_LUMINANCE16,
   GL_RGBA8, GL_RGBA, 4, GL_RGB8, GL_RGB, 3, GL_LUMINANCE8_ALPHA8, GL_LUMINANCE_ALPHA, 2,
   GL_LUMINANCE8, GL_LUMINANCE, 1,
   GL_DEPTH_COMPONENT24, GL_DEPTH_COMPONENT,
   GL_STENCIL_INDEX1, GL_STENCIL_INDEX4, GL_STENCIL_INDEX8, GL_STENCIL_INDEX16, GL_STENCIL_INDEX,
   GL_DEPTH24_STENCIL8, GL_DEPTH_STENCIL,
   GL_TEXTURE_2D_MULTISAMPLE]

/-- The colour formats of `attachTexture`: the branches that keep the "common attachment for
color textures" `GL_COLOR_ATTACHMENT0 + tex_ids.size()`. -/
def colorTextureFormats : List Nat :=
  [GL_RGBA16F, GL_RGBA32F, GL_RGB16F, GL_RGB32F, GL_LUMINANCE16_ALPHA16, GL_LUMINANCE16,
   GL_RGBA8, GL_RGBA, 4, GL_RGB8, GL_RGB, 3, GL_LUMINANCE8_ALPHA8, GL_LUMINANCE_ALPHA, 2,
   GL_LUMINANCE8, GL_LUMINANCE, 1]

/-- The depth formats of `attachRender`. -/
def depthFormats : List Nat := [GL_DEPTH_COMPONENT24, GL_DEPTH_COMPONENT]

/-- The stencil formats of `attachRender`. -/
def stencilFormats : List Nat :=
  [GL_STENCIL_INDEX1, GL_STENCIL_INDEX4, GL_STENCIL_INDEX8, GL_STENCIL_INDEX16, GL_STENCIL_INDEX]

/-- The combined depth-stencil formats of `attachRender`. -/
def depthStencilFormats : List Nat := [GL_DEPTH24_STENCIL8, GL_DEPTH_STENCIL]

/-- The end-to-end scenario of the specification: a 512x512 target on a context with eight
colour attachments, a float RGBA32 colour texture and a depth renderbuffer attached, then two
more colour textures.  The result is the state after the last attach call. -/
def scenario512 : Step FrameBuffer :=
  let c := FrameBuffer.newSized (GLContext.fresh 8) 512 512
  let s1 := c.1.attachTexture c.2 GL_RGBA32F GL_LINEAR
  let s2 := s1.st.attachRender s1.gl GL_DEPTH_COMPONENT24 false
  let s3 := s2.st.attachTexture s2.gl GL_RGBA16F GL_LINEAR
  s3.st.attachTexture s3.gl GL_RGBA8 GL_NEAREST

/-- A 512x512 target on a context with eight colour attachments holding one RGBA32F
texture. -/
def oneTexture512 : Step FrameBuffer :=
  let c := FrameBuffer.newSized (GLContext.fresh 8) 512 512
  c.1.attachTexture c.2 GL_RGBA32F GL_LINEAR

/-- A C library run used as a concrete input to `configurePointLights`: `RAND_MAX` is 32767,
`rand()` returns 0 on every call except call number 1, where it returns `RAND_MAX`, and
`glm::pi<float>()` is the `float` nearest to pi.  Every angle drawn in this run is 0, so `cos`
and `sin` are only ever evaluated at 0, where they are 1 and 0; away from 0 the two fields hold
their Taylor polynomials of order two, rounded to `double`. -/
def jitterRun : CLib :=
  { RAND_MAX := 32767
    rand := fun k => if k = 1 then 32767 else 0
    pi := FloatVal.finite (13176795 / 4194304)
    cos := fun a =>
      match a with
      | FloatVal.finite v => binary64.round (1 - v * v / 2)
      | _ => FloatVal.nan
    sin := fun a =>
      match a with
      | FloatVal.finite v => binary64.round v
      | _ => FloatVal.nan }

/-- Two grid cells `(x, z, y)` and `(x2, z2, y2)` are axis-adjacent: they differ by one step
along exactly one of the three grid axes. -/
def axisAdjacent (x z y x2 z2 y2 : Nat) : Prop :=
  ((x2 = x + 1 ∨ x = x2 + 1) ∧ z2 = z ∧ y2 = y) ∨
  (x2 = x ∧ (z2 = z + 1 ∨ z = z2 + 1) ∧ y2 = y) ∨
  (x2 = x ∧ z2 = z ∧ (y2 = y + 1 ∨ y = y2 + 1))

/-- Method `FrameBuffer::check()`.  `status` is the value `glCheckFramebufferStatus` returns;
the second component is the text written to `std::cout`. -/
def FrameBuffer.check (fb : FrameBuffer) (gl : GLContext) (status : Nat) :
    Step FrameBuffer × List String :=
  let gl1 := gl.calls
    [GLCall.BindFramebuffer GL_FRAMEBUFFER fb.frame_id,
     GLCall.CheckFramebufferStatus GL_FRAMEBUFFER]
  if status ≠ GL_FRAMEBUFFER_COMPLETE then
    (⟨Outcome.threw Exn.invalid_argument, fb, gl1⟩, ["FBO Status error: " ++ toString status])
  else
    (⟨Outcome.ok, fb, gl1⟩, [])

/-- One call on a `FrameBuffer`: a public method together with its arguments (for `check`, the
status the driver reports). -/
inductive FBOp where
  | setSize (width_ height_ : Int)
  | attachRender (iformat : Nat) (multisample : Bool)
  | attachTexture (iformat : Nat) (filter : Int)
  | bindInput
  | bindInput_num (num : Int)
  | bindOutput
  | bindOutput_num (num : Int)
  | bindTex (num : Int)
  | bindImage (unit : Nat) (num : Int) (format access : Nat)
  | bindRead
  | bindWrite
  | check (status : Nat)
  | unbind
  deriving DecidableEq, Repr

/-- Execute one call. -/
def FBOp.apply (op : FBOp) (fb : FrameBuffer) (gl : GLContext) : Step FrameBuffer :=
  match op with
  | FBOp.setSize w h => ⟨Outcome.ok, fb.setSize w h, gl⟩
  | FBOp.attachRender iformat multisample => fb.attachRender gl iformat multisample
  | FBOp.attachTexture iformat filter => fb.attachTexture gl iformat filter
  | FBOp.bindInput => fb.bindInput gl
  | FBOp.bindInput_num num => fb.bindInput_num gl num
  | FBOp.bindOutput => fb.bindOutput gl
  | FBOp.bindOutput_num num => fb.bindOutput_num gl num
  | FBOp.bindTex num => fb.bindTex gl num
  | FBOp.bindImage unit num format access => fb.bindImage gl unit num format access
  | FBOp.bindRead => fb.bindRead gl
  | FBOp.bindWrite => fb.bindWrite gl
  | FBOp.check status => (fb.check gl status).1
  | FBOp.unbind => ⟨Outcome.ok, fb, FrameBuffer.unbind gl⟩

/-- Execute a sequence of calls, each on the object and context the previous one left (a
caller that catches the exceptions); the outcomes are returned in call order. -/
def runOps (fb : FrameBuffer) (gl : GLContext) :
    List FBOp → List Outcome × FrameBuffer × GLContext
  | [] => ([], fb, gl)
  | op :: rest =>
    let s := op.apply fb gl
    let r := runOps s.st s.gl rest
    (s.result :: r.1, r.2.1, r.2.2)

/-- The states of a `FrameBuffer` reachable from one of its two constructors, on a platform
whose `GL_MAX_COLOR_ATTACHMENTS` is not negative, by any sequence of calls (each call may run
on any context state). -/
inductive Reachable : FrameBuffer → Prop where
  | new (gl : GLContext) (hmax : 0 ≤ gl.maxColorAttachments) :
      Reachable (FrameBuffer.new gl).1
  | newSized (gl : GLContext) (width_ height_ : Int) (hmax : 0 ≤ gl.maxColorAttachments) :
      Reachable (FrameBuffer.newSized gl width_ height_).1
  | step (fb : FrameBuffer) (gl : GLContext) (op : FBOp) (h : Reachable fb) :
      Reachable (op.apply fb gl).st

/-- A 512x512 target on a context with eight colour attachments after
`attachRender(GL_DEPTH24_STENCIL8)`. -/
def packedRender512 : Step FrameBuffer :=
  let c := FrameBuffer.newSized (GLContext.fresh 8) 512 512
  c.1.attachRender c.2 GL_DEPTH24_STENCIL8 false

/-- A 512x512 target on a context with eight colour attachments after
`attachRender(GL_DEPTH_COMPONENT24, true)`, a multisampled depth renderbuffer. -/
def multisampleDepth512 : Step FrameBuffer :=
  let c := FrameBuffer.newSized (GLContext.fresh 8) 512 512
  c.1.attachRender c.2 GL_DEPTH_COMPONENT24 true

/-- A draw-buffer value is a colour attachment point: one of `GL_COLOR_ATTACHMENT0` ..
`GL_COLOR_ATTACHMENT31` (`0x8CE0` .. `0x8CFF`; `GL_DEPTH_ATTACHMENT` is the next enumerant). -/
def isColorAttachmentPoint (v : Nat) : Bool :=
  decide (GL_COLOR_ATTACHMENT0 ≤ v) && decide (v < GL_DEPTH_ATTACHMENT)

/-- Number of colour attachments of a `FrameBuffer`: the attached textures whose recorded
attachment point `buffers[i]` is a colour attachment point. -/
def colorAttachmentCount (fb : FrameBuffer) : Nat :=
  ((fb.buffers.take fb.tex_ids.length).filter
    (fun b => match b with
      | some v => isColorAttachmentPoint v
      | none => false)).length

/-- A 512x512 target on a context with eight colour attachments after
`attachTexture(GL_DEPTH_COMPONENT24)`: it holds one texture, a depth texture. -/
def depthTexture512 : Step FrameBuffer :=
  let c := FrameBuffer.newSized (GLContext.fresh 8) 512 512
  c.1.attachTexture c.2 GL_DEPTH_COMPONENT24 GL_LINEAR

/-- The target `depthTexture512` after a following `attachTexture(GL_RGBA8)`. -/
def depthThenColor512 : Step FrameBuffer :=
  depthTexture512.st.attachTexture depthTexture512.gl GL_RGBA8 GL_LINEAR

/-- Constant `totalLights` of `main`: the instance count passed to `glDrawElementsInstanced`
and the element count of the two initial buffer uploads. -/
def totalLights : Nat := LIGHT_GRID_WIDTH * LIGHT_GRID_WIDTH * LIGHT_GRID_HEIGHT

/-- The texture names created by a command sequence (`glGenTextures`), in creation order. -/
def genTextures (cmds : List GLCall) : List Nat :=
  cmds.filterMap (fun c => match c with
    | GLCall.GenTextures id => some id
    | _ => none)

/-- The renderbuffer names created by a command sequence (`glGenRenderbuffers`), in creation
order. -/
def genRenderbuffers (cmds : List GLCall) : List Nat :=
  cmds.filterMap (fun c => match c with
    | GLCall.GenRenderbuffers id => some id
    | _ => none)

/-- The framebuffer names created by a command sequence (`glGenFramebuffers`), in creation
order. -/
def genFramebuffers (cmds : List GLCall) : List Nat :=
  cmds.filterMap (fun c => match c with
    | GLCall.GenFramebuffers id => some id
    | _ => none)

/-- The call is one of the two attach methods. -/
def FBOp.isAttach : FBOp → Bool
  | FBOp.attachRender _ _ => true
  | FBOp.attachTexture _ _ => true
  | _ => false

/-- The call is an `attachRender` whose renderbuffer is recorded in `depth_id` (a depth or a
combined depth-stencil format). -/
def FBOp.isDepthRender : FBOp → Bool
  | FBOp.attachRender iformat _ =>
    decide (renderAttachment iformat = some GL_DEPTH_ATTACHMENT) ||
      decide (renderAttachment iformat = some GL_DEPTH_STENCIL_ATTACHMENT)
  | _ => false

/-- The call is an `attachRender` whose renderbuffer is recorded in `stencil_id` (a stencil
format). -/
def FBOp.isStencilRender : FBOp → Bool
  | FBOp.attachRender iformat _ => decide (renderAttachment iformat = some GL_STENCIL_ATTACHMENT)
  | _ => false

/-- The renderbuffer names a `FrameBuffer` holds: `depth_id` and `stencil_id` where non-zero,
in the order the destructor deletes them. -/
def FrameBuffer.renderHandles (fb : FrameBuffer) : List Nat :=
  (if fb.depth_id ≠ 0 then [fb.depth_id] else []) ++
  (if fb.stencil_id ≠ 0 then [fb.stencil_id] else [])

/-- A 512x512 target on a context with eight colour attachments after two successive
`attachRender(GL_DEPTH_COMPONENT24)` calls. -/
def twoDepthRenders512 : Step FrameBuffer :=
  let c := FrameBuffer.newSized (GLContext.fresh 8) 512 512
  let s1 := c.1.attachRender c.2 GL_DEPTH_COMPONENT24 false
  s1.st.attachRender s1.gl GL_DEPTH_COMPONENT24 false

/-! ## `Shader` (`shader_s.h`) -/

def GL_FRAGMENT_SHADER : Nat := 0x8B30
def GL_VERTEX_SHADER : Nat := 0x8B31
def GL_GEOMETRY_SHADER : Nat := 0x8DD9
def GL_COMPUTE_SHADER : Nat := 0x91B9

/-- What the OpenGL driver answers to the status queries of `checkCompileErrors`: whether a
source of a given shader type compiles, whether a program with given attached shaders (type
and source, in attach order) links, and the two info logs. -/
structure ShaderDriver where
  compileStatus : Nat → String → Bool
  shaderInfoLog : Nat → String → String
  linkStatus : List (Nat × String) → Bool
  programInfoLog : List (Nat × String) → String

/-- The part of the OpenGL context and of the process the `Shader` constructors act on: the
next unused object name, the shader objects created and compiled so far (name, type, source),
the program objects linked so far (name, attached shader names in attach order), the shader
names passed to `glDeleteShader`, and what has been written to `std::cout` (one entry per
output statement). -/
structure ShaderGL where
  nextName : Nat
  shaders : List (Nat × Nat × String)
  programs : List (Nat × List Nat)
  deleted : List Nat
  out : List String

/-- The calls `glCreateShader(type)`, `glShaderSource`, `glCompileShader` on a new shader
object; returns its name. -/
def ShaderGL.compile (g : ShaderGL) (type : Nat) (source : String) : Nat × ShaderGL :=
  (g.nextName,
    { g with nextName := g.nextName + 1, shaders := g.shaders ++ [(g.nextName, type, source)] })

/-- The calls `glCreateProgram()`, `glAttachShader` for each of `attached`, `glLinkProgram` on
a new program object; returns its name. -/
def ShaderGL.link (g : ShaderGL) (attached : List Nat) : Nat × ShaderGL :=
  (g.nextName,
    { g with nextName := g.nextName + 1, programs := g.programs ++ [(g.nextName, attached)] })

/-- The statement `std::cout << text << std::endl`. -/
def ShaderGL.print (g : ShaderGL) (text : String) : ShaderGL :=
  { g with out := g.out ++ [text] }

/-- The call `glDeleteShader(shader)`. -/
def ShaderGL.deleteShader (g : ShaderGL) (shader : Nat) : ShaderGL :=
  { g with deleted := g.deleted ++ [shader] }

/-- Type and source of the shader object `shader` (`none` when there is no such object). -/
def ShaderGL.shaderOf (g : ShaderGL) (shader : Nat) : Option (Nat × String) :=
  g.shaders.lookup shader

/-- The query `glGetShaderiv(shader, GL_COMPILE_STATUS, &success)`. -/
def compileStatusOf (D : ShaderDriver) (g : ShaderGL) (shader : Nat) : Bool :=
  match g.shaderOf shader with
  | some (type, source) => D.compileStatus type source
  | none => false

/-- The query `glGetShaderInfoLog(shader, 1024, NULL, infoLog)`. -/
def shaderInfoLogOf (D : ShaderDriver) (g : ShaderGL) (shader : Nat) : String :=
  match g.shaderOf shader with
  | some (type, source) => D.shaderInfoLog type source
  | none => ""

/-- Type and source of the shaders attached to the program object `program`. -/
def ShaderGL.attachedOf (g : ShaderGL) (program : Nat) : List (Nat × String) :=
  match g.programs.lookup program with
  | some names => names.filterMap g.shaderOf
  | none => []

/-- The text of the compilation diagnostic of `checkCompileErrors` for the type name `type`. -/
def compileDiagnostic (type infoLog : String) : String :=
  "ERROR::SHADER_COMPILATION_ERROR of type: " ++ type ++ "\n" ++ infoLog ++
    "\n -- --------------------------------------------------- -- "

/-- The text of the link diagnostic of `checkCompileErrors`. -/
def linkDiagnostic (type infoLog : String) : String :=
  "ERROR::PROGRAM_LINKING_ERROR of type: " ++ type ++ "\n" ++ infoLog ++
    "\n -- --------------------------------------------------- -- "

/-- Method `Shader::checkCompileErrors(unsigned int shader, std::string type)`; the returned
flag is `success`. -/
def checkCompileErrors (D : ShaderDriver) (g : ShaderGL) (shader : Nat) (type : String) :
    ShaderGL × Bool :=
  if type ≠ "PROGRAM" then
    let success := compileStatusOf D g shader
    if !success then
      (g.print (compileDiagnostic type (shaderInfoLogOf D g shader)), success)
    else
      (g, success)
  else
    let success := D.linkStatus (g.attachedOf shader)
    if !success then
      (g.print (linkDiagnostic type (D.programInfoLog (g.attachedOf shader))), success)
    else
      (g, success)

/-- One stage of a constructor: create and compile the shader, then
`if (!checkCompileErrors(checked, type)) std::cout << source`, where `checked` is computed from
the name of the new shader.  Returns the name of the new shader. -/
def compileStage (D : ShaderDriver) (g : ShaderGL) (stage : Nat) (source : String)
    (checked : Nat → Nat) (type : String) : Nat × ShaderGL :=
  let c := g.compile stage source
  let r := checkCompileErrors D c.2 (checked c.1) type
  (c.1, if !r.2 then r.1.print source else r.1)

/-- Constructor `Shader::Shader(vShaderSource, fShaderSource, gShaderSource)`; `none` is the
default `nullptr` of the geometry source.  Returns the member `ID` and the state afterwards. -/
def Shader.new (D : ShaderDriver) (g : ShaderGL) (vShaderSource fShaderSource : String)
    (gShaderSource : Option String) : Nat × ShaderGL :=
  let v := compileStage D g GL_VERTEX_SHADER vShaderSource (fun vertex => vertex) "VERTEX"
  let vertex := v.1
  let f := compileStage D v.2 GL_FRAGMENT_SHADER fShaderSource (fun fragment => fragment)
    "FRAGMENT"
  let fragment := f.1
  match gShaderSource with
  | some gSource =>
    -- line 45 passes `fragment`, not `geometry`, to `checkCompileErrors`
    let gs := compileStage D f.2 GL_GEOMETRY_SHADER gSource (fun _ => fragment) "GEOMETRY"
    let geometry := gs.1
    let p := gs.2.link [vertex, fragment, geometry]
    let r := checkCompileErrors D p.2 p.1 "PROGRAM"
    (p.1, ((r.1.deleteShader vertex).deleteShader fragment).deleteShader geometry)
  | none =>
    let p := f.2.link [vertex, fragment]
    let r := checkCompileErrors D p.2 p.1 "PROGRAM"
    (p.1, (r.1.deleteShader vertex).deleteShader fragment)

/-- Constructor `Shader::Shader(cShaderSource)` for a compute shader. -/
def Shader.newCompute (D : ShaderDriver) (g : ShaderGL) (cShaderSource : String) :
    Nat × ShaderGL :=
  let c := compileStage D g GL_COMPUTE_SHADER cShaderSource (fun compute => compute) "COMPUTE"
  let compute := c.1
  let p := c.2.link [compute]
  let r := checkCompileErrors D p.2 p.1 "PROGRAM"
  (p.1, r.1.deleteShader compute)

/-- A driver on which every source compiles except the text `"bad"`, a program links exactly
when all attached shaders compiled, and the info logs are `"compile log"` and
`"link log"`. -/
def strictDriver : ShaderDriver :=
  { compileStatus := fun _ source => source != "bad"
    shaderInfoLog := fun _ _ => "compile log"
    linkStatus := fun attached => attached.all (fun s => s.2 != "bad")
    programInfoLog := fun _ => "link log" }

/-- A state in which no shader object exists and nothing has been printed. -/
def ShaderGL.fresh : ShaderGL :=
  { nextName := 1, shaders := [], programs := [], deleted := [], out := [] }


/-! ## The render loop of `main` (`MomentShadows.cpp`) -/

/-- Constant `SCR_WIDTH`. -/
def SCR_WIDTH : Nat := 1024

/-- Constant `SCR_HEIGHT`. -/
def SCR_HEIGHT : Nat := 768

/-- Constant `SHADOW_MAP_SIZE`. -/
def SHADOW_MAP_SIZE : Nat := 2048

/-- Constant `CS_THREAD_GROUP_SIZE`. -/
def CS_THREAD_GROUP_SIZE : Int := 32

/-- Size in bytes of a `float`. -/
def SIZEOF_FLOAT : Nat := 4

/-- Size in bytes of a `glm::vec4` (four `float`s). -/
def SIZEOF_VEC4 : Nat := 16

/-- The value of `objectPositions.size()` in the loop: `main` pushes one position (and one
model into `meshModels`), lines 332-338. -/
def objectCount : Nat := 1

/-- The expression `(n + g - 1) / g` of the four `glDispatchCompute` calls, where `n` is the
local `width` or `height` and `g` is `CS_THREAD_GROUP_SIZE`; `/` on `int` truncates towards
zero.  The operands of the program are the constants 2048 and 32, far from the range limit of
`int`, so the arithmetic is that of the integers. -/
def workGroupCount (n g : Int) : Int := (n + g - 1).tdiv g

/-- Conversion of an `int` argument to the `GLuint` parameter of `glDispatchCompute`. -/
def toGLuint (i : Int) : Nat := (i % 2 ^ 32).toNat

/-- The four floats of a `glm::vec4` in memory order. -/
def Vec4.floats (v : Vec4) : List FloatVal := [v.x, v.y, v.z, v.w]

/-- The two render targets of `main`: the shadow map `sBuffer` and the G-buffer `gBuffer`. -/
structure Targets where
  sBuffer : FrameBuffer
  gBuffer : FrameBuffer
  deriving DecidableEq

/-- Sequencing of calls on one object: the next call runs when the calls so far returned
normally; an exception or undefined behaviour ends the sequence. -/
def Step.andThen {σ : Type} (s : Step σ) (f : σ → GLContext → Step σ) : Step σ :=
  match s.result with
  | Outcome.ok => f s.st s.gl
  | _ => s

/-- The three `glTexParameter*` commands `main` issues after each `sBuffer.bindInput(i)`
(lines 350-353 and 356-358). -/
def borderCommands : List GLCall :=
  [GLCall.TexParameteri GL_TEXTURE_2D GL_TEXTURE_WRAP_S GL_CLAMP_TO_BORDER,
   GLCall.TexParameteri GL_TEXTURE_2D GL_TEXTURE_WRAP_T GL_CLAMP_TO_BORDER,
   GLCall.TexParameterfv GL_TEXTURE_2D GL_TEXTURE_BORDER_COLOR [1, 1, 1, 1]]

/-- Lines 344-358 of `main`: construction of the shadow target `sBuffer`. -/
def setupShadowTarget (gl : GLContext) : Step FrameBuffer :=
  let c := FrameBuffer.newSized gl SHADOW_MAP_SIZE SHADOW_MAP_SIZE
  ((((((((⟨Outcome.ok, c.1, c.2⟩ : Step FrameBuffer).andThen
    (fun fb g => fb.attachTexture g GL_RGBA32F GL_LINEAR)).andThen
    (fun fb g => fb.attachTexture g GL_RGBA32F GL_LINEAR)).andThen
    (fun fb g => fb.attachRender g GL_DEPTH_COMPONENT false)).andThen
    (fun fb g => fb.bindInput_num g 0)).andThen
    (fun fb g => ⟨Outcome.ok, fb, g.calls borderCommands⟩)).andThen
    (fun fb g => fb.bindInput_num g 1)).andThen
    (fun fb g => ⟨Outcome.ok, fb, g.calls borderCommands⟩))

/-- Lines 362-370 of `main`: construction of the G-buffer `gBuffer`; `status` is the value
`glCheckFramebufferStatus` returns inside `check()`. -/
def setupGBuffer (gl : GLContext) (status : Nat) : Step FrameBuffer :=
  let c := FrameBuffer.newSized gl SCR_WIDTH SCR_HEIGHT
  ((((((((⟨Outcome.ok, c.1, c.2⟩ : Step FrameBuffer).andThen
    (fun fb g => fb.attachTexture g GL_RGB16F GL_NEAREST)).andThen
    (fun fb g => fb.attachTexture g GL_RGB16F GL_NEAREST)).andThen
    (fun fb g => fb.attachTexture g GL_RGB GL_NEAREST)).andThen
    (fun fb g => fb.attachTexture g GL_RGBA GL_NEAREST)).andThen
    (fun fb g => fb.bindOutput g)).andThen
    (fun fb g => fb.attachRender g GL_DEPTH_COMPONENT false)).andThen
    (fun fb g => (fb.check g status).1)).andThen
    (fun fb g => ⟨Outcome.ok, fb, FrameBuffer.unbind g⟩)

/-- Lines 344-370 of `main`: both constructions, the second on the context the first left.
When the first ends with an exception the second is not executed and `main` ends with the
first outcome. -/
def setupTargets (gl : GLContext) (status : Nat) : Step Targets :=
  let s := setupShadowTarget gl
  let g := setupGBuffer s.gl status
  if s.result = Outcome.ok then ⟨g.result, ⟨s.st, g.st⟩, g.gl⟩
  else ⟨s.result, ⟨s.st, g.st⟩, s.gl⟩

/-- The object names `main` holds when the loop starts and never changes in it: textures,
vertex arrays, the two instance buffers, the index count of the light sphere and the `ID` of
each `Shader`. -/
structure Scene where
  woodTexture : Nat
  envCubemap : Nat
  planeVAO : Nat
  lightVAO : Nat
  lightIndexCount : Nat
  matrixBuffer : Nat
  colorSizeBuffer : Nat
  cubemapShader : Nat
  shaderDepthWrite : Nat
  computeBlurShaderH : Nat
  computeBlurShaderV : Nat
  shaderDebugDepthMap : Nat
  shaderGeometryPass : Nat
  shaderTexturedGeometryPass : Nat
  shaderLightingPass : Nat
  shaderGBufferDebug : Nat
  shaderGlobalLightSphere : Nat
  shaderLightSphere : Nat
  shaderPointLightingPass : Nat
  deriving DecidableEq

/-- The state of `main` inside the render loop: how the run went so far (`Outcome.ok` while it
runs; after an exception or undefined behaviour nothing more is executed), the OpenGL
context, the option variables the widgets write, the two instance sequences, the static
`colorSizeBufferDirty`, and the globals of `renderQuad` and `renderCube`.  Variables that
only feed uniform values (colours, glossiness, attenuation, intensity, kernel size, camera
and light position) are not recorded. -/
structure App where
  result : Outcome
  gl : GLContext
  gBufferMode : Int
  ShadowMethod : Int
  enableShadows : Bool
  drawPointLights : Bool
  showDepthMap : Bool
  drawPointLightsWireframe : Bool
  pointLightRadius : FloatVal
  pointLightVerticalOffset : FloatVal
  pointLightSeparation : FloatVal
  lights : Lights
  colorSizeBufferDirty : Bool
  quadVAO : Nat
  quadVBO : Nat
  cubeVAO : Nat
  cubeVBO : Nat

/-- Issue commands, when the run is still going. -/
def App.cmds (a : App) (cs : List GLCall) : App :=
  if a.result = Outcome.ok then { a with gl := a.gl.calls cs } else a

/-- Call a `FrameBuffer` method, when the run is still going; its outcome becomes the outcome
of the run (the loop catches nothing). -/
def App.method (a : App) (m : GLContext → Step FrameBuffer) : App :=
  if a.result = Outcome.ok then { a with result := (m a.gl).result, gl := (m a.gl).gl } else a

/-- Call `FrameBuffer::unbind()`, when the run is still going. -/
def App.unbind (a : App) : App :=
  if a.result = Outcome.ok then { a with gl := FrameBuffer.unbind a.gl } else a

/-- The array `quadVertices` of `renderQuad`. -/
def quadVertices : List FloatVal :=
  ([-1, 1, 0, 0, 1,
   -1, -1, 0, 0, 0,
   1, 1, 0, 1, 1,
   1, -1, 0, 1, 0] : List ℚ).map FloatVal.finite

/-- The array `vertices` of `renderCube`. -/
def cubeVertices : List FloatVal :=
  ([-1, -1, -1, 0, 0, -1, 0, 0,
  1, 1, -1, 0, 0, -1, 1, 1,
  1, -1, -1, 0, 0, -1, 1, 0,
  1, 1, -1, 0, 0, -1, 1, 1,
  -1, -1, -1, 0, 0, -1, 0, 0,
  -1, 1, -1, 0, 0, -1, 0, 1,
  -1, -1, 1, 0, 0, 1, 0, 0,
  1, -1, 1, 0, 0, 1, 1, 0,
  1, 1, 1, 0, 0, 1, 1, 1,
  1, 1, 1, 0, 0, 1, 1, 1,
  -1, 1, 1, 0, 0, 1, 0, 1,
  -1, -1, 1, 0, 0, 1, 0, 0,
  -1, 1, 1, -1, 0, 0, 1, 0,
  -1, 1, -1, -1, 0, 0, 1, 1,
  -1, -1, -1, -1, 0, 0, 0, 1,
  -1, -1, -1, -1, 0, 0, 0, 1,
  -1, -1, 1, -1, 0, 0, 0, 0,
  -1, 1, 1, -1, 0, 0, 1, 0,
  1, 1, 1, 1, 0, 0, 1, 0,
  1, -1, -1, 1, 0, 0, 0, 1,
  1, 1, -1, 1, 0, 0, 1, 1,
  1, -1, -1, 1, 0, 0, 0, 1,
  1, 1, 1, 1, 0, 0, 1, 0,
  1, -1, 1, 1, 0, 0, 0, 0,
  -1, -1, -1, 0, -1, 0, 0, 1,
  1, -1, -1, 0, -1, 0, 1, 1,
  1, -1, 1, 0, -1, 0, 1, 0,
  1, -1, 1, 0, -1, 0, 1, 0,
  -1, -1, 1, 0, -1, 0, 0, 0,
  -1, -1, -1, 0, -1, 0, 0, 1,
  -1, 1, -1, 0, 1, 0, 0, 1,
  1, 1, 1, 0, 1, 0, 1, 0,
  1, 1, -1, 0, 1, 0, 1, 1,
  1, 1, 1, 0, 1, 0, 1, 0,
  -1, 1, -1, 0, 1, 0, 0, 1,
  -1, 1, 1, 0, 1, 0, 0, 0] : List ℚ).map FloatVal.finite

/-- The commands of the first call of `renderQuad` after the two `glGen*` calls returned the
names `vao` and `vbo` (lines 935-941). -/
def quadSetup (vao vbo : Nat) : List GLCall :=
  [GLCall.BindVertexArray vao,
   GLCall.BindBuffer GL_ARRAY_BUFFER vbo,
   GLCall.BufferData GL_ARRAY_BUFFER (20 * SIZEOF_FLOAT) quadVertices GL_STATIC_DRAW,
   GLCall.EnableVertexAttribArray 0,
   GLCall.VertexAttribPointer 0 3 GL_FLOAT GL_FALSE (5 * SIZEOF_FLOAT) 0,
   GLCall.EnableVertexAttribArray 1,
   GLCall.VertexAttribPointer 1 2 GL_FLOAT GL_FALSE (5 * SIZEOF_FLOAT) (3 * SIZEOF_FLOAT)]

/-- Function `renderQuad()`: on the first call (`quadVAO == 0`) the vertex array and buffer
are created; then the quad is drawn as a triangle strip. -/
def renderQuad (a : App) : App :=
  if a.result ≠ Outcome.ok then a
  else
    let a1 : App :=
      if a.quadVAO = 0 then
        let v := a.gl.genVertexArray
        let b := v.2.genBuffer
        { a with quadVAO := v.1, quadVBO := b.1, gl := b.2.calls (quadSetup v.1 b.1) }
      else a
    a1.cmds
      [GLCall.BindVertexArray a1.quadVAO,
       GLCall.DrawArrays GL_TRIANGLE_STRIP 0 4,
       GLCall.BindVertexArray 0]

/-- The commands of a creating call of `renderCube` after the two `glGen*` calls returned
the names `vao` and `vbo` (lines 1004-1015). -/
def cubeSetup (vao vbo : Nat) : List GLCall :=
  [GLCall.BindBuffer GL_ARRAY_BUFFER vbo,
   GLCall.BufferData GL_ARRAY_BUFFER (288 * SIZEOF_FLOAT) cubeVertices GL_STATIC_DRAW,
   GLCall.BindVertexArray vao,
   GLCall.EnableVertexAttribArray 0,
   GLCall.VertexAttribPointer 0 3 GL_FLOAT GL_FALSE (8 * SIZEOF_FLOAT) 0,
   GLCall.EnableVertexAttribArray 1,
   GLCall.VertexAttribPointer 1 3 GL_FLOAT GL_FALSE (8 * SIZEOF_FLOAT) (3 * SIZEOF_FLOAT),
   GLCall.EnableVertexAttribArray 2,
   GLCall.VertexAttribPointer 2 2 GL_FLOAT GL_FALSE (8 * SIZEOF_FLOAT) (6 * SIZEOF_FLOAT),
   GLCall.BindBuffer GL_ARRAY_BUFFER 0,
   GLCall.BindVertexArray 0]

/-- Function `renderCube()`: on a call with `cubeVAO == 0` the vertex array and buffer are
created; then the cube is drawn. -/
def renderCube (a : App) : App :=
  if a.result ≠ Outcome.ok then a
  else
    let a1 : App :=
      if a.cubeVAO = 0 then
        let v := a.gl.genVertexArray
        let b := v.2.genBuffer
        { a with cubeVAO := v.1, cubeVBO := b.1, gl := b.2.calls (cubeSetup v.1 b.1) }
      else a
    a1.cmds
      [GLCall.BindVertexArray a1.cubeVAO,
       GLCall.DrawArrays GL_TRIANGLES 0 36,
       GLCall.BindVertexArray 0]

/-- Lines 511-532 of `main`, the capture of the scene depth from the light (run when
`enableShadows` holds). -/
def shadowCapture (S : Scene) (T : Targets) (a : App) : App :=
  let a := a.cmds
    [GLCall.UseProgram S.shaderDepthWrite,
     GLCall.Uniform S.shaderDepthWrite "lightSpaceMatrix",
     GLCall.Uniform S.shaderDepthWrite "model",
     GLCall.Viewport 0 0 SHADOW_MAP_SIZE SHADOW_MAP_SIZE]
  let a := a.method T.sBuffer.bindOutput
  let a := a.cmds
    [GLCall.Clear (GL_COLOR_BUFFER_BIT ||| GL_DEPTH_BUFFER_BIT),
     GLCall.ActiveTexture GL_TEXTURE0,
     GLCall.BindTexture GL_TEXTURE_2D S.woodTexture,
     GLCall.BindVertexArray S.planeVAO,
     GLCall.DrawArrays GL_TRIANGLES 0 6]
  let a := a.cmds ((List.range objectCount).flatMap (fun i =>
    [GLCall.Uniform S.shaderDepthWrite "model",
     GLCall.ModelDraw (i + 1) S.shaderDepthWrite]))
  a.unbind

/-- Lines 536-568 of `main`, the blur of the shadow map (run when `ShadowMethod == 1`): two
horizontal and two vertical compute passes. -/
def momentBlur (S : Scene) (T : Targets) (a : App) : App :=
  let width : Int := SHADOW_MAP_SIZE
  let height : Int := SHADOW_MAP_SIZE
  let a := a.cmds
    [GLCall.UseProgram S.computeBlurShaderH,
     GLCall.Uniform S.computeBlurShaderH "ComputeKernelSize"]
  let a := a.method (fun g => T.sBuffer.bindImage g 0 0 GL_RGBA32F GL_READ_WRITE)
  let a := a.method (fun g => T.sBuffer.bindImage g 1 1 GL_RGBA32F GL_READ_WRITE)
  let a := a.cmds
    [GLCall.DispatchCompute (toGLuint (workGroupCount height CS_THREAD_GROUP_SIZE)) 1 1,
     GLCall.MemoryBarrier GL_SHADER_IMAGE_ACCESS_BARRIER_BIT]
  let a := a.method (fun g => T.sBuffer.bindImage g 1 0 GL_RGBA32F GL_READ_WRITE)
  let a := a.method (fun g => T.sBuffer.bindImage g 0 1 GL_RGBA32F GL_READ_WRITE)
  let a := a.cmds
    [GLCall.DispatchCompute (toGLuint (workGroupCount height CS_THREAD_GROUP_SIZE)) 1 1,
     GLCall.MemoryBarrier GL_SHADER_IMAGE_ACCESS_BARRIER_BIT]
  let a := a.cmds
    [GLCall.UseProgram S.computeBlurShaderV,
     GLCall.Uniform S.computeBlurShaderV "ComputeKernelSize"]
  let a := a.method (fun g => T.sBuffer.bindImage g 0 0 GL_RGBA32F GL_READ_WRITE)
  let a := a.method (fun g => T.sBuffer.bindImage g 1 1 GL_RGBA32F GL_READ_WRITE)
  let a := a.cmds
    [GLCall.DispatchCompute (toGLuint (workGroupCount width CS_THREAD_GROUP_SIZE)) 1 1,
     GLCall.MemoryBarrier GL_SHADER_IMAGE_ACCESS_BARRIER_BIT]
  let a := a.method (fun g => T.sBuffer.bindImage g 1 0 GL_RGBA32F GL_READ_WRITE)
  let a := a.method (fun g => T.sBuffer.bindImage g 0 1 GL_RGBA32F GL_READ_WRITE)
  a.cmds
    [GLCall.DispatchCompute (toGLuint (workGroupCount width CS_THREAD_GROUP_SIZE)) 1 1,
     GLCall.MemoryBarrier GL_SHADER_IMAGE_ACCESS_BARRIER_BIT]

/-- Lines 573-577 of `main`, the `else` branch of `if (enableShadows)`: the shadow map is only
cleared. -/
def shadowClear (T : Targets) (a : App) : App :=
  let a := a.cmds [GLCall.Viewport 0 0 SHADOW_MAP_SIZE SHADOW_MAP_SIZE]
  let a := a.method T.sBuffer.bindOutput
  a.cmds
    [GLCall.ClearColor 1 1 1 1,
     GLCall.Clear (GL_COLOR_BUFFER_BIT ||| GL_DEPTH_BUFFER_BIT),
     GLCall.ClearColor 0 0 0 1]

/-- Lines 505-578 of `main`: step 1 of the frame. -/
def shadowPass (S : Scene) (T : Targets) (a : App) : App :=
  if a.enableShadows then
    let a1 := shadowCapture S T a
    if a1.ShadowMethod = 1 then momentBlur S T a1 else a1
  else
    shadowClear T a

/-- Lines 583-621 of `main`: step 2 of the frame, the geometry pass into the G-buffer. -/
def geometryPass (S : Scene) (T : Targets) (a : App) : App :=
  let a := a.cmds [GLCall.Viewport 0 0 SCR_WIDTH SCR_HEIGHT]
  let a := a.method T.gBuffer.bindOutput
  let a := a.cmds
    [GLCall.Clear (GL_COLOR_BUFFER_BIT ||| GL_DEPTH_BUFFER_BIT),
     GLCall.UseProgram S.cubemapShader,
     GLCall.Uniform S.cubemapShader "projection",
     GLCall.UseProgram S.shaderTexturedGeometryPass,
     GLCall.Uniform S.shaderTexturedGeometryPass "projection",
     GLCall.Uniform S.shaderTexturedGeometryPass "view",
     GLCall.Uniform S.shaderTexturedGeometryPass "model",
     GLCall.Uniform S.shaderTexturedGeometryPass "specularCol",
     GLCall.ActiveTexture GL_TEXTURE0,
     GLCall.BindTexture GL_TEXTURE_2D S.woodTexture,
     GLCall.BindVertexArray S.planeVAO,
     GLCall.DrawArrays GL_TRIANGLES 0 6,
     GLCall.UseProgram S.shaderGeometryPass,
     GLCall.Uniform S.shaderGeometryPass "projection",
     GLCall.Uniform S.shaderGeometryPass "view",
     GLCall.Uniform S.shaderGeometryPass "model",
     GLCall.Uniform S.shaderGeometryPass "diffuseCol",
     GLCall.Uniform S.shaderGeometryPass "specularCol"]
  let a := a.cmds ((List.range objectCount).flatMap (fun i =>
    [GLCall.Uniform S.shaderGeometryPass "model",
     GLCall.ModelDraw (i + 1) S.shaderGeometryPass]))
  a.unbind

/-- Lines 625-657 of `main`: step 3 of the frame, the lighting pass, which ends with
`renderQuad()`. -/
def lightingPass (S : Scene) (T : Targets) (a : App) : App :=
  let a := a.cmds [GLCall.Clear (GL_COLOR_BUFFER_BIT ||| GL_DEPTH_BUFFER_BIT)]
  let a :=
    if a.gBufferMode = 0 then
      let a := a.cmds [GLCall.UseProgram S.shaderLightingPass]
      let a := a.method T.gBuffer.bindInput
      let a := a.cmds [GLCall.ActiveTexture GL_TEXTURE4]
      let a := a.method (fun g => T.sBuffer.bindTex g 0)
      a.cmds
        [GLCall.Uniform S.shaderLightingPass "gLight.Position",
         GLCall.Uniform S.shaderLightingPass "gLight.Color",
         GLCall.Uniform S.shaderLightingPass "gLight.Linear",
         GLCall.Uniform S.shaderLightingPass "gLight.Quadratic",
         GLCall.Uniform S.shaderLightingPass "viewPos",
         GLCall.Uniform S.shaderLightingPass "lightSpaceMatrix",
         GLCall.Uniform S.shaderLightingPass "glossiness",
         GLCall.Uniform S.shaderLightingPass "shadowMethod"]
    else
      let a := a.cmds
        [GLCall.UseProgram S.shaderGBufferDebug,
         GLCall.Uniform S.shaderGBufferDebug "gBufferMode"]
      a.method T.gBuffer.bindInput
  renderQuad a

/-- The upload of lines 683-684: `glBufferData` reads `W*W*H` records starting at
`&modelColorSizes[0]`, which is undefined when the sequence is shorter. -/
def uploadColorSizes (S : Scene) (a : App) : App :=
  if a.result ≠ Outcome.ok then a
  else if a.lights.modelColorSizes.length <
      LIGHT_GRID_WIDTH * LIGHT_GRID_WIDTH * LIGHT_GRID_HEIGHT then
    { a with
      result := Outcome.undefined (Undefined.vectorIndex a.lights.modelColorSizes.length),
      gl := a.gl.call (GLCall.BindBuffer GL_ARRAY_BUFFER S.colorSizeBuffer) }
  else
    a.cmds
      [GLCall.BindBuffer GL_ARRAY_BUFFER S.colorSizeBuffer,
       GLCall.BufferData GL_ARRAY_BUFFER
         (LIGHT_GRID_WIDTH * LIGHT_GRID_WIDTH * LIGHT_GRID_HEIGHT * SIZEOF_VEC4)
         ((a.lights.modelColorSizes.take
           (LIGHT_GRID_WIDTH * LIGHT_GRID_WIDTH * LIGHT_GRID_HEIGHT)).flatMap Vec4.floats)
         GL_STATIC_DRAW]

/-- Lines 663-693 of `main`: step 3.5 of the frame, the point lights drawn on top with
additive blending. -/
def pointLightPass (S : Scene) (T : Targets) (a : App) : App :=
  if a.gBufferMode = 0 then
    let a := a.cmds [GLCall.UseProgram S.shaderPointLightingPass]
    let a := a.method T.gBuffer.bindInput
    let a := a.cmds
      [GLCall.Uniform S.shaderPointLightingPass "projection",
       GLCall.Uniform S.shaderPointLightingPass "view",
       GLCall.Enable GL_CULL_FACE,
       GLCall.FrontFace GL_CW,
       GLCall.Disable GL_DEPTH_TEST,
       GLCall.Enable GL_BLEND,
       GLCall.BlendFunc GL_ONE GL_ONE,
       GLCall.Uniform S.shaderPointLightingPass "viewPos",
       GLCall.Uniform S.shaderPointLightingPass "lightIntensity",
       GLCall.Uniform S.shaderPointLightingPass "glossiness",
       GLCall.BindVertexArray S.lightVAO]
    let a := if a.colorSizeBufferDirty then uploadColorSizes S a else a
    a.cmds
      [GLCall.DrawElementsInstanced GL_TRIANGLES S.lightIndexCount GL_UNSIGNED_INT totalLights,
       GLCall.BindVertexArray 0,
       GLCall.Disable GL_BLEND,
       GLCall.BlendFunc GL_SRC_ALPHA GL_ONE_MINUS_SRC_ALPHA,
       GLCall.FrontFace GL_CCW,
       GLCall.Disable GL_CULL_FACE]
  else a

/-- Lines 696-712 of `main`: the depth of the G-buffer is copied to the default framebuffer
and the environment cube is drawn with depth testing. -/
def environmentComposite (S : Scene) (T : Targets) (a : App) : App :=
  if a.gBufferMode = 0 then
    let a := a.method T.gBuffer.bindRead
    let a := a.cmds
      [GLCall.BindFramebuffer GL_DRAW_FRAMEBUFFER 0,
       GLCall.BlitFramebuffer 0 0 SCR_WIDTH SCR_HEIGHT 0 0 SCR_WIDTH SCR_HEIGHT
         GL_DEPTH_BUFFER_BIT GL_NEAREST]
    let a := a.unbind
    let a := a.cmds
      [GLCall.Enable GL_DEPTH_TEST,
       GLCall.UseProgram S.cubemapShader,
       GLCall.Uniform S.cubemapShader "view",
       GLCall.ActiveTexture GL_TEXTURE0,
       GLCall.BindTexture GL_TEXTURE_CUBE_MAP S.envCubemap]
    renderCube a
  else a

/-- Lines 715-741 of `main`: the light volumes drawn for debugging; `lightModel` is model
number 0 of `ModelDraw`, `meshModels[i]` is number `i + 1`. -/
def lightVolumes (S : Scene) (a : App) : App :=
  if a.drawPointLights = true ∧ a.gBufferMode = 0 then
    a.cmds
      [GLCall.Enable GL_DEPTH_TEST,
       GLCall.UseProgram S.shaderLightSphere,
       GLCall.Uniform S.shaderLightSphere "projection",
       GLCall.Uniform S.shaderLightSphere "view",
       GLCall.PolygonMode GL_FRONT_AND_BACK
         (if a.drawPointLightsWireframe then GL_LINE else GL_FILL),
       GLCall.BindVertexArray S.lightVAO,
       GLCall.DrawElementsInstanced GL_TRIANGLES S.lightIndexCount GL_UNSIGNED_INT totalLights,
       GLCall.BindVertexArray 0,
       GLCall.PolygonMode GL_FRONT_AND_BACK GL_FILL,
       GLCall.UseProgram S.shaderGlobalLightSphere,
       GLCall.Uniform S.shaderGlobalLightSphere "projection",
       GLCall.Uniform S.shaderGlobalLightSphere "view",
       GLCall.Uniform S.shaderGlobalLightSphere "model",
       GLCall.Uniform S.shaderGlobalLightSphere "lightColor",
       GLCall.Uniform S.shaderGlobalLightSphere "lightRadius",
       GLCall.ModelDraw 0 S.shaderGlobalLightSphere]
  else a

/-- Lines 743-756 of `main`: the shadow map shown on a quad for debugging. -/
def depthMapView (S : Scene) (T : Targets) (a : App) : App :=
  if a.showDepthMap then
    let a := a.cmds
      [GLCall.UseProgram S.shaderDebugDepthMap,
       GLCall.Uniform S.shaderDebugDepthMap "transform",
       GLCall.Uniform S.shaderDebugDepthMap "zNear",
       GLCall.Uniform S.shaderDebugDepthMap "zFar",
       GLCall.ActiveTexture GL_TEXTURE0]
    let a := a.method (fun g => T.sBuffer.bindInput_num g 0)
    renderQuad a
  else a

/-- Lines 495-496 of `main`: the state every frame starts with. -/
def frameStart (a : App) : App :=
  a.cmds [GLCall.ClearColor 0 0 0 1, GLCall.Enable GL_DEPTH_TEST]

/-- Lines 495-657 of `main`: the frame up to and including the lighting pass. -/
def beforePointLights (S : Scene) (T : Targets) (a : App) : App :=
  lightingPass S T (geometryPass S T (shadowPass S T (frameStart a)))

/-- Lines 495-756 of `main`: the rendering part of one frame. -/
def renderStages (S : Scene) (T : Targets) (a : App) : App :=
  depthMapView S T (lightVolumes S (environmentComposite S T (pointLightPass S T
    (beforePointLights S T a))))

/-- What the Dear ImGui widgets of the window "Controls" report in one frame: for a
`CollapsingHeader` whether it is open, for a `SliderFloat` the value it stored when it
returned `true` (`none` when it returned `false` and left the variable alone), for a
`Checkbox` or `Combo` the value the variable holds after the call.  Widgets whose variable
only feeds uniform values are left out. -/
structure Widgets where
  lightingConfig : Bool
  pointLights : Bool
  radius : Option FloatVal
  separation : Option FloatVal
  verticalOffset : Option FloatVal
  shadows : Bool
  enableShadows : Bool
  ShadowMethod : Int
  debug : Bool
  gBufferMode : Int
  drawPointLights : Bool
  drawPointLightsWireframe : Bool
  showDepthMap : Bool

/-- The call `updatePointLights(modelMatrices, modelColorSizes, pointLightSeparation,
pointLightVerticalOffset, pointLightRadius)` of the slider handlers. -/
def App.updateLights (S : Scene) (a : App) : App :=
  if a.result ≠ Outcome.ok then a
  else
    let s := updatePointLights S.matrixBuffer a.lights a.gl a.pointLightSeparation
      a.pointLightVerticalOffset a.pointLightRadius
    { a with result := s.result, lights := s.st, gl := s.gl }

/-- The assignment `colorSizeBufferDirty = v`, when the run is still going. -/
def App.setDirty (a : App) (v : Bool) : App :=
  if a.result = Outcome.ok then { a with colorSizeBufferDirty := v } else a

/-- Lines 783-789 of `main`: the slider "Radius" and the two assignments to
`colorSizeBufferDirty`. -/
def radiusSlider (S : Scene) (w : Widgets) (a : App) : App :=
  if a.result ≠ Outcome.ok then a
  else
    match w.radius with
    | some v => (App.updateLights S { a with pointLightRadius := v }).setDirty true
    | none => a.setDirty false

/-- Lines 790-792 of `main`: the slider "Separation". -/
def separationSlider (S : Scene) (w : Widgets) (a : App) : App :=
  if a.result ≠ Outcome.ok then a
  else
    match w.separation with
    | some v => App.updateLights S { a with pointLightSeparation := v }
    | none => a

/-- Lines 793-795 of `main`: the slider "Vertical Offset". -/
def verticalOffsetSlider (S : Scene) (w : Widgets) (a : App) : App :=
  if a.result ≠ Outcome.ok then a
  else
    match w.verticalOffset with
    | some v => App.updateLights S { a with pointLightVerticalOffset := v }
    | none => a

/-- Lines 782-795 of `main`: the body of `if (ImGui::CollapsingHeader("Point Lights"))`. -/
def pointLightControls (S : Scene) (w : Widgets) (a : App) : App :=
  verticalOffsetSlider S w (separationSlider S w (radiusSlider S w a))

/-- Lines 799-806 of `main`: the body of `if (ImGui::CollapsingHeader("Shadows"))`. -/
def shadowControls (w : Widgets) (a : App) : App :=
  if a.result = Outcome.ok then
    { a with enableShadows := w.enableShadows, ShadowMethod := w.ShadowMethod }
  else a

/-- Lines 809-817 of `main`: the body of `if (ImGui::CollapsingHeader("Debug"))`. -/
def debugControls (S : Scene) (w : Widgets) (a : App) : App :=
  if a.result = Outcome.ok then
    { a with
      gBufferMode := w.gBufferMode,
      gl := a.gl.calls [GLCall.Uniform S.shaderLightingPass "gBufferMode"],
      drawPointLights := w.drawPointLights,
      drawPointLightsWireframe := w.drawPointLightsWireframe,
      showDepthMap := w.showDepthMap }
  else a

/-- Lines 774-807 of `main`: the body of `if (ImGui::CollapsingHeader("Lighting Config"))`. -/
def lightingControls (S : Scene) (w : Widgets) (a : App) : App :=
  let a := if w.pointLights then pointLightControls S w a else a
  if w.shadows then shadowControls w a else a

/-- Lines 767-824 of `main`: the window "Controls". -/
def controls (S : Scene) (w : Widgets) (a : App) : App :=
  let a := if w.lightingConfig then lightingControls S w a else a
  if w.debug then debugControls S w a else a

/-- One iteration of the render loop (lines 483-835): the rendering part, the Dear ImGui
frame with the window "Controls", and the presentation.  Of the library calls only those
that can issue OpenGL commands are recorded. -/
def frame (S : Scene) (T : Targets) (w : Widgets) (a : App) : App :=
  let a := renderStages S T a
  let a := a.cmds [GLCall.Library "ImGui_ImplOpenGL3_NewFrame"]
  let a := controls S w a
  a.cmds
    [GLCall.Library "ImGui_ImplOpenGL3_RenderDrawData",
     GLCall.Library "glfwSwapBuffers",
     GLCall.Library "glfwPollEvents"]

/-- The commands issued between two states of the context. -/
def issued (before after : GLContext) : List GLCall := after.log.drop before.log.length

/-- The part of the OpenGL state the properties of the loop read: the bound draw framebuffer,
the draw buffers declared for each framebuffer object, viewport, clear colour, the depth-test,
face-culling and blending switches, front-face winding, blend function, the texture bound to
each image unit and the program in use. -/
structure GLState where
  drawFramebuffer : Nat
  drawBuffers : Nat → List Nat
  viewport : Int × Int × Int × Int
  clearColor : ℚ × ℚ × ℚ × ℚ
  depthTest : Bool
  cullFace : Bool
  blend : Bool
  frontFace : Nat
  blendFunc : Nat × Nat
  imageUnits : Nat → Nat
  program : Nat

/-- The state of a new context as far as OpenGL fixes it: the default framebuffer is bound
and draws to `GL_BACK`, a framebuffer object draws to `GL_COLOR_ATTACHMENT0`, the clear colour
is (0, 0, 0, 0), the three switches are off, winding is `GL_CCW`, the blend function is
(`GL_ONE`, `GL_ZERO`), no image is bound and no program is in use.  The viewport of a new
context is the window, here 0 by 0. -/
def GLState.initial : GLState :=
  { drawFramebuffer := 0,
    drawBuffers := fun fb => if fb = 0 then [GL_BACK] else [GL_COLOR_ATTACHMENT0],
    viewport := (0, 0, 0, 0),
    clearColor := (0, 0, 0, 0),
    depthTest := false, cullFace := false, blend := false,
    frontFace := GL_CCW, blendFunc := (GL_ONE, 0),
    imageUnits := fun _ => 0,
    program := 0 }

/-- Effect of one command on that state.  Commands of the library calls and of
`Model::draw` are taken to leave it as it was. -/
def GLState.step (s : GLState) : GLCall → GLState
  | GLCall.BindFramebuffer target id =>
      if target = GL_FRAMEBUFFER ∨ target = GL_DRAW_FRAMEBUFFER then
        { s with drawFramebuffer := id }
      else s
  | GLCall.DrawBuffer buf =>
      { s with drawBuffers := fun fb => if fb = s.drawFramebuffer then [buf]
                                        else s.drawBuffers fb }
  | GLCall.DrawBuffers n bufs =>
      { s with drawBuffers := fun fb => if fb = s.drawFramebuffer then bufs.take n
                                        else s.drawBuffers fb }
  | GLCall.Viewport x y width height => { s with viewport := (x, y, width, height) }
  | GLCall.ClearColor red green blue alpha => { s with clearColor := (red, green, blue, alpha) }
  | GLCall.Enable cap =>
      if cap = GL_DEPTH_TEST then { s with depthTest := true }
      else if cap = GL_CULL_FACE then { s with cullFace := true }
      else if cap = GL_BLEND then { s with blend := true }
      else s
  | GLCall.Disable cap =>
      if cap = GL_DEPTH_TEST then { s with depthTest := false }
      else if cap = GL_CULL_FACE then { s with cullFace := false }
      else if cap = GL_BLEND then { s with blend := false }
      else s
  | GLCall.FrontFace mode => { s with frontFace := mode }
  | GLCall.BlendFunc sfactor dfactor => { s with blendFunc := (sfactor, dfactor) }
  | GLCall.BindImageTexture unit texture _ _ _ _ _ =>
      { s with imageUnits := fun u => if u = unit then texture else s.imageUnits u }
  | GLCall.UseProgram program => { s with program := program }
  | _ => s

/-- The state after a sequence of commands. -/
def GLState.run (s : GLState) (cs : List GLCall) : GLState := cs.foldl GLState.step s

/-- The texture units after a sequence of commands. -/
def TexUnits.run (s : TexUnits) (cs : List GLCall) : TexUnits := cs.foldl TexUnits.step s

/-- For each command of `cs` that satisfies `p`, in order: the commands of `cs` issued before
it. -/
def issuedBefore (p : GLCall → Bool) : List GLCall → List (List GLCall)
  | [] => []
  | c :: cs => (if p c then [[]] else []) ++ (issuedBefore p cs).map (fun pre => c :: pre)

/-- A `glClear` command. -/
def GLCall.isClear : GLCall → Bool
  | GLCall.Clear _ => true
  | _ => false

/-- A command that draws geometry: `glDrawArrays`, `glDrawElementsInstanced` or a call of
`Model::draw`. -/
def GLCall.isDraw : GLCall → Bool
  | GLCall.DrawArrays _ _ _ => true
  | GLCall.DrawElementsInstanced _ _ _ _ => true
  | GLCall.ModelDraw _ _ => true
  | _ => false

/-- A `glDispatchCompute` command. -/
def GLCall.isDispatch : GLCall → Bool
  | GLCall.DispatchCompute _ _ _ => true
  | _ => false

/-- A `glBindImageTexture` command. -/
def GLCall.isImageBind : GLCall → Bool
  | GLCall.BindImageTexture _ _ _ _ _ _ _ => true
  | _ => false

/-- A `glBufferData` command. -/
def GLCall.isBufferData : GLCall → Bool
  | GLCall.BufferData _ _ _ _ => true
  | _ => false

/-- The handles of a sample run of `main`. -/
def sampleScene : Scene :=
  { woodTexture := 20, envCubemap := 21, planeVAO := 1, lightVAO := 2, lightIndexCount := 2880,
    matrixBuffer := 3, colorSizeBuffer := 4, cubemapShader := 31, shaderDepthWrite := 32,
    computeBlurShaderH := 33, computeBlurShaderV := 34, shaderDebugDepthMap := 35,
    shaderGeometryPass := 36, shaderTexturedGeometryPass := 37, shaderLightingPass := 38,
    shaderGBufferDebug := 39, shaderGlobalLightSphere := 40, shaderLightSphere := 41,
    shaderPointLightingPass := 42 }

/-- The render targets of the sample run: built on a context with eight colour attachments
whose framebuffers are complete. -/
def sampleTargets : Targets := (setupTargets (GLContext.fresh 8) GL_FRAMEBUFFER_COMPLETE).st

/-- The state of the sample run when the loop starts, with the option values of lines 382-397
(the literals `1.205f` and `0.620f` are the nearest `float`s) and the lights of the run
`jitterRun`. -/
def sampleApp : App :=
  { result := Outcome.ok,
    gl := (setupTargets (GLContext.fresh 8) GL_FRAMEBUFFER_COMPLETE).gl,
    gBufferMode := 0, ShadowMethod := 1, enableShadows := true, drawPointLights := false,
    showDepthMap := false, drawPointLightsWireframe := true,
    pointLightRadius := INITIAL_POINT_LIGHT_RADIUS,
    pointLightVerticalOffset := binary32.round (1205 / 1000),
    pointLightSeparation := binary32.round (620 / 1000),
    lights := configurePointLights jitterRun ⟨[], []⟩ INITIAL_POINT_LIGHT_RADIUS
      (binary32.round (620 / 1000)) (binary32.round (1205 / 1000)),
    colorSizeBufferDirty := false, quadVAO := 0, quadVBO := 0, cubeVAO := 5, cubeVBO := 6 }

/-- Widgets of a frame in which nothing is open. -/
def idleWidgets : Widgets :=
  { lightingConfig := false, pointLights := false, radius := none, separation := none,
    verticalOffset := none, shadows := false, enableShadows := true, ShadowMethod := 1,
    debug := false, gBufferMode := 0, drawPointLights := false,
    drawPointLightsWireframe := true, showDepthMap := false }

/-- A 512x512 target on a context with eight colour attachments after
`attachTexture(GL_RGBA8)` and `attachTexture(GL_TEXTURE_2D_MULTISAMPLE)`. -/
def colorThenMultisample512 : Step FrameBuffer :=
  let c := FrameBuffer.newSized (GLContext.fresh 8) 512 512
  (c.1.attachTexture c.2 GL_RGBA8 GL_LINEAR).andThen
    (fun fb g => fb.attachTexture g GL_TEXTURE_2D_MULTISAMPLE GL_LINEAR)

/-- What the loop relies on in its two targets: `sBuffer` holds two textures, recorded at
colour attachment points 0 and 1, and `gBuffer` holds four, recorded at points 0 to 3. -/
def Targets.ready (T : Targets) : Prop :=
  T.sBuffer.tex_ids.length = 2 ∧
  readBuffers T.sBuffer.buffers 2 =
    Except.ok [GL_COLOR_ATTACHMENT0, GL_COLOR_ATTACHMENT0 + 1] ∧
  T.gBuffer.tex_ids.length = 4 ∧
  readBuffers T.gBuffer.buffers 4 =
    Except.ok [GL_COLOR_ATTACHMENT0, GL_COLOR_ATTACHMENT0 + 1, GL_COLOR_ATTACHMENT0 + 2,
      GL_COLOR_ATTACHMENT0 + 3]

/-- A target of nonzero size with capacity `M` that holds `k` textures, recorded at colour
attachment points 0 to `k - 1`. -/
def FrameBuffer.holdsColors (fb : FrameBuffer) (M : Int) (k : Nat) : Prop :=
  fb.width ≠ 0 ∧ fb.height ≠ 0 ∧ fb.tex_ids.length = k ∧ fb.max_color_attachments = M ∧
  fb.buffers.length = M.toNat ∧
  ∀ i, i < k → fb.buffers[i]? = some (some (GL_COLOR_ATTACHMENT0 + i))

/-- From context state `g` to `h` commands were only added, and no added command is a
`glDispatchCompute`. -/
def noDispatchBetween (g h : GLContext) : Prop :=
  ∃ cs, h.log = g.log ++ cs ∧ cs.filter GLCall.isDispatch = []

/-- Every command of the sequence that satisfies `p` is immediately followed by a command
that satisfies `q`. -/
def followedBy (p q : GLCall → Bool) : List GLCall → Bool
  | [] => true
  | [c] => !p c
  | c :: d :: rest => (!p c || q d) && followedBy p q (d :: rest)

/-- A `glMemoryBarrier(GL_SHADER_IMAGE_ACCESS_BARRIER_BIT)` command. -/
def GLCall.isImageBarrier (c : GLCall) : Bool :=
  decide (c = GLCall.MemoryBarrier GL_SHADER_IMAGE_ACCESS_BARRIER_BIT)

/-- The draw of `renderQuad`: `glDrawArrays(GL_TRIANGLE_STRIP, 0, 4)`. -/
def GLCall.isQuadDraw (c : GLCall) : Bool :=
  decide (c = GLCall.DrawArrays GL_TRIANGLE_STRIP 0 4)

/-- The command `glActiveTexture(GL_TEXTURE4)`. -/
def GLCall.isUnit4Switch (c : GLCall) : Bool :=
  decide (c = GLCall.ActiveTexture GL_TEXTURE4)

/-- The state `b` differs from `a` at most in the context and in the globals of `renderQuad`
and `renderCube`: outcome, option variables, lights and dirty flag are the same. -/
def App.sameControls (a b : App) : Prop :=
  b = { a with gl := b.gl, quadVAO := b.quadVAO, quadVBO := b.quadVBO, cubeVAO := b.cubeVAO,
               cubeVBO := b.cubeVBO }

/-- The commands leave the depth-test, face-culling and blending switches and the front-face
winding of every state as they are. -/
def keepsSwitches (cs : List GLCall) : Prop :=
  ∀ s : GLState, (s.run cs).depthTest = s.depthTest ∧ (s.run cs).blend = s.blend ∧
    (s.run cs).cullFace = s.cullFace ∧ (s.run cs).frontFace = s.frontFace

/-- Widgets of a frame in which the point-light controls are shown and only the slider
"Separation" reports a change, to the value 1. -/
def separationDragged : Widgets :=
  { idleWidgets with
    lightingConfig := true, pointLights := true, separation := some (FloatVal.finite 1) }

/-- The run is going and both instance sequences hold the `W*W*H` lights. -/
def App.lit (a : App) : Prop :=
  a.result = Outcome.ok ∧
  LIGHT_GRID_WIDTH * LIGHT_GRID_WIDTH * LIGHT_GRID_HEIGHT ≤ a.lights.modelMatrices.length ∧
  LIGHT_GRID_WIDTH * LIGHT_GRID_WIDTH * LIGHT_GRID_HEIGHT ≤ a.lights.modelColorSizes.length

/-- A 512x512 target on a context with eight colour attachments after
`attachTexture(GL_STENCIL_INDEX8)` and `attachTexture(GL_RGBA8)`. -/
def stencilThenColor512 : Step FrameBuffer :=
  let c := FrameBuffer.newSized (GLContext.fresh 8) 512 512
  (c.1.attachTexture c.2 GL_STENCIL_INDEX8 GL_LINEAR).andThen
    (fun fb g => fb.attachTexture g GL_RGBA8 GL_LINEAR)

/-- The textures a compute dispatch of a blur program reads and writes. -/
structure BlurAccess where
  read : Nat
  written : Nat
  deriving DecidableEq

/-- Modelled from the spec: the source of the two compute blur programs
(`computeBlurShaderH`, `computeBlurShaderV`) is not under src/.  The specification gives their
passes as "pass H reads attachment A writes attachment B, then reads B writes A", `A` being
the attachment the first dispatch finds on image unit 0: a dispatch reads the image bound to
unit 0 and writes the image bound to unit 1.  The value is what a dispatch issued in state `s`
reads and writes. -/
def blurAccess (s : GLState) : BlurAccess := ⟨s.imageUnits 0, s.imageUnits 1⟩

/-- A command that can change the blending switch, the face-culling switch, the front-face
winding or the blend function. -/
def GLCall.setsBlending : GLCall → Bool
  | GLCall.Enable cap => decide (cap = GL_CULL_FACE ∨ cap = GL_BLEND)
  | GLCall.Disable cap => decide (cap = GL_CULL_FACE ∨ cap = GL_BLEND)
  | GLCall.FrontFace _ => true
  | GLCall.BlendFunc _ _ => true
  | _ => false

/-- From context state `g` to `h` commands were only added, and no added command can change
the blending or face-culling switch, the winding or the blend function. -/
def keepsBlendingBetween (g h : GLContext) : Prop :=
  ∃ cs, h.log = g.log ++ cs ∧ cs.filter GLCall.setsBlending = []

/-- Blending and face culling are disabled and the front-face winding is counter-clockwise:
the values of a new context. -/
def GLState.blendingOff (s : GLState) : Prop :=
  s.blend = false ∧ s.cullFace = false ∧ s.frontFace = GL_CCW

/-- The OpenGL state reached when the application is in state `b`, for a frame that began in
application state `a` and OpenGL state `s0`: the commands issued since are replayed. -/
def glStateAt (s0 : GLState) (a b : App) : GLState := s0.run (issued a.gl b.gl)

/-! # Properties -/

/-! ## Rounding -/

theorem nearestEven_err (x : ℚ) : |(nearestEven x : ℚ) - x| ≤ 1 / 2 := by
  have h1 := Int.floor_le x
  have h2 := Int.lt_floor_add_one x
  unfold nearestEven
  split_ifs with a b c
  · rw [abs_le]; constructor <;> linarith
  · rw [abs_le]; push_cast; constructor <;> linarith
  · have a2 := not_lt.mp a
    have b2 := not_lt.mp b
    rw [abs_le]; constructor <;> linarith
  · have a2 := not_lt.mp a
    have b2 := not_lt.mp b
    rw [abs_le]; push_cast; constructor <;> linarith

theorem nearestEven_eq_of_abs_lt (x : ℚ) (n : Int) (h : |x - n| < 1 / 2) :
    nearestEven x = n := by
  have e := nearestEven_err x
  have h2 : |((nearestEven x - n : Int) : ℚ)| < 1 := by
    push_cast
    have : (nearestEven x : ℚ) - n = ((nearestEven x : ℚ) - x) + (x - n) := by ring
    rw [this]
    calc |((nearestEven x : ℚ) - x) + (x - n)| ≤ |(nearestEven x : ℚ) - x| + |x - n| :=
          abs_add _ _
      _ < 1 / 2 + 1 / 2 := by linarith
      _ = 1 := by norm_num
  have h3 : |nearestEven x - n| < 1 := by exact_mod_cast h2
  have h4 := Int.abs_lt_one_iff.mp h3
  omega

theorem nearestEven_intCast (n : Int) : nearestEven (n : ℚ) = n :=
  nearestEven_eq_of_abs_lt _ n (by simp)

theorem nearestEven_tie (n : Int) :
    nearestEven ((n : ℚ) + 1 / 2) = if n % 2 = 0 then n else n + 1 := by
  have hf : ⌊(n : ℚ) + 1 / 2⌋ = n := by
    rw [Int.floor_eq_iff]
    constructor <;> linarith
  unfold nearestEven
  rw [hf]
  have e : (n : ℚ) + 1 / 2 - n = 1 / 2 := by ring
  rw [e]
  simp

theorem two_zpow_pos (k : Int) : (0 : ℚ) < 2 ^ k := zpow_pos (by norm_num) k

theorem roundMag_zero (f : FloatFormat) : f.roundMag 0 = some 0 := by
  unfold FloatFormat.roundMag
  have : nearestEven (0 / 2 ^ f.ulpExp 0) = 0 := by
    rw [zero_div]
    exact nearestEven_intCast 0
  simp only [this, Int.cast_zero, zero_mul]
  rw [if_pos (two_zpow_pos _)]

/-- The quantum of a positive magnitude is at most `2^(1-prec)` times the magnitude, or the
smallest subnormal. -/
theorem half_ulp_le (f : FloatFormat) (a : ℚ) (ha : 0 < a) :
    (2 : ℚ) ^ f.ulpExp a / 2 ≤ a * f.unitRoundoff + f.halfMin := by
  have hL := Int.zpow_log_le_self (b := 2) (r := a) (by norm_num) ha
  have hL2 : (2 : ℚ) ^ Int.log 2 a ≤ a := by exact_mod_cast hL
  have hu : (0 : ℚ) < f.unitRoundoff := two_zpow_pos _
  have hm : (0 : ℚ) < f.halfMin := two_zpow_pos _
  have e : (2 : ℚ) ^ f.ulpExp a / 2 = 2 ^ (f.ulpExp a - 1) := by
    rw [zpow_sub_one₀ (by norm_num : (2 : ℚ) ≠ 0)]
    ring
  rw [e]
  unfold FloatFormat.ulpExp
  rcases le_total (Int.log 2 a) (1 - f.emax) with h | h
  · rw [max_eq_right h]
    have : (1 - f.emax - ((f.prec : Int) - 1) - 1) = 1 - f.emax - (f.prec : Int) := by ring
    rw [this]
    unfold FloatFormat.halfMin
    have := mul_pos ha hu
    linarith
  · rw [max_eq_left h]
    have : (Int.log 2 a - ((f.prec : Int) - 1) - 1) = Int.log 2 a + (-(f.prec : Int)) := by ring
    rw [this, zpow_add₀ (by norm_num : (2 : ℚ) ≠ 0)]
    unfold FloatFormat.unitRoundoff
    have := mul_le_mul_of_nonneg_right hL2 (le_of_lt hu)
    unfold FloatFormat.unitRoundoff at this
    linarith

theorem roundMag_err (f : FloatFormat) (a v : ℚ) (ha : 0 ≤ a) (h : f.roundMag a = some v) :
    |v - a| ≤ a * f.unitRoundoff + f.halfMin ∧ 0 ≤ v := by
  rcases eq_or_lt_of_le ha with h0 | hpos
  · subst h0
    rw [roundMag_zero] at h
    cases h
    simp only [sub_self, abs_zero, zero_mul, zero_add, le_refl, and_true]
    exact le_of_lt (two_zpow_pos _)
  · unfold FloatFormat.roundMag at h
    dsimp only at h
    split_ifs at h with hlt
    cases h
    have hq := two_zpow_pos (f.ulpExp a)
    have e := nearestEven_err (a / 2 ^ f.ulpExp a)
    have hb := half_ulp_le f a hpos
    have e2 : |(nearestEven (a / 2 ^ f.ulpExp a) : ℚ) * 2 ^ f.ulpExp a - a| ≤
        2 ^ f.ulpExp a / 2 := by
      have : (nearestEven (a / 2 ^ f.ulpExp a) : ℚ) * 2 ^ f.ulpExp a - a =
          ((nearestEven (a / 2 ^ f.ulpExp a) : ℚ) - a / 2 ^ f.ulpExp a) * 2 ^ f.ulpExp a := by
        field_simp
      rw [this, abs_mul, abs_of_pos hq]
      calc |(nearestEven (a / 2 ^ f.ulpExp a) : ℚ) - a / 2 ^ f.ulpExp a| * 2 ^ f.ulpExp a
          ≤ 1 / 2 * 2 ^ f.ulpExp a := mul_le_mul_of_nonneg_right e (le_of_lt hq)
        _ = 2 ^ f.ulpExp a / 2 := by ring
    refine ⟨le_trans e2 hb, ?_⟩
    have hn : 0 ≤ nearestEven (a / 2 ^ f.ulpExp a) := by
      by_contra hneg
      have hneg2 : nearestEven (a / 2 ^ f.ulpExp a) ≤ -1 := by omega
      have hc : (nearestEven (a / 2 ^ f.ulpExp a) : ℚ) ≤ -1 := by exact_mod_cast hneg2
      have hd : 0 < a / 2 ^ f.ulpExp a := div_pos hpos hq
      rw [abs_le] at e
      linarith [e.1]
    have hn2 : (0 : ℚ) ≤ (nearestEven (a / 2 ^ f.ulpExp a) : ℚ) := by exact_mod_cast hn
    exact mul_nonneg hn2 (le_of_lt hq)

theorem round_err (f : FloatFormat) (q v : ℚ) (h : f.round q = FloatVal.finite v) :
    |v - q| ≤ |q| * f.unitRoundoff + f.halfMin := by
  unfold FloatFormat.round at h
  cases hm : f.roundMag |q| with
  | none => rw [hm] at h; cases h
  | some m =>
    rw [hm] at h
    simp only [FloatVal.finite.injEq] at h
    obtain ⟨e, -⟩ := roundMag_err f |q| m (abs_nonneg q) hm
    by_cases hq : q < 0
    · rw [if_pos hq] at h
      subst h
      rw [abs_of_neg hq] at e ⊢
      have : -m - q = -(m - -q) := by ring
      rw [this, abs_neg]
      exact e
    · rw [if_neg hq] at h
      subst h
      rw [abs_of_nonneg (not_lt.mp hq)] at e ⊢
      exact e

theorem round_neg (f : FloatFormat) (q : ℚ) : f.round (-q) = (f.round q).neg := by
  unfold FloatFormat.round
  rw [abs_neg]
  rcases lt_trichotomy q 0 with h | h | h
  · cases hm : f.roundMag |q| with
    | none => simp [FloatVal.neg, h, not_lt.mpr (le_of_lt h)]
    | some m => simp [FloatVal.neg, h, not_lt.mpr (le_of_lt h)]
  · subst h
    simp [roundMag_zero, FloatVal.neg]
  · cases hm : f.roundMag |q| with
    | none => simp [FloatVal.neg, h, not_lt.mpr (le_of_lt h)]
    | some m => simp [FloatVal.neg, h, not_lt.mpr (le_of_lt h)]

theorem ulpExp_le_of_lt (f : FloatFormat) (a : ℚ) (ha : 0 < a) (e : Int)
    (hlt : a < 2 ^ ((f.prec : Int) + e)) (he : 1 - f.emax - ((f.prec : Int) - 1) ≤ e) :
    f.ulpExp a ≤ e := by
  have h1 : Int.log 2 a < (f.prec : Int) + e := by
    rw [← Int.lt_zpow_iff_log_lt (by norm_num) ha]
    exact_mod_cast hlt
  unfold FloatFormat.ulpExp
  rcases le_total (Int.log 2 a) (1 - f.emax) with h | h
  · rw [max_eq_right h]; exact he
  · rw [max_eq_left h]; omega

theorem roundMag_exact (f : FloatFormat) (n : Nat) (e : Int) (hn : (n : ℚ) < 2 ^ f.prec)
    (he : 1 - f.emax - ((f.prec : Int) - 1) ≤ e)
    (hov : (n : ℚ) * 2 ^ e < 2 ^ (f.emax + 1)) :
    f.roundMag ((n : ℚ) * 2 ^ e) = some ((n : ℚ) * 2 ^ e) := by
  rcases Nat.eq_zero_or_pos n with h0 | hpos
  · subst h0
    simp [roundMag_zero]
  · have hq := two_zpow_pos e
    have hnq : (0 : ℚ) < (n : ℚ) := by exact_mod_cast hpos
    have ha : (0 : ℚ) < (n : ℚ) * 2 ^ e := mul_pos hnq hq
    have hlt : (n : ℚ) * 2 ^ e < 2 ^ ((f.prec : Int) + e) := by
      rw [zpow_add₀ (by norm_num : (2 : ℚ) ≠ 0), zpow_natCast]
      exact mul_lt_mul_of_pos_right hn hq
    have hE := ulpExp_le_of_lt f _ ha e hlt he
    obtain ⟨d, hd⟩ := Int.eq_ofNat_of_zero_le (sub_nonneg.mpr hE)
    have hsplit : (2 : ℚ) ^ e = 2 ^ d * 2 ^ f.ulpExp ((n : ℚ) * 2 ^ e) := by
      have : e = (d : Int) + f.ulpExp ((n : ℚ) * 2 ^ e) := by omega
      conv_lhs => rw [this]
      rw [zpow_add₀ (by norm_num : (2 : ℚ) ≠ 0), zpow_natCast]
    have hE0 := two_zpow_pos (f.ulpExp ((n : ℚ) * 2 ^ e))
    have hdiv : (n : ℚ) * 2 ^ e / 2 ^ f.ulpExp ((n : ℚ) * 2 ^ e) =
        (((n * 2 ^ d : Nat) : Int) : ℚ) := by
      rw [div_eq_iff (ne_of_gt hE0)]
      conv_lhs => rw [hsplit]
      push_cast
      ring
    unfold FloatFormat.roundMag
    dsimp only
    rw [hdiv, nearestEven_intCast]
    have hv : (((n * 2 ^ d : Nat) : Int) : ℚ) * 2 ^ f.ulpExp ((n : ℚ) * 2 ^ e) =
        (n : ℚ) * 2 ^ e := by
      conv_rhs => rw [hsplit]
      push_cast
      ring
    rw [hv, if_pos hov]

theorem round_exact (f : FloatFormat) (m : Int) (e : Int) (hm : |(m : ℚ)| < 2 ^ f.prec)
    (he : 1 - f.emax - ((f.prec : Int) - 1) ≤ e)
    (hov : |(m : ℚ)| * 2 ^ e < 2 ^ (f.emax + 1)) :
    f.round ((m : ℚ) * 2 ^ e) = FloatVal.finite ((m : ℚ) * 2 ^ e) := by
  have hq := two_zpow_pos e
  have habs : |(m : ℚ) * 2 ^ e| = ((m.natAbs : Nat) : ℚ) * 2 ^ e := by
    rw [abs_mul, abs_of_pos hq, Nat.cast_natAbs, Int.cast_abs]
  have hn : ((m.natAbs : Nat) : ℚ) < 2 ^ f.prec := by
    rw [Nat.cast_natAbs, Int.cast_abs]; exact hm
  have hov2 : ((m.natAbs : Nat) : ℚ) * 2 ^ e < 2 ^ (f.emax + 1) := by
    rw [Nat.cast_natAbs, Int.cast_abs]; exact hov
  have hr := roundMag_exact f m.natAbs e hn he hov2
  unfold FloatFormat.round
  rw [habs, hr]
  simp only
  by_cases hneg : (m : ℚ) * 2 ^ e < 0
  · rw [if_pos hneg]
    have hm0 : (m : ℚ) < 0 := by
      by_contra h
      exact absurd hneg (not_lt.mpr (mul_nonneg (not_lt.mp h) (le_of_lt hq)))
    rw [Nat.cast_natAbs, Int.cast_abs, abs_of_neg hm0]
    congr 1
    ring
  · rw [if_neg hneg]
    have hm0 : (0 : ℚ) ≤ (m : ℚ) := by
      by_contra h
      exact hneg (mul_neg_of_neg_of_pos (not_le.mp h) hq)
    rw [Nat.cast_natAbs, Int.cast_abs, abs_of_nonneg hm0]

theorem represents_dyadic (f : FloatFormat) (q : ℚ) (m : Int) (k : Nat)
    (hq : q = (m : ℚ) / 2 ^ k) (hm : |(m : ℚ)| < 2 ^ f.prec)
    (hk : (k : Int) ≤ f.emax + (f.prec : Int) - 2) (hp : (f.prec : Int) ≤ f.emax + 1) :
    f.represents q := by
  have e1 : q = (m : ℚ) * 2 ^ (-(k : Int)) := by
    rw [hq, zpow_neg, zpow_natCast]
    ring
  unfold FloatFormat.represents
  rw [e1]
  refine round_exact f m (-(k : Int)) hm (by omega) ?_
  have h1 : (2 : ℚ) ^ (-(k : Int)) ≤ 1 := by
    rw [zpow_neg, zpow_natCast]
    exact inv_le_one_of_one_le₀ (one_le_pow₀ (by norm_num))
  have h2 : (2 : ℚ) ^ f.prec ≤ 2 ^ (f.emax + 1) := by
    rw [← zpow_natCast]
    exact zpow_le_zpow_right₀ (by norm_num) hp
  calc |(m : ℚ)| * 2 ^ (-(k : Int)) ≤ |(m : ℚ)| * 1 :=
        mul_le_mul_of_nonneg_left h1 (abs_nonneg _)
    _ = |(m : ℚ)| := mul_one _
    _ < 2 ^ f.prec := hm
    _ ≤ 2 ^ (f.emax + 1) := h2

theorem log_eq_of_bounds (a : ℚ) (L : Int) (ha : 0 < a) (h1 : (2 : ℚ) ^ L ≤ a)
    (h2 : a < 2 ^ (L + 1)) : Int.log 2 a = L := by
  have b1 : L ≤ Int.log 2 a := by
    rw [← Int.zpow_le_iff_le_log (by norm_num) ha]
    exact_mod_cast h1
  have b2 : Int.log 2 a < L + 1 := by
    rw [← Int.lt_zpow_iff_log_lt (by norm_num) ha]
    exact_mod_cast h2
  omega

/-- Rounding evaluated from the binade of the magnitude and the nearest multiple of the
quantum. -/
theorem round_eval (f : FloatFormat) (q : ℚ) (L E n : Int) (hq : q ≠ 0)
    (h1 : (2 : ℚ) ^ L ≤ |q|) (h2 : |q| < 2 ^ (L + 1))
    (hE : E = max L (1 - f.emax) - ((f.prec : Int) - 1))
    (hn : nearestEven (|q| / 2 ^ E) = n)
    (hov : (n : ℚ) * 2 ^ E < 2 ^ (f.emax + 1)) :
    f.round q = FloatVal.finite (if q < 0 then -((n : ℚ) * 2 ^ E) else (n : ℚ) * 2 ^ E) := by
  have ha : 0 < |q| := abs_pos.mpr hq
  have hl := log_eq_of_bounds |q| L ha h1 h2
  have hu : f.ulpExp |q| = E := by
    unfold FloatFormat.ulpExp
    rw [hl, hE]
  have hr : f.roundMag |q| = some ((n : ℚ) * 2 ^ E) := by
    unfold FloatFormat.roundMag
    dsimp only
    rw [hu, hn, if_pos hov]
  unfold FloatFormat.round
  rw [hr]

theorem nearestEven_le_of_lt (x : ℚ) (N : Int) (h : x < N) : nearestEven x ≤ N := by
  have e := nearestEven_err x
  rw [abs_le] at e
  have h2 : (nearestEven x : ℚ) < (N : ℚ) + 1 := by linarith [e.2]
  have h3 : nearestEven x < N + 1 := by exact_mod_cast h2
  omega

theorem roundMag_idem (f : FloatFormat) (hp : 0 < f.prec) (a m : ℚ) (ha : 0 ≤ a)
    (h : f.roundMag a = some m) : f.roundMag m = some m := by
  rcases eq_or_lt_of_le ha with h0 | hpos
  · subst h0
    rw [roundMag_zero] at h
    cases h
    exact roundMag_zero f
  · have hm0 := (roundMag_err f a m ha h).2
    unfold FloatFormat.roundMag at h
    dsimp only at h
    split_ifs at h with hlt
    cases h
    have hq := two_zpow_pos (f.ulpExp a)
    have hx : a / 2 ^ f.ulpExp a < (((2 : Int) ^ f.prec : Int) : ℚ) := by
      have hL := Int.lt_zpow_succ_log_self (b := 2) (by norm_num) a
      have hL2 : a < (2 : ℚ) ^ (Int.log 2 a + 1) := by exact_mod_cast hL
      rw [div_lt_iff₀ hq]
      have hge : Int.log 2 a + 1 ≤ (f.prec : Int) + f.ulpExp a := by
        unfold FloatFormat.ulpExp
        have := le_max_left (Int.log 2 a) (1 - f.emax)
        omega
      calc a < (2 : ℚ) ^ (Int.log 2 a + 1) := hL2
        _ ≤ 2 ^ ((f.prec : Int) + f.ulpExp a) := zpow_le_zpow_right₀ (by norm_num) hge
        _ = (((2 : Int) ^ f.prec : Int) : ℚ) * 2 ^ f.ulpExp a := by
          rw [zpow_add₀ (by norm_num : (2 : ℚ) ≠ 0), zpow_natCast]
          push_cast
          rfl
    have hle := nearestEven_le_of_lt _ _ hx
    have hn0 : 0 ≤ nearestEven (a / 2 ^ f.ulpExp a) := by
      by_contra hneg
      have hneg2 : nearestEven (a / 2 ^ f.ulpExp a) ≤ -1 := by omega
      have hc : (nearestEven (a / 2 ^ f.ulpExp a) : ℚ) ≤ -1 := by exact_mod_cast hneg2
      have hd : 0 < a / 2 ^ f.ulpExp a := div_pos hpos hq
      have e := nearestEven_err (a / 2 ^ f.ulpExp a)
      rw [abs_le] at e
      linarith [e.1]
    obtain ⟨N, hN⟩ := Int.eq_ofNat_of_zero_le hn0
    have hE : 1 - f.emax - ((f.prec : Int) - 1) ≤ f.ulpExp a := by
      unfold FloatFormat.ulpExp
      have := le_max_right (Int.log 2 a) (1 - f.emax)
      omega
    rw [hN] at hlt hle ⊢
    rcases lt_or_eq_of_le hle with hlt2 | heq
    · have hn : (N : ℚ) < 2 ^ f.prec := by
        have : ((N : Int) : ℚ) < (((2 : Int) ^ f.prec : Int) : ℚ) := by exact_mod_cast hlt2
        push_cast at this
        exact this
      have := roundMag_exact f N (f.ulpExp a) hn hE (by exact_mod_cast hlt)
      exact_mod_cast this
    · have hval : ((N : Int) : ℚ) * 2 ^ f.ulpExp a =
          ((1 : Nat) : ℚ) * 2 ^ ((f.prec : Int) + f.ulpExp a) := by
        rw [heq, zpow_add₀ (by norm_num : (2 : ℚ) ≠ 0), zpow_natCast]
        push_cast
        ring
      rw [hval] at hlt ⊢
      refine roundMag_exact f 1 _ ?_ (by omega) hlt
      have : (1 : ℚ) < 2 ^ f.prec := one_lt_pow₀ (by norm_num) (by omega)
      exact_mod_cast this

/-- A rounded value is held exactly. -/
theorem round_represents (f : FloatFormat) (hp : 0 < f.prec) (q v : ℚ)
    (h : f.round q = FloatVal.finite v) : f.represents v := by
  unfold FloatFormat.round at h
  cases hm : f.roundMag |q| with
  | none => rw [hm] at h; cases h
  | some m =>
    rw [hm] at h
    simp only [FloatVal.finite.injEq] at h
    have hi := roundMag_idem f hp |q| m (abs_nonneg q) hm
    have hm0 := (roundMag_err f |q| m (abs_nonneg q) hm).2
    have hpos : f.round m = FloatVal.finite m := by
      unfold FloatFormat.round
      rw [abs_of_nonneg hm0, hi]
      simp only
      rw [if_neg (not_lt.mpr hm0)]
    unfold FloatFormat.represents
    by_cases hq : q < 0
    · rw [if_pos hq] at h
      subst h
      rw [round_neg, hpos]
      rfl
    · rw [if_neg hq] at h
      subst h
      exact hpos

theorem round_eval_pos (f : FloatFormat) (q : ℚ) (L E n : Int) (hq : 0 < q)
    (h1 : (2 : ℚ) ^ L ≤ q) (h2 : q < 2 ^ (L + 1))
    (hE : E = max L (1 - f.emax) - ((f.prec : Int) - 1))
    (hn : |q / 2 ^ E - (n : ℚ)| < 1 / 2)
    (hov : (n : ℚ) * 2 ^ E < 2 ^ (f.emax + 1)) :
    f.round q = FloatVal.finite ((n : ℚ) * 2 ^ E) := by
  have h := round_eval f q L E n (ne_of_gt hq) (by rw [abs_of_pos hq]; exact h1)
    (by rw [abs_of_pos hq]; exact h2) hE
    (by rw [abs_of_pos hq]; exact nearestEven_eq_of_abs_lt _ _ hn) hov
  rw [h, if_neg (not_lt.mpr (le_of_lt hq))]

theorem round_eval_tie (f : FloatFormat) (q : ℚ) (L E n : Int) (hq : 0 < q)
    (h1 : (2 : ℚ) ^ L ≤ q) (h2 : q < 2 ^ (L + 1))
    (hE : E = max L (1 - f.emax) - ((f.prec : Int) - 1))
    (hn : q / 2 ^ E = (n : ℚ) + 1 / 2)
    (hov : ((if n % 2 = 0 then n else n + 1 : Int) : ℚ) * 2 ^ E < 2 ^ (f.emax + 1)) :
    f.round q = FloatVal.finite (((if n % 2 = 0 then n else n + 1 : Int) : ℚ) * 2 ^ E) := by
  have h := round_eval f q L E (if n % 2 = 0 then n else n + 1) (ne_of_gt hq)
    (by rw [abs_of_pos hq]; exact h1)
    (by rw [abs_of_pos hq]; exact h2) hE
    (by rw [abs_of_pos hq, hn]; exact nearestEven_tie n) hov
  rw [h, if_neg (not_lt.mpr (le_of_lt hq))]

theorem mul_finite (f : FloatFormat) (a b : FloatVal) (v : ℚ)
    (h : f.mul a b = FloatVal.finite v) :
    ∃ x y, a = FloatVal.finite x ∧ b = FloatVal.finite y ∧ f.round (x * y) = FloatVal.finite v := by
  cases a <;> cases b <;> simp only [FloatFormat.mul] at h <;>
    first
    | exact ⟨_, _, rfl, rfl, h⟩
    | cases h
    | split_ifs at h

theorem add_finite (f : FloatFormat) (a b : FloatVal) (v : ℚ)
    (h : f.add a b = FloatVal.finite v) :
    ∃ x y, a = FloatVal.finite x ∧ b = FloatVal.finite y ∧ f.round (x + y) = FloatVal.finite v := by
  cases a <;> cases b <;> simp only [FloatFormat.add] at h <;>
    first
    | exact ⟨_, _, rfl, rfl, h⟩
    | cases h
    | split_ifs at h

theorem cast_finite (f : FloatFormat) (a : FloatVal) (v : ℚ)
    (h : f.cast a = FloatVal.finite v) :
    ∃ x, a = FloatVal.finite x ∧ f.round x = FloatVal.finite v := by
  cases a <;> simp only [FloatFormat.cast] at h <;>
    first
    | exact ⟨_, rfl, h⟩
    | cases h

theorem mul_neg_left (f : FloatFormat) (a b : FloatVal) :
    f.mul a.neg b = (f.mul a b).neg := by
  cases a with
  | finite x =>
    cases b with
    | finite y =>
      show f.round (-x * y) = (f.round (x * y)).neg
      rw [neg_mul, round_neg]
    | infinite t =>
      simp only [FloatVal.neg, FloatFormat.mul]
      by_cases hx : x = 0
      · simp [hx, FloatVal.neg]
      · rw [if_neg hx, if_neg (neg_ne_zero.mpr hx)]
        simp only [FloatVal.neg, FloatVal.infinite.injEq]
        rcases lt_or_gt_of_ne hx with h | h
        · have h2 : ¬ (-x < 0) := by linarith
          simp [h, h2]
        · have h2 : -x < 0 := by linarith
          have h3 : ¬ (x < 0) := by linarith
          simp [h2, h3]
    | nan => rfl
  | infinite s =>
    cases b with
    | finite y =>
      simp only [FloatVal.neg, FloatFormat.mul]
      by_cases hy : y = 0
      · simp [hy, FloatVal.neg]
      · rw [if_neg hy, if_neg hy]
        simp [FloatVal.neg]
    | infinite t => simp [FloatVal.neg, FloatFormat.mul]
    | nan => rfl
  | nan => cases b <;> rfl

theorem round_zero (f : FloatFormat) : f.round 0 = FloatVal.finite 0 := by
  unfold FloatFormat.round
  rw [abs_zero, roundMag_zero]
  simp

/-- The literal `0.870f`. -/
theorem round_870 : binary32.round (870 / 1000) = FloatVal.finite (7298089 / 8388608) := by
  have h := round_eval_pos binary32 (870 / 1000) (-1) (-24) 14596178 (by norm_num)
    (by norm_num) (by norm_num) (by norm_num [binary32])
    (by rw [abs_lt]; constructor <;> norm_num) (by norm_num [binary32])
  rw [h]
  norm_num

/-- The literal `0.620f`. -/
theorem round_620 : binary32.round (620 / 1000) = FloatVal.finite (5200937 / 8388608) := by
  have h := round_eval_pos binary32 (620 / 1000) (-1) (-24) 10401874 (by norm_num)
    (by norm_num) (by norm_num) (by norm_num [binary32])
    (by rw [abs_lt]; constructor <;> norm_num) (by norm_num [binary32])
  rw [h]
  norm_num

/-- The literal `1.205f`. -/
theorem round_1205 : binary32.round (1205 / 1000) = FloatVal.finite (10108273 / 8388608) := by
  have h := round_eval_pos binary32 (1205 / 1000) 0 (-23) 10108273 (by norm_num)
    (by norm_num) (by norm_num) (by norm_num [binary32])
    (by rw [abs_lt]; constructor <;> norm_num) (by norm_num [binary32])
  rw [h]
  norm_num

theorem radius_value : INITIAL_POINT_LIGHT_RADIUS = FloatVal.finite (7298089 / 8388608) :=
  round_870

/-! ## Lemmas on `attachTexture` -/

theorem attachTexture_ok_inv (fb : FrameBuffer) (gl : GLContext) (iformat : Nat)
    (filter : Int) (h : (fb.attachTexture gl iformat filter).result = Outcome.ok) :
    ∃ l bs, ¬ (fb.width = 0 ∨ fb.height = 0) ∧
      ¬ ((fb.tex_ids.length : Int) = fb.max_color_attachments) ∧
      texLayout iformat (GL_COLOR_ATTACHMENT0 + fb.tex_ids.length) filter = some l ∧
      writeBuffer fb.buffers fb.tex_ids.length l.attachment = some bs ∧
      fb.attachTexture gl iformat filter =
        ⟨Outcome.ok, { fb with tex_ids := fb.tex_ids ++ [gl.nextTexture], buffers := bs },
          gl.genTexture.2.calls (textureCommands fb iformat l gl.nextTexture)⟩ := by
  unfold FrameBuffer.attachTexture at h ⊢
  by_cases h1 : fb.width = 0 ∨ fb.height = 0
  · simp [h1] at h
  by_cases h2 : (fb.tex_ids.length : Int) = fb.max_color_attachments
  · simp [h1, h2] at h
  cases hl : texLayout iformat (GL_COLOR_ATTACHMENT0 + fb.tex_ids.length) filter with
  | none => simp [h1, h2, hl] at h
  | some l =>
    cases hb : writeBuffer fb.buffers fb.tex_ids.length l.attachment with
    | none => simp [h1, h2, hl, hb] at h
    | some bs =>
      refine ⟨l, bs, h1, h2, rfl, hb, ?_⟩
      simp [h1, h2, hb, GLContext.genTexture]

theorem attachTexture_ok_tex_ids (fb : FrameBuffer) (gl : GLContext) (iformat : Nat)
    (filter : Int) (h : (fb.attachTexture gl iformat filter).result = Outcome.ok) :
    (fb.attachTexture gl iformat filter).st.tex_ids = fb.tex_ids ++ [gl.nextTexture] ∧
    (fb.attachTexture gl iformat filter).gl.nextTexture = gl.nextTexture + 1 ∧
    ∃ rest, (fb.attachTexture gl iformat filter).gl.log =
      gl.log ++ GLCall.GenTextures gl.nextTexture :: rest := by
  obtain ⟨l, bs, -, -, -, -, heq⟩ := attachTexture_ok_inv fb gl iformat filter h
  rw [heq]
  exact ⟨rfl, rfl, textureCommands fb iformat l gl.nextTexture,
    by simp [GLContext.calls, GLContext.genTexture]⟩

theorem attachTextures_append (xs ys : List (Nat × Int)) (fb : FrameBuffer)
    (gl : GLContext) :
    attachTextures fb gl (xs ++ ys) =
      ((attachTextures fb gl xs).1 ++
        (attachTextures (attachTextures fb gl xs).2.1 (attachTextures fb gl xs).2.2 ys).1,
       (attachTextures (attachTextures fb gl xs).2.1 (attachTextures fb gl xs).2.2 ys).2.1,
       (attachTextures (attachTextures fb gl xs).2.1 (attachTextures fb gl xs).2.2 ys).2.2) := by
  induction xs generalizing fb gl with
  | nil => simp [attachTextures]
  | cons c xs ih =>
    obtain ⟨f, flt⟩ := c
    simp [attachTextures, ih]

theorem attachTextures_all_ok (calls : List (Nat × Int)) (fb : FrameBuffer)
    (gl : GLContext) (hok : ∀ o ∈ (attachTextures fb gl calls).1, o = Outcome.ok) :
    (attachTextures fb gl calls).2.1.tex_ids =
      fb.tex_ids ++ (List.range calls.length).map (fun j => gl.nextTexture + j) ∧
    (attachTextures fb gl calls).2.2.nextTexture = gl.nextTexture + calls.length := by
  induction calls generalizing fb gl with
  | nil => simp [attachTextures]
  | cons c rest ih =>
    obtain ⟨f, flt⟩ := c
    simp only [attachTextures, List.mem_cons, forall_eq_or_imp] at hok ⊢
    obtain ⟨h1, h2⟩ := hok
    obtain ⟨ht, hn, -⟩ := attachTexture_ok_tex_ids fb gl f flt h1
    obtain ⟨iht, ihn⟩ := ih _ _ h2
    rw [iht, ihn, ht, hn]
    refine ⟨?_, by simp only [List.length_cons]; omega⟩
    rw [List.length_cons, List.range_succ_eq_map]
    simp [List.map_map, Function.comp_def, Nat.add_assoc, Nat.add_comm 1]

/-! ## Lemmas on `bindInput()` -/

theorem foldl_call_log (f : Nat → List GLCall) (n : Nat) (gl : GLContext) :
    ((List.range n).foldl (fun g i => g.calls (f i)) gl) =
      gl.calls ((List.range n).flatMap f) := by
  induction n with
  | zero => simp [GLContext.calls]
  | succ n ih =>
    rw [List.range_succ, List.foldl_append, ih]
    simp [GLContext.calls, List.flatMap_append]

theorem bindInput_gl (fb : FrameBuffer) (gl : GLContext) :
    (fb.bindInput gl).gl = gl.calls (bindInputCommands fb.tex_ids) := by
  unfold FrameBuffer.bindInput bindInputCommands
  rw [← foldl_call_log]
  simp [GLContext.calls, GLContext.call]

theorem texUnitsAfter_append (xs ys : List GLCall) :
    texUnitsAfter (xs ++ ys) = ys.foldl TexUnits.step (texUnitsAfter xs) := by
  simp [texUnitsAfter, List.foldl_append]

theorem bindInput_units (ids : List Nat) (n : Nat) (hn : n ≤ ids.length) (s : TexUnits) :
    ∀ i, i < n →
      (((List.range n).flatMap
        (fun i => [GLCall.ActiveTexture (GL_TEXTURE0 + i),
          GLCall.BindTexture GL_TEXTURE_2D (ids[i]?.getD 0)])).foldl TexUnits.step s).bound
        (GL_TEXTURE0 + i) GL_TEXTURE_2D = ids[i]?.getD 0 := by
  induction n with
  | zero => intro i hi; omega
  | succ n ih =>
    intro i hi
    rw [List.range_succ, List.flatMap_append, List.foldl_append]
    simp only [List.flatMap_cons, List.flatMap_nil, List.append_nil, List.foldl_cons,
      List.foldl_nil, TexUnits.step]
    by_cases hin : i = n
    · subst hin; simp
    · have hlt : i < n := by omega
      have := ih (by omega) i hlt
      simp [hin, this]

/-! ## C1 -/

/-- C1: on a FrameBuffer that holds no texture yet (freshly constructed), after any sequence of
successful `attachTexture` calls the texture created by call number `k` (counted from 0; the
name its `glGenTextures` returned) is stored at index `k` of `tex_ids`, the list has one entry
per call, and `bindInput()` issues `glActiveTexture(GL_TEXTURE0 + i)`,
`glBindTexture(GL_TEXTURE_2D, tex_ids[i])` for `i = 0, 1, ...` in order, after which texture
unit `GL_TEXTURE0 + i` has `tex_ids[i]` bound to `GL_TEXTURE_2D` for every `i` below the
number of calls. -/
theorem C1_attach_order_bindInput (fb0 : FrameBuffer) (gl0 : GLContext)
    (calls : List (Nat × Int)) (hfresh : fb0.tex_ids = [])
    (hok : ∀ o ∈ (attachTextures fb0 gl0 calls).1, o = Outcome.ok) :
    (attachTextures fb0 gl0 calls).2.1.tex_ids.length = calls.length ∧
    (∀ k c, calls[k]? = some c →
      ∃ t rest,
        ((attachTextures fb0 gl0 (calls.take k)).2.1.attachTexture
            (attachTextures fb0 gl0 (calls.take k)).2.2 c.1 c.2).gl.log =
          (attachTextures fb0 gl0 (calls.take k)).2.2.log ++ GLCall.GenTextures t :: rest ∧
        (attachTextures fb0 gl0 calls).2.1.tex_ids[k]? = some t) ∧
    ((attachTextures fb0 gl0 calls).2.1.bindInput (attachTextures fb0 gl0 calls).2.2).gl.log =
      (attachTextures fb0 gl0 calls).2.2.log ++
        (List.range calls.length).flatMap (fun i =>
          [GLCall.ActiveTexture (GL_TEXTURE0 + i),
           GLCall.BindTexture GL_TEXTURE_2D
             ((attachTextures fb0 gl0 calls).2.1.tex_ids[i]?.getD 0)]) ∧
    (∀ i, i < calls.length →
      ∃ t, (attachTextures fb0 gl0 calls).2.1.tex_ids[i]? = some t ∧
        (texUnitsAfter
          ((attachTextures fb0 gl0 calls).2.1.bindInput
            (attachTextures fb0 gl0 calls).2.2).gl.log).bound (GL_TEXTURE0 + i) GL_TEXTURE_2D
          = t) := by
  obtain ⟨hids, -⟩ := attachTextures_all_ok calls fb0 gl0 hok
  rw [hfresh, List.nil_append] at hids
  have hlen : (attachTextures fb0 gl0 calls).2.1.tex_ids.length = calls.length := by
    rw [hids]; simp
  refine ⟨hlen, ?_, ?_, ?_⟩
  · intro k c hk
    have hklt : k < calls.length := by
      rcases Nat.lt_or_ge k calls.length with h | h
      · exact h
      · rw [List.getElem?_eq_none h] at hk; cases hk
    have hc : calls[k] = c := by
      rw [List.getElem?_eq_getElem hklt] at hk; exact Option.some.inj hk
    have hex : ∃ pre post, calls = pre ++ c :: post ∧ pre = calls.take k :=
      ⟨calls.take k, calls.drop (k + 1), by
        rw [← hc, ← List.drop_eq_getElem_cons hklt, List.take_append_drop], rfl⟩
    obtain ⟨pre, post, hsplit, hpre⟩ := hex
    have hprelen : pre.length = k := by
      rw [hpre, List.length_take]; omega
    rw [← hpre]
    have hok2 := hok
    rw [hsplit, attachTextures_append] at hok2
    have hokA : ∀ o ∈ (attachTextures fb0 gl0 pre).1, o = Outcome.ok :=
      fun o ho => hok2 o (List.mem_append_left _ ho)
    have hokStep : ((attachTextures fb0 gl0 pre).2.1.attachTexture
        (attachTextures fb0 gl0 pre).2.2 c.1 c.2).result = Outcome.ok := by
      apply hok2
      apply List.mem_append_right
      obtain ⟨f, flt⟩ := c
      simp [attachTextures]
    obtain ⟨-, hnext⟩ := attachTextures_all_ok pre fb0 gl0 hokA
    obtain ⟨-, -, rest, hlog⟩ := attachTexture_ok_tex_ids _ _ c.1 c.2 hokStep
    refine ⟨_, rest, hlog, ?_⟩
    rw [hids, hnext, hprelen]
    simp [hklt]
  · rw [bindInput_gl]
    simp only [GLContext.calls, bindInputCommands, hlen]
  · intro i hi
    refine ⟨(attachTextures fb0 gl0 calls).2.1.tex_ids[i]?.getD 0, ?_, ?_⟩
    · rw [List.getElem?_eq_getElem (by omega)]; simp
    · rw [bindInput_gl]
      simp only [GLContext.calls, bindInputCommands]
      rw [texUnitsAfter_append]
      exact bindInput_units _ _ (Nat.le_refl _) _ i (by omega)

/-- C1 witness: a 512x512 target on a context with eight colour attachments, three textures
attached (RGBA32F, RGBA16F, RGBA8). -/
theorem C1_attach_order_bindInput_witness :
    (attachTextures (FrameBuffer.newSized (GLContext.fresh 8) 512 512).1
        (FrameBuffer.newSized (GLContext.fresh 8) 512 512).2
        [(GL_RGBA32F, 0x2601), (GL_RGBA16F, 0x2601), (GL_RGBA8, 0x2600)]).2.1.tex_ids
      = [1, 2, 3] ∧
    (attachTextures (FrameBuffer.newSized (GLContext.fresh 8) 512 512).1
        (FrameBuffer.newSized (GLContext.fresh 8) 512 512).2
        [(GL_RGBA32F, 0x2601), (GL_RGBA16F, 0x2601), (GL_RGBA8, 0x2600)]).2.1.tex_ids.length
      = 3 := by
  refine ⟨by decide, ?_⟩
  exact (C1_attach_order_bindInput (FrameBuffer.newSized (GLContext.fresh 8) 512 512).1
    (FrameBuffer.newSized (GLContext.fresh 8) 512 512).2
    [(GL_RGBA32F, 0x2601), (GL_RGBA16F, 0x2601), (GL_RGBA8, 0x2600)] (by decide)
    (by decide)).1

/-! ## C2, C3, C4: failures of the attach methods -/

theorem texLayout_none_of_not_mem (iformat attachment : Nat) (filter : Int)
    (h : iformat ∉ recognizedTextureFormats) : texLayout iformat attachment filter = none := by
  simp only [recognizedTextureFormats, List.mem_cons, List.mem_singleton, List.not_mem_nil,
    or_false, not_or] at h
  unfold texLayout
  simp only [h, or_self, if_false]

theorem texLayout_isSome_indep (iformat attachment : Nat) (filter : Int) :
    (texLayout iformat attachment filter).isSome = (texLayout iformat 0 0).isSome := by
  unfold texLayout
  by_cases h0 : iformat = GL_RGBA16F ∨ iformat = GL_RGBA32F
  · rw [if_pos h0, if_pos h0]; rfl
  rw [if_neg h0, if_neg h0]
  by_cases h1 : iformat = GL_RGB16F ∨ iformat = GL_RGB32F
  · rw [if_pos h1, if_pos h1]; rfl
  rw [if_neg h1, if_neg h1]
  by_cases h2 : iformat = GL_LUMINANCE16_ALPHA16
  · rw [if_pos h2, if_pos h2]; rfl
  rw [if_neg h2, if_neg h2]
  by_cases h3 : iformat = GL_LUMINANCE16
  · rw [if_pos h3, if_pos h3]; rfl
  rw [if_neg h3, if_neg h3]
  by_cases h4 : iformat = GL_RGBA8 ∨ iformat = GL_RGBA ∨ iformat = 4
  · rw [if_pos h4, if_pos h4]; rfl
  rw [if_neg h4, if_neg h4]
  by_cases h5 : iformat = GL_RGB8 ∨ iformat = GL_RGB ∨ iformat = 3
  · rw [if_pos h5, if_pos h5]; rfl
  rw [if_neg h5, if_neg h5]
  by_cases h6 : iformat = GL_LUMINANCE8_ALPHA8 ∨ iformat = GL_LUMINANCE_ALPHA ∨ iformat = 2
  · rw [if_pos h6, if_pos h6]; rfl
  rw [if_neg h6, if_neg h6]
  by_cases h7 : iformat = GL_LUMINANCE8 ∨ iformat = GL_LUMINANCE16 ∨ iformat = GL_LUMINANCE ∨ iformat = 1
  · rw [if_pos h7, if_pos h7]; rfl
  rw [if_neg h7, if_neg h7]
  by_cases h8 : iformat = GL_DEPTH_COMPONENT24 ∨ iformat = GL_DEPTH_COMPONENT
  · rw [if_pos h8, if_pos h8]
  rw [if_neg h8, if_neg h8]
  by_cases h9 : iformat = GL_STENCIL_INDEX1 ∨ iformat = GL_STENCIL_INDEX4 ∨ iformat = GL_STENCIL_INDEX8 ∨
      iformat = GL_STENCIL_INDEX16 ∨ iformat = GL_STENCIL_INDEX
  · rw [if_pos h9, if_pos h9]
  rw [if_neg h9, if_neg h9]
  by_cases h10 : iformat = GL_DEPTH24_STENCIL8 ∨ iformat = GL_DEPTH_STENCIL
  · rw [if_pos h10, if_pos h10]
  rw [if_neg h10, if_neg h10]
  by_cases h11 : iformat = GL_TEXTURE_2D_MULTISAMPLE
  · rw [if_pos h11, if_pos h11]; rfl
  rw [if_neg h11, if_neg h11]

theorem texLayout_some_of_mem (iformat attachment : Nat) (filter : Int)
    (h : iformat ∈ recognizedTextureFormats) :
    texLayout iformat attachment filter ≠ none := by
  have key : (texLayout iformat 0 0).isSome = true := by
    simp only [recognizedTextureFormats, List.mem_cons, List.mem_singleton, List.not_mem_nil,
      or_false] at h
    rcases h with rfl | rfl | rfl | rfl | rfl | rfl | rfl | rfl | rfl | rfl | rfl | rfl | rfl | rfl | rfl | rfl | rfl | rfl | rfl | rfl | rfl | rfl | rfl | rfl | rfl | rfl | rfl | rfl <;> decide
  intro hc
  have hi := texLayout_isSome_indep iformat attachment filter
  rw [hc, key] at hi
  cases hi

theorem texLayout_none_iff (iformat attachment : Nat) (filter : Int) :
    texLayout iformat attachment filter = none ↔ iformat ∉ recognizedTextureFormats :=
  ⟨fun hn hmem => texLayout_some_of_mem iformat attachment filter hmem hn,
   texLayout_none_of_not_mem iformat attachment filter⟩

theorem renderAttachment_none_iff (iformat : Nat) :
    renderAttachment iformat = none ↔
      iformat ∉ depthFormats ∧ iformat ∉ stencilFormats ∧ iformat ∉ depthStencilFormats := by
  constructor
  · intro hn
    by_contra hmem
    have hm : iformat ∈ depthFormats ++ stencilFormats ++ depthStencilFormats := by
      simp only [List.mem_append]; tauto
    simp only [depthFormats, stencilFormats, depthStencilFormats, List.cons_append,
      List.nil_append, List.mem_cons, List.mem_singleton, List.not_mem_nil, or_false] at hm
    revert hn
    rcases hm with rfl | rfl | rfl | rfl | rfl | rfl | rfl | rfl | rfl <;> decide
  · intro h
    simp only [depthFormats, stencilFormats, depthStencilFormats, List.mem_cons,
      List.mem_singleton, List.not_mem_nil, or_false, not_or] at h
    unfold renderAttachment
    simp only [h, or_self, if_false]

/-- C2: on a FrameBuffer with nonzero dimensions that already holds `max_color_attachments`
textures, `attachTexture` with any format and filter throws `out_of_range`, issues no OpenGL
command (no texture is generated) and leaves every member, the texture list included,
unchanged. -/
theorem C2_attachTexture_capacity (fb : FrameBuffer) (gl : GLContext) (iformat : Nat)
    (filter : Int) (hw : fb.width ≠ 0) (hh : fb.height ≠ 0)
    (hfull : (fb.tex_ids.length : Int) = fb.max_color_attachments) :
    (fb.attachTexture gl iformat filter).result = Outcome.threw Exn.out_of_range ∧
    (fb.attachTexture gl iformat filter).st = fb ∧
    (fb.attachTexture gl iformat filter).gl = gl := by
  simp [FrameBuffer.attachTexture, hw, hh, hfull]

/-- C2 witness: a 4x4 target on a context with two colour attachments, both already used. -/
theorem C2_attachTexture_capacity_witness :
    ((attachTextures (FrameBuffer.newSized (GLContext.fresh 2) 4 4).1
        (FrameBuffer.newSized (GLContext.fresh 2) 4 4).2
        [(GL_RGBA8, 0x2601), (GL_RGBA8, 0x2601)]).2.1.attachTexture
      (attachTextures (FrameBuffer.newSized (GLContext.fresh 2) 4 4).1
        (FrameBuffer.newSized (GLContext.fresh 2) 4 4).2
        [(GL_RGBA8, 0x2601), (GL_RGBA8, 0x2601)]).2.2 GL_RGBA8 0x2601).result
      = Outcome.threw Exn.out_of_range :=
  (C2_attachTexture_capacity
    (attachTextures (FrameBuffer.newSized (GLContext.fresh 2) 4 4).1
      (FrameBuffer.newSized (GLContext.fresh 2) 4 4).2
      [(GL_RGBA8, 0x2601), (GL_RGBA8, 0x2601)]).2.1
    (attachTextures (FrameBuffer.newSized (GLContext.fresh 2) 4 4).1
      (FrameBuffer.newSized (GLContext.fresh 2) 4 4).2
      [(GL_RGBA8, 0x2601), (GL_RGBA8, 0x2601)]).2.2
    GL_RGBA8 0x2601 (by decide) (by decide) (by decide)).1

/-- C3: on a FrameBuffer whose width or height is 0, `attachRender` and `attachTexture` with
any arguments throw `domain_error`, issue no OpenGL command (no renderbuffer or texture is
generated) and leave the object unchanged. -/
theorem C3_zero_dimension (fb : FrameBuffer) (gl : GLContext) (iformat : Nat) (filter : Int)
    (multisample : Bool) (h0 : fb.width = 0 ∨ fb.height = 0) :
    ((fb.attachRender gl iformat multisample).result = Outcome.threw Exn.domain_error ∧
      (fb.attachRender gl iformat multisample).st = fb ∧
      (fb.attachRender gl iformat multisample).gl = gl) ∧
    ((fb.attachTexture gl iformat filter).result = Outcome.threw Exn.domain_error ∧
      (fb.attachTexture gl iformat filter).st = fb ∧
      (fb.attachTexture gl iformat filter).gl = gl) := by
  simp [FrameBuffer.attachRender, FrameBuffer.attachTexture, h0]

/-- C3 witness: the default-constructed FrameBuffer, before any `setSize`. -/
theorem C3_zero_dimension_witness :
    (FrameBuffer.new (GLContext.fresh 8)).1.width = 0 ∧
    ((FrameBuffer.new (GLContext.fresh 8)).1.attachRender (FrameBuffer.new (GLContext.fresh 8)).2
      GL_DEPTH_COMPONENT24 false).result = Outcome.threw Exn.domain_error ∧
    ((FrameBuffer.new (GLContext.fresh 8)).1.attachTexture (FrameBuffer.new (GLContext.fresh 8)).2
      GL_RGBA32F 0x2601).result = Outcome.threw Exn.domain_error :=
  ⟨by decide,
   (C3_zero_dimension (FrameBuffer.new (GLContext.fresh 8)).1
      (FrameBuffer.new (GLContext.fresh 8)).2 GL_DEPTH_COMPONENT24 0x2601 false
      (Or.inl (by decide))).1.1,
   (C3_zero_dimension (FrameBuffer.new (GLContext.fresh 8)).1
      (FrameBuffer.new (GLContext.fresh 8)).2 GL_RGBA32F 0x2601 false
      (Or.inl (by decide))).2.1⟩

/-- C4: with nonzero dimensions and fewer than `max_color_attachments` textures attached,
`attachTexture` throws `invalid_argument` exactly when the internal format is outside
`recognizedTextureFormats`; with nonzero dimensions `attachRender` throws `invalid_argument`
exactly when the internal format is in none of `depthFormats`, `stencilFormats`,
`depthStencilFormats`.  In each such failure no OpenGL command is issued and the object (texture
list, draw-buffer array, depth and stencil handles) is unchanged. -/
theorem C4_format_error (fb : FrameBuffer) (gl : GLContext) (iformat : Nat) (filter : Int)
    (multisample : Bool) (hw : fb.width ≠ 0) (hh : fb.height ≠ 0) :
    ((fb.tex_ids.length : Int) < fb.max_color_attachments →
      (((fb.attachTexture gl iformat filter).result = Outcome.threw Exn.invalid_argument ↔
          iformat ∉ recognizedTextureFormats) ∧
       ((fb.attachTexture gl iformat filter).result = Outcome.threw Exn.invalid_argument →
          (fb.attachTexture gl iformat filter).st = fb ∧
          (fb.attachTexture gl iformat filter).gl = gl))) ∧
    (((fb.attachRender gl iformat multisample).result = Outcome.threw Exn.invalid_argument ↔
        (iformat ∉ depthFormats ∧ iformat ∉ stencilFormats ∧ iformat ∉ depthStencilFormats)) ∧
     ((fb.attachRender gl iformat multisample).result = Outcome.threw Exn.invalid_argument →
        (fb.attachRender gl iformat multisample).st = fb ∧
        (fb.attachRender gl iformat multisample).gl = gl)) := by
  have hdim : ¬ (fb.width = 0 ∨ fb.height = 0) := by simp [hw, hh]
  constructor
  · intro hlt
    have hne : ¬ ((fb.tex_ids.length : Int) = fb.max_color_attachments) := by omega
    rw [← texLayout_none_iff iformat (GL_COLOR_ATTACHMENT0 + fb.tex_ids.length) filter]
    unfold FrameBuffer.attachTexture
    simp only [hdim, hne, if_false]
    cases texLayout iformat (GL_COLOR_ATTACHMENT0 + fb.tex_ids.length) filter with
    | none => simp
    | some l =>
      simp only
      split <;> simp
  · rw [← renderAttachment_none_iff iformat]
    unfold FrameBuffer.attachRender
    simp only [hdim, if_false]
    cases renderAttachment iformat with
    | none => simp
    | some a =>
      simp only
      split_ifs <;> simp

/-- C4 witness: a 512x512 target with no texture yet on a context with eight colour
attachments; the format `0` is not recognized by either method. -/
theorem C4_format_error_witness :
    ((FrameBuffer.newSized (GLContext.fresh 8) 512 512).1.attachTexture
        (FrameBuffer.newSized (GLContext.fresh 8) 512 512).2 0 0x2601).result
      = Outcome.threw Exn.invalid_argument ∧
    ((FrameBuffer.newSized (GLContext.fresh 8) 512 512).1.attachRender
        (FrameBuffer.newSized (GLContext.fresh 8) 512 512).2 0 false).result
      = Outcome.threw Exn.invalid_argument :=
  ⟨((C4_format_error (FrameBuffer.newSized (GLContext.fresh 8) 512 512).1
      (FrameBuffer.newSized (GLContext.fresh 8) 512 512).2 0 0x2601 false
      (by decide) (by decide)).1 (by decide)).1.2 (by decide),
   (C4_format_error (FrameBuffer.newSized (GLContext.fresh 8) 512 512).1
      (FrameBuffer.newSized (GLContext.fresh 8) 512 512).2 0 0x2601 false
      (by decide) (by decide)).2.1.2 (by decide)⟩

/-! ## C5, C6: binding as draw target -/

theorem color_not_special : ∀ iformat ∈ colorTextureFormats,
    ¬ (iformat = GL_DEPTH_COMPONENT24 ∨ iformat = GL_DEPTH_COMPONENT) ∧
    ¬ (iformat = GL_STENCIL_INDEX1 ∨ iformat = GL_STENCIL_INDEX4 ∨ iformat = GL_STENCIL_INDEX8 ∨
      iformat = GL_STENCIL_INDEX16 ∨ iformat = GL_STENCIL_INDEX) ∧
    ¬ (iformat = GL_DEPTH24_STENCIL8 ∨ iformat = GL_DEPTH_STENCIL) ∧
    ¬ (iformat = GL_TEXTURE_2D_MULTISAMPLE) ∧ True := by
  decide

theorem texLayout_color_attachment (iformat attachment : Nat) (filter : Int) (l : TexLayout)
    (hmem : iformat ∈ colorTextureFormats) :
    texLayout iformat attachment filter = some l → l.attachment = attachment := by
  have hd := color_not_special iformat hmem
  unfold texLayout
  by_cases h0 : iformat = GL_RGBA16F ∨ iformat = GL_RGBA32F
  · rw [if_pos h0]; intro h; cases h; rfl
  rw [if_neg h0]
  by_cases h1 : iformat = GL_RGB16F ∨ iformat = GL_RGB32F
  · rw [if_pos h1]; intro h; cases h; rfl
  rw [if_neg h1]
  by_cases h2 : iformat = GL_LUMINANCE16_ALPHA16
  · rw [if_pos h2]; intro h; cases h; rfl
  rw [if_neg h2]
  by_cases h3 : iformat = GL_LUMINANCE16
  · rw [if_pos h3]; intro h; cases h; rfl
  rw [if_neg h3]
  by_cases h4 : iformat = GL_RGBA8 ∨ iformat = GL_RGBA ∨ iformat = 4
  · rw [if_pos h4]; intro h; cases h; rfl
  rw [if_neg h4]
  by_cases h5 : iformat = GL_RGB8 ∨ iformat = GL_RGB ∨ iformat = 3
  · rw [if_pos h5]; intro h; cases h; rfl
  rw [if_neg h5]
  by_cases h6 : iformat = GL_LUMINANCE8_ALPHA8 ∨ iformat = GL_LUMINANCE_ALPHA ∨ iformat = 2
  · rw [if_pos h6]; intro h; cases h; rfl
  rw [if_neg h6]
  by_cases h7 : iformat = GL_LUMINANCE8 ∨ iformat = GL_LUMINANCE16 ∨ iformat = GL_LUMINANCE ∨ iformat = 1
  · rw [if_pos h7]; intro h; cases h; rfl
  rw [if_neg h7]
  by_cases h8 : iformat = GL_DEPTH_COMPONENT24 ∨ iformat = GL_DEPTH_COMPONENT
  · exact absurd h8 (hd.1)
  rw [if_neg h8]
  by_cases h9 : iformat = GL_STENCIL_INDEX1 ∨ iformat = GL_STENCIL_INDEX4 ∨ iformat = GL_STENCIL_INDEX8 ∨
      iformat = GL_STENCIL_INDEX16 ∨ iformat = GL_STENCIL_INDEX
  · exact absurd h9 (hd.2.1)
  rw [if_neg h9]
  by_cases h10 : iformat = GL_DEPTH24_STENCIL8 ∨ iformat = GL_DEPTH_STENCIL
  · exact absurd h10 (hd.2.2.1)
  rw [if_neg h10]
  by_cases h11 : iformat = GL_TEXTURE_2D_MULTISAMPLE
  · exact absurd h11 (hd.2.2.2.1)
  rw [if_neg h11]
  intro h; cases h

theorem writeBuffer_some (bs : List (Option Nat)) (i v : Nat) (r : List (Option Nat))
    (h : writeBuffer bs i v = some r) : i < bs.length ∧ r = bs.set i (some v) := by
  unfold writeBuffer at h
  split_ifs at h with hi
  exact ⟨hi, (Option.some.inj h).symm⟩

theorem attachTexture_color_buffers (fb : FrameBuffer) (gl : GLContext) (iformat : Nat)
    (filter : Int) (hc : iformat ∈ colorTextureFormats)
    (h : (fb.attachTexture gl iformat filter).result = Outcome.ok) :
    fb.tex_ids.length < fb.buffers.length ∧
    (fb.attachTexture gl iformat filter).st.buffers =
      fb.buffers.set fb.tex_ids.length (some (GL_COLOR_ATTACHMENT0 + fb.tex_ids.length)) ∧
    (fb.attachTexture gl iformat filter).st.tex_ids.length = fb.tex_ids.length + 1 ∧
    (fb.attachTexture gl iformat filter).st.frame_id = fb.frame_id := by
  obtain ⟨l, bs, -, -, hl, hb, heq⟩ := attachTexture_ok_inv fb gl iformat filter h
  have ha := texLayout_color_attachment iformat _ filter l hc hl
  obtain ⟨hlt, hbs⟩ := writeBuffer_some _ _ _ _ hb
  rw [heq]
  refine ⟨hlt, ?_, by simp, rfl⟩
  simp only [hbs, ha]

theorem attachTextures_color_buffers (calls : List (Nat × Int)) (fb : FrameBuffer)
    (gl : GLContext) (hok : ∀ o ∈ (attachTextures fb gl calls).1, o = Outcome.ok)
    (hcol : ∀ c ∈ calls, c.1 ∈ colorTextureFormats) :
    (attachTextures fb gl calls).2.1.tex_ids.length = fb.tex_ids.length + calls.length ∧
    (attachTextures fb gl calls).2.1.buffers.length = fb.buffers.length ∧
    (calls ≠ [] → fb.tex_ids.length + calls.length ≤ fb.buffers.length) ∧
    (attachTextures fb gl calls).2.1.frame_id = fb.frame_id ∧
    (∀ i, i < fb.tex_ids.length →
      (attachTextures fb gl calls).2.1.buffers[i]? = fb.buffers[i]?) ∧
    (∀ j, j < calls.length →
      (attachTextures fb gl calls).2.1.buffers[fb.tex_ids.length + j]? =
        some (some (GL_COLOR_ATTACHMENT0 + (fb.tex_ids.length + j)))) := by
  induction calls generalizing fb gl with
  | nil => simp [attachTextures]
  | cons c rest ih =>
    obtain ⟨f, flt⟩ := c
    simp only [attachTextures, List.mem_cons, forall_eq_or_imp] at hok hcol ⊢
    obtain ⟨h1, h2⟩ := hok
    obtain ⟨hc1, hc2⟩ := hcol
    obtain ⟨hlt, hbuf, hlen, hfid⟩ := attachTexture_color_buffers fb gl f flt hc1 h1
    obtain ⟨i1, i2, i3, i4, i5, i6⟩ := ih _ _ h2 hc2
    have hblen : (fb.attachTexture gl f flt).st.buffers.length = fb.buffers.length := by
      rw [hbuf]; simp
    refine ⟨by rw [i1, hlen]; simp only [List.length_cons]; omega, by rw [i2, hblen], ?_,
      by rw [i4, hfid], ?_, ?_⟩
    · intro _
      rw [hlen, hblen] at i3
      by_cases hr : rest = []
      · subst hr; simp only [List.length_cons, List.length_nil]; omega
      · have := i3 hr
        simp only [List.length_cons]; omega
    · intro i hi
      rw [i5 i (by omega), hbuf, List.getElem?_set_ne (by omega)]
    · intro j hj
      rcases Nat.eq_zero_or_pos j with h0 | hpos
      · subst h0
        rw [Nat.add_zero, i5 _ (by omega), hbuf, List.getElem?_set_self hlt]
      · have := i6 (j - 1) (by simp only [List.length_cons] at hj; omega)
        rw [hlen] at this
        have e : fb.tex_ids.length + 1 + (j - 1) = fb.tex_ids.length + j := by omega
        rw [e] at this
        exact this

theorem readBuffers_of_getElem (bs : List (Option Nat)) (n : Nat) (g : Nat → Nat)
    (hn : n ≤ bs.length) (h : ∀ i, i < n → bs[i]? = some (some (g i))) :
    readBuffers bs n = Except.ok ((List.range n).map g) := by
  have htake : bs.take n = (List.range n).map (fun i => some (g i)) := by
    apply List.ext_getElem?
    intro i
    rcases Nat.lt_or_ge i n with hi | hi
    · rw [List.getElem?_take_of_lt hi, h i hi]
      simp [List.getElem?_range hi]
    · rw [List.getElem?_eq_none (by simp; omega), List.getElem?_eq_none (by simp; omega)]
  unfold readBuffers
  rw [if_neg (by omega), htake]
  have hfm : List.filterMap id ((List.range n).map (fun i => some (g i))) =
      (List.range n).map g := by
    rw [List.filterMap_map]
    exact congrFun (List.filterMap_eq_map g) _
  simp [hfm]

theorem bindOutput_threw_iff (fb : FrameBuffer) (gl : GLContext) :
    (fb.bindOutput gl).result = Outcome.threw Exn.domain_error ↔ fb.tex_ids = [] := by
  unfold FrameBuffer.bindOutput
  by_cases he : fb.tex_ids = []
  · simp [he]
  · simp only [he, if_false, iff_false]
    split_ifs
    · split <;> simp
    · split <;> simp

/-- The colour case of `bindOutput()`: it throws `domain_error` exactly when no texture is
attached, and then does nothing else.  On a FrameBuffer built from a fresh one by `n >= 1`
successful `attachTexture` calls with colour formats it succeeds, leaves the object unchanged,
binds the framebuffer
(`glBindFramebuffer(GL_FRAMEBUFFER, frame_id)`) and then declares the colour attachment points
`GL_COLOR_ATTACHMENT0 + 0 .. GL_COLOR_ATTACHMENT0 + (n-1)` in index order: through
`glDrawBuffers(n, ...)`, or through `glDrawBuffer` on the single slot when `n = 1`.  In the
512x512 scenario with three colour textures it declares exactly the three points 0, 1, 2. -/
theorem bindOutput_color_outputs :
    (∀ (fb : FrameBuffer) (gl : GLContext),
      ((fb.bindOutput gl).result = Outcome.threw Exn.domain_error ↔ fb.tex_ids = []) ∧
      (fb.tex_ids = [] → (fb.bindOutput gl).st = fb ∧ (fb.bindOutput gl).gl = gl)) ∧
    (∀ (fb0 : FrameBuffer) (gl0 gl : GLContext) (calls : List (Nat × Int)),
      fb0.tex_ids = [] → calls ≠ [] →
      (∀ o ∈ (attachTextures fb0 gl0 calls).1, o = Outcome.ok) →
      (∀ c ∈ calls, c.1 ∈ colorTextureFormats) →
      ((attachTextures fb0 gl0 calls).2.1.bindOutput gl).result = Outcome.ok ∧
      ((attachTextures fb0 gl0 calls).2.1.bindOutput gl).st = (attachTextures fb0 gl0 calls).2.1 ∧
      ((attachTextures fb0 gl0 calls).2.1.bindOutput gl).gl.log =
        gl.log ++
          [GLCall.BindFramebuffer GL_FRAMEBUFFER fb0.frame_id,
           if calls.length = 1 then GLCall.DrawBuffer GL_COLOR_ATTACHMENT0
           else GLCall.DrawBuffers calls.length
             ((List.range calls.length).map (fun i => GL_COLOR_ATTACHMENT0 + i))]) ∧
    (scenario512.result = Outcome.ok ∧ scenario512.st.width = 512 ∧
      scenario512.st.height = 512 ∧ scenario512.st.tex_ids.length = 3 ∧
      (scenario512.st.bindOutput scenario512.gl).result = Outcome.ok ∧
      (scenario512.st.bindOutput scenario512.gl).gl.log =
        scenario512.gl.log ++
          [GLCall.BindFramebuffer GL_FRAMEBUFFER scenario512.st.frame_id,
           GLCall.DrawBuffers 3
             [GL_COLOR_ATTACHMENT0, GL_COLOR_ATTACHMENT0 + 1, GL_COLOR_ATTACHMENT0 + 2]]) := by
  refine ⟨fun fb gl => ⟨bindOutput_threw_iff fb gl, fun he => ?_⟩, ?_, by decide⟩
  · simp [FrameBuffer.bindOutput, he]
  · intro fb0 gl0 gl calls hfresh hne hok hcol
    obtain ⟨hlen, -, hcap, hfid, -, hbuf⟩ := attachTextures_color_buffers calls fb0 gl0 hok hcol
    rw [hfresh] at hlen hcap hbuf
    simp only [List.length_nil, Nat.zero_add] at hlen hcap hbuf
    have hcap2 := hcap hne
    have hpos : 0 < calls.length := List.length_pos.mpr hne
    have hne2 : (attachTextures fb0 gl0 calls).2.1.tex_ids ≠ [] := by
      intro h
      rw [h] at hlen
      simp at hlen
      omega
    unfold FrameBuffer.bindOutput
    simp only [hne2, if_false, hlen, hfid]
    by_cases h1 : calls.length = 1
    · have hb0 := hbuf 0 hpos
      have hr : readBuffer (attachTextures fb0 gl0 calls).2.1.buffers 0 =
          Except.ok GL_COLOR_ATTACHMENT0 := by
        unfold readBuffer
        simp [hb0]
      simp [h1, hr, GLContext.call]
    · have hr := readBuffers_of_getElem (attachTextures fb0 gl0 calls).2.1.buffers calls.length
        (fun i => GL_COLOR_ATTACHMENT0 + i)
        (by
          have := (attachTextures_color_buffers calls fb0 gl0 hok hcol).2.1
          omega) hbuf
      simp [h1, hr, GLContext.call]

/-- C5 (failing run): on the 512x512 target whose only texture is a depth texture
(`attachTexture(GL_DEPTH_COMPONENT24)`) a texture is attached, so `bindOutput()` does not
fail; it binds the framebuffer and declares `glDrawBuffer(GL_DEPTH_ATTACHMENT)`, although the
target holds no colour attachment: a depth attachment point is declared as the draw output.
After `attachTexture(GL_STENCIL_INDEX8)` and `attachTexture(GL_RGBA8)` the target holds one
colour attachment, and `bindOutput()` declares two outputs,
`glDrawBuffers(2, [GL_STENCIL_ATTACHMENT, GL_COLOR_ATTACHMENT0 + 1])`. -/
theorem C5_bindOutput_declares_depth_point :
    depthTexture512.result = Outcome.ok ∧ depthTexture512.st.tex_ids.length = 1 ∧
    colorAttachmentCount depthTexture512.st = 0 ∧
    (depthTexture512.st.bindOutput depthTexture512.gl).result = Outcome.ok ∧
    issued depthTexture512.gl (depthTexture512.st.bindOutput depthTexture512.gl).gl =
      [GLCall.BindFramebuffer GL_FRAMEBUFFER depthTexture512.st.frame_id,
       GLCall.DrawBuffer GL_DEPTH_ATTACHMENT] ∧
    isColorAttachmentPoint GL_DEPTH_ATTACHMENT = false ∧
    stencilThenColor512.result = Outcome.ok ∧ stencilThenColor512.st.tex_ids.length = 2 ∧
    colorAttachmentCount stencilThenColor512.st = 1 ∧
    (stencilThenColor512.st.bindOutput stencilThenColor512.gl).result = Outcome.ok ∧
    issued stencilThenColor512.gl
        (stencilThenColor512.st.bindOutput stencilThenColor512.gl).gl =
      [GLCall.BindFramebuffer GL_FRAMEBUFFER stencilThenColor512.st.frame_id,
       GLCall.DrawBuffers 2 [GL_STENCIL_ATTACHMENT, GL_COLOR_ATTACHMENT0 + 1]] ∧
    isColorAttachmentPoint GL_STENCIL_ATTACHMENT = false := by
  decide

/-! ## C6 -/

/-- C6 (failing input): on the 512x512 target holding one texture, index `-1` is not rejected
by any of the indexed bind methods.  The guard `num + 1 > int(tex_ids.size())` is `0 > 1`, so
no `out_of_range` is thrown: `bindOutput(-1)` binds the framebuffer and reads `buffers[-1]`,
`bindInput(-1)`, `bindTex(-1)` and `bindImage(0, -1, ...)` read `tex_ids[-1]`, all outside the
containers.  An index at or above the count (here `1`) is rejected by all of them. -/
theorem C6_negative_index_not_rejected :
    oneTexture512.result = Outcome.ok ∧ oneTexture512.st.tex_ids.length = 1 ∧
    (oneTexture512.st.bindOutput_num oneTexture512.gl (-1)).result =
      Outcome.undefined (Undefined.arrayIndex (-1)) ∧
    (oneTexture512.st.bindInput_num oneTexture512.gl (-1)).result =
      Outcome.undefined (Undefined.vectorIndex (-1)) ∧
    (oneTexture512.st.bindTex oneTexture512.gl (-1)).result =
      Outcome.undefined (Undefined.vectorIndex (-1)) ∧
    (oneTexture512.st.bindImage oneTexture512.gl 0 (-1) GL_RGBA32F GL_READ_WRITE).result =
      Outcome.undefined (Undefined.vectorIndex (-1)) ∧
    (oneTexture512.st.bindOutput_num oneTexture512.gl 1).result =
      Outcome.threw Exn.out_of_range ∧
    (oneTexture512.st.bindInput_num oneTexture512.gl 1).result =
      Outcome.threw Exn.out_of_range ∧
    (oneTexture512.st.bindImage oneTexture512.gl 0 1 GL_RGBA32F GL_READ_WRITE).result =
      Outcome.threw Exn.out_of_range := by
  decide

/-! ## Loops over the light grid -/

theorem foldl_range_invariant {σ : Type} (f : σ → Nat → σ) (P : Nat → σ → Prop) (n : Nat)
    (s : σ) (h0 : P 0 s) (hstep : ∀ i t, i < n → P i t → P (i + 1) (f t i)) :
    P n ((List.range n).foldl f s) := by
  induction n with
  | zero => simpa using h0
  | succ n ih =>
    rw [List.range_succ, List.foldl_append]
    simp only [List.foldl_cons, List.foldl_nil]
    exact hstep n _ (Nat.lt_succ_self n)
      (ih (fun i t hi hp => hstep i t (Nat.lt_succ_of_lt hi) hp))

/-- Invariant rule for the three nested loops over `x`, `z`, `y`: a property indexed by the
number of completed iterations holds at the end if each iteration, which is number
`gridIndex W H x z y`, carries it one step further. -/
theorem nested_range_invariant {σ : Type} (W H : Nat) (body : σ → Nat → Nat → Nat → σ)
    (Q : Nat → σ → Prop) (s : σ) (h0 : Q 0 s)
    (hstep : ∀ x z y t, x < W → z < W → y < H →
      Q (gridIndex W H x z y) t → Q (gridIndex W H x z y + 1) (body t x z y)) :
    Q (W * W * H)
      ((List.range W).foldl
        (fun sx x => (List.range W).foldl
          (fun sz z => (List.range H).foldl (fun sy y => body sy x z y) sz) sx) s) := by
  have hx := foldl_range_invariant
    (fun sx x => (List.range W).foldl
      (fun sz z => (List.range H).foldl (fun sy y => body sy x z y) sz) sx)
    (fun x t => Q (gridIndex W H x 0 0) t) W s (by simpa [gridIndex] using h0)
    (by
      intro x t hxlt hq
      have hz := foldl_range_invariant
        (fun sz z => (List.range H).foldl (fun sy y => body sy x z y) sz)
        (fun z t => Q (gridIndex W H x z 0) t) W t hq
        (by
          intro z t2 hzlt hq2
          have hy := foldl_range_invariant (fun sy y => body sy x z y)
            (fun y t => Q (gridIndex W H x z y) t) H t2 hq2
            (by
              intro y t3 hylt hq3
              exact hstep x z y t3 hxlt hzlt hylt hq3)
          have e : gridIndex W H x (z + 1) 0 = gridIndex W H x z H := by
            unfold gridIndex; ring
          show Q (gridIndex W H x (z + 1) 0) _
          rw [e]; exact hy)
      have e : gridIndex W H (x + 1) 0 0 = gridIndex W H x W 0 := by
        unfold gridIndex; ring
      show Q (gridIndex W H (x + 1) 0 0) _
      rw [e]; exact hz)
  have e : W * W * H = gridIndex W H W 0 0 := by unfold gridIndex; ring
  rw [e]; exact hx

/-! ## C7 -/

theorem gridIndex_lt (W H x z y : Nat) (hx : x < W) (hz : z < W) (hy : y < H) :
    gridIndex W H x z y < W * W * H := by
  unfold gridIndex
  have h1 : x * W * H + z * H + y < x * W * H + z * H + H := by omega
  have h2 : x * W * H + z * H + H = (x * W + (z + 1)) * H := by ring
  have h3 : x * W + (z + 1) ≤ x * W + W := by omega
  have h4 : x * W + W = (x + 1) * W := by ring
  have h5 : (x + 1) * W ≤ W * W := Nat.mul_le_mul_right W hx
  calc x * W * H + z * H + y < (x * W + (z + 1)) * H := by omega
    _ ≤ (W * W) * H := Nat.mul_le_mul_right H (by omega)

theorem gridIndex_decode (W H x z y : Nat) (hz : z < W) (hy : y < H) :
    gridIndex W H x z y % H = y ∧ gridIndex W H x z y / H % W = z ∧
    gridIndex W H x z y / H / W = x := by
  have hH : 0 < H := by omega
  have hW : 0 < W := by omega
  have e : gridIndex W H x z y = y + H * (z + W * x) := by unfold gridIndex; ring
  have hdiv : gridIndex W H x z y / H = z + W * x := by
    rw [e, Nat.add_mul_div_left _ _ hH, Nat.div_eq_of_lt hy, Nat.zero_add]
  refine ⟨?_, ?_, ?_⟩
  · rw [e, Nat.add_mul_mod_self_left, Nat.mod_eq_of_lt hy]
  · rw [hdiv, Nat.add_mul_mod_self_left, Nat.mod_eq_of_lt hz]
  · rw [hdiv, Nat.add_mul_div_left _ _ hW, Nat.div_eq_of_lt hz, Nat.zero_add]

theorem gridIndex_injective (W H x z y x2 z2 y2 : Nat) (hz : z < W) (hy : y < H)
    (hz2 : z2 < W) (hy2 : y2 < H) (h : gridIndex W H x z y = gridIndex W H x2 z2 y2) :
    x = x2 ∧ z = z2 ∧ y = y2 := by
  obtain ⟨a1, a2, a3⟩ := gridIndex_decode W H x z y hz hy
  obtain ⟨b1, b2, b3⟩ := gridIndex_decode W H x2 z2 y2 hz2 hy2
  rw [h] at a1 a2 a3
  exact ⟨a3.symm.trans b3, a2.symm.trans b2, a1.symm.trans b1⟩

theorem gridIndex_surjective (W H i : Nat) (hi : i < W * W * H) :
    ∃ x z y, x < W ∧ z < W ∧ y < H ∧ gridIndex W H x z y = i := by
  have hH : 0 < H := by
    rcases Nat.eq_zero_or_pos H with h | h
    · subst h; simp at hi
    · exact h
  have hW : 0 < W := by
    rcases Nat.eq_zero_or_pos W with h | h
    · subst h; simp at hi
    · exact h
  refine ⟨i / H / W, i / H % W, i % H, ?_, Nat.mod_lt _ hW, Nat.mod_lt _ hH, ?_⟩
  · rw [Nat.div_div_eq_div_mul, Nat.div_lt_iff_lt_mul (by positivity)]
    calc i < W * W * H := hi
      _ = W * (H * W) := by ring
  · unfold gridIndex
    have h1 := Nat.div_add_mod (i / H) W
    have h2 := Nat.div_add_mod i H
    calc i / H / W * W * H + i / H % W * H + i % H
        = H * (W * (i / H / W) + i / H % W) + i % H := by ring
      _ = i := by rw [h1, h2]

/-- C7: for all grid sizes `W` and `H` the index map `(x, z, y) -> x*W*H + z*H + y` is a
bijection from the grid `{0..W-1} x {0..W-1} x {0..H-1}` onto `{0..W*W*H-1}`; for the
program's `LIGHT_GRID_WIDTH = 5` and `LIGHT_GRID_HEIGHT = 4` it is a bijection onto
`{0..99}`. -/
theorem C7_gridIndex_bijection :
    (∀ W H : Nat,
      Set.BijOn (fun p : Nat × Nat × Nat => gridIndex W H p.1 p.2.1 p.2.2)
        {p | p.1 < W ∧ p.2.1 < W ∧ p.2.2 < H} {i | i < W * W * H}) ∧
    Set.BijOn
      (fun p : Nat × Nat × Nat => gridIndex LIGHT_GRID_WIDTH LIGHT_GRID_HEIGHT p.1 p.2.1 p.2.2)
      {p | p.1 < 5 ∧ p.2.1 < 5 ∧ p.2.2 < 4} {i | i < 100} := by
  have key : ∀ W H : Nat,
      Set.BijOn (fun p : Nat × Nat × Nat => gridIndex W H p.1 p.2.1 p.2.2)
        {p | p.1 < W ∧ p.2.1 < W ∧ p.2.2 < H} {i | i < W * W * H} := by
    intro W H
    refine ⟨?_, ?_, ?_⟩
    · rintro ⟨x, z, y⟩ ⟨hx, hz, hy⟩
      exact gridIndex_lt W H x z y hx hz hy
    · rintro ⟨x, z, y⟩ ⟨-, hz, hy⟩ ⟨x2, z2, y2⟩ ⟨-, hz2, hy2⟩ h
      obtain ⟨e1, e2, e3⟩ := gridIndex_injective W H x z y x2 z2 y2 hz hy hz2 hy2 h
      subst e1 e2 e3
      rfl
    · intro i hi
      obtain ⟨x, z, y, hx, hz, hy, h⟩ := gridIndex_surjective W H i hi
      exact ⟨(x, z, y), ⟨hx, hz, hy⟩, h⟩
  exact ⟨key, key 5 4⟩

/-! ## C8: layout of the generated sequences -/

set_option maxRecDepth 10000 in
theorem configureLoops_spec (C : CLib) (radius separation yOffset : FloatVal) :
    (configurePointLights C ⟨[], []⟩ radius separation yOffset).modelMatrices.length =
      LIGHT_GRID_WIDTH * LIGHT_GRID_WIDTH * LIGHT_GRID_HEIGHT ∧
    (configurePointLights C ⟨[], []⟩ radius separation yOffset).modelColorSizes.length =
      LIGHT_GRID_WIDTH * LIGHT_GRID_WIDTH * LIGHT_GRID_HEIGHT ∧
    ∀ x z y, x < LIGHT_GRID_WIDTH → z < LIGHT_GRID_WIDTH → y < LIGHT_GRID_HEIGHT →
      (configurePointLights C ⟨[], []⟩ radius separation yOffset).modelMatrices[
          gridIndex LIGHT_GRID_WIDTH LIGHT_GRID_HEIGHT x z y]? =
        some (cellModel C radius separation yOffset x z y
          (5 * gridIndex LIGHT_GRID_WIDTH LIGHT_GRID_HEIGHT x z y)) ∧
      (configurePointLights C ⟨[], []⟩ radius separation yOffset).modelColorSizes[
          gridIndex LIGHT_GRID_WIDTH LIGHT_GRID_HEIGHT x z y]? =
        some (cellColorSize C radius (5 * gridIndex LIGHT_GRID_WIDTH LIGHT_GRID_HEIGHT x z y)) := by
  have h := nested_range_invariant LIGHT_GRID_WIDTH LIGHT_GRID_HEIGHT
    (fun t x z y => configureCell C radius separation yOffset t x z y)
    (fun n (s : Lights × Nat) =>
      s.1.modelMatrices.length = n ∧ s.1.modelColorSizes.length = n ∧ s.2 = 5 * n ∧
      ∀ x z y, x < LIGHT_GRID_WIDTH → z < LIGHT_GRID_WIDTH → y < LIGHT_GRID_HEIGHT →
        gridIndex LIGHT_GRID_WIDTH LIGHT_GRID_HEIGHT x z y < n →
        s.1.modelMatrices[gridIndex LIGHT_GRID_WIDTH LIGHT_GRID_HEIGHT x z y]? =
          some (cellModel C radius separation yOffset x z y
            (5 * gridIndex LIGHT_GRID_WIDTH LIGHT_GRID_HEIGHT x z y)) ∧
        s.1.modelColorSizes[gridIndex LIGHT_GRID_WIDTH LIGHT_GRID_HEIGHT x z y]? =
          some (cellColorSize C radius (5 * gridIndex LIGHT_GRID_WIDTH LIGHT_GRID_HEIGHT x z y)))
    (⟨[], []⟩, 0)
    (by simp)
    (by
      rintro x z y ⟨L, k⟩ hx hz hy ⟨h1, h2, h3, h4⟩
      simp only at h1 h2 h3 h4
      refine ⟨by simp [configureCell, h1], by simp [configureCell, h2],
        by simp only [configureCell, h3]; ring, ?_⟩
      intro x2 z2 y2 hx2 hz2 hy2 hlt
      by_cases heq : gridIndex LIGHT_GRID_WIDTH LIGHT_GRID_HEIGHT x2 z2 y2 =
          gridIndex LIGHT_GRID_WIDTH LIGHT_GRID_HEIGHT x z y
      · obtain ⟨e1, e2, e3⟩ := gridIndex_injective _ _ x2 z2 y2 x z y hz2 hy2 hz hy heq
        subst e1 e2 e3
        simp only [configureCell]
        rw [List.getElem?_append_right (by omega), List.getElem?_append_right (by omega),
          h1, h2, h3, Nat.sub_self]
        simp
      · have hlt2 : gridIndex LIGHT_GRID_WIDTH LIGHT_GRID_HEIGHT x2 z2 y2 <
            gridIndex LIGHT_GRID_WIDTH LIGHT_GRID_HEIGHT x z y := by omega
        obtain ⟨a1, a2⟩ := h4 x2 z2 y2 hx2 hz2 hy2 hlt2
        simp only [configureCell]
        rw [List.getElem?_append_left (by omega), List.getElem?_append_left (by omega)]
        exact ⟨a1, a2⟩)
  obtain ⟨h1, h2, -, h4⟩ := h
  refine ⟨h1, h2, fun x z y hx hz hy => ?_⟩
  exact h4 x z y hx hz hy (gridIndex_lt _ _ x z y hx hz hy)

set_option maxRecDepth 10000 in
theorem updateLoops_spec (separation yOffset radius : FloatVal) (L : Lights)
    (hmm : LIGHT_GRID_WIDTH * LIGHT_GRID_WIDTH * LIGHT_GRID_HEIGHT ≤ L.modelMatrices.length)
    (hcs : LIGHT_GRID_WIDTH * LIGHT_GRID_WIDTH * LIGHT_GRID_HEIGHT ≤ L.modelColorSizes.length) :
    (updateLoops separation yOffset radius L).1 = Outcome.ok ∧
    (updateLoops separation yOffset radius L).2.modelMatrices.length = L.modelMatrices.length ∧
    (updateLoops separation yOffset radius L).2.modelColorSizes.length =
      L.modelColorSizes.length ∧
    (∀ i, LIGHT_GRID_WIDTH * LIGHT_GRID_WIDTH * LIGHT_GRID_HEIGHT ≤ i →
      (updateLoops separation yOffset radius L).2.modelMatrices[i]? = L.modelMatrices[i]? ∧
      (updateLoops separation yOffset radius L).2.modelColorSizes[i]? = L.modelColorSizes[i]?) ∧
    ∀ x z y, x < LIGHT_GRID_WIDTH → z < LIGHT_GRID_WIDTH → y < LIGHT_GRID_HEIGHT →
      (updateLoops separation yOffset radius L).2.modelMatrices[
          gridIndex LIGHT_GRID_WIDTH LIGHT_GRID_HEIGHT x z y]? =
        (L.modelMatrices[gridIndex LIGHT_GRID_WIDTH LIGHT_GRID_HEIGHT x z y]?).map
          (fun m => { m with c3 := updateTranslation separation yOffset x z y }) ∧
      (updateLoops separation yOffset radius L).2.modelColorSizes[
          gridIndex LIGHT_GRID_WIDTH LIGHT_GRID_HEIGHT x z y]? =
        (L.modelColorSizes[gridIndex LIGHT_GRID_WIDTH LIGHT_GRID_HEIGHT x z y]?).map
          (fun c => { c with w := radius }) := by
  have h := nested_range_invariant LIGHT_GRID_WIDTH LIGHT_GRID_HEIGHT
    (fun t x z y => updateCell separation yOffset radius t x z y)
    (fun n (s : Outcome × Lights) =>
      s.1 = Outcome.ok ∧ s.2.modelMatrices.length = L.modelMatrices.length ∧
      s.2.modelColorSizes.length = L.modelColorSizes.length ∧
      (∀ i, n ≤ i → s.2.modelMatrices[i]? = L.modelMatrices[i]? ∧
        s.2.modelColorSizes[i]? = L.modelColorSizes[i]?) ∧
      ∀ x z y, x < LIGHT_GRID_WIDTH → z < LIGHT_GRID_WIDTH → y < LIGHT_GRID_HEIGHT →
        gridIndex LIGHT_GRID_WIDTH LIGHT_GRID_HEIGHT x z y < n →
        s.2.modelMatrices[gridIndex LIGHT_GRID_WIDTH LIGHT_GRID_HEIGHT x z y]? =
          (L.modelMatrices[gridIndex LIGHT_GRID_WIDTH LIGHT_GRID_HEIGHT x z y]?).map
            (fun m => { m with c3 := updateTranslation separation yOffset x z y }) ∧
        s.2.modelColorSizes[gridIndex LIGHT_GRID_WIDTH LIGHT_GRID_HEIGHT x z y]? =
          (L.modelColorSizes[gridIndex LIGHT_GRID_WIDTH LIGHT_GRID_HEIGHT x z y]?).map
            (fun c => { c with w := radius }))
    (Outcome.ok, L)
    (by simp)
    (by
      rintro x z y ⟨o, S⟩ hx hz hy ⟨h1, h2, h3, h4, h5⟩
      simp only at h1 h2 h3 h4 h5
      subst h1
      have hg := gridIndex_lt _ _ x z y hx hz hy
      obtain ⟨u1, u2⟩ := h4 _ (Nat.le_refl (gridIndex LIGHT_GRID_WIDTH LIGHT_GRID_HEIGHT x z y))
      have hm : gridIndex LIGHT_GRID_WIDTH LIGHT_GRID_HEIGHT x z y < S.modelMatrices.length := by
        omega
      have hc : gridIndex LIGHT_GRID_WIDTH LIGHT_GRID_HEIGHT x z y < S.modelColorSizes.length := by
        omega
      have em : S.modelMatrices[gridIndex LIGHT_GRID_WIDTH LIGHT_GRID_HEIGHT x z y]? =
          some (S.modelMatrices[gridIndex LIGHT_GRID_WIDTH LIGHT_GRID_HEIGHT x z y]) :=
        List.getElem?_eq_getElem hm
      have ec : S.modelColorSizes[gridIndex LIGHT_GRID_WIDTH LIGHT_GRID_HEIGHT x z y]? =
          some (S.modelColorSizes[gridIndex LIGHT_GRID_WIDTH LIGHT_GRID_HEIGHT x z y]) :=
        List.getElem?_eq_getElem hc
      simp only [updateCell, ne_eq, not_true_eq_false, if_false, em, ec]
      refine ⟨trivial, by simp [h2], by simp [h3], ?_, ?_⟩
      · intro i hi
        rw [List.getElem?_set_ne (by omega), List.getElem?_set_ne (by omega)]
        exact h4 i (by omega)
      · intro x2 z2 y2 hx2 hz2 hy2 hlt
        by_cases heq : gridIndex LIGHT_GRID_WIDTH LIGHT_GRID_HEIGHT x2 z2 y2 =
            gridIndex LIGHT_GRID_WIDTH LIGHT_GRID_HEIGHT x z y
        · obtain ⟨e1, e2, e3⟩ := gridIndex_injective _ _ x2 z2 y2 x z y hz2 hy2 hz hy heq
          subst e1 e2 e3
          rw [List.getElem?_set_self hm, List.getElem?_set_self hc, ← u1, ← u2, em, ec]
          simp
        · rw [List.getElem?_set_ne (Ne.symm heq), List.getElem?_set_ne (Ne.symm heq)]
          exact h5 x2 z2 y2 hx2 hz2 hy2 (by omega))
  obtain ⟨h1, h2, h3, h4, h5⟩ := h
  exact ⟨h1, h2, h3, h4, fun x z y hx hz hy =>
    h5 x z y hx hz hy (gridIndex_lt _ _ x z y hx hz hy)⟩

theorem updatePointLights_nonneg (matrixBuffer : Nat) (L : Lights) (gl : GLContext)
    (separation yOffset radius : FloatVal)
    (hs : separation.lt (FloatVal.finite 0) = false)
    (hok : (updateLoops separation yOffset radius L).1 = Outcome.ok) :
    (updatePointLights matrixBuffer L gl separation yOffset radius).result = Outcome.ok ∧
    (updatePointLights matrixBuffer L gl separation yOffset radius).st =
      (updateLoops separation yOffset radius L).2 := by
  unfold updatePointLights
  rw [if_neg (by rw [hs]; exact Bool.false_ne_true)]
  simp [hok]

/-- C8: after `configurePointLights` on two empty sequences, position
`x*W*H + z*H + y` of `modelMatrices` and of `modelColorSizes` holds the record built in the
loop iteration for grid cell `(x, z, y)` (that iteration is number `x*W*H + z*H + y`, its
`rand()` calls start at five times that number), and a following `updatePointLights` with a
non-negative separation succeeds and writes the translation and radius it computes for
`(x, z, y)` into exactly that element of each sequence. -/
theorem C8_generation_update_same_index (C : CLib) (radius separation yOffset : FloatVal)
    (x z y : Nat) (hx : x < LIGHT_GRID_WIDTH) (hz : z < LIGHT_GRID_WIDTH)
    (hy : y < LIGHT_GRID_HEIGHT) :
    (configurePointLights C ⟨[], []⟩ radius separation yOffset).modelMatrices[
        gridIndex LIGHT_GRID_WIDTH LIGHT_GRID_HEIGHT x z y]? =
      some (cellModel C radius separation yOffset x z y
        (5 * gridIndex LIGHT_GRID_WIDTH LIGHT_GRID_HEIGHT x z y)) ∧
    (configurePointLights C ⟨[], []⟩ radius separation yOffset).modelColorSizes[
        gridIndex LIGHT_GRID_WIDTH LIGHT_GRID_HEIGHT x z y]? =
      some (cellColorSize C radius (5 * gridIndex LIGHT_GRID_WIDTH LIGHT_GRID_HEIGHT x z y)) ∧
    ∀ (matrixBuffer : Nat) (gl : GLContext) (separation2 yOffset2 radius2 : FloatVal),
      separation2.lt (FloatVal.finite 0) = false →
      (updatePointLights matrixBuffer
        (configurePointLights C ⟨[], []⟩ radius separation yOffset) gl
        separation2 yOffset2 radius2).result = Outcome.ok ∧
      (updatePointLights matrixBuffer
        (configurePointLights C ⟨[], []⟩ radius separation yOffset) gl
        separation2 yOffset2 radius2).st.modelMatrices[
          gridIndex LIGHT_GRID_WIDTH LIGHT_GRID_HEIGHT x z y]? =
        some { cellModel C radius separation yOffset x z y
                (5 * gridIndex LIGHT_GRID_WIDTH LIGHT_GRID_HEIGHT x z y) with
               c3 := updateTranslation separation2 yOffset2 x z y } ∧
      (updatePointLights matrixBuffer
        (configurePointLights C ⟨[], []⟩ radius separation yOffset) gl
        separation2 yOffset2 radius2).st.modelColorSizes[
          gridIndex LIGHT_GRID_WIDTH LIGHT_GRID_HEIGHT x z y]? =
        some { cellColorSize C radius
                (5 * gridIndex LIGHT_GRID_WIDTH LIGHT_GRID_HEIGHT x z y) with
               w := radius2 } := by
  obtain ⟨hlm, hlc, hcell⟩ := configureLoops_spec C radius separation yOffset
  obtain ⟨hm, hc⟩ := hcell x z y hx hz hy
  refine ⟨hm, hc, ?_⟩
  intro matrixBuffer gl separation2 yOffset2 radius2 hs
  obtain ⟨uok, -, -, -, ucell⟩ := updateLoops_spec separation2 yOffset2 radius2
    (configurePointLights C ⟨[], []⟩ radius separation yOffset) (Nat.le_of_eq hlm.symm)
    (Nat.le_of_eq hlc.symm)
  obtain ⟨r1, r2⟩ := updatePointLights_nonneg matrixBuffer _ gl separation2 yOffset2 radius2
    hs uok
  obtain ⟨um, uc⟩ := ucell x z y hx hz hy
  rw [r2, um, uc, hm, hc]
  exact ⟨r1, rfl, rfl⟩

/-- C8 witness: grid cell `(1, 2, 3)`, whose index is 31, in the run `jitterRun`. -/
theorem C8_generation_update_same_index_witness :
    gridIndex LIGHT_GRID_WIDTH LIGHT_GRID_HEIGHT 1 2 3 = 31 ∧
    (configurePointLights jitterRun ⟨[], []⟩ (FloatVal.finite 1) (FloatVal.finite 1)
        (FloatVal.finite 0)).modelColorSizes[
        gridIndex LIGHT_GRID_WIDTH LIGHT_GRID_HEIGHT 1 2 3]? =
      some (cellColorSize jitterRun (FloatVal.finite 1)
        (5 * gridIndex LIGHT_GRID_WIDTH LIGHT_GRID_HEIGHT 1 2 3)) :=
  ⟨by decide,
   (C8_generation_update_same_index jitterRun (FloatVal.finite 1) (FloatVal.finite 1)
      (FloatVal.finite 0) 1 2 3 (by decide) (by decide) (by decide)).2.1⟩

/-! ## C9 -/

/-- C9: for every negative separation and every `yOffset` and `radius`, `updatePointLights`
returns normally with both instance sequences element-for-element unchanged and with no OpenGL
command issued (the context, its command log included, is unchanged: no `glBindBuffer`, no
`glBufferData`). -/
theorem C9_negative_separation_noop (matrixBuffer : Nat) (L : Lights) (gl : GLContext)
    (separation yOffset radius : FloatVal)
    (hneg : separation.lt (FloatVal.finite 0) = true) :
    (updatePointLights matrixBuffer L gl separation yOffset radius).result = Outcome.ok ∧
    (updatePointLights matrixBuffer L gl separation yOffset radius).st.modelMatrices =
      L.modelMatrices ∧
    (updatePointLights matrixBuffer L gl separation yOffset radius).st.modelColorSizes =
      L.modelColorSizes ∧
    (updatePointLights matrixBuffer L gl separation yOffset radius).gl = gl ∧
    (updatePointLights matrixBuffer L gl separation yOffset radius).gl.log = gl.log := by
  unfold updatePointLights
  rw [if_pos hneg]
  exact ⟨rfl, rfl, rfl, rfl, rfl⟩

/-- C9 witness: separation `-1/2` on the generated grid of the run `jitterRun`. -/
theorem C9_negative_separation_noop_witness :
    (updatePointLights 7
      (configurePointLights jitterRun ⟨[], []⟩ (FloatVal.finite 1) (FloatVal.finite 1)
        (FloatVal.finite 0))
      (GLContext.fresh 8)
      (FloatVal.finite (-1 / 2)) (FloatVal.finite 0) (FloatVal.finite 1)).gl.log = [] :=
  (C9_negative_separation_noop 7
    (configurePointLights jitterRun ⟨[], []⟩ (FloatVal.finite 1) (FloatVal.finite 1)
      (FloatVal.finite 0))
    (GLContext.fresh 8) (FloatVal.finite (-1 / 2)) (FloatVal.finite 0) (FloatVal.finite 1)
    (by norm_num [FloatVal.lt])).2.2.2.2

/-! ## C12, C20: `attachRender` -/

theorem attachRender_ok (fb : FrameBuffer) (gl : GLContext) (iformat : Nat) (multisample : Bool)
    (a : Nat) (hw : fb.width ≠ 0) (hh : fb.height ≠ 0) (ha : renderAttachment iformat = some a) :
    (fb.attachRender gl iformat multisample).result = Outcome.ok ∧
    (fb.attachRender gl iformat multisample).gl =
      gl.genRenderbuffer.2.calls (renderCommands fb iformat multisample a gl.nextRenderbuffer) ∧
    (fb.attachRender gl iformat multisample).st =
      (if a = GL_DEPTH_ATTACHMENT ∨ a = GL_DEPTH_STENCIL_ATTACHMENT then
        { fb with depth_id := gl.nextRenderbuffer }
      else if a = GL_STENCIL_ATTACHMENT then { fb with stencil_id := gl.nextRenderbuffer }
      else fb) := by
  have hdim : ¬ (fb.width = 0 ∨ fb.height = 0) := by simp [hw, hh]
  unfold FrameBuffer.attachRender
  simp only [hdim, if_false, ha, GLContext.genRenderbuffer]
  split_ifs <;> exact ⟨rfl, rfl, rfl⟩

theorem renderAttachment_depthStencil (iformat : Nat) (h : iformat ∈ depthStencilFormats) :
    renderAttachment iformat = some GL_DEPTH_STENCIL_ATTACHMENT := by
  simp only [depthStencilFormats, List.mem_cons, List.mem_singleton, List.not_mem_nil,
    or_false] at h
  rcases h with rfl | rfl <;> decide

/-- C12 (counterexample): on the fresh 512x512 target `attachRender(GL_DEPTH24_STENCIL8)`
succeeds and stores the new renderbuffer name 1 in `depth_id`, but `stencil_id` is still 0:
the stencil reference is not populated. -/
theorem C12_packed_render_leaves_stencil_id :
    GL_DEPTH24_STENCIL8 ∈ depthStencilFormats ∧
    packedRender512.result = Outcome.ok ∧
    packedRender512.st.depth_id = 1 ∧
    packedRender512.st.stencil_id = 0 := by
  decide

/-- C12 (amended): after `attachRender` succeeds with a combined depth+stencil format
(`GL_DEPTH24_STENCIL8` or `GL_DEPTH_STENCIL`) on a context whose object names are non-zero,
the depth reference `depth_id` is the new, non-zero renderbuffer id and that renderbuffer is
attached at `GL_DEPTH_STENCIL_ATTACHMENT`, the point that serves both depth and stencil; the
stencil reference `stencil_id` keeps the value it had before the call. -/
theorem C12_packed_render_sets_depth_id (fb : FrameBuffer) (gl : GLContext) (iformat : Nat)
    (multisample : Bool) (hw : fb.width ≠ 0) (hh : fb.height ≠ 0)
    (hf : iformat ∈ depthStencilFormats) (hname : 0 < gl.nextRenderbuffer) :
    (fb.attachRender gl iformat multisample).result = Outcome.ok ∧
    (fb.attachRender gl iformat multisample).st.depth_id = gl.nextRenderbuffer ∧
    (fb.attachRender gl iformat multisample).st.depth_id ≠ 0 ∧
    (fb.attachRender gl iformat multisample).st.stencil_id = fb.stencil_id ∧
    (fb.attachRender gl iformat multisample).gl.log =
      gl.log ++
        [GLCall.GenRenderbuffers gl.nextRenderbuffer,
         GLCall.BindFramebuffer GL_FRAMEBUFFER fb.frame_id,
         GLCall.BindRenderbuffer GL_RENDERBUFFER gl.nextRenderbuffer,
         (if multisample then
            GLCall.RenderbufferStorageMultisample GL_RENDERBUFFER 4 GL_DEPTH24_STENCIL8
              fb.width fb.height
          else GLCall.RenderbufferStorage GL_RENDERBUFFER iformat fb.width fb.height),
         GLCall.FramebufferRenderbuffer GL_FRAMEBUFFER GL_DEPTH_STENCIL_ATTACHMENT
           GL_RENDERBUFFER gl.nextRenderbuffer] := by
  obtain ⟨h1, h2, h3⟩ := attachRender_ok fb gl iformat multisample _ hw hh
    (renderAttachment_depthStencil iformat hf)
  rw [h3, h2]
  refine ⟨h1, ?_, ?_, ?_, ?_⟩
  · simp
  · simp; omega
  · simp
  · simp [GLContext.calls, GLContext.genRenderbuffer, renderCommands]

/-- C12 witness: the fresh 512x512 target with `GL_DEPTH24_STENCIL8`. -/
theorem C12_packed_render_sets_depth_id_witness :
    ((FrameBuffer.newSized (GLContext.fresh 8) 512 512).1.attachRender
      (FrameBuffer.newSized (GLContext.fresh 8) 512 512).2 GL_DEPTH24_STENCIL8 false).st.depth_id
      = 1 :=
  (C12_packed_render_sets_depth_id (FrameBuffer.newSized (GLContext.fresh 8) 512 512).1
    (FrameBuffer.newSized (GLContext.fresh 8) 512 512).2 GL_DEPTH24_STENCIL8 false
    (by decide) (by decide) (by decide) (by decide)).2.1

/-- C20 (failing input): on the fresh 512x512 target, `attachRender(GL_DEPTH_COMPONENT24,
true)` allocates 4-sample storage of format `GL_DEPTH24_STENCIL8`, not of the requested
`GL_DEPTH_COMPONENT24`, and attaches it at `GL_DEPTH_ATTACHMENT`. -/
theorem C20_multisample_storage_format :
    multisampleDepth512.result = Outcome.ok ∧
    multisampleDepth512.gl.log =
      [GLCall.GetIntegerv GL_MAX_COLOR_ATTACHMENTS, GLCall.GenFramebuffers 1,
       GLCall.GenRenderbuffers 1,
       GLCall.BindFramebuffer GL_FRAMEBUFFER 1,
       GLCall.BindRenderbuffer GL_RENDERBUFFER 1,
       GLCall.RenderbufferStorageMultisample GL_RENDERBUFFER 4 GL_DEPTH24_STENCIL8 512 512,
       GLCall.FramebufferRenderbuffer GL_FRAMEBUFFER GL_DEPTH_ATTACHMENT GL_RENDERBUFFER 1] ∧
    GL_DEPTH24_STENCIL8 ≠ GL_DEPTH_COMPONENT24 := by
  decide

/-! ## C13: depth and stencil textures -/

theorem texLayout_depth (iformat attachment : Nat) (filter : Int) (h : iformat ∈ depthFormats) :
    texLayout iformat attachment filter =
      some ⟨GL_DEPTH_COMPONENT, GL_UNSIGNED_INT, GL_DEPTH_ATTACHMENT, GL_NEAREST⟩ := by
  simp only [depthFormats, List.mem_cons, List.mem_singleton, List.not_mem_nil, or_false] at h
  unfold texLayout
  rcases h with rfl | rfl <;>
    rw [if_neg (by decide), if_neg (by decide), if_neg (by decide), if_neg (by decide),
      if_neg (by decide), if_neg (by decide), if_neg (by decide), if_neg (by decide),
      if_pos (by decide)]

theorem texLayout_stencil (iformat attachment : Nat) (filter : Int)
    (h : iformat ∈ stencilFormats) :
    texLayout iformat attachment filter =
      some ⟨GL_STENCIL_INDEX, GL_UNSIGNED_BYTE, GL_STENCIL_ATTACHMENT, GL_NEAREST⟩ := by
  simp only [stencilFormats, List.mem_cons, List.mem_singleton, List.not_mem_nil, or_false] at h
  unfold texLayout
  rcases h with rfl | rfl | rfl | rfl | rfl <;>
    rw [if_neg (by decide), if_neg (by decide), if_neg (by decide), if_neg (by decide),
      if_neg (by decide), if_neg (by decide), if_neg (by decide), if_neg (by decide),
      if_neg (by decide), if_pos (by decide)]

theorem texLayout_depthStencil (iformat attachment : Nat) (filter : Int)
    (h : iformat ∈ depthStencilFormats) :
    texLayout iformat attachment filter =
      some ⟨GL_DEPTH_STENCIL, GL_UNSIGNED_INT_24_8, GL_DEPTH_STENCIL_ATTACHMENT, GL_NEAREST⟩ := by
  simp only [depthStencilFormats, List.mem_cons, List.mem_singleton, List.not_mem_nil,
    or_false] at h
  unfold texLayout
  rcases h with rfl | rfl <;>
    rw [if_neg (by decide), if_neg (by decide), if_neg (by decide), if_neg (by decide),
      if_neg (by decide), if_neg (by decide), if_neg (by decide), if_neg (by decide),
      if_neg (by decide), if_neg (by decide), if_pos (by decide)]

theorem attachTexture_gl (fb : FrameBuffer) (gl : GLContext) (iformat : Nat) (filter : Int)
    (l : TexLayout) (hw : fb.width ≠ 0) (hh : fb.height ≠ 0)
    (hcap : (fb.tex_ids.length : Int) ≠ fb.max_color_attachments)
    (hl : texLayout iformat (GL_COLOR_ATTACHMENT0 + fb.tex_ids.length) filter = some l) :
    (fb.attachTexture gl iformat filter).gl.log =
      gl.log ++ GLCall.GenTextures gl.nextTexture ::
        textureCommands fb iformat l gl.nextTexture ∧
    (fb.attachTexture gl iformat filter).st.tex_ids = fb.tex_ids ++ [gl.nextTexture] ∧
    (fb.tex_ids.length < fb.buffers.length →
      (fb.attachTexture gl iformat filter).result = Outcome.ok ∧
      (fb.attachTexture gl iformat filter).st.buffers =
        fb.buffers.set fb.tex_ids.length (some l.attachment)) := by
  have hdim : ¬ (fb.width = 0 ∨ fb.height = 0) := by simp [hw, hh]
  unfold FrameBuffer.attachTexture
  simp only [hdim, hcap, if_false, hl, GLContext.genTexture, GLContext.calls,
    List.length_append, List.length_singleton, Nat.add_sub_cancel, writeBuffer]
  by_cases hlt : fb.tex_ids.length < fb.buffers.length
  · simp [hlt]
  · simp [hlt]

/-- C13: with nonzero dimensions and room for one more texture, for every requested filter
value `attachTexture` creates the texture with both `GL_TEXTURE_MAG_FILTER` and
`GL_TEXTURE_MIN_FILTER` set to `GL_NEAREST` and attaches it with
`glFramebufferTexture2D` at `GL_DEPTH_ATTACHMENT` for a depth format, at
`GL_STENCIL_ATTACHMENT` for a stencil format, and at both `GL_DEPTH_ATTACHMENT` and
`GL_STENCIL_ATTACHMENT` for a combined depth-stencil format; these are all the commands of the
call, so nothing is attached at a colour attachment point. -/
theorem C13_depth_stencil_texture (fb : FrameBuffer) (gl : GLContext) (iformat : Nat)
    (filter : Int) (hw : fb.width ≠ 0) (hh : fb.height ≠ 0)
    (hcap : (fb.tex_ids.length : Int) ≠ fb.max_color_attachments) :
    (iformat ∈ depthFormats →
      (fb.attachTexture gl iformat filter).gl.log = gl.log ++
        [GLCall.GenTextures gl.nextTexture,
         GLCall.BindFramebuffer GL_FRAMEBUFFER fb.frame_id,
         GLCall.BindTexture GL_TEXTURE_2D gl.nextTexture,
         GLCall.TexImage2D GL_TEXTURE_2D 0 iformat fb.width fb.height 0 GL_DEPTH_COMPONENT
           GL_UNSIGNED_INT,
         GLCall.TexParameteri GL_TEXTURE_2D GL_TEXTURE_MAG_FILTER GL_NEAREST,
         GLCall.TexParameteri GL_TEXTURE_2D GL_TEXTURE_MIN_FILTER GL_NEAREST,
         GLCall.FramebufferTexture2D GL_FRAMEBUFFER GL_DEPTH_ATTACHMENT GL_TEXTURE_2D
           gl.nextTexture 0]) ∧
    (iformat ∈ stencilFormats →
      (fb.attachTexture gl iformat filter).gl.log = gl.log ++
        [GLCall.GenTextures gl.nextTexture,
         GLCall.BindFramebuffer GL_FRAMEBUFFER fb.frame_id,
         GLCall.BindTexture GL_TEXTURE_2D gl.nextTexture,
         GLCall.TexImage2D GL_TEXTURE_2D 0 iformat fb.width fb.height 0 GL_STENCIL_INDEX
           GL_UNSIGNED_BYTE,
         GLCall.TexParameteri GL_TEXTURE_2D GL_TEXTURE_MAG_FILTER GL_NEAREST,
         GLCall.TexParameteri GL_TEXTURE_2D GL_TEXTURE_MIN_FILTER GL_NEAREST,
         GLCall.FramebufferTexture2D GL_FRAMEBUFFER GL_STENCIL_ATTACHMENT GL_TEXTURE_2D
           gl.nextTexture 0]) ∧
    (iformat ∈ depthStencilFormats →
      (fb.attachTexture gl iformat filter).gl.log = gl.log ++
        [GLCall.GenTextures gl.nextTexture,
         GLCall.BindFramebuffer GL_FRAMEBUFFER fb.frame_id,
         GLCall.BindTexture GL_TEXTURE_2D gl.nextTexture,
         GLCall.TexImage2D GL_TEXTURE_2D 0 iformat fb.width fb.height 0 GL_DEPTH_STENCIL
           GL_UNSIGNED_INT_24_8,
         GLCall.TexParameteri GL_TEXTURE_2D GL_TEXTURE_MAG_FILTER GL_NEAREST,
         GLCall.TexParameteri GL_TEXTURE_2D GL_TEXTURE_MIN_FILTER GL_NEAREST,
         GLCall.FramebufferTexture2D GL_FRAMEBUFFER GL_DEPTH_ATTACHMENT GL_TEXTURE_2D
           gl.nextTexture 0,
         GLCall.FramebufferTexture2D GL_FRAMEBUFFER GL_STENCIL_ATTACHMENT GL_TEXTURE_2D
           gl.nextTexture 0]) ∧
    ((iformat ∈ depthFormats ∨ iformat ∈ stencilFormats ∨ iformat ∈ depthStencilFormats) →
      fb.tex_ids.length < fb.buffers.length →
      (fb.attachTexture gl iformat filter).result = Outcome.ok) := by
  refine ⟨fun h => ?_, fun h => ?_, fun h => ?_, fun h hlt => ?_⟩
  · rw [(attachTexture_gl fb gl iformat filter _ hw hh hcap (texLayout_depth _ _ _ h)).1]
    simp only [textureCommands]
    rw [if_neg (by decide), if_neg (by decide), if_neg (by decide)]
    rfl
  · rw [(attachTexture_gl fb gl iformat filter _ hw hh hcap (texLayout_stencil _ _ _ h)).1]
    simp only [textureCommands]
    rw [if_neg (by decide), if_neg (by decide), if_neg (by decide)]
    rfl
  · rw [(attachTexture_gl fb gl iformat filter _ hw hh hcap
      (texLayout_depthStencil _ _ _ h)).1]
    simp only [textureCommands]
    rw [if_neg (by decide), if_pos (by decide)]
    rfl
  · rcases h with h | h | h
    · exact ((attachTexture_gl fb gl iformat filter _ hw hh hcap
        (texLayout_depth _ _ _ h)).2.2 hlt).1
    · exact ((attachTexture_gl fb gl iformat filter _ hw hh hcap
        (texLayout_stencil _ _ _ h)).2.2 hlt).1
    · exact ((attachTexture_gl fb gl iformat filter _ hw hh hcap
        (texLayout_depthStencil _ _ _ h)).2.2 hlt).1

/-- C13 witness: the fresh 512x512 target, format `GL_DEPTH_COMPONENT24`, requested filter
`GL_LINEAR`. -/
theorem C13_depth_stencil_texture_witness :
    ((FrameBuffer.newSized (GLContext.fresh 8) 512 512).1.attachTexture
      (FrameBuffer.newSized (GLContext.fresh 8) 512 512).2 GL_DEPTH_COMPONENT24
        GL_LINEAR).result = Outcome.ok :=
  (C13_depth_stencil_texture (FrameBuffer.newSized (GLContext.fresh 8) 512 512).1
    (FrameBuffer.newSized (GLContext.fresh 8) 512 512).2 GL_DEPTH_COMPONENT24 GL_LINEAR
    (by decide) (by decide) (by decide)).2.2.2 (Or.inl (by decide)) (by decide)

/-! ## C15: the attachment count stays within the capacity -/

theorem attachTexture_effect (fb : FrameBuffer) (gl : GLContext) (iformat : Nat)
    (filter : Int) :
    (fb.attachTexture gl iformat filter).st.max_color_attachments = fb.max_color_attachments ∧
    (fb.attachTexture gl iformat filter).st.buffers.length = fb.buffers.length ∧
    (∀ i, i < fb.tex_ids.length →
      (fb.attachTexture gl iformat filter).st.buffers[i]? = fb.buffers[i]?) ∧
    ((fb.attachTexture gl iformat filter).st.tex_ids = fb.tex_ids ∨
      ((fb.tex_ids.length : Int) ≠ fb.max_color_attachments ∧
        (fb.attachTexture gl iformat filter).st.tex_ids = fb.tex_ids ++ [gl.nextTexture])) := by
  unfold FrameBuffer.attachTexture
  by_cases h1 : fb.width = 0 ∨ fb.height = 0
  · simp [h1]
  by_cases h2 : (fb.tex_ids.length : Int) = fb.max_color_attachments
  · simp [h1, h2]
  cases hl : texLayout iformat (GL_COLOR_ATTACHMENT0 + fb.tex_ids.length) filter with
  | none => simp [h1, h2]
  | some l =>
    simp only [h1, h2, if_false, List.length_append, List.length_singleton,
      Nat.add_sub_cancel, writeBuffer, GLContext.genTexture]
    by_cases hlt : fb.tex_ids.length < fb.buffers.length
    · simp only [hlt, if_true, List.length_set, true_and]
      refine ⟨fun i hi => ?_, Or.inr ⟨h2, by trivial⟩⟩
      rw [List.getElem?_set_ne (by omega)]
    · simp only [hlt, if_false, true_and]
      exact ⟨fun i _ => by trivial, Or.inr ⟨h2, by trivial⟩⟩

theorem apply_effect (op : FBOp) (fb : FrameBuffer) (gl : GLContext) :
    (op.apply fb gl).st.max_color_attachments = fb.max_color_attachments ∧
    (op.apply fb gl).st.buffers.length = fb.buffers.length ∧
    (∀ i, i < fb.tex_ids.length → (op.apply fb gl).st.buffers[i]? = fb.buffers[i]?) ∧
    ((op.apply fb gl).st.tex_ids = fb.tex_ids ∨
      ((fb.tex_ids.length : Int) ≠ fb.max_color_attachments ∧
        (op.apply fb gl).st.tex_ids = fb.tex_ids ++ [gl.nextTexture])) := by
  cases op with
  | attachTexture iformat filter => exact attachTexture_effect fb gl iformat filter
  | setSize w h => exact ⟨rfl, rfl, fun _ _ => rfl, Or.inl rfl⟩
  | attachRender iformat multisample =>
    simp only [FBOp.apply, FrameBuffer.attachRender]
    repeat' split
    all_goals exact ⟨rfl, rfl, fun _ _ => rfl, Or.inl rfl⟩
  | bindInput => exact ⟨rfl, rfl, fun _ _ => rfl, Or.inl rfl⟩
  | bindInput_num num =>
    simp only [FBOp.apply, FrameBuffer.bindInput_num]
    repeat' split
    all_goals exact ⟨rfl, rfl, fun _ _ => rfl, Or.inl rfl⟩
  | bindOutput =>
    simp only [FBOp.apply, FrameBuffer.bindOutput]
    repeat' split
    all_goals exact ⟨rfl, rfl, fun _ _ => rfl, Or.inl rfl⟩
  | bindOutput_num num =>
    simp only [FBOp.apply, FrameBuffer.bindOutput_num]
    repeat' split
    all_goals exact ⟨rfl, rfl, fun _ _ => rfl, Or.inl rfl⟩
  | bindTex num =>
    simp only [FBOp.apply, FrameBuffer.bindTex, FrameBuffer.bindInput_num]
    repeat' split
    all_goals exact ⟨rfl, rfl, fun _ _ => rfl, Or.inl rfl⟩
  | bindImage unit num format access =>
    simp only [FBOp.apply, FrameBuffer.bindImage]
    repeat' split
    all_goals exact ⟨rfl, rfl, fun _ _ => rfl, Or.inl rfl⟩
  | bindRead => exact ⟨rfl, rfl, fun _ _ => rfl, Or.inl rfl⟩
  | bindWrite => exact ⟨rfl, rfl, fun _ _ => rfl, Or.inl rfl⟩
  | check status =>
    simp only [FBOp.apply, FrameBuffer.check]
    repeat' split
    all_goals exact ⟨rfl, rfl, fun _ _ => rfl, Or.inl rfl⟩
  | unbind => exact ⟨rfl, rfl, fun _ _ => rfl, Or.inl rfl⟩

theorem reachable_invariant (fb : FrameBuffer) (h : Reachable fb) :
    (fb.tex_ids.length : Int) ≤ fb.max_color_attachments ∧
    fb.buffers.length = fb.max_color_attachments.toNat := by
  induction h with
  | new gl hmax => simp [FrameBuffer.new, GLContext.call, GLContext.genFramebuffer, hmax]
  | newSized gl w h hmax =>
    simp [FrameBuffer.newSized, GLContext.call, GLContext.genFramebuffer, hmax]
  | step fb gl op _ ih =>
    obtain ⟨hm, hb, -, ht⟩ := apply_effect op fb gl
    obtain ⟨i1, i2⟩ := ih
    rw [hm, hb]
    refine ⟨?_, i2⟩
    rcases ht with ht | ⟨hne, ht⟩
    · rw [ht]; exact i1
    · rw [ht]
      simp only [List.length_append, List.length_singleton]
      push_cast
      omega

/-- C15: in every state reachable from a constructor by any sequence of `FrameBuffer` calls, on
a platform whose maximum is not negative, the number of attached textures is at most
`max_color_attachments`, the draw-buffer array has `max_color_attachments` cells, and
therefore no `attachTexture` call runs outside the array: it never ends in an undefined
access, and when it succeeds the cell `buffers[count - 1]` it wrote lies inside the array. -/
theorem C15_count_within_capacity (fb : FrameBuffer) (h : Reachable fb) :
    (fb.tex_ids.length : Int) ≤ fb.max_color_attachments ∧
    (fb.buffers.length : Int) = fb.max_color_attachments ∧
    ∀ (gl : GLContext) (iformat : Nat) (filter : Int),
      (∀ u, (fb.attachTexture gl iformat filter).result ≠ Outcome.undefined u) ∧
      ((fb.attachTexture gl iformat filter).result = Outcome.ok →
        (fb.attachTexture gl iformat filter).st.tex_ids.length - 1 < fb.buffers.length ∧
        (fb.attachTexture gl iformat filter).st.tex_ids.length - 1 <
          (fb.attachTexture gl iformat filter).st.buffers.length ∧
        ((fb.attachTexture gl iformat filter).st.tex_ids.length : Int) ≤
          fb.max_color_attachments) := by
  obtain ⟨i1, i2⟩ := reachable_invariant fb h
  have hnn : 0 ≤ fb.max_color_attachments := le_trans (Int.natCast_nonneg _) i1
  have hlen : (fb.buffers.length : Int) = fb.max_color_attachments := by
    rw [i2]; exact Int.toNat_of_nonneg hnn
  refine ⟨i1, hlen, fun gl iformat filter => ⟨?_, ?_⟩⟩
  · intro u hu
    unfold FrameBuffer.attachTexture at hu
    by_cases h1 : fb.width = 0 ∨ fb.height = 0
    · simp [h1] at hu
    by_cases h2 : (fb.tex_ids.length : Int) = fb.max_color_attachments
    · simp [h1, h2] at hu
    cases hl : texLayout iformat (GL_COLOR_ATTACHMENT0 + fb.tex_ids.length) filter with
    | none => simp [h1, h2, hl] at hu
    | some l =>
      have hlt : fb.tex_ids.length < fb.buffers.length := by omega
      simp [h1, h2, hl, writeBuffer, hlt] at hu
  · intro hok
    obtain ⟨l, bs, -, hne, -, hb, heq⟩ := attachTexture_ok_inv fb gl iformat filter hok
    obtain ⟨hlt, hbs⟩ := writeBuffer_some _ _ _ _ hb
    rw [heq]
    simp only [List.length_append, List.length_singleton, Nat.add_sub_cancel, hbs,
      List.length_set]
    refine ⟨hlt, hlt, ?_⟩
    push_cast
    omega

/-- C15 witness: the 512x512 target after its first `attachTexture` call is reachable. -/
theorem C15_count_within_capacity_witness :
    ((FBOp.attachTexture GL_RGBA32F GL_LINEAR).apply
        (FrameBuffer.newSized (GLContext.fresh 8) 512 512).1
        (FrameBuffer.newSized (GLContext.fresh 8) 512 512).2).st.tex_ids.length = 1 ∧
    (((FBOp.attachTexture GL_RGBA32F GL_LINEAR).apply
        (FrameBuffer.newSized (GLContext.fresh 8) 512 512).1
        (FrameBuffer.newSized (GLContext.fresh 8) 512 512).2).st.tex_ids.length : Int) ≤
      ((FBOp.attachTexture GL_RGBA32F GL_LINEAR).apply
        (FrameBuffer.newSized (GLContext.fresh 8) 512 512).1
        (FrameBuffer.newSized (GLContext.fresh 8) 512 512).2).st.max_color_attachments :=
  ⟨by decide,
   (C15_count_within_capacity _
      (Reachable.step _ (FrameBuffer.newSized (GLContext.fresh 8) 512 512).2
        (FBOp.attachTexture GL_RGBA32F GL_LINEAR)
        (Reachable.newSized (GLContext.fresh 8) 512 512 (by decide)))).1⟩

/-! ## C14: the slot of a colour attachment -/

theorem runOps_prefix (ops : List FBOp) (fb : FrameBuffer) (gl : GLContext) (i : Nat)
    (hi : i < fb.tex_ids.length) :
    (runOps fb gl ops).2.1.buffers[i]? = fb.buffers[i]? ∧
    (runOps fb gl ops).2.1.tex_ids[i]? = fb.tex_ids[i]? := by
  induction ops generalizing fb gl with
  | nil => exact ⟨rfl, rfl⟩
  | cons op rest ih =>
    obtain ⟨-, -, hb, ht⟩ := apply_effect op fb gl
    have hlen : i < (op.apply fb gl).st.tex_ids.length := by
      rcases ht with ht | ⟨-, ht⟩ <;> rw [ht]
      · exact hi
      · simp only [List.length_append, List.length_singleton]; omega
    obtain ⟨r1, r2⟩ := ih (op.apply fb gl).st (op.apply fb gl).gl hlen
    simp only [runOps]
    rw [r1, r2, hb i hi]
    refine ⟨rfl, ?_⟩
    rcases ht with ht | ⟨-, ht⟩ <;> rw [ht]
    rw [List.getElem?_append_left hi]

theorem textureCommands_color_last (fb : FrameBuffer) (iformat : Nat) (l : TexLayout)
    (t : Nat) (h1 : l.format ≠ GL_DEPTH_STENCIL) (h2 : l.format ≠ GL_TEXTURE_2D_MULTISAMPLE) :
    (textureCommands fb iformat l t).getLast? =
      some (GLCall.FramebufferTexture2D GL_FRAMEBUFFER l.attachment GL_TEXTURE_2D t 0) := by
  unfold textureCommands
  rw [if_neg h2, if_neg h1, if_neg h2]
  rfl

theorem texLayout_color_format (iformat attachment : Nat) (filter : Int) (l : TexLayout)
    (hmem : iformat ∈ colorTextureFormats) :
    texLayout iformat attachment filter = some l →
      l.format ≠ GL_DEPTH_STENCIL ∧ l.format ≠ GL_TEXTURE_2D_MULTISAMPLE := by
  have hd := color_not_special iformat hmem
  unfold texLayout
  by_cases h0 : iformat = GL_RGBA16F ∨ iformat = GL_RGBA32F
  · rw [if_pos h0]; intro h; cases h; refine ⟨?_, ?_⟩ <;> dsimp only <;> decide
  rw [if_neg h0]
  by_cases h1 : iformat = GL_RGB16F ∨ iformat = GL_RGB32F
  · rw [if_pos h1]; intro h; cases h; refine ⟨?_, ?_⟩ <;> dsimp only <;> decide
  rw [if_neg h1]
  by_cases h2 : iformat = GL_LUMINANCE16_ALPHA16
  · rw [if_pos h2]; intro h; cases h; refine ⟨?_, ?_⟩ <;> dsimp only <;> decide
  rw [if_neg h2]
  by_cases h3 : iformat = GL_LUMINANCE16
  · rw [if_pos h3]; intro h; cases h; refine ⟨?_, ?_⟩ <;> dsimp only <;> decide
  rw [if_neg h3]
  by_cases h4 : iformat = GL_RGBA8 ∨ iformat = GL_RGBA ∨ iformat = 4
  · rw [if_pos h4]; intro h; cases h; refine ⟨?_, ?_⟩ <;> dsimp only <;> decide
  rw [if_neg h4]
  by_cases h5 : iformat = GL_RGB8 ∨ iformat = GL_RGB ∨ iformat = 3
  · rw [if_pos h5]; intro h; cases h; refine ⟨?_, ?_⟩ <;> dsimp only <;> decide
  rw [if_neg h5]
  by_cases h6 : iformat = GL_LUMINANCE8_ALPHA8 ∨ iformat = GL_LUMINANCE_ALPHA ∨ iformat = 2
  · rw [if_pos h6]; intro h; cases h; refine ⟨?_, ?_⟩ <;> dsimp only <;> decide
  rw [if_neg h6]
  by_cases h7 : iformat = GL_LUMINANCE8 ∨ iformat = GL_LUMINANCE16 ∨ iformat = GL_LUMINANCE ∨ iformat = 1
  · rw [if_pos h7]; intro h; cases h; refine ⟨?_, ?_⟩ <;> dsimp only <;> decide
  rw [if_neg h7]
  by_cases h8 : iformat = GL_DEPTH_COMPONENT24 ∨ iformat = GL_DEPTH_COMPONENT
  · exact absurd h8 (hd.1)
  rw [if_neg h8]
  by_cases h9 : iformat = GL_STENCIL_INDEX1 ∨ iformat = GL_STENCIL_INDEX4 ∨ iformat = GL_STENCIL_INDEX8 ∨
      iformat = GL_STENCIL_INDEX16 ∨ iformat = GL_STENCIL_INDEX
  · exact absurd h9 (hd.2.1)
  rw [if_neg h9]
  by_cases h10 : iformat = GL_DEPTH24_STENCIL8 ∨ iformat = GL_DEPTH_STENCIL
  · exact absurd h10 (hd.2.2.1)
  rw [if_neg h10]
  by_cases h11 : iformat = GL_TEXTURE_2D_MULTISAMPLE
  · exact absurd h11 (hd.2.2.2.1)
  rw [if_neg h11]
  intro h; cases h

/-- C14 (counterexample): on the 512x512 target that already holds one depth texture (attached
through `attachTexture(GL_DEPTH_COMPONENT24)`) there is no colour attachment yet, but the next
`attachTexture(GL_RGBA8)` records and uses colour attachment point number 1, not number 0. -/
theorem C14_slot_counts_all_textures :
    depthTexture512.result = Outcome.ok ∧
    colorAttachmentCount depthTexture512.st = 0 ∧
    depthTexture512.st.tex_ids.length = 1 ∧
    GL_RGBA8 ∈ colorTextureFormats ∧
    depthThenColor512.result = Outcome.ok ∧
    depthThenColor512.st.buffers[1]? = some (some (GL_COLOR_ATTACHMENT0 + 1)) ∧
    depthThenColor512.gl.log.getLast? =
      some (GLCall.FramebufferTexture2D GL_FRAMEBUFFER (GL_COLOR_ATTACHMENT0 + 1)
        GL_TEXTURE_2D 2 0) ∧
    GL_COLOR_ATTACHMENT0 + 1 ≠ GL_COLOR_ATTACHMENT0 + colorAttachmentCount depthTexture512.st := by
  decide

/-- C14 (amended): for every successful `attachTexture` of a colour format, the new texture is
stored at index `c` and the output slot recorded for it, and used in the
`glFramebufferTexture2D` call, is colour attachment point number `c`, where `c` is the number
of textures of any format attached through `attachTexture` immediately before the call; `c` is
the count of colour attachments whenever every texture attached so far is a colour attachment.
No later sequence of `FrameBuffer` calls changes the slot recorded for that attachment. -/
theorem C14_slot_is_texture_count (fb : FrameBuffer) (gl : GLContext) (iformat : Nat)
    (filter : Int) (hc : iformat ∈ colorTextureFormats)
    (hok : (fb.attachTexture gl iformat filter).result = Outcome.ok) :
    (fb.attachTexture gl iformat filter).st.tex_ids[fb.tex_ids.length]? =
      some gl.nextTexture ∧
    (fb.attachTexture gl iformat filter).st.buffers[fb.tex_ids.length]? =
      some (some (GL_COLOR_ATTACHMENT0 + fb.tex_ids.length)) ∧
    (fb.attachTexture gl iformat filter).gl.log.getLast? =
      some (GLCall.FramebufferTexture2D GL_FRAMEBUFFER
        (GL_COLOR_ATTACHMENT0 + fb.tex_ids.length) GL_TEXTURE_2D gl.nextTexture 0) ∧
    (colorAttachmentCount fb = fb.tex_ids.length →
      (fb.attachTexture gl iformat filter).st.buffers[fb.tex_ids.length]? =
        some (some (GL_COLOR_ATTACHMENT0 + colorAttachmentCount fb))) ∧
    (∀ (ops : List FBOp) (gl2 : GLContext),
      (runOps (fb.attachTexture gl iformat filter).st gl2 ops).2.1.tex_ids[fb.tex_ids.length]? =
        some gl.nextTexture ∧
      (runOps (fb.attachTexture gl iformat filter).st gl2 ops).2.1.buffers[fb.tex_ids.length]? =
        some (some (GL_COLOR_ATTACHMENT0 + fb.tex_ids.length))) := by
  obtain ⟨l, bs, -, -, hl, hb, heq⟩ := attachTexture_ok_inv fb gl iformat filter hok
  have ha := texLayout_color_attachment iformat _ filter l hc hl
  obtain ⟨hf1, hf2⟩ := texLayout_color_format iformat _ filter l hc hl
  obtain ⟨hlt, hbs⟩ := writeBuffer_some _ _ _ _ hb
  have htex : (fb.attachTexture gl iformat filter).st.tex_ids[fb.tex_ids.length]? =
      some gl.nextTexture := by
    rw [heq]; simp
  have hbuf : (fb.attachTexture gl iformat filter).st.buffers[fb.tex_ids.length]? =
      some (some (GL_COLOR_ATTACHMENT0 + fb.tex_ids.length)) := by
    rw [heq]
    simp only [hbs, ha]
    exact List.getElem?_set_self hlt
  have hlen : fb.tex_ids.length < (fb.attachTexture gl iformat filter).st.tex_ids.length := by
    rw [heq]; simp
  refine ⟨htex, hbuf, ?_, fun hcount => by rw [hcount]; exact hbuf, fun ops gl2 => ?_⟩
  · rw [heq]
    simp only [GLContext.calls, GLContext.genTexture]
    have hlast := textureCommands_color_last fb iformat l gl.nextTexture hf1 hf2
    rw [ha] at hlast
    have hne : textureCommands fb iformat l gl.nextTexture ≠ [] := by
      intro h; rw [h] at hlast; cases hlast
    rw [List.getLast?_append_of_ne_nil _ hne, hlast]
  · obtain ⟨r1, r2⟩ := runOps_prefix ops _ gl2 _ hlen
    rw [r1, r2]
    exact ⟨htex, hbuf⟩

/-- C14 witness: the first colour texture of the fresh 512x512 target takes slot 0. -/
theorem C14_slot_is_texture_count_witness :
    ((FrameBuffer.newSized (GLContext.fresh 8) 512 512).1.attachTexture
      (FrameBuffer.newSized (GLContext.fresh 8) 512 512).2 GL_RGBA32F GL_LINEAR).st.buffers[
        (FrameBuffer.newSized (GLContext.fresh 8) 512 512).1.tex_ids.length]? =
      some (some (GL_COLOR_ATTACHMENT0 +
        (FrameBuffer.newSized (GLContext.fresh 8) 512 512).1.tex_ids.length)) :=
  (C14_slot_is_texture_count (FrameBuffer.newSized (GLContext.fresh 8) 512 512).1
    (FrameBuffer.newSized (GLContext.fresh 8) 512 512).2 GL_RGBA32F GL_LINEAR
    (by decide) (by decide)).2.1

/-! ## C16, C17: what `updatePointLights` changes -/

theorem updatePointLights_spec (matrixBuffer : Nat) (L : Lights) (gl : GLContext)
    (separation yOffset radius : FloatVal)
    (hs : separation.lt (FloatVal.finite 0) = false)
    (hmm : LIGHT_GRID_WIDTH * LIGHT_GRID_WIDTH * LIGHT_GRID_HEIGHT ≤ L.modelMatrices.length)
    (hcs : LIGHT_GRID_WIDTH * LIGHT_GRID_WIDTH * LIGHT_GRID_HEIGHT ≤ L.modelColorSizes.length) :
    (updatePointLights matrixBuffer L gl separation yOffset radius).result = Outcome.ok ∧
    (updatePointLights matrixBuffer L gl separation yOffset radius).st =
      (updateLoops separation yOffset radius L).2 := by
  obtain ⟨uok, -⟩ := updateLoops_spec separation yOffset radius L hmm hcs
  exact updatePointLights_nonneg matrixBuffer L gl separation yOffset radius hs uok

theorem updatePointLights_negative (matrixBuffer : Nat) (L : Lights) (gl : GLContext)
    (separation yOffset radius : FloatVal)
    (hneg : separation.lt (FloatVal.finite 0) = true) :
    (updatePointLights matrixBuffer L gl separation yOffset radius).result = Outcome.ok ∧
    (updatePointLights matrixBuffer L gl separation yOffset radius).st.modelMatrices.length =
      L.modelMatrices.length ∧
    (updatePointLights matrixBuffer L gl separation yOffset radius).st.modelColorSizes.length =
      L.modelColorSizes.length ∧ True ∧ True := by
  unfold updatePointLights
  rw [if_pos hneg]
  exact ⟨rfl, rfl, rfl, trivial, trivial⟩

/-- C16: after `configurePointLights` on two empty sequences both sequences have length
exactly `W*W*H = 100`; on sequences of that length `updatePointLights` returns normally for
every argument (negative separations included) and leaves both lengths at `W*W*H`; so every
index `x*W*H + z*H + y` it writes, and the instance count `W*W*H` of the instanced draw, are
within both sequences. -/
theorem C16_sequence_lengths (C : CLib) (radius separation yOffset : FloatVal) :
    LIGHT_GRID_WIDTH * LIGHT_GRID_WIDTH * LIGHT_GRID_HEIGHT = 100 ∧
    totalLights ≤
      (configurePointLights C ⟨[], []⟩ radius separation yOffset).modelMatrices.length ∧
    totalLights ≤
      (configurePointLights C ⟨[], []⟩ radius separation yOffset).modelColorSizes.length ∧
    (configurePointLights C ⟨[], []⟩ radius separation yOffset).modelMatrices.length =
      LIGHT_GRID_WIDTH * LIGHT_GRID_WIDTH * LIGHT_GRID_HEIGHT ∧
    (configurePointLights C ⟨[], []⟩ radius separation yOffset).modelColorSizes.length =
      LIGHT_GRID_WIDTH * LIGHT_GRID_WIDTH * LIGHT_GRID_HEIGHT ∧
    (∀ (L : Lights) (matrixBuffer : Nat) (gl : GLContext) (separation2 yOffset2 radius2 : FloatVal),
      L.modelMatrices.length = LIGHT_GRID_WIDTH * LIGHT_GRID_WIDTH * LIGHT_GRID_HEIGHT →
      L.modelColorSizes.length = LIGHT_GRID_WIDTH * LIGHT_GRID_WIDTH * LIGHT_GRID_HEIGHT →
      (updatePointLights matrixBuffer L gl separation2 yOffset2 radius2).result = Outcome.ok ∧
      (updatePointLights matrixBuffer L gl separation2 yOffset2 radius2).st.modelMatrices.length
        = LIGHT_GRID_WIDTH * LIGHT_GRID_WIDTH * LIGHT_GRID_HEIGHT ∧
      (updatePointLights matrixBuffer L gl separation2 yOffset2
          radius2).st.modelColorSizes.length
        = LIGHT_GRID_WIDTH * LIGHT_GRID_WIDTH * LIGHT_GRID_HEIGHT) ∧
    (∀ x z y, x < LIGHT_GRID_WIDTH → z < LIGHT_GRID_WIDTH → y < LIGHT_GRID_HEIGHT →
      gridIndex LIGHT_GRID_WIDTH LIGHT_GRID_HEIGHT x z y <
        (configurePointLights C ⟨[], []⟩ radius separation yOffset).modelMatrices.length ∧
      gridIndex LIGHT_GRID_WIDTH LIGHT_GRID_HEIGHT x z y <
        (configurePointLights C ⟨[], []⟩ radius separation yOffset).modelColorSizes.length) := by
  obtain ⟨hlm, hlc, -⟩ := configureLoops_spec C radius separation yOffset
  refine ⟨by decide, Nat.le_of_eq hlm.symm, Nat.le_of_eq hlc.symm, hlm, hlc, ?_, ?_⟩
  · intro L matrixBuffer gl s2 y2 r2 h1 h2
    by_cases hneg : s2.lt (FloatVal.finite 0) = true
    · obtain ⟨a, b, c, -, -⟩ := updatePointLights_negative matrixBuffer L gl s2 y2 r2 hneg
      rw [b, c]
      exact ⟨a, h1, h2⟩
    · obtain ⟨r1, r2'⟩ := updatePointLights_spec matrixBuffer L gl s2 y2 r2
        (by simpa using hneg)
        (Nat.le_of_eq h1.symm) (Nat.le_of_eq h2.symm)
      obtain ⟨-, l1, l2, -, -⟩ := updateLoops_spec s2 y2 r2 L (Nat.le_of_eq h1.symm)
        (Nat.le_of_eq h2.symm)
      rw [r2', l1, l2]
      exact ⟨r1, h1, h2⟩
  · intro x z y hx hz hy
    rw [hlm, hlc]
    exact ⟨gridIndex_lt _ _ x z y hx hz hy, gridIndex_lt _ _ x z y hx hz hy⟩

/-- C17: for every separation `>= 0`, yOffset and radius, on sequences that hold the `W*W*H`
instances, `updatePointLights` returns normally, keeps both lengths, leaves columns 0, 1 and 2
of every instance transform unchanged (only the translation column 3 can differ) and leaves
components `x`, `y`, `z` (r, g, b) of every colour/size record unchanged; component `w` of each
of the `W*W*H` records is the radius argument. -/
theorem C17_update_frame (matrixBuffer : Nat) (L : Lights) (gl : GLContext)
    (separation yOffset radius : FloatVal)
    (hs : separation.lt (FloatVal.finite 0) = false)
    (hmm : LIGHT_GRID_WIDTH * LIGHT_GRID_WIDTH * LIGHT_GRID_HEIGHT ≤ L.modelMatrices.length)
    (hcs : LIGHT_GRID_WIDTH * LIGHT_GRID_WIDTH * LIGHT_GRID_HEIGHT ≤ L.modelColorSizes.length) :
    (updatePointLights matrixBuffer L gl separation yOffset radius).result = Outcome.ok ∧
    (updatePointLights matrixBuffer L gl separation yOffset radius).st.modelMatrices.length =
      L.modelMatrices.length ∧
    (updatePointLights matrixBuffer L gl separation yOffset radius).st.modelColorSizes.length =
      L.modelColorSizes.length ∧
    (∀ (i : Nat) (m : Mat4), L.modelMatrices[i]? = some m →
      ∃ m2 : Mat4, (updatePointLights matrixBuffer L gl separation yOffset
          radius).st.modelMatrices[i]? = some m2 ∧
        m2.c0 = m.c0 ∧ m2.c1 = m.c1 ∧ m2.c2 = m.c2) ∧
    (∀ (i : Nat) (c : Vec4), L.modelColorSizes[i]? = some c →
      ∃ c2 : Vec4, (updatePointLights matrixBuffer L gl separation yOffset
          radius).st.modelColorSizes[i]? = some c2 ∧
        c2.x = c.x ∧ c2.y = c.y ∧ c2.z = c.z ∧
        (i < LIGHT_GRID_WIDTH * LIGHT_GRID_WIDTH * LIGHT_GRID_HEIGHT → c2.w = radius)) := by
  obtain ⟨r1, r2⟩ := updatePointLights_spec matrixBuffer L gl separation yOffset radius hs
    hmm hcs
  obtain ⟨-, l1, l2, hout, hcell⟩ := updateLoops_spec separation yOffset radius L hmm hcs
  rw [r2]
  refine ⟨r1, l1, l2, ?_, ?_⟩
  · intro i m hm
    rcases Nat.lt_or_ge i (LIGHT_GRID_WIDTH * LIGHT_GRID_WIDTH * LIGHT_GRID_HEIGHT) with hi | hi
    · obtain ⟨x, z, y, hx, hz, hy, hg⟩ := gridIndex_surjective _ _ i hi
      obtain ⟨u1, -⟩ := hcell x z y hx hz hy
      rw [hg, hm] at u1
      exact ⟨_, u1, rfl, rfl, rfl⟩
    · obtain ⟨u1, -⟩ := hout i hi
      exact ⟨m, by rw [u1, hm], rfl, rfl, rfl⟩
  · intro i c hc
    rcases Nat.lt_or_ge i (LIGHT_GRID_WIDTH * LIGHT_GRID_WIDTH * LIGHT_GRID_HEIGHT) with hi | hi
    · obtain ⟨x, z, y, hx, hz, hy, hg⟩ := gridIndex_surjective _ _ i hi
      obtain ⟨-, u2⟩ := hcell x z y hx hz hy
      rw [hg, hc] at u2
      exact ⟨_, u2, rfl, rfl, rfl, fun _ => rfl⟩
    · obtain ⟨-, u2⟩ := hout i hi
      exact ⟨c, by rw [u2, hc], rfl, rfl, rfl, fun h => absurd h (Nat.not_lt.mpr hi)⟩

/-- C17 witness: the grid generated in the run `jitterRun`, updated with separation 1,
yOffset 0 and radius 2. -/
theorem C17_update_frame_witness :
    (updatePointLights 7
      (configurePointLights jitterRun ⟨[], []⟩ (FloatVal.finite 1) (FloatVal.finite 1)
        (FloatVal.finite 0))
      (GLContext.fresh 8)
      (FloatVal.finite 1) (FloatVal.finite 0) (FloatVal.finite 2)).result = Outcome.ok :=
  (C17_update_frame 7
    (configurePointLights jitterRun ⟨[], []⟩ (FloatVal.finite 1) (FloatVal.finite 1)
      (FloatVal.finite 0))
    (GLContext.fresh 8)
    (FloatVal.finite 1) (FloatVal.finite 0) (FloatVal.finite 2) (by norm_num [FloatVal.lt])
    (Nat.le_of_eq (configureLoops_spec jitterRun _ _ _).1.symm)
    (Nat.le_of_eq (configureLoops_spec jitterRun _ _ _).2.1.symm)).1

/-! ## C18: destruction -/

theorem call_log (gl : GLContext) (c : GLCall) : (gl.call c).log = gl.log ++ [c] := rfl

theorem destroy_log (fb : FrameBuffer) (gl : GLContext) :
    (fb.destroy gl).log =
      gl.log ++ (fb.tex_ids.map GLCall.DeleteTextures ++
        (fb.renderHandles.map GLCall.DeleteRenderbuffers ++
          [GLCall.DeleteFramebuffers fb.frame_id])) := by
  have hfold : ∀ (ids : List Nat) (g : GLContext),
      (ids.foldl (fun g tex_id => g.call (GLCall.DeleteTextures tex_id)) g).log =
        g.log ++ ids.map GLCall.DeleteTextures := by
    intro ids
    induction ids with
    | nil => intro g; simp
    | cons t rest ih =>
      intro g
      rw [List.foldl_cons, ih, call_log, List.map_cons, List.append_assoc]
      rfl
  unfold FrameBuffer.destroy FrameBuffer.renderHandles
  by_cases hd : fb.depth_id ≠ 0 <;> by_cases hs : fb.stencil_id ≠ 0 <;>
    simp [hd, hs, hfold, call_log]

/-- C18 (counterexample): after two successful `attachRender(GL_DEPTH_COMPONENT24)` calls on
the fresh 512x512 target the FrameBuffer has created the renderbuffers 1 and 2, but its
destructor issues only `glDeleteRenderbuffers(2)` and `glDeleteFramebuffers(1)`: renderbuffer 1
is never deleted. -/
theorem C18_second_render_leaks_first :
    twoDepthRenders512.result = Outcome.ok ∧
    genRenderbuffers twoDepthRenders512.gl.log = [1, 2] ∧
    (twoDepthRenders512.st.destroy twoDepthRenders512.gl).log =
      twoDepthRenders512.gl.log ++
        [GLCall.DeleteRenderbuffers 2, GLCall.DeleteFramebuffers 1] ∧
    GLCall.DeleteRenderbuffers 1 ∉ (twoDepthRenders512.st.destroy twoDepthRenders512.gl).log := by
  decide

theorem gen_textureCommands (fb : FrameBuffer) (iformat : Nat) (l : TexLayout) (t : Nat) :
    genTextures (textureCommands fb iformat l t) = [] ∧
    genRenderbuffers (textureCommands fb iformat l t) = [] ∧
    genFramebuffers (textureCommands fb iformat l t) = [] := by
  unfold textureCommands
  split_ifs <;> exact ⟨rfl, rfl, rfl⟩

theorem gen_renderCommands (fb : FrameBuffer) (iformat : Nat) (multisample : Bool)
    (a n : Nat) :
    genTextures (renderCommands fb iformat multisample a n) = [] ∧
    genRenderbuffers (renderCommands fb iformat multisample a n) = [] ∧
    genFramebuffers (renderCommands fb iformat multisample a n) = [] := by
  unfold renderCommands
  cases multisample <;> exact ⟨rfl, rfl, rfl⟩

theorem renderAttachment_cases (iformat a : Nat) (h : renderAttachment iformat = some a) :
    a = GL_DEPTH_ATTACHMENT ∨ a = GL_STENCIL_ATTACHMENT ∨ a = GL_DEPTH_STENCIL_ATTACHMENT := by
  unfold renderAttachment at h
  split_ifs at h <;> cases h <;> simp

theorem attachRender_ok_inv (fb : FrameBuffer) (gl : GLContext) (iformat : Nat)
    (multisample : Bool)
    (h : (fb.attachRender gl iformat multisample).result = Outcome.ok) :
    ∃ a, fb.width ≠ 0 ∧ fb.height ≠ 0 ∧ renderAttachment iformat = some a := by
  unfold FrameBuffer.attachRender at h
  by_cases h1 : fb.width = 0 ∨ fb.height = 0
  · simp [h1] at h
  cases ha : renderAttachment iformat with
  | none => simp [h1, ha] at h
  | some a =>
    refine ⟨a, fun hw => h1 (Or.inl hw), fun hh => h1 (Or.inr hh), rfl⟩

/-- Effect of one successful attach call on the command log, the created names and the
handles of the object. -/
theorem attach_step (op : FBOp) (fb : FrameBuffer) (gl : GLContext)
    (hatt : op.isAttach = true) (hok : (op.apply fb gl).result = Outcome.ok) :
    ∃ cmds,
      (op.apply fb gl).gl.log = gl.log ++ cmds ∧
      (op.apply fb gl).st.tex_ids = fb.tex_ids ++ genTextures cmds ∧
      (op.apply fb gl).st.frame_id = fb.frame_id ∧
      genFramebuffers cmds = [] ∧
      ((genTextures cmds = [gl.nextTexture] ∧ genRenderbuffers cmds = [] ∧
          (op.apply fb gl).gl.nextTexture = gl.nextTexture + 1 ∧
          (op.apply fb gl).gl.nextRenderbuffer = gl.nextRenderbuffer ∧
          (op.apply fb gl).st.depth_id = fb.depth_id ∧
          (op.apply fb gl).st.stencil_id = fb.stencil_id ∧
          op.isDepthRender = false ∧ op.isStencilRender = false) ∨
       (genTextures cmds = [] ∧ genRenderbuffers cmds = [gl.nextRenderbuffer] ∧
          (op.apply fb gl).gl.nextTexture = gl.nextTexture ∧
          (op.apply fb gl).gl.nextRenderbuffer = gl.nextRenderbuffer + 1 ∧
          ((op.isDepthRender = true ∧ op.isStencilRender = false ∧
              (op.apply fb gl).st.depth_id = gl.nextRenderbuffer ∧
              (op.apply fb gl).st.stencil_id = fb.stencil_id) ∨
           (op.isDepthRender = false ∧ op.isStencilRender = true ∧
              (op.apply fb gl).st.depth_id = fb.depth_id ∧
              (op.apply fb gl).st.stencil_id = gl.nextRenderbuffer)))) := by
  cases op with
  | attachTexture iformat filter =>
    simp only [FBOp.apply] at hok ⊢
    obtain ⟨l, bs, -, -, -, -, heq⟩ := attachTexture_ok_inv fb gl iformat filter hok
    obtain ⟨g1, g2, g3⟩ := gen_textureCommands fb iformat l gl.nextTexture
    refine ⟨GLCall.GenTextures gl.nextTexture :: textureCommands fb iformat l gl.nextTexture,
      ?_, ?_, ?_, ?_, Or.inl ⟨?_, ?_, ?_, ?_, ?_, ?_, rfl, rfl⟩⟩
    · rw [heq]; simp [GLContext.calls, GLContext.genTexture]
    · rw [heq]; simp [genTextures, List.filterMap_cons] at g1 ⊢; exact g1
    · rw [heq]
    · simp [genFramebuffers, List.filterMap_cons] at g3 ⊢; exact g3
    · simp [genTextures, List.filterMap_cons] at g1 ⊢; exact g1
    · simp [genRenderbuffers, List.filterMap_cons] at g2 ⊢; exact g2
    · rw [heq]; rfl
    · rw [heq]; rfl
    · rw [heq]
    · rw [heq]
  | attachRender iformat multisample =>
    simp only [FBOp.apply] at hok ⊢
    obtain ⟨a, hw, hh, ha⟩ := attachRender_ok_inv fb gl iformat multisample hok
    obtain ⟨-, e2, e3⟩ := attachRender_ok fb gl iformat multisample a hw hh ha
    obtain ⟨g1, g2, g3⟩ := gen_renderCommands fb iformat multisample a gl.nextRenderbuffer
    refine ⟨GLCall.GenRenderbuffers gl.nextRenderbuffer ::
        renderCommands fb iformat multisample a gl.nextRenderbuffer, ?_, ?_, ?_, ?_,
      Or.inr ⟨?_, ?_, ?_, ?_, ?_⟩⟩
    · rw [e2]; simp [GLContext.calls, GLContext.genRenderbuffer]
    · have : genTextures (GLCall.GenRenderbuffers gl.nextRenderbuffer ::
          renderCommands fb iformat multisample a gl.nextRenderbuffer) = [] := by
        simp [genTextures, List.filterMap_cons] at g1 ⊢; exact g1
      rw [this, e3]
      split_ifs <;> simp
    · rw [e3]; split_ifs <;> rfl
    · simp [genFramebuffers, List.filterMap_cons] at g3 ⊢; exact g3
    · simp [genTextures, List.filterMap_cons] at g1 ⊢; exact g1
    · simp [genRenderbuffers, List.filterMap_cons] at g2 ⊢; exact g2
    · rw [e2]; rfl
    · rw [e2]; rfl
    · rw [e3]
      simp only [FBOp.isDepthRender, FBOp.isStencilRender, ha]
      rcases renderAttachment_cases iformat a ha with rfl | rfl | rfl
      · left; exact ⟨by decide, by decide, by simp, by simp⟩
      · right; refine ⟨by decide, by decide, ?_, ?_⟩
        · rw [if_neg (by decide), if_pos rfl]
        · rw [if_neg (by decide), if_pos rfl]
      · left; exact ⟨by decide, by decide, by simp, by simp⟩
  | setSize w h => cases hatt
  | bindInput => cases hatt
  | bindInput_num num => cases hatt
  | bindOutput => cases hatt
  | bindOutput_num num => cases hatt
  | bindTex num => cases hatt
  | bindImage unit num format access => cases hatt
  | bindRead => cases hatt
  | bindWrite => cases hatt
  | check status => cases hatt
  | unbind => cases hatt

theorem genTextures_append (xs ys : List GLCall) :
    genTextures (xs ++ ys) = genTextures xs ++ genTextures ys := by
  simp [genTextures, List.filterMap_append]

theorem genRenderbuffers_append (xs ys : List GLCall) :
    genRenderbuffers (xs ++ ys) = genRenderbuffers xs ++ genRenderbuffers ys := by
  simp [genRenderbuffers, List.filterMap_append]

theorem genFramebuffers_append (xs ys : List GLCall) :
    genFramebuffers (xs ++ ys) = genFramebuffers xs ++ genFramebuffers ys := by
  simp [genFramebuffers, List.filterMap_append]

theorem runOps_attach_inv (ops : List FBOp) :
    ∀ (fb : FrameBuffer) (gl : GLContext),
      (∀ op ∈ ops, op.isAttach = true) →
      (∀ o ∈ (runOps fb gl ops).1, o = Outcome.ok) →
      0 < gl.nextRenderbuffer →
      (if fb.depth_id ≠ 0 then 1 else 0) + ops.countP FBOp.isDepthRender ≤ 1 →
      (if fb.stencil_id ≠ 0 then 1 else 0) + ops.countP FBOp.isStencilRender ≤ 1 →
      ∃ cmds,
        (runOps fb gl ops).2.2.log = gl.log ++ cmds ∧
        (runOps fb gl ops).2.1.tex_ids = fb.tex_ids ++ genTextures cmds ∧
        (runOps fb gl ops).2.1.frame_id = fb.frame_id ∧
        genFramebuffers cmds = [] ∧
        (∀ t ∈ genTextures cmds, gl.nextTexture ≤ t) ∧
        (genTextures cmds).Nodup ∧
        (∀ n ∈ genRenderbuffers cmds, gl.nextRenderbuffer ≤ n) ∧
        (genRenderbuffers cmds).Nodup ∧
        (runOps fb gl ops).2.1.renderHandles.Perm
          (fb.renderHandles ++ genRenderbuffers cmds) := by
  induction ops with
  | nil =>
    intro fb gl _ _ _ _ _
    exact ⟨[], by simp [runOps], by simp [runOps, genTextures], rfl, rfl,
      by simp [genTextures], by simp [genTextures], by simp [genRenderbuffers],
      by simp [genRenderbuffers], by simp [runOps, genRenderbuffers]⟩
  | cons op rest ih =>
    intro fb gl hatt hok hname hd hs
    simp only [runOps, List.mem_cons, forall_eq_or_imp] at hok hatt ⊢
    obtain ⟨hok1, hok2⟩ := hok
    obtain ⟨hatt1, hatt2⟩ := hatt
    rw [List.countP_cons] at hd hs
    obtain ⟨c1, hlog1, htex1, hfid1, hgf1, hcase⟩ := attach_step op fb gl hatt1 hok1
    rcases hcase with ⟨gt, gr, nt, nr, ed, es, pd, ps⟩ |
      ⟨gt, gr, nt, nr, ⟨pd, ps, ed, es⟩ | ⟨pd, ps, ed, es⟩⟩
    · -- a texture was attached
      rw [pd] at hd
      rw [ps] at hs
      obtain ⟨c2, hlog2, htex2, hfid2, hgf2, hb2, hn2, hrb2, hrn2, hperm2⟩ :=
        ih (op.apply fb gl).st (op.apply fb gl).gl hatt2 hok2 (by rw [nr]; exact hname)
          (by rw [ed]; simpa using hd) (by rw [es]; simpa using hs)
      refine ⟨c1 ++ c2, ?_, ?_, ?_, ?_, ?_, ?_, ?_, ?_, ?_⟩
      · rw [hlog2, hlog1, List.append_assoc]
      · rw [htex2, htex1, genTextures_append, List.append_assoc]
      · rw [hfid2, hfid1]
      · rw [genFramebuffers_append, hgf1, hgf2]; rfl
      · intro t ht
        rw [genTextures_append] at ht
        rcases List.mem_append.mp ht with h | h
        · have h' : t ∈ genTextures c1 := h
          rw [gt] at h'
          simp at h'; omega
        · have := hb2 t h
          rw [nt] at this; omega
      · rw [genTextures_append]
        rw [gt]
        refine List.nodup_cons.mpr ⟨fun hmem => ?_, hn2⟩
        have := hb2 _ hmem
        rw [nt] at this; omega
      · intro n hn
        rw [genRenderbuffers_append] at hn
        rcases List.mem_append.mp hn with h | h
        · have h' : n ∈ genRenderbuffers c1 := h
          rw [gr] at h'; cases h'
        · have := hrb2 n h
          rw [nr] at this; exact this
      · rw [genRenderbuffers_append]
        rw [gr]; exact hrn2
      · have hh : (op.apply fb gl).st.renderHandles = fb.renderHandles := by
          unfold FrameBuffer.renderHandles; rw [ed, es]
        rw [hh] at hperm2
        rw [genRenderbuffers_append]
        rw [gr]; exact hperm2
    · -- a depth or depth-stencil renderbuffer was attached
      rw [pd] at hd
      rw [ps] at hs
      have hd0 : fb.depth_id = 0 := by
        by_contra hne
        simp [hne] at hd
      have hcnt : rest.countP FBOp.isDepthRender = 0 := by
        simp at hd; omega
      have hnz : gl.nextRenderbuffer ≠ 0 := by omega
      obtain ⟨c2, hlog2, htex2, hfid2, hgf2, hb2, hn2, hrb2, hrn2, hperm2⟩ :=
        ih (op.apply fb gl).st (op.apply fb gl).gl hatt2 hok2 (by rw [nr]; omega)
          (by rw [ed, hcnt]; simp [hnz]) (by rw [es]; simpa using hs)
      refine ⟨c1 ++ c2, ?_, ?_, ?_, ?_, ?_, ?_, ?_, ?_, ?_⟩
      · rw [hlog2, hlog1, List.append_assoc]
      · rw [htex2, htex1, genTextures_append, List.append_assoc]
      · rw [hfid2, hfid1]
      · rw [genFramebuffers_append, hgf1, hgf2]; rfl
      · intro t ht
        rw [genTextures_append] at ht
        rcases List.mem_append.mp ht with h | h
        · have h' : t ∈ genTextures c1 := h
          rw [gt] at h'; cases h'
        · have := hb2 t h
          rw [nt] at this; exact this
      · rw [genTextures_append]
        rw [gt]; exact hn2
      · intro n hn
        rw [genRenderbuffers_append] at hn
        rcases List.mem_append.mp hn with h | h
        · have h' : n ∈ genRenderbuffers c1 := h
          rw [gr] at h'
          simp at h'; omega
        · have := hrb2 n h
          rw [nr] at this; omega
      · rw [genRenderbuffers_append]
        rw [gr]
        refine List.nodup_cons.mpr ⟨fun hmem => ?_, hrn2⟩
        have := hrb2 _ hmem
        rw [nr] at this; omega
      · have hh : (op.apply fb gl).st.renderHandles =
            gl.nextRenderbuffer :: fb.renderHandles := by
          unfold FrameBuffer.renderHandles
          rw [ed, es, hd0]
          simp [hnz]
        rw [hh] at hperm2
        rw [genRenderbuffers_append]
        rw [gr]
        exact hperm2.trans (List.perm_middle.symm)
    · -- a stencil renderbuffer was attached
      rw [pd] at hd
      rw [ps] at hs
      have hs0 : fb.stencil_id = 0 := by
        by_contra hne
        simp [hne] at hs
      have hcnt : rest.countP FBOp.isStencilRender = 0 := by
        simp at hs; omega
      have hnz : gl.nextRenderbuffer ≠ 0 := by omega
      obtain ⟨c2, hlog2, htex2, hfid2, hgf2, hb2, hn2, hrb2, hrn2, hperm2⟩ :=
        ih (op.apply fb gl).st (op.apply fb gl).gl hatt2 hok2 (by rw [nr]; omega)
          (by rw [ed]; simpa using hd) (by rw [es, hcnt]; simp [hnz])
      refine ⟨c1 ++ c2, ?_, ?_, ?_, ?_, ?_, ?_, ?_, ?_, ?_⟩
      · rw [hlog2, hlog1, List.append_assoc]
      · rw [htex2, htex1, genTextures_append, List.append_assoc]
      · rw [hfid2, hfid1]
      · rw [genFramebuffers_append, hgf1, hgf2]; rfl
      · intro t ht
        rw [genTextures_append] at ht
        rcases List.mem_append.mp ht with h | h
        · have h' : t ∈ genTextures c1 := h
          rw [gt] at h'; cases h'
        · have := hb2 t h
          rw [nt] at this; exact this
      · rw [genTextures_append]
        rw [gt]; exact hn2
      · intro n hn
        rw [genRenderbuffers_append] at hn
        rcases List.mem_append.mp hn with h | h
        · have h' : n ∈ genRenderbuffers c1 := h
          rw [gr] at h'
          simp at h'; omega
        · have := hrb2 n h
          rw [nr] at this; omega
      · rw [genRenderbuffers_append]
        rw [gr]
        refine List.nodup_cons.mpr ⟨fun hmem => ?_, hrn2⟩
        have := hrb2 _ hmem
        rw [nr] at this; omega
      · have hh : (op.apply fb gl).st.renderHandles =
            fb.renderHandles ++ [gl.nextRenderbuffer] := by
          unfold FrameBuffer.renderHandles
          rw [ed, es, hs0]
          simp [hnz]
        rw [hh] at hperm2
        rw [genRenderbuffers_append]
        rw [gr]
        simpa using hperm2

/-- C18 (amended): take a FrameBuffer built by the sizing constructor and any sequence of
successful `attachTexture` and `attachRender` calls in which at most one `attachRender` has a
depth or combined depth-stencil format and at most one has a stencil format (one renderbuffer
per handle `depth_id`, `stencil_id`), on a context whose renderbuffer names are non-zero.  Then
the destructor issues exactly: `glDeleteTextures` for every texture the FrameBuffer created, in
creation order; then `glDeleteRenderbuffers` for every renderbuffer it created; then
`glDeleteFramebuffers` for its framebuffer object, last.  The created names are pairwise
distinct, so each object is deleted exactly once. -/
theorem C18_destruction_deletes_created (gl0 : GLContext) (width_ height_ : Int)
    (ops : List FBOp) (hname : 0 < gl0.nextRenderbuffer)
    (hatt : ∀ op ∈ ops, op.isAttach = true)
    (hok : ∀ o ∈ (runOps (FrameBuffer.newSized gl0 width_ height_).1
      (FrameBuffer.newSized gl0 width_ height_).2 ops).1, o = Outcome.ok)
    (hd : ops.countP FBOp.isDepthRender ≤ 1) (hs : ops.countP FBOp.isStencilRender ≤ 1) :
    ∃ (created : List GLCall) (rbs : List Nat),
      (runOps (FrameBuffer.newSized gl0 width_ height_).1
        (FrameBuffer.newSized gl0 width_ height_).2 ops).2.2.log = gl0.log ++ created ∧
      ((runOps (FrameBuffer.newSized gl0 width_ height_).1
          (FrameBuffer.newSized gl0 width_ height_).2 ops).2.1.destroy
        (runOps (FrameBuffer.newSized gl0 width_ height_).1
          (FrameBuffer.newSized gl0 width_ height_).2 ops).2.2).log =
        (runOps (FrameBuffer.newSized gl0 width_ height_).1
          (FrameBuffer.newSized gl0 width_ height_).2 ops).2.2.log ++
          ((genTextures created).map GLCall.DeleteTextures ++
            (rbs.map GLCall.DeleteRenderbuffers ++
              (genFramebuffers created).map GLCall.DeleteFramebuffers)) ∧
      rbs.Perm (genRenderbuffers created) ∧
      (genTextures created).Nodup ∧
      (genRenderbuffers created).Nodup ∧
      (genFramebuffers created).length = 1 := by
  have hc2 : (FrameBuffer.newSized gl0 width_ height_).2.log =
      gl0.log ++ [GLCall.GetIntegerv GL_MAX_COLOR_ATTACHMENTS,
        GLCall.GenFramebuffers gl0.nextFramebuffer] := by
    simp [FrameBuffer.newSized, GLContext.call, GLContext.genFramebuffer]
  obtain ⟨cmds, hlog, htex, hfid, hgf, -, hn, -, hrn, hperm⟩ :=
    runOps_attach_inv ops (FrameBuffer.newSized gl0 width_ height_).1
      (FrameBuffer.newSized gl0 width_ height_).2 hatt hok hname
      (by simpa [FrameBuffer.newSized] using hd) (by simpa [FrameBuffer.newSized] using hs)
  have hh0 : (FrameBuffer.newSized gl0 width_ height_).1.renderHandles = [] := rfl
  have ht0 : (FrameBuffer.newSized gl0 width_ height_).1.tex_ids = [] := rfl
  have hf0 : (FrameBuffer.newSized gl0 width_ height_).1.frame_id = gl0.nextFramebuffer := rfl
  rw [hh0, List.nil_append] at hperm
  rw [ht0, List.nil_append] at htex
  have g1 : genTextures ([GLCall.GetIntegerv GL_MAX_COLOR_ATTACHMENTS,
      GLCall.GenFramebuffers gl0.nextFramebuffer] ++ cmds) = genTextures cmds := by
    rw [genTextures_append]; rfl
  have g2 : genRenderbuffers ([GLCall.GetIntegerv GL_MAX_COLOR_ATTACHMENTS,
      GLCall.GenFramebuffers gl0.nextFramebuffer] ++ cmds) = genRenderbuffers cmds := by
    rw [genRenderbuffers_append]; rfl
  have g3 : genFramebuffers ([GLCall.GetIntegerv GL_MAX_COLOR_ATTACHMENTS,
      GLCall.GenFramebuffers gl0.nextFramebuffer] ++ cmds) = [gl0.nextFramebuffer] := by
    rw [genFramebuffers_append, hgf]; rfl
  refine ⟨[GLCall.GetIntegerv GL_MAX_COLOR_ATTACHMENTS,
      GLCall.GenFramebuffers gl0.nextFramebuffer] ++ cmds,
    (runOps (FrameBuffer.newSized gl0 width_ height_).1
      (FrameBuffer.newSized gl0 width_ height_).2 ops).2.1.renderHandles, ?_, ?_, ?_, ?_, ?_, ?_⟩
  · rw [hlog, hc2, List.append_assoc]
  · rw [destroy_log, g1, g3, htex, hfid, hf0]; rfl
  · rw [g2]; exact hperm
  · rw [g1]; exact hn
  · rw [g2]; exact hrn
  · rw [g3]; rfl

/-- C18 witness: a 512x512 target with a colour texture, a depth renderbuffer and a second
colour texture. -/
theorem C18_destruction_deletes_created_witness :
    ∃ (created : List GLCall) (rbs : List Nat),
      (runOps (FrameBuffer.newSized (GLContext.fresh 8) 512 512).1
        (FrameBuffer.newSized (GLContext.fresh 8) 512 512).2
        [FBOp.attachTexture GL_RGBA32F GL_LINEAR, FBOp.attachRender GL_DEPTH_COMPONENT24 false,
         FBOp.attachTexture GL_RGBA8 GL_LINEAR]).2.2.log = (GLContext.fresh 8).log ++ created ∧
      rbs.Perm (genRenderbuffers created) ∧ (genFramebuffers created).length = 1 := by
  obtain ⟨created, rbs, h1, -, h3, -, -, h6⟩ :=
    C18_destruction_deletes_created (GLContext.fresh 8) 512 512
      [FBOp.attachTexture GL_RGBA32F GL_LINEAR, FBOp.attachRender GL_DEPTH_COMPONENT24 false,
       FBOp.attachTexture GL_RGBA8 GL_LINEAR]
      (by decide) (by decide) (by decide) (by decide) (by decide)
  exact ⟨created, rbs, h1, h3, h6⟩

/-! ## C19 -/

/-- C19 (failing input): on `strictDriver`, constructing a `Shader` from a vertex source and a
fragment source that compile and a geometry source that does not compile prints only the
program link diagnostic.  No compilation diagnostic naming `GEOMETRY` is emitted, because the
status queried after compiling the geometry shader is that of the fragment shader.
Conversely, when only the fragment source fails, a `GEOMETRY` diagnostic is printed
although the geometry shader compiled.  In both runs the constructor returns a program
handle. -/
theorem C19_geometry_failure_not_reported :
    (Shader.new strictDriver ShaderGL.fresh "v" "f" (some "bad")).2.out =
      [linkDiagnostic "PROGRAM" "link log"] ∧
    compileDiagnostic "GEOMETRY" "compile log" ∉
      (Shader.new strictDriver ShaderGL.fresh "v" "f" (some "bad")).2.out ∧
    (Shader.new strictDriver ShaderGL.fresh "v" "f" (some "bad")).1 = 4 ∧
    (Shader.new strictDriver ShaderGL.fresh "v" "bad" (some "g")).2.out =
      [compileDiagnostic "FRAGMENT" "compile log", "bad",
       compileDiagnostic "GEOMETRY" "compile log", "g",
       linkDiagnostic "PROGRAM" "link log"] := by
  decide

/-! ## C23: work-group count -/

theorem workGroupCount_eq (n g : Int) (hn : 0 < n) (hg : 0 < g) :
    workGroupCount n g = (n + g - 1) / g := by
  unfold workGroupCount
  exact Int.tdiv_eq_ediv (by omega) (by omega)

/-- C23: for every positive map size `n` and thread-group size `g`, the dispatched work-group
count `(n + g - 1) / g` is the ceiling of `n / g`: groups of that count cover the `n` rows or
columns, no smaller count does, and it equals `⌈n / g⌉` computed on the rationals; for the
program's `SHADOW_MAP_SIZE = 2048` and `CS_THREAD_GROUP_SIZE = 32` the count is 64, and that
is the value the four `glDispatchCompute` calls receive. -/
theorem C23_work_group_count (n g : Int) (hn : 0 < n) (hg : 0 < g) :
    n ≤ workGroupCount n g * g ∧
    (∀ c : Int, n ≤ c * g → workGroupCount n g ≤ c) ∧
    workGroupCount n g = ⌈(n : ℚ) / (g : ℚ)⌉ ∧
    workGroupCount SHADOW_MAP_SIZE CS_THREAD_GROUP_SIZE = 64 ∧
    toGLuint (workGroupCount SHADOW_MAP_SIZE CS_THREAD_GROUP_SIZE) = 64 := by
  rw [workGroupCount_eq n g hn hg]
  have hd := Int.ediv_add_emod (n + g - 1) g
  have hm0 := Int.emod_nonneg (n + g - 1) (ne_of_gt hg)
  have hm1 := Int.emod_lt_of_pos (n + g - 1) hg
  have h1 : n ≤ (n + g - 1) / g * g := by nlinarith
  have h2 : ∀ c : Int, n ≤ c * g → (n + g - 1) / g ≤ c := by
    intro c hc
    by_contra hlt
    have hle : c + 1 ≤ (n + g - 1) / g := by omega
    have : (c + 1) * g ≤ (n + g - 1) / g * g := Int.mul_le_mul_of_nonneg_right hle (le_of_lt hg)
    nlinarith
  refine ⟨h1, h2, ?_, by decide, by decide⟩
  symm
  rw [Int.ceil_eq_iff]
  have hgq : (0 : ℚ) < (g : ℚ) := by exact_mod_cast hg
  constructor
  · rw [lt_div_iff₀ hgq]
    have h3 : ((n + g - 1) / g - 1) * g < n := by nlinarith
    have : ((((n + g - 1) / g - 1) * g : Int) : ℚ) < (n : ℚ) := by exact_mod_cast h3
    push_cast at this ⊢
    linarith
  · rw [div_le_iff₀ hgq]
    have : ((n : Int) : ℚ) ≤ (((n + g - 1) / g * g : Int) : ℚ) := by exact_mod_cast h1
    push_cast at this ⊢
    linarith

/-- C23 witness: a map of 100 rows with groups of 32 is covered by 4 groups and by no fewer. -/
theorem C23_work_group_count_witness :
    (0 : Int) < 100 ∧ (0 : Int) < 32 ∧ (100 : Int) ≤ workGroupCount 100 32 * 32 ∧
    ∀ c : Int, 100 ≤ c * 32 → workGroupCount 100 32 ≤ c :=
  ⟨by decide, by decide, (C23_work_group_count 100 32 (by decide) (by decide)).1,
   (C23_work_group_count 100 32 (by decide) (by decide)).2.1⟩

/-! ## C29: the draw-output list -/

/-- C29 (failing run): on a 512x512 target, `attachTexture(GL_DEPTH_COMPONENT24)` followed by
`attachTexture(GL_RGBA8)` both succeed; `bindOutput()` then declares
`glDrawBuffers(2, [GL_DEPTH_ATTACHMENT, GL_COLOR_ATTACHMENT0 + 1])` and `bindOutput(0)`
declares `glDrawBuffer(GL_DEPTH_ATTACHMENT)`: a depth attachment point is declared as a draw
output, and entry 0 is not colour attachment point 0.  After `attachTexture(GL_RGBA8)` and
`attachTexture(GL_TEXTURE_2D_MULTISAMPLE)`, `bindOutput()` declares
`glDrawBuffers(2, [GL_COLOR_ATTACHMENT0, GL_COLOR_ATTACHMENT0])`: colour point 0 twice, and
entry 1 is not colour attachment point 1. -/
theorem C29_draw_outputs_not_all_colour :
    GL_DEPTH_COMPONENT24 ∈ recognizedTextureFormats ∧
    GL_TEXTURE_2D_MULTISAMPLE ∈ recognizedTextureFormats ∧
    depthTexture512.result = Outcome.ok ∧ depthThenColor512.result = Outcome.ok ∧
    (depthThenColor512.st.bindOutput depthThenColor512.gl).result = Outcome.ok ∧
    issued depthThenColor512.gl (depthThenColor512.st.bindOutput depthThenColor512.gl).gl =
      [GLCall.BindFramebuffer GL_FRAMEBUFFER depthThenColor512.st.frame_id,
       GLCall.DrawBuffers 2 [GL_DEPTH_ATTACHMENT, GL_COLOR_ATTACHMENT0 + 1]] ∧
    (depthThenColor512.st.bindOutput_num depthThenColor512.gl 0).result = Outcome.ok ∧
    issued depthThenColor512.gl (depthThenColor512.st.bindOutput_num depthThenColor512.gl 0).gl =
      [GLCall.BindFramebuffer GL_FRAMEBUFFER depthThenColor512.st.frame_id,
       GLCall.DrawBuffer GL_DEPTH_ATTACHMENT] ∧
    isColorAttachmentPoint GL_DEPTH_ATTACHMENT = false ∧
    colorThenMultisample512.result = Outcome.ok ∧
    (colorThenMultisample512.st.bindOutput colorThenMultisample512.gl).result = Outcome.ok ∧
    issued colorThenMultisample512.gl
        (colorThenMultisample512.st.bindOutput colorThenMultisample512.gl).gl =
      [GLCall.BindFramebuffer GL_FRAMEBUFFER colorThenMultisample512.st.frame_id,
       GLCall.DrawBuffers 2 [GL_COLOR_ATTACHMENT0, GL_COLOR_ATTACHMENT0]] ∧
    GL_COLOR_ATTACHMENT0 ≠ GL_COLOR_ATTACHMENT0 + 1 := by
  decide

/-! ## The render targets built by `main` -/

theorem attachTexture_color_step (fb : FrameBuffer) (gl : GLContext) (iformat : Nat)
    (filter : Int) (hw : fb.width ≠ 0) (hh : fb.height ≠ 0)
    (hc : iformat ∈ colorTextureFormats)
    (hlt : fb.tex_ids.length < fb.buffers.length)
    (hcap : (fb.tex_ids.length : Int) ≠ fb.max_color_attachments) :
    (fb.attachTexture gl iformat filter).result = Outcome.ok ∧
    (fb.attachTexture gl iformat filter).st =
      { fb with tex_ids := fb.tex_ids ++ [gl.nextTexture],
                buffers := fb.buffers.set fb.tex_ids.length
                  (some (GL_COLOR_ATTACHMENT0 + fb.tex_ids.length)) } := by
  have hmem : iformat ∈ recognizedTextureFormats := by
    revert iformat; decide
  obtain ⟨l, hl⟩ := Option.ne_none_iff_exists'.mp
    (texLayout_some_of_mem iformat (GL_COLOR_ATTACHMENT0 + fb.tex_ids.length) filter hmem)
  have ha := texLayout_color_attachment iformat _ filter l hc hl
  obtain ⟨-, -, h3⟩ := attachTexture_gl fb gl iformat filter l hw hh hcap hl
  obtain ⟨hok, -⟩ := h3 hlt
  obtain ⟨l2, bs, -, -, hl2, hb, heq⟩ := attachTexture_ok_inv fb gl iformat filter hok
  rw [hl] at hl2
  cases hl2
  obtain ⟨-, hbs⟩ := writeBuffer_some _ _ _ _ hb
  refine ⟨hok, ?_⟩
  rw [heq, hbs, ha]

theorem andThen_ok {σ : Type} (s : Step σ) (f : σ → GLContext → Step σ)
    (h : s.result = Outcome.ok) : s.andThen f = f s.st s.gl := by
  unfold Step.andThen
  rw [h]

theorem andThen_st_inv {σ : Type} (P : σ → Prop) (s : Step σ) (f : σ → GLContext → Step σ)
    (hs : P s.st) (hf : ∀ x g, P x → P (f x g).st) : P (s.andThen f).st := by
  unfold Step.andThen
  split
  · exact hf _ _ hs
  · exact hs

theorem andThen_attach (M : Int) (k : Nat) (s : Step FrameBuffer) (iformat : Nat)
    (filter : Int) (hc : iformat ∈ colorTextureFormats) (hk : (k : Int) < M)
    (hs : s.result = Outcome.ok) (hQ : s.st.holdsColors M k) :
    (s.andThen (fun fb g => fb.attachTexture g iformat filter)).result = Outcome.ok ∧
    (s.andThen (fun fb g => fb.attachTexture g iformat filter)).st.holdsColors M (k + 1) := by
  obtain ⟨hw, hh, hlen, hmax, hbl, hbuf⟩ := hQ
  rw [andThen_ok s _ hs]
  obtain ⟨r1, r2⟩ := attachTexture_color_step s.st s.gl iformat filter hw hh hc
    (by rw [hlen, hbl]; omega) (by rw [hlen, hmax]; omega)
  refine ⟨r1, ?_⟩
  rw [r2]
  refine ⟨hw, hh, by simp [hlen], hmax, by simp [hbl], ?_⟩
  intro i hi
  dsimp only
  rw [hlen]
  rcases Nat.lt_or_ge i k with h | h
  · rw [List.getElem?_set_ne (by omega)]
    exact hbuf i h
  · have : i = k := by omega
    subst this
    rw [List.getElem?_set_self (by rw [hbl]; omega)]

theorem holdsColors_readBuffers (fb : FrameBuffer) (M : Int) (k : Nat)
    (h : fb.holdsColors M k) (hk : (k : Int) ≤ M) :
    readBuffers fb.buffers k = Except.ok ((List.range k).map (fun i => GL_COLOR_ATTACHMENT0 + i)) := by
  obtain ⟨-, -, -, -, hbl, hbuf⟩ := h
  exact readBuffers_of_getElem fb.buffers k _ (by rw [hbl]; omega) hbuf

/-- The parts of a target the later setup calls leave alone. -/
theorem attachRender_keeps (fb : FrameBuffer) (gl : GLContext) (iformat : Nat)
    (multisample : Bool) :
    (fb.attachRender gl iformat multisample).st.tex_ids = fb.tex_ids ∧
    (fb.attachRender gl iformat multisample).st.buffers = fb.buffers := by
  unfold FrameBuffer.attachRender
  split_ifs
  · exact ⟨rfl, rfl⟩
  · split
    · exact ⟨rfl, rfl⟩
    · split_ifs <;> exact ⟨rfl, rfl⟩

theorem bindInput_num_st (fb : FrameBuffer) (gl : GLContext) (num : Int) :
    (fb.bindInput_num gl num).st = fb := by
  unfold FrameBuffer.bindInput_num
  split_ifs
  · rfl
  · rfl
  · split <;> rfl

theorem bindOutput_st (fb : FrameBuffer) (gl : GLContext) : (fb.bindOutput gl).st = fb := by
  unfold FrameBuffer.bindOutput
  split_ifs
  · rfl
  · split <;> rfl
  · split <;> rfl

theorem check_st (fb : FrameBuffer) (gl : GLContext) (status : Nat) :
    (fb.check gl status).1.st = fb := by
  unfold FrameBuffer.check
  split_ifs <;> rfl

theorem andThen_keeps (s : Step FrameBuffer) (f : FrameBuffer → GLContext → Step FrameBuffer)
    (hf : ∀ x g, (f x g).st.tex_ids = x.tex_ids ∧ (f x g).st.buffers = x.buffers) :
    (s.andThen f).st.tex_ids = s.st.tex_ids ∧ (s.andThen f).st.buffers = s.st.buffers := by
  unfold Step.andThen
  split
  · exact hf _ _
  · exact ⟨rfl, rfl⟩

theorem keeps_attachRender (iformat : Nat) (multisample : Bool) :
    ∀ (x : FrameBuffer) (g : GLContext),
      (x.attachRender g iformat multisample).st.tex_ids = x.tex_ids ∧
      (x.attachRender g iformat multisample).st.buffers = x.buffers :=
  fun x g => attachRender_keeps x g iformat multisample

theorem keeps_bindInput_num (num : Int) :
    ∀ (x : FrameBuffer) (g : GLContext),
      (x.bindInput_num g num).st.tex_ids = x.tex_ids ∧
      (x.bindInput_num g num).st.buffers = x.buffers :=
  fun x g => by rw [bindInput_num_st]; exact ⟨rfl, rfl⟩

theorem keeps_bindOutput :
    ∀ (x : FrameBuffer) (g : GLContext),
      (x.bindOutput g).st.tex_ids = x.tex_ids ∧ (x.bindOutput g).st.buffers = x.buffers :=
  fun x g => by rw [bindOutput_st]; exact ⟨rfl, rfl⟩

theorem keeps_check (status : Nat) :
    ∀ (x : FrameBuffer) (g : GLContext),
      (x.check g status).1.st.tex_ids = x.tex_ids ∧ (x.check g status).1.st.buffers = x.buffers :=
  fun x g => by rw [check_st]; exact ⟨rfl, rfl⟩

theorem setupShadowTarget_spec (gl : GLContext) (h : 2 ≤ gl.maxColorAttachments) :
    (setupShadowTarget gl).st.tex_ids.length = 2 ∧
    readBuffers (setupShadowTarget gl).st.buffers 2 =
      Except.ok [GL_COLOR_ATTACHMENT0, GL_COLOR_ATTACHMENT0 + 1] := by
  have h0 : (⟨Outcome.ok, (FrameBuffer.newSized gl SHADOW_MAP_SIZE SHADOW_MAP_SIZE).1,
      (FrameBuffer.newSized gl SHADOW_MAP_SIZE SHADOW_MAP_SIZE).2⟩ :
        Step FrameBuffer).st.holdsColors gl.maxColorAttachments 0 := by
    refine ⟨?_, ?_, rfl, rfl, ?_, fun i hi => absurd hi (Nat.not_lt_zero i)⟩
    · show ((SHADOW_MAP_SIZE : Nat) : Int) ≠ 0
      decide
    · show ((SHADOW_MAP_SIZE : Nat) : Int) ≠ 0
      decide
    · simp [FrameBuffer.newSized, GLContext.call]
  obtain ⟨r1, q1⟩ := andThen_attach _ 0 _ GL_RGBA32F GL_LINEAR (by decide) (by omega) rfl h0
  obtain ⟨r2, q2⟩ := andThen_attach _ 1 _ GL_RGBA32F GL_LINEAR (by decide) (by omega) r1 q1
  have hrb := holdsColors_readBuffers _ _ 2 q2 (by omega)
  unfold setupShadowTarget
  dsimp only
  rw [(andThen_keeps _ _ (fun x g => ⟨rfl, rfl⟩)).1, (andThen_keeps _ _ (fun x g => ⟨rfl, rfl⟩)).2,
    (andThen_keeps _ _ (keeps_bindInput_num 1)).1, (andThen_keeps _ _ (keeps_bindInput_num 1)).2,
    (andThen_keeps _ _ (fun x g => ⟨rfl, rfl⟩)).1, (andThen_keeps _ _ (fun x g => ⟨rfl, rfl⟩)).2,
    (andThen_keeps _ _ (keeps_bindInput_num 0)).1, (andThen_keeps _ _ (keeps_bindInput_num 0)).2,
    (andThen_keeps _ _ (keeps_attachRender _ _)).1, (andThen_keeps _ _ (keeps_attachRender _ _)).2]
  exact ⟨q2.2.2.1, hrb⟩

theorem setupGBuffer_spec (gl : GLContext) (status : Nat) (h : 4 ≤ gl.maxColorAttachments) :
    (setupGBuffer gl status).st.tex_ids.length = 4 ∧
    readBuffers (setupGBuffer gl status).st.buffers 4 =
      Except.ok [GL_COLOR_ATTACHMENT0, GL_COLOR_ATTACHMENT0 + 1, GL_COLOR_ATTACHMENT0 + 2,
        GL_COLOR_ATTACHMENT0 + 3] := by
  have h0 : (⟨Outcome.ok, (FrameBuffer.newSized gl SCR_WIDTH SCR_HEIGHT).1,
      (FrameBuffer.newSized gl SCR_WIDTH SCR_HEIGHT).2⟩ :
        Step FrameBuffer).st.holdsColors gl.maxColorAttachments 0 := by
    refine ⟨?_, ?_, rfl, rfl, ?_, fun i hi => absurd hi (Nat.not_lt_zero i)⟩
    · show ((SCR_WIDTH : Nat) : Int) ≠ 0
      decide
    · show ((SCR_HEIGHT : Nat) : Int) ≠ 0
      decide
    · simp [FrameBuffer.newSized, GLContext.call]
  obtain ⟨r1, q1⟩ := andThen_attach _ 0 _ GL_RGB16F GL_NEAREST (by decide) (by omega) rfl h0
  obtain ⟨r2, q2⟩ := andThen_attach _ 1 _ GL_RGB16F GL_NEAREST (by decide) (by omega) r1 q1
  obtain ⟨r3, q3⟩ := andThen_attach _ 2 _ GL_RGB GL_NEAREST (by decide) (by omega) r2 q2
  obtain ⟨r4, q4⟩ := andThen_attach _ 3 _ GL_RGBA GL_NEAREST (by decide) (by omega) r3 q3
  have hrb := holdsColors_readBuffers _ _ 4 q4 (by omega)
  unfold setupGBuffer
  dsimp only
  rw [(andThen_keeps _ _ (fun x g => ⟨rfl, rfl⟩)).1, (andThen_keeps _ _ (fun x g => ⟨rfl, rfl⟩)).2,
    (andThen_keeps _ _ (keeps_check status)).1, (andThen_keeps _ _ (keeps_check status)).2,
    (andThen_keeps _ _ (keeps_attachRender _ _)).1, (andThen_keeps _ _ (keeps_attachRender _ _)).2,
    (andThen_keeps _ _ keeps_bindOutput).1, (andThen_keeps _ _ keeps_bindOutput).2]
  exact ⟨q4.2.2.1, hrb⟩

theorem attachTexture_max (fb : FrameBuffer) (gl : GLContext) (iformat : Nat) (filter : Int) :
    (fb.attachTexture gl iformat filter).gl.maxColorAttachments = gl.maxColorAttachments := by
  unfold FrameBuffer.attachTexture
  by_cases h1 : fb.width = 0 ∨ fb.height = 0
  · simp [h1]
  by_cases h2 : (fb.tex_ids.length : Int) = fb.max_color_attachments
  · simp [h1, h2]
  cases hl : texLayout iformat (GL_COLOR_ATTACHMENT0 + fb.tex_ids.length) filter with
  | none => simp [h1, h2]
  | some l =>
    simp only [h1, h2, if_false]
    split <;> rfl

theorem attachRender_max (fb : FrameBuffer) (gl : GLContext) (iformat : Nat)
    (multisample : Bool) :
    (fb.attachRender gl iformat multisample).gl.maxColorAttachments =
      gl.maxColorAttachments := by
  unfold FrameBuffer.attachRender
  split_ifs
  · rfl
  · split
    · rfl
    · split_ifs <;> rfl

theorem bindInput_num_max (fb : FrameBuffer) (gl : GLContext) (num : Int) :
    (fb.bindInput_num gl num).gl.maxColorAttachments = gl.maxColorAttachments := by
  unfold FrameBuffer.bindInput_num
  split_ifs
  · rfl
  · rfl
  · split <;> rfl

theorem andThen_max (s : Step FrameBuffer) (f : FrameBuffer → GLContext → Step FrameBuffer)
    (hf : ∀ x g, (f x g).gl.maxColorAttachments = g.maxColorAttachments) :
    (s.andThen f).gl.maxColorAttachments = s.gl.maxColorAttachments := by
  unfold Step.andThen
  split
  · exact hf _ _
  · rfl

theorem setupShadowTarget_max (gl : GLContext) :
    (setupShadowTarget gl).gl.maxColorAttachments = gl.maxColorAttachments := by
  unfold setupShadowTarget
  dsimp only
  rw [andThen_max _ _ (fun x g => rfl), andThen_max _ _ (fun x g => bindInput_num_max x g 1),
    andThen_max _ _ (fun x g => rfl), andThen_max _ _ (fun x g => bindInput_num_max x g 0),
    andThen_max _ _ (fun x g => attachRender_max x g _ _),
    andThen_max _ _ (fun x g => attachTexture_max x g _ _),
    andThen_max _ _ (fun x g => attachTexture_max x g _ _)]
  rfl

theorem setupTargets_ready (gl : GLContext) (status : Nat) (h : 4 ≤ gl.maxColorAttachments) :
    (setupTargets gl status).st.ready := by
  have hmax := setupShadowTarget_max gl
  obtain ⟨s1, s2⟩ := setupShadowTarget_spec gl (by omega)
  obtain ⟨g1, g2⟩ := setupGBuffer_spec (setupShadowTarget gl).gl status (by omega)
  unfold setupTargets
  dsimp only
  split_ifs
  · exact ⟨s1, s2, g1, g2⟩
  · exact ⟨s1, s2, g1, g2⟩

/-! ## The commands of the stages of a frame -/

theorem ready_s_ids (T : Targets) (h : T.ready) : ∃ t0 t1, T.sBuffer.tex_ids = [t0, t1] := by
  obtain ⟨h1, -⟩ := h
  match hm : T.sBuffer.tex_ids, h1 with
  | [t0, t1], _ => exact ⟨t0, t1, rfl⟩

theorem ready_g_ids (T : Targets) (h : T.ready) :
    ∃ g0 g1 g2 g3, T.gBuffer.tex_ids = [g0, g1, g2, g3] := by
  obtain ⟨-, -, h1, -⟩ := h
  match hm : T.gBuffer.tex_ids, h1 with
  | [g0, g1, g2, g3], _ => exact ⟨g0, g1, g2, g3, rfl⟩

theorem bindOutput_s (T : Targets) (h : T.ready) (gl : GLContext) :
    T.sBuffer.bindOutput gl = ⟨Outcome.ok, T.sBuffer,
      gl.calls [GLCall.BindFramebuffer GL_FRAMEBUFFER T.sBuffer.frame_id,
        GLCall.DrawBuffers 2 [GL_COLOR_ATTACHMENT0, GL_COLOR_ATTACHMENT0 + 1]]⟩ := by
  obtain ⟨h1, h2, -, -⟩ := h
  have hne : T.sBuffer.tex_ids ≠ [] := by
    intro e; rw [e] at h1; simp at h1
  unfold FrameBuffer.bindOutput
  simp [hne, h1, h2, GLContext.call, GLContext.calls]

theorem bindOutput_g (T : Targets) (h : T.ready) (gl : GLContext) :
    T.gBuffer.bindOutput gl = ⟨Outcome.ok, T.gBuffer,
      gl.calls [GLCall.BindFramebuffer GL_FRAMEBUFFER T.gBuffer.frame_id,
        GLCall.DrawBuffers 4 [GL_COLOR_ATTACHMENT0, GL_COLOR_ATTACHMENT0 + 1,
          GL_COLOR_ATTACHMENT0 + 2, GL_COLOR_ATTACHMENT0 + 3]]⟩ := by
  obtain ⟨-, -, h1, h2⟩ := h
  have hne : T.gBuffer.tex_ids ≠ [] := by
    intro e; rw [e] at h1; simp at h1
  unfold FrameBuffer.bindOutput
  simp [hne, h1, h2, GLContext.call, GLContext.calls]

theorem objects_flatMap (f : Nat → List GLCall) :
    (List.range objectCount).flatMap f = f 0 := by
  simp [objectCount, List.range_succ]

theorem shadowCapture_eq (S : Scene) (T : Targets) (a : App) (h : T.ready)
    (ha : a.result = Outcome.ok) :
    shadowCapture S T a =
      { a with
        gl := a.gl.calls
          [GLCall.UseProgram S.shaderDepthWrite,
           GLCall.Uniform S.shaderDepthWrite "lightSpaceMatrix",
           GLCall.Uniform S.shaderDepthWrite "model",
           GLCall.Viewport 0 0 SHADOW_MAP_SIZE SHADOW_MAP_SIZE,
           GLCall.BindFramebuffer GL_FRAMEBUFFER T.sBuffer.frame_id,
           GLCall.DrawBuffers 2 [GL_COLOR_ATTACHMENT0, GL_COLOR_ATTACHMENT0 + 1],
           GLCall.Clear (GL_COLOR_BUFFER_BIT ||| GL_DEPTH_BUFFER_BIT),
           GLCall.ActiveTexture GL_TEXTURE0,
           GLCall.BindTexture GL_TEXTURE_2D S.woodTexture,
           GLCall.BindVertexArray S.planeVAO,
           GLCall.DrawArrays GL_TRIANGLES 0 6,
           GLCall.Uniform S.shaderDepthWrite "model",
           GLCall.ModelDraw 1 S.shaderDepthWrite,
           GLCall.BindFramebuffer GL_FRAMEBUFFER 0,
           GLCall.DrawBuffer GL_BACK] } := by
  simp [shadowCapture, App.cmds, App.method, App.unbind, FrameBuffer.unbind, ha,
    bindOutput_s T h, GLContext.calls, objects_flatMap]

theorem bindImage_s (T : Targets) (t0 t1 : Nat) (ht : T.sBuffer.tex_ids = [t0, t1])
    (gl : GLContext) (unit format access : Nat) :
    T.sBuffer.bindImage gl unit 0 format access = ⟨Outcome.ok, T.sBuffer,
      gl.calls [GLCall.BindImageTexture unit t0 0 GL_FALSE 0 access format]⟩ ∧
    T.sBuffer.bindImage gl unit 1 format access = ⟨Outcome.ok, T.sBuffer,
      gl.calls [GLCall.BindImageTexture unit t1 0 GL_FALSE 0 access format]⟩ := by
  unfold FrameBuffer.bindImage
  simp [ht, vectorAt, INT_MAX, GLContext.call, GLContext.calls]

theorem momentBlur_eq (S : Scene) (T : Targets) (a : App) (t0 t1 : Nat)
    (ht : T.sBuffer.tex_ids = [t0, t1]) (ha : a.result = Outcome.ok) :
    momentBlur S T a =
      { a with
        gl := a.gl.calls
          [GLCall.UseProgram S.computeBlurShaderH,
           GLCall.Uniform S.computeBlurShaderH "ComputeKernelSize",
           GLCall.BindImageTexture 0 t0 0 GL_FALSE 0 GL_READ_WRITE GL_RGBA32F,
           GLCall.BindImageTexture 1 t1 0 GL_FALSE 0 GL_READ_WRITE GL_RGBA32F,
           GLCall.DispatchCompute 64 1 1,
           GLCall.MemoryBarrier GL_SHADER_IMAGE_ACCESS_BARRIER_BIT,
           GLCall.BindImageTexture 1 t0 0 GL_FALSE 0 GL_READ_WRITE GL_RGBA32F,
           GLCall.BindImageTexture 0 t1 0 GL_FALSE 0 GL_READ_WRITE GL_RGBA32F,
           GLCall.DispatchCompute 64 1 1,
           GLCall.MemoryBarrier GL_SHADER_IMAGE_ACCESS_BARRIER_BIT,
           GLCall.UseProgram S.computeBlurShaderV,
           GLCall.Uniform S.computeBlurShaderV "ComputeKernelSize",
           GLCall.BindImageTexture 0 t0 0 GL_FALSE 0 GL_READ_WRITE GL_RGBA32F,
           GLCall.BindImageTexture 1 t1 0 GL_FALSE 0 GL_READ_WRITE GL_RGBA32F,
           GLCall.DispatchCompute 64 1 1,
           GLCall.MemoryBarrier GL_SHADER_IMAGE_ACCESS_BARRIER_BIT,
           GLCall.BindImageTexture 1 t0 0 GL_FALSE 0 GL_READ_WRITE GL_RGBA32F,
           GLCall.BindImageTexture 0 t1 0 GL_FALSE 0 GL_READ_WRITE GL_RGBA32F,
           GLCall.DispatchCompute 64 1 1,
           GLCall.MemoryBarrier GL_SHADER_IMAGE_ACCESS_BARRIER_BIT] } := by
  have hc : toGLuint (workGroupCount (SHADOW_MAP_SIZE : Nat) CS_THREAD_GROUP_SIZE) = 64 := by
    decide
  simp [momentBlur, App.cmds, App.method, ha, (bindImage_s T t0 t1 ht _ _ _ _).1,
    (bindImage_s T t0 t1 ht _ _ _ _).2, GLContext.calls, hc]


theorem shadowClear_eq (T : Targets) (a : App) (h : T.ready) (ha : a.result = Outcome.ok) :
    shadowClear T a =
      { a with
        gl := a.gl.calls
          [GLCall.Viewport 0 0 SHADOW_MAP_SIZE SHADOW_MAP_SIZE,
           GLCall.BindFramebuffer GL_FRAMEBUFFER T.sBuffer.frame_id,
           GLCall.DrawBuffers 2 [GL_COLOR_ATTACHMENT0, GL_COLOR_ATTACHMENT0 + 1],
           GLCall.ClearColor 1 1 1 1,
           GLCall.Clear (GL_COLOR_BUFFER_BIT ||| GL_DEPTH_BUFFER_BIT),
           GLCall.ClearColor 0 0 0 1] } := by
  simp [shadowClear, App.cmds, App.method, ha, bindOutput_s T h, GLContext.calls]

theorem geometryPass_eq (S : Scene) (T : Targets) (a : App) (h : T.ready)
    (ha : a.result = Outcome.ok) :
    geometryPass S T a =
      { a with
        gl := a.gl.calls
          [GLCall.Viewport 0 0 SCR_WIDTH SCR_HEIGHT,
           GLCall.BindFramebuffer GL_FRAMEBUFFER T.gBuffer.frame_id,
           GLCall.DrawBuffers 4 [GL_COLOR_ATTACHMENT0, GL_COLOR_ATTACHMENT0 + 1,
             GL_COLOR_ATTACHMENT0 + 2, GL_COLOR_ATTACHMENT0 + 3],
           GLCall.Clear (GL_COLOR_BUFFER_BIT ||| GL_DEPTH_BUFFER_BIT),
           GLCall.UseProgram S.cubemapShader,
           GLCall.Uniform S.cubemapShader "projection",
           GLCall.UseProgram S.shaderTexturedGeometryPass,
           GLCall.Uniform S.shaderTexturedGeometryPass "projection",
           GLCall.Uniform S.shaderTexturedGeometryPass "view",
           GLCall.Uniform S.shaderTexturedGeometryPass "model",
           GLCall.Uniform S.shaderTexturedGeometryPass "specularCol",
           GLCall.ActiveTexture GL_TEXTURE0,
           GLCall.BindTexture GL_TEXTURE_2D S.woodTexture,
           GLCall.BindVertexArray S.planeVAO,
           GLCall.DrawArrays GL_TRIANGLES 0 6,
           GLCall.UseProgram S.shaderGeometryPass,
           GLCall.Uniform S.shaderGeometryPass "projection",
           GLCall.Uniform S.shaderGeometryPass "view",
           GLCall.Uniform S.shaderGeometryPass "model",
           GLCall.Uniform S.shaderGeometryPass "diffuseCol",
           GLCall.Uniform S.shaderGeometryPass "specularCol",
           GLCall.Uniform S.shaderGeometryPass "model",
           GLCall.ModelDraw 1 S.shaderGeometryPass,
           GLCall.BindFramebuffer GL_FRAMEBUFFER 0,
           GLCall.DrawBuffer GL_BACK] } := by
  simp [geometryPass, App.cmds, App.method, App.unbind, FrameBuffer.unbind, ha,
    bindOutput_g T h, GLContext.calls, objects_flatMap]

theorem bindInput_g (T : Targets) (g0 g1 g2 g3 : Nat)
    (hg : T.gBuffer.tex_ids = [g0, g1, g2, g3]) (gl : GLContext) :
    T.gBuffer.bindInput gl = ⟨Outcome.ok, T.gBuffer, gl.calls
      [GLCall.ActiveTexture GL_TEXTURE0, GLCall.BindTexture GL_TEXTURE_2D g0,
       GLCall.ActiveTexture (GL_TEXTURE0 + 1), GLCall.BindTexture GL_TEXTURE_2D g1,
       GLCall.ActiveTexture (GL_TEXTURE0 + 2), GLCall.BindTexture GL_TEXTURE_2D g2,
       GLCall.ActiveTexture (GL_TEXTURE0 + 3), GLCall.BindTexture GL_TEXTURE_2D g3]⟩ := by
  have e := bindInput_gl T.gBuffer gl
  have e2 : bindInputCommands T.gBuffer.tex_ids =
      [GLCall.ActiveTexture GL_TEXTURE0, GLCall.BindTexture GL_TEXTURE_2D g0,
       GLCall.ActiveTexture (GL_TEXTURE0 + 1), GLCall.BindTexture GL_TEXTURE_2D g1,
       GLCall.ActiveTexture (GL_TEXTURE0 + 2), GLCall.BindTexture GL_TEXTURE_2D g2,
       GLCall.ActiveTexture (GL_TEXTURE0 + 3), GLCall.BindTexture GL_TEXTURE_2D g3] := by
    rw [hg]
    simp [bindInputCommands, List.range_succ]
  rw [e2] at e
  rw [← e]
  rfl

theorem bindTex_s (T : Targets) (t0 t1 : Nat) (ht : T.sBuffer.tex_ids = [t0, t1])
    (gl : GLContext) :
    T.sBuffer.bindTex gl 0 = ⟨Outcome.ok, T.sBuffer,
      gl.calls [GLCall.BindTexture GL_TEXTURE_2D t0]⟩ ∧
    T.sBuffer.bindInput_num gl 0 = ⟨Outcome.ok, T.sBuffer,
      gl.calls [GLCall.BindTexture GL_TEXTURE_2D t0]⟩ := by
  unfold FrameBuffer.bindTex FrameBuffer.bindInput_num
  simp [ht, vectorAt, INT_MAX, GLContext.call, GLContext.calls]

theorem renderQuad_eq (a : App) (ha : a.result = Outcome.ok) :
    renderQuad a =
      if a.quadVAO = 0 then
        { a with
          quadVAO := a.gl.nextVertexArray, quadVBO := a.gl.nextBuffer,
          gl := { a.gl with
            log := a.gl.log ++ (GLCall.GenVertexArrays a.gl.nextVertexArray ::
              GLCall.GenBuffers a.gl.nextBuffer ::
              (quadSetup a.gl.nextVertexArray a.gl.nextBuffer ++
                [GLCall.BindVertexArray a.gl.nextVertexArray,
                 GLCall.DrawArrays GL_TRIANGLE_STRIP 0 4,
                 GLCall.BindVertexArray 0])),
            nextVertexArray := a.gl.nextVertexArray + 1,
            nextBuffer := a.gl.nextBuffer + 1 } }
      else
        { a with
          gl := a.gl.calls
            [GLCall.BindVertexArray a.quadVAO,
             GLCall.DrawArrays GL_TRIANGLE_STRIP 0 4,
             GLCall.BindVertexArray 0] } := by
  unfold renderQuad
  by_cases hq : a.quadVAO = 0
  · simp [hq, ha, App.cmds, GLContext.calls, GLContext.genVertexArray, GLContext.genBuffer]
  · simp [hq, ha, App.cmds, GLContext.calls]

theorem renderCube_eq (a : App) (ha : a.result = Outcome.ok) :
    renderCube a =
      if a.cubeVAO = 0 then
        { a with
          cubeVAO := a.gl.nextVertexArray, cubeVBO := a.gl.nextBuffer,
          gl := { a.gl with
            log := a.gl.log ++ (GLCall.GenVertexArrays a.gl.nextVertexArray ::
              GLCall.GenBuffers a.gl.nextBuffer ::
              (cubeSetup a.gl.nextVertexArray a.gl.nextBuffer ++
                [GLCall.BindVertexArray a.gl.nextVertexArray,
                 GLCall.DrawArrays GL_TRIANGLES 0 36,
                 GLCall.BindVertexArray 0])),
            nextVertexArray := a.gl.nextVertexArray + 1,
            nextBuffer := a.gl.nextBuffer + 1 } }
      else
        { a with
          gl := a.gl.calls
            [GLCall.BindVertexArray a.cubeVAO,
             GLCall.DrawArrays GL_TRIANGLES 0 36,
             GLCall.BindVertexArray 0] } := by
  unfold renderCube
  by_cases hq : a.cubeVAO = 0
  · simp [hq, ha, App.cmds, GLContext.calls, GLContext.genVertexArray, GLContext.genBuffer]
  · simp [hq, ha, App.cmds, GLContext.calls]

theorem lightingPass_eq (S : Scene) (T : Targets) (a : App) (t0 t1 g0 g1 g2 g3 : Nat)
    (ht : T.sBuffer.tex_ids = [t0, t1]) (hg : T.gBuffer.tex_ids = [g0, g1, g2, g3])
    (ha : a.result = Outcome.ok) (hm : a.gBufferMode = 0) :
    lightingPass S T a = renderQuad
      { a with
        gl := a.gl.calls
          [GLCall.Clear (GL_COLOR_BUFFER_BIT ||| GL_DEPTH_BUFFER_BIT),
           GLCall.UseProgram S.shaderLightingPass,
           GLCall.ActiveTexture GL_TEXTURE0, GLCall.BindTexture GL_TEXTURE_2D g0,
           GLCall.ActiveTexture (GL_TEXTURE0 + 1), GLCall.BindTexture GL_TEXTURE_2D g1,
           GLCall.ActiveTexture (GL_TEXTURE0 + 2), GLCall.BindTexture GL_TEXTURE_2D g2,
           GLCall.ActiveTexture (GL_TEXTURE0 + 3), GLCall.BindTexture GL_TEXTURE_2D g3,
           GLCall.ActiveTexture GL_TEXTURE4,
           GLCall.BindTexture GL_TEXTURE_2D t0,
           GLCall.Uniform S.shaderLightingPass "gLight.Position",
           GLCall.Uniform S.shaderLightingPass "gLight.Color",
           GLCall.Uniform S.shaderLightingPass "gLight.Linear",
           GLCall.Uniform S.shaderLightingPass "gLight.Quadratic",
           GLCall.Uniform S.shaderLightingPass "viewPos",
           GLCall.Uniform S.shaderLightingPass "lightSpaceMatrix",
           GLCall.Uniform S.shaderLightingPass "glossiness",
           GLCall.Uniform S.shaderLightingPass "shadowMethod"] } := by
  simp [lightingPass, App.cmds, App.method, ha, hm, bindInput_g T g0 g1 g2 g3 hg,
    (bindTex_s T t0 t1 ht _).1, GLContext.calls]

theorem lightingPass_debug_eq (S : Scene) (T : Targets) (a : App) (g0 g1 g2 g3 : Nat)
    (hg : T.gBuffer.tex_ids = [g0, g1, g2, g3])
    (ha : a.result = Outcome.ok) (hm : a.gBufferMode ≠ 0) :
    lightingPass S T a = renderQuad
      { a with
        gl := a.gl.calls
          [GLCall.Clear (GL_COLOR_BUFFER_BIT ||| GL_DEPTH_BUFFER_BIT),
           GLCall.UseProgram S.shaderGBufferDebug,
           GLCall.Uniform S.shaderGBufferDebug "gBufferMode",
           GLCall.ActiveTexture GL_TEXTURE0, GLCall.BindTexture GL_TEXTURE_2D g0,
           GLCall.ActiveTexture (GL_TEXTURE0 + 1), GLCall.BindTexture GL_TEXTURE_2D g1,
           GLCall.ActiveTexture (GL_TEXTURE0 + 2), GLCall.BindTexture GL_TEXTURE_2D g2,
           GLCall.ActiveTexture (GL_TEXTURE0 + 3), GLCall.BindTexture GL_TEXTURE_2D g3] } := by
  simp [lightingPass, App.cmds, App.method, ha, hm, bindInput_g T g0 g1 g2 g3 hg,
    GLContext.calls]

theorem uploadColorSizes_eq (S : Scene) (a : App) (ha : a.result = Outcome.ok)
    (hl : LIGHT_GRID_WIDTH * LIGHT_GRID_WIDTH * LIGHT_GRID_HEIGHT ≤
      a.lights.modelColorSizes.length) :
    uploadColorSizes S a =
      { a with
        gl := a.gl.calls
          [GLCall.BindBuffer GL_ARRAY_BUFFER S.colorSizeBuffer,
           GLCall.BufferData GL_ARRAY_BUFFER
             (LIGHT_GRID_WIDTH * LIGHT_GRID_WIDTH * LIGHT_GRID_HEIGHT * SIZEOF_VEC4)
             ((a.lights.modelColorSizes.take
               (LIGHT_GRID_WIDTH * LIGHT_GRID_WIDTH * LIGHT_GRID_HEIGHT)).flatMap Vec4.floats)
             GL_STATIC_DRAW] } := by
  unfold uploadColorSizes
  rw [if_neg (by simp [ha]), if_neg (by omega)]
  simp [App.cmds, ha]

theorem pointLightPass_eq (S : Scene) (T : Targets) (a : App) (g0 g1 g2 g3 : Nat)
    (hg : T.gBuffer.tex_ids = [g0, g1, g2, g3])
    (ha : a.result = Outcome.ok) (hm : a.gBufferMode = 0)
    (hl : LIGHT_GRID_WIDTH * LIGHT_GRID_WIDTH * LIGHT_GRID_HEIGHT ≤
      a.lights.modelColorSizes.length) :
    pointLightPass S T a =
      { a with
        gl := a.gl.calls
          ([GLCall.UseProgram S.shaderPointLightingPass,
            GLCall.ActiveTexture GL_TEXTURE0, GLCall.BindTexture GL_TEXTURE_2D g0,
            GLCall.ActiveTexture (GL_TEXTURE0 + 1), GLCall.BindTexture GL_TEXTURE_2D g1,
            GLCall.ActiveTexture (GL_TEXTURE0 + 2), GLCall.BindTexture GL_TEXTURE_2D g2,
            GLCall.ActiveTexture (GL_TEXTURE0 + 3), GLCall.BindTexture GL_TEXTURE_2D g3,
            GLCall.Uniform S.shaderPointLightingPass "projection",
            GLCall.Uniform S.shaderPointLightingPass "view",
            GLCall.Enable GL_CULL_FACE,
            GLCall.FrontFace GL_CW,
            GLCall.Disable GL_DEPTH_TEST,
            GLCall.Enable GL_BLEND,
            GLCall.BlendFunc GL_ONE GL_ONE,
            GLCall.Uniform S.shaderPointLightingPass "viewPos",
            GLCall.Uniform S.shaderPointLightingPass "lightIntensity",
            GLCall.Uniform S.shaderPointLightingPass "glossiness",
            GLCall.BindVertexArray S.lightVAO] ++
           (if a.colorSizeBufferDirty then
             [GLCall.BindBuffer GL_ARRAY_BUFFER S.colorSizeBuffer,
              GLCall.BufferData GL_ARRAY_BUFFER
                (LIGHT_GRID_WIDTH * LIGHT_GRID_WIDTH * LIGHT_GRID_HEIGHT * SIZEOF_VEC4)
                ((a.lights.modelColorSizes.take
                  (LIGHT_GRID_WIDTH * LIGHT_GRID_WIDTH * LIGHT_GRID_HEIGHT)).flatMap
                    Vec4.floats)
                GL_STATIC_DRAW]
            else []) ++
           [GLCall.DrawElementsInstanced GL_TRIANGLES S.lightIndexCount GL_UNSIGNED_INT
              totalLights,
            GLCall.BindVertexArray 0,
            GLCall.Disable GL_BLEND,
            GLCall.BlendFunc GL_SRC_ALPHA GL_ONE_MINUS_SRC_ALPHA,
            GLCall.FrontFace GL_CCW,
            GLCall.Disable GL_CULL_FACE]) } := by
  unfold pointLightPass
  rw [if_pos hm]
  by_cases hd : a.colorSizeBufferDirty = true
  · simp [App.cmds, App.method, ha, bindInput_g T g0 g1 g2 g3 hg, GLContext.calls, hd,
      uploadColorSizes_eq, hl]
  · simp [App.cmds, App.method, ha, bindInput_g T g0 g1 g2 g3 hg, GLContext.calls, hd]

theorem environmentComposite_eq (S : Scene) (T : Targets) (a : App)
    (ha : a.result = Outcome.ok) (hm : a.gBufferMode = 0) :
    environmentComposite S T a = renderCube
      { a with
        gl := a.gl.calls
          [GLCall.BindFramebuffer GL_READ_FRAMEBUFFER T.gBuffer.frame_id,
           GLCall.BindFramebuffer GL_DRAW_FRAMEBUFFER 0,
           GLCall.BlitFramebuffer 0 0 SCR_WIDTH SCR_HEIGHT 0 0 SCR_WIDTH SCR_HEIGHT
             GL_DEPTH_BUFFER_BIT GL_NEAREST,
           GLCall.BindFramebuffer GL_FRAMEBUFFER 0,
           GLCall.DrawBuffer GL_BACK,
           GLCall.Enable GL_DEPTH_TEST,
           GLCall.UseProgram S.cubemapShader,
           GLCall.Uniform S.cubemapShader "view",
           GLCall.ActiveTexture GL_TEXTURE0,
           GLCall.BindTexture GL_TEXTURE_CUBE_MAP S.envCubemap] } := by
  simp [environmentComposite, App.cmds, App.method, App.unbind, FrameBuffer.unbind,
    FrameBuffer.bindRead, ha, hm, GLContext.calls, GLContext.call]

theorem issued_calls (gl : GLContext) (cs : List GLCall) : issued gl (gl.calls cs) = cs := by
  simp [issued, GLContext.calls]

theorem sample_ready : sampleTargets.ready :=
  setupTargets_ready (GLContext.fresh 8) GL_FRAMEBUFFER_COMPLETE (by decide)

/-! ## C21: the draw outputs of the shadow capture -/

theorem capture_outputs (S : Scene) (T : Targets) (a : App) (s0 : GLState) (h : T.ready)
    (ha : a.result = Outcome.ok) :
    (issuedBefore (fun c => c.isClear || c.isDraw)
        (issued a.gl (shadowCapture S T a).gl)).length = 3 ∧
    ∀ pre ∈ issuedBefore (fun c => c.isClear || c.isDraw)
        (issued a.gl (shadowCapture S T a).gl),
      (s0.run pre).drawFramebuffer = T.sBuffer.frame_id ∧
      (s0.run pre).drawBuffers (s0.run pre).drawFramebuffer =
        [GL_COLOR_ATTACHMENT0, GL_COLOR_ATTACHMENT0 + 1] ∧
      (s0.run pre).viewport = (0, 0, (SHADOW_MAP_SIZE : Int), (SHADOW_MAP_SIZE : Int)) := by
  rw [shadowCapture_eq S T a h ha]
  simp [issued_calls, issuedBefore, GLCall.isClear, GLCall.isDraw, GLState.run, GLState.step]

/-- C21 (counterexample): the first frame of the sample run has shadows enabled; its
ShadowCapture step issues three clearing or drawing commands (the `glClear`, the floor, the
model), and each of them is issued with two draw outputs declared for the shadow
FrameBuffer, colour attachment points 0 and 1, not with attachment 0 alone. -/
theorem C21_capture_declares_two_outputs :
    sampleApp.result = Outcome.ok ∧ sampleApp.enableShadows = true ∧
    (issuedBefore (fun c => c.isClear || c.isDraw)
        (issued (frameStart sampleApp).gl
          (shadowCapture sampleScene sampleTargets (frameStart sampleApp)).gl)).length = 3 ∧
    (∀ pre ∈ issuedBefore (fun c => c.isClear || c.isDraw)
        (issued (frameStart sampleApp).gl
          (shadowCapture sampleScene sampleTargets (frameStart sampleApp)).gl),
      (GLState.initial.run pre).drawBuffers (GLState.initial.run pre).drawFramebuffer =
        [GL_COLOR_ATTACHMENT0, GL_COLOR_ATTACHMENT0 + 1]) ∧
    [GL_COLOR_ATTACHMENT0, GL_COLOR_ATTACHMENT0 + 1] ≠ [GL_COLOR_ATTACHMENT0] :=
  ⟨rfl, rfl,
   (capture_outputs sampleScene sampleTargets (frameStart sampleApp) GLState.initial
     sample_ready rfl).1,
   fun pre hpre => ((capture_outputs sampleScene sampleTargets (frameStart sampleApp)
     GLState.initial sample_ready rfl).2 pre hpre).2.1,
   by decide⟩

/-- C21 (amended): in every frame with shadows enabled (the targets being those `main` builds
on a context with at least four colour attachments), the ShadowCapture step runs, and each of
its clearing and drawing commands (the `glClear`, the floor, the model) is issued with the
shadow FrameBuffer bound as draw framebuffer, the viewport at shadow-map resolution and two
draw outputs declared: colour attachment 0 and the ping-pong attachment 1. -/
theorem C21_capture_declares_both_attachments (gl0 : GLContext) (status : Nat)
    (h4 : 4 ≤ gl0.maxColorAttachments) (S : Scene) (a : App) (s0 : GLState)
    (ha : a.result = Outcome.ok) (he : a.enableShadows = true) :
    shadowPass S (setupTargets gl0 status).st a =
      (if a.ShadowMethod = 1 then
        momentBlur S (setupTargets gl0 status).st (shadowCapture S (setupTargets gl0 status).st a)
       else shadowCapture S (setupTargets gl0 status).st a) ∧
    (issuedBefore (fun c => c.isClear || c.isDraw)
        (issued a.gl (shadowCapture S (setupTargets gl0 status).st a).gl)).length = 3 ∧
    ∀ pre ∈ issuedBefore (fun c => c.isClear || c.isDraw)
        (issued a.gl (shadowCapture S (setupTargets gl0 status).st a).gl),
      (s0.run pre).drawFramebuffer = (setupTargets gl0 status).st.sBuffer.frame_id ∧
      (s0.run pre).drawBuffers (s0.run pre).drawFramebuffer =
        [GL_COLOR_ATTACHMENT0, GL_COLOR_ATTACHMENT0 + 1] ∧
      (s0.run pre).viewport = (0, 0, (SHADOW_MAP_SIZE : Int), (SHADOW_MAP_SIZE : Int)) := by
  have hr := setupTargets_ready gl0 status h4
  refine ⟨?_, capture_outputs S _ a s0 hr ha⟩
  have hc : (shadowCapture S (setupTargets gl0 status).st a).ShadowMethod = a.ShadowMethod := by
    rw [shadowCapture_eq S _ a hr ha]
  simp [shadowPass, he, hc]

/-- C21 witness: the first frame of the sample run. -/
theorem C21_capture_declares_both_attachments_witness :
    (4 : Int) ≤ (GLContext.fresh 8).maxColorAttachments ∧
    (frameStart sampleApp).result = Outcome.ok ∧
    (frameStart sampleApp).enableShadows = true ∧
    (issuedBefore (fun c => c.isClear || c.isDraw)
        (issued (frameStart sampleApp).gl
          (shadowCapture sampleScene
            (setupTargets (GLContext.fresh 8) GL_FRAMEBUFFER_COMPLETE).st
            (frameStart sampleApp)).gl)).length = 3 :=
  ⟨by decide, rfl, rfl,
   (C21_capture_declares_both_attachments (GLContext.fresh 8) GL_FRAMEBUFFER_COMPLETE
     (by decide) sampleScene (frameStart sampleApp) GLState.initial rfl rfl).2.1⟩

/-! ## Frames without compute dispatch -/

theorem nd_refl (g : GLContext) : noDispatchBetween g g := ⟨[], by simp, rfl⟩

theorem nd_trans {g h k : GLContext} (h1 : noDispatchBetween g h)
    (h2 : noDispatchBetween h k) : noDispatchBetween g k := by
  obtain ⟨c1, e1, f1⟩ := h1
  obtain ⟨c2, e2, f2⟩ := h2
  exact ⟨c1 ++ c2, by rw [e2, e1, List.append_assoc], by rw [List.filter_append, f1, f2]; rfl⟩

theorem nd_calls (g : GLContext) (cs : List GLCall) (h : cs.filter GLCall.isDispatch = []) :
    noDispatchBetween g (g.calls cs) := ⟨cs, rfl, h⟩

theorem nd_call (g : GLContext) (c : GLCall) (h : c.isDispatch = false) :
    noDispatchBetween g (g.call c) := ⟨[c], rfl, by simp [h]⟩

theorem nd_issued {g h : GLContext} (h1 : noDispatchBetween g h) :
    (issued g h).filter GLCall.isDispatch = [] := by
  obtain ⟨cs, e, f⟩ := h1
  simp [issued, e, f]

theorem nd_cmds (a : App) (cs : List GLCall) (h : cs.filter GLCall.isDispatch = []) :
    noDispatchBetween a.gl (a.cmds cs).gl := by
  unfold App.cmds
  split_ifs
  · exact nd_calls _ _ h
  · exact nd_refl _

theorem nd_method (a : App) (m : GLContext → Step FrameBuffer)
    (h : ∀ g, noDispatchBetween g (m g).gl) : noDispatchBetween a.gl (a.method m).gl := by
  unfold App.method
  split_ifs
  · exact h _
  · exact nd_refl _

theorem nd_unbind (a : App) : noDispatchBetween a.gl a.unbind.gl := by
  unfold App.unbind
  split_ifs
  · exact nd_calls _ _ (by rfl)
  · exact nd_refl _

theorem nd_ite (c : Prop) [Decidable c] (g : GLContext) (x y : App)
    (hx : noDispatchBetween g x.gl) (hy : noDispatchBetween g y.gl) :
    noDispatchBetween g (if c then x else y).gl := by
  split_ifs
  · exact hx
  · exact hy

theorem nd_bindOutput (fb : FrameBuffer) (g : GLContext) :
    noDispatchBetween g (fb.bindOutput g).gl := by
  unfold FrameBuffer.bindOutput
  split_ifs
  · exact nd_refl _
  · split
    · exact nd_trans (nd_call _ _ (by rfl)) (nd_call _ _ (by rfl))
    · exact nd_call _ _ (by rfl)
  · split
    · exact nd_trans (nd_call _ _ (by rfl)) (nd_call _ _ (by rfl))
    · exact nd_call _ _ (by rfl)

theorem nd_bindInput (fb : FrameBuffer) (g : GLContext) :
    noDispatchBetween g (fb.bindInput g).gl := by
  rw [bindInput_gl]
  refine nd_calls _ _ ?_
  unfold bindInputCommands
  rw [List.filter_eq_nil_iff]
  intro c hc
  simp only [List.mem_flatMap, List.mem_range] at hc
  obtain ⟨i, -, hi⟩ := hc
  simp only [List.mem_cons, List.mem_singleton, List.not_mem_nil, or_false] at hi
  rcases hi with rfl | rfl <;> simp [GLCall.isDispatch]

theorem nd_bindInput_num (fb : FrameBuffer) (num : Int) (g : GLContext) :
    noDispatchBetween g (fb.bindInput_num g num).gl := by
  unfold FrameBuffer.bindInput_num
  split_ifs
  · exact nd_refl _
  · exact nd_refl _
  · split
    · exact nd_refl _
    · exact nd_call _ _ (by rfl)

theorem nd_bindRead (fb : FrameBuffer) (g : GLContext) :
    noDispatchBetween g (fb.bindRead g).gl := nd_call _ _ (by rfl)

theorem nd_renderQuad (a : App) : noDispatchBetween a.gl (renderQuad a).gl := by
  unfold renderQuad
  split_ifs with h1 h2
  · exact nd_refl _
  · refine nd_trans ?_ (nd_cmds _ _ (by rfl))
    exact ⟨GLCall.GenVertexArrays a.gl.nextVertexArray :: GLCall.GenBuffers a.gl.nextBuffer ::
      quadSetup a.gl.nextVertexArray a.gl.nextBuffer,
      by simp [GLContext.calls, GLContext.genBuffer, GLContext.genVertexArray], rfl⟩
  · exact nd_cmds _ _ (by rfl)

theorem nd_renderCube (a : App) : noDispatchBetween a.gl (renderCube a).gl := by
  unfold renderCube
  split_ifs with h1 h2
  · exact nd_refl _
  · refine nd_trans ?_ (nd_cmds _ _ (by rfl))
    exact ⟨GLCall.GenVertexArrays a.gl.nextVertexArray :: GLCall.GenBuffers a.gl.nextBuffer ::
      cubeSetup a.gl.nextVertexArray a.gl.nextBuffer,
      by simp [GLContext.calls, GLContext.genBuffer, GLContext.genVertexArray], rfl⟩
  · exact nd_cmds _ _ (by rfl)

theorem nd_shadowCapture (S : Scene) (T : Targets) (a : App) :
    noDispatchBetween a.gl (shadowCapture S T a).gl := by
  unfold shadowCapture
  dsimp only
  refine nd_trans (nd_trans (nd_trans (nd_trans (nd_cmds _ _ (by rfl))
    (nd_method _ _ (nd_bindOutput _))) (nd_cmds _ _ (by rfl))) (nd_cmds _ _ ?_)) (nd_unbind _)
  rw [objects_flatMap]
  rfl

theorem nd_shadowClear (T : Targets) (a : App) :
    noDispatchBetween a.gl (shadowClear T a).gl := by
  unfold shadowClear
  dsimp only
  exact nd_trans (nd_trans (nd_cmds _ _ (by rfl)) (nd_method _ _ (nd_bindOutput _)))
    (nd_cmds _ _ (by rfl))

theorem nd_geometryPass (S : Scene) (T : Targets) (a : App) :
    noDispatchBetween a.gl (geometryPass S T a).gl := by
  unfold geometryPass
  dsimp only
  refine nd_trans (nd_trans (nd_trans (nd_trans (nd_cmds _ _ (by rfl))
    (nd_method _ _ (nd_bindOutput _))) (nd_cmds _ _ (by rfl))) (nd_cmds _ _ ?_)) (nd_unbind _)
  rw [objects_flatMap]
  rfl

theorem nd_lightingPass (S : Scene) (T : Targets) (a : App) :
    noDispatchBetween a.gl (lightingPass S T a).gl := by
  unfold lightingPass
  dsimp only
  refine nd_trans ?_ (nd_renderQuad _)
  split_ifs
  · exact nd_trans (nd_trans (nd_trans (nd_trans (nd_trans (nd_cmds _ _ (by rfl))
      (nd_cmds _ _ (by rfl))) (nd_method _ _ (nd_bindInput _))) (nd_cmds _ _ (by rfl)))
      (nd_method _ _ (fun g => nd_bindInput_num _ _ g))) (nd_cmds _ _ (by rfl))
  · exact nd_trans (nd_trans (nd_cmds _ _ (by rfl)) (nd_cmds _ _ (by rfl)))
      (nd_method _ _ (nd_bindInput _))

theorem nd_uploadColorSizes (S : Scene) (a : App) :
    noDispatchBetween a.gl (uploadColorSizes S a).gl := by
  unfold uploadColorSizes
  split_ifs
  · exact nd_refl _
  · exact nd_call _ _ (by rfl)
  · exact nd_cmds _ _ (by rfl)

theorem nd_pointLightPass (S : Scene) (T : Targets) (a : App) :
    noDispatchBetween a.gl (pointLightPass S T a).gl := by
  unfold pointLightPass
  dsimp only
  split_ifs
  · exact nd_trans (nd_trans (nd_trans (nd_trans (nd_cmds _ _ (by rfl))
      (nd_method _ _ (nd_bindInput _))) (nd_cmds _ _ (by rfl))) (nd_uploadColorSizes _ _))
      (nd_cmds _ _ (by rfl))
  · exact nd_trans (nd_trans (nd_trans (nd_cmds _ _ (by rfl))
      (nd_method _ _ (nd_bindInput _))) (nd_cmds _ _ (by rfl))) (nd_cmds _ _ (by rfl))
  · exact nd_refl _

theorem nd_environmentComposite (S : Scene) (T : Targets) (a : App) :
    noDispatchBetween a.gl (environmentComposite S T a).gl := by
  unfold environmentComposite
  dsimp only
  split_ifs
  · exact nd_trans (nd_trans (nd_trans (nd_trans (nd_method _ _ (nd_bindRead _))
      (nd_cmds _ _ (by rfl))) (nd_unbind _)) (nd_cmds _ _ (by rfl))) (nd_renderCube _)
  · exact nd_refl _

theorem nd_lightVolumes (S : Scene) (a : App) :
    noDispatchBetween a.gl (lightVolumes S a).gl := by
  unfold lightVolumes
  exact nd_ite _ _ _ _ (nd_cmds _ _ (by rfl)) (nd_refl _)

theorem nd_depthMapView (S : Scene) (T : Targets) (a : App) :
    noDispatchBetween a.gl (depthMapView S T a).gl := by
  unfold depthMapView
  dsimp only
  split_ifs
  · exact nd_trans (nd_trans (nd_cmds _ _ (by rfl))
      (nd_method _ _ (fun g => nd_bindInput_num _ _ g))) (nd_renderQuad _)
  · exact nd_refl _

set_option maxRecDepth 10000 in
theorem nd_updatePointLights (mb : Nat) (L : Lights) (g : GLContext) (s y r : FloatVal) :
    noDispatchBetween g (updatePointLights mb L g s y r).gl := by
  unfold updatePointLights
  split_ifs
  · exact nd_refl _
  · dsimp only
    split
    · exact nd_calls _ _ (by simp [GLCall.isDispatch])
    · exact nd_refl _

set_option maxRecDepth 10000 in
theorem nd_updateLights (S : Scene) (a : App) :
    noDispatchBetween a.gl (App.updateLights S a).gl := by
  unfold App.updateLights
  split_ifs
  · exact nd_refl _
  · exact nd_updatePointLights _ _ _ _ _ _

theorem setDirty_gl (a : App) (v : Bool) : (a.setDirty v).gl = a.gl := by
  unfold App.setDirty
  split_ifs <;> rfl

theorem nd_pointLightControls (S : Scene) (w : Widgets) (a : App) :
    noDispatchBetween a.gl (pointLightControls S w a).gl := by
  have h1 : ∀ b : App, noDispatchBetween b.gl (radiusSlider S w b).gl := by
    intro b
    unfold radiusSlider
    refine nd_ite _ _ _ _ (nd_refl _) ?_
    cases w.radius with
    | none =>
      simp only [setDirty_gl]
      exact nd_refl _
    | some v =>
      simp only [setDirty_gl]
      exact nd_updateLights S { b with pointLightRadius := v }
  have h2 : ∀ b : App, noDispatchBetween b.gl (separationSlider S w b).gl := by
    intro b
    unfold separationSlider
    refine nd_ite _ _ _ _ (nd_refl _) ?_
    cases w.separation with
    | none => exact nd_refl _
    | some v => exact nd_updateLights S { b with pointLightSeparation := v }
  have h3 : ∀ b : App, noDispatchBetween b.gl (verticalOffsetSlider S w b).gl := by
    intro b
    unfold verticalOffsetSlider
    refine nd_ite _ _ _ _ (nd_refl _) ?_
    cases w.verticalOffset with
    | none => exact nd_refl _
    | some v => exact nd_updateLights S { b with pointLightVerticalOffset := v }
  exact nd_trans (nd_trans (h1 _) (h2 _)) (h3 _)

theorem nd_controls (S : Scene) (w : Widgets) (a : App) :
    noDispatchBetween a.gl (controls S w a).gl := by
  have h0 : ∀ b : App, noDispatchBetween b.gl (shadowControls w b).gl := by
    intro b
    unfold shadowControls
    exact nd_ite _ _ _ _ (nd_refl _) (nd_refl _)
  have h1 : ∀ b : App, noDispatchBetween b.gl (lightingControls S w b).gl := by
    intro b
    unfold lightingControls
    dsimp only
    have hp : noDispatchBetween b.gl (if w.pointLights = true then pointLightControls S w b
        else b).gl := nd_ite _ _ _ _ (nd_pointLightControls S w b) (nd_refl _)
    exact nd_ite _ _ _ _ (nd_trans hp (h0 _)) hp
  have h2 : ∀ b : App, noDispatchBetween b.gl (debugControls S w b).gl := by
    intro b
    unfold debugControls
    exact nd_ite _ _ _ _ (nd_calls _ _ (by rfl)) (nd_refl _)
  unfold controls
  dsimp only
  have hl : noDispatchBetween a.gl (if w.lightingConfig = true then lightingControls S w a
      else a).gl := nd_ite _ _ _ _ (h1 a) (nd_refl _)
  exact nd_ite _ _ _ _ (nd_trans hl (h2 _)) hl

theorem nd_afterShadows (S : Scene) (T : Targets) (w : Widgets) (a : App) :
    noDispatchBetween a.gl
      ((controls S w ((depthMapView S T (lightVolumes S (environmentComposite S T
        (pointLightPass S T (lightingPass S T (geometryPass S T a)))))).cmds
          [GLCall.Library "ImGui_ImplOpenGL3_NewFrame"])).cmds
        [GLCall.Library "ImGui_ImplOpenGL3_RenderDrawData",
         GLCall.Library "glfwSwapBuffers",
         GLCall.Library "glfwPollEvents"]).gl :=
  nd_trans (nd_trans (nd_trans (nd_trans (nd_trans (nd_trans (nd_trans (nd_trans
    (nd_geometryPass S T a) (nd_lightingPass S T _)) (nd_pointLightPass S T _))
    (nd_environmentComposite S T _)) (nd_lightVolumes S _)) (nd_depthMapView S T _))
    (nd_cmds _ _ (by rfl))) (nd_controls S w _)) (nd_cmds _ _ (by rfl))

theorem frame_unfold (S : Scene) (T : Targets) (w : Widgets) (a : App) :
    frame S T w a =
      (controls S w ((depthMapView S T (lightVolumes S (environmentComposite S T
        (pointLightPass S T (lightingPass S T (geometryPass S T
          (shadowPass S T (frameStart a)))))))).cmds
          [GLCall.Library "ImGui_ImplOpenGL3_NewFrame"])).cmds
        [GLCall.Library "ImGui_ImplOpenGL3_RenderDrawData",
         GLCall.Library "glfwSwapBuffers",
         GLCall.Library "glfwPollEvents"] := rfl

theorem frameStart_fields (a : App) :
    (frameStart a).enableShadows = a.enableShadows ∧
    (frameStart a).ShadowMethod = a.ShadowMethod ∧
    (frameStart a).result = a.result ∧
    noDispatchBetween a.gl (frameStart a).gl := by
  unfold frameStart App.cmds
  split_ifs
  · exact ⟨rfl, rfl, rfl, nd_calls _ _ (by rfl)⟩
  · exact ⟨rfl, rfl, rfl, nd_refl _⟩

theorem shadowCapture_method (S : Scene) (T : Targets) (a : App) :
    (shadowCapture S T a).ShadowMethod = a.ShadowMethod := by
  unfold shadowCapture App.unbind App.cmds App.method
  dsimp only
  split_ifs <;> rfl

/-- A frame that does not have both shadows enabled and the moment technique selected issues
no compute dispatch. -/
theorem frame_no_dispatch (S : Scene) (T : Targets) (w : Widgets) (a : App)
    (h : ¬ (a.enableShadows = true ∧ a.ShadowMethod = 1)) :
    (issued a.gl (frame S T w a).gl).filter GLCall.isDispatch = [] := by
  obtain ⟨f1, f2, -, f4⟩ := frameStart_fields a
  apply nd_issued
  rw [frame_unfold]
  refine nd_trans f4 (nd_trans ?_ (nd_afterShadows S T w _))
  unfold shadowPass
  by_cases he : a.enableShadows = true
  · have hm : ¬ a.ShadowMethod = 1 := fun hm => h ⟨he, hm⟩
    rw [if_pos (by rw [f1]; exact he)]
    dsimp only
    rw [if_neg (by rw [shadowCapture_method, f2]; exact hm)]
    exact nd_shadowCapture S T _
  · rw [if_neg (by rw [f1]; exact he)]
    exact nd_shadowClear T _

/-! ## The commands of the blur stage -/

theorem issued_trans (g h k : GLContext) (h1 : ∃ x, h.log = g.log ++ x)
    (h2 : ∃ y, k.log = h.log ++ y) : issued g k = issued g h ++ issued h k := by
  obtain ⟨x, hx⟩ := h1
  obtain ⟨y, hy⟩ := h2
  simp [issued, hx, hy]

theorem nd_adds {g h : GLContext} (h1 : noDispatchBetween g h) : ∃ x, h.log = g.log ++ x := by
  obtain ⟨cs, e, -⟩ := h1
  exact ⟨cs, e⟩

theorem blur_commands (S : Scene) (T : Targets) (a : App) (t0 t1 : Nat) (s0 : GLState)
    (ht : T.sBuffer.tex_ids = [t0, t1]) (ha : a.result = Outcome.ok) :
    (issued a.gl (momentBlur S T a).gl).filter GLCall.isDispatch =
      [GLCall.DispatchCompute 64 1 1, GLCall.DispatchCompute 64 1 1,
       GLCall.DispatchCompute 64 1 1, GLCall.DispatchCompute 64 1 1] ∧
    followedBy GLCall.isDispatch GLCall.isImageBarrier
      (issued a.gl (momentBlur S T a).gl) = true ∧
    (issuedBefore GLCall.isDispatch (issued a.gl (momentBlur S T a).gl)).map
      (fun pre => ((s0.run pre).program, (s0.run pre).imageUnits 0,
        (s0.run pre).imageUnits 1)) =
      [(S.computeBlurShaderH, t0, t1), (S.computeBlurShaderH, t1, t0),
       (S.computeBlurShaderV, t0, t1), (S.computeBlurShaderV, t1, t0)] := by
  rw [momentBlur_eq S T a t0 t1 ht ha]
  refine ⟨?_, ?_, ?_⟩
  · simp [issued_calls, GLCall.isDispatch]
  · simp [issued_calls, followedBy, GLCall.isDispatch, GLCall.isImageBarrier]
  · simp [issued_calls, issuedBefore, GLCall.isDispatch, GLState.run, GLState.step]

/-! ## C24: frames with shadows disabled -/

theorem frameStart_eq (a : App) (ha : a.result = Outcome.ok) :
    frameStart a =
      { a with gl := a.gl.calls [GLCall.ClearColor 0 0 0 1, GLCall.Enable GL_DEPTH_TEST] } := by
  simp [frameStart, App.cmds, ha]

/-- C24: in every frame with shadows disabled (the targets being those `main` builds on a
context with at least four colour attachments), step 1 only clears the shadow map: it issues
no drawing command and no compute dispatch (nor does the rest of the frame dispatch), its one
`glClear` is issued with the shadow FrameBuffer bound as draw framebuffer, the viewport at
shadow-map resolution and the clear colour (1, 1, 1, 1); and the next `glClear`, that of the
geometry pass on the G-buffer, is issued with the clear colour back at (0, 0, 0, 1). -/
theorem C24_shadows_disabled (gl0 : GLContext) (status : Nat)
    (h4 : 4 ≤ gl0.maxColorAttachments) (S : Scene) (w : Widgets) (a : App) (s0 : GLState)
    (ha : a.result = Outcome.ok) (he : a.enableShadows = false) :
    shadowPass S (setupTargets gl0 status).st (frameStart a) =
      shadowClear (setupTargets gl0 status).st (frameStart a) ∧
    (∀ c ∈ issued (frameStart a).gl
        (shadowPass S (setupTargets gl0 status).st (frameStart a)).gl,
      c.isDraw = false ∧ c.isDispatch = false) ∧
    (issued a.gl (frame S (setupTargets gl0 status).st w a).gl).filter GLCall.isDispatch = [] ∧
    (issuedBefore GLCall.isClear
        (issued a.gl (shadowPass S (setupTargets gl0 status).st (frameStart a)).gl)).map
      (fun pre => ((s0.run pre).drawFramebuffer,
        (s0.run pre).drawBuffers (s0.run pre).drawFramebuffer,
        (s0.run pre).viewport, (s0.run pre).clearColor)) =
      [((setupTargets gl0 status).st.sBuffer.frame_id,
        [GL_COLOR_ATTACHMENT0, GL_COLOR_ATTACHMENT0 + 1],
        (0, 0, (SHADOW_MAP_SIZE : Int), (SHADOW_MAP_SIZE : Int)), (1, 1, 1, 1))] ∧
    (issuedBefore GLCall.isClear
        (issued a.gl (geometryPass S (setupTargets gl0 status).st
          (shadowPass S (setupTargets gl0 status).st (frameStart a))).gl)).map
      (fun pre => ((s0.run pre).drawFramebuffer, (s0.run pre).clearColor)) =
      [((setupTargets gl0 status).st.sBuffer.frame_id, (1, 1, 1, 1)),
       ((setupTargets gl0 status).st.gBuffer.frame_id, (0, 0, 0, 1))] := by
  have hr := setupTargets_ready gl0 status h4
  have hsp : shadowPass S (setupTargets gl0 status).st (frameStart a) =
      shadowClear (setupTargets gl0 status).st (frameStart a) := by
    unfold shadowPass
    rw [if_neg (by rw [(frameStart_fields a).1, he]; simp)]
  refine ⟨hsp, ?_, frame_no_dispatch S _ w a (by rw [he]; simp), ?_, ?_⟩
  · rw [hsp, frameStart_eq a ha, shadowClear_eq _ _ hr (by exact ha)]
    simp [issued_calls, GLCall.isDraw, GLCall.isDispatch]
  · rw [hsp, frameStart_eq a ha, shadowClear_eq _ _ hr (by exact ha)]
    simp [issued, GLContext.calls, issuedBefore, GLCall.isClear, GLState.run, GLState.step]
  · rw [hsp, frameStart_eq a ha, shadowClear_eq _ _ hr (by exact ha), geometryPass_eq S _ _ hr (by exact ha)]
    simp [issued, GLContext.calls, issuedBefore, GLCall.isClear, GLState.run, GLState.step]

/-- C24 witness: the sample run with shadows switched off. -/
theorem C24_shadows_disabled_witness :
    (4 : Int) ≤ (GLContext.fresh 8).maxColorAttachments ∧
    ({ sampleApp with enableShadows := false } : App).result = Outcome.ok ∧
    ({ sampleApp with enableShadows := false } : App).enableShadows = false ∧
    (issued ({ sampleApp with enableShadows := false } : App).gl
      (frame sampleScene (setupTargets (GLContext.fresh 8) GL_FRAMEBUFFER_COMPLETE).st
        idleWidgets { sampleApp with enableShadows := false }).gl).filter
      GLCall.isDispatch = [] :=
  ⟨by decide, rfl, rfl,
   (C24_shadows_disabled (GLContext.fresh 8) GL_FRAMEBUFFER_COMPLETE (by decide) sampleScene
     idleWidgets { sampleApp with enableShadows := false } GLState.initial rfl rfl).2.2.1⟩

/-! ## C25: the inputs of the lighting pass -/

/-- C25: in every non-debug frame (`gBufferMode == 0`; the targets being those `main` builds
on a context with at least four colour attachments), the geometry pass followed by the
lighting pass issues one quad draw, and when it is issued texture units 0, 1, 2, 3 hold
textures 0, 1, 2, 3 of the G-buffer, unit 4 holds texture 0 of the shadow target, unit 4 is
the active unit, and the draw framebuffer is the default framebuffer drawing to `GL_BACK`.
When `glActiveTexture(GL_TEXTURE4)` is issued, the active unit is unit 3, where `bindInput()`
left it. -/
theorem C25_lighting_inputs (gl0 : GLContext) (status : Nat)
    (h4 : 4 ≤ gl0.maxColorAttachments) (S : Scene) (a : App) (t : TexUnits) (s0 : GLState)
    (ha : a.result = Outcome.ok) (hm : a.gBufferMode = 0) :
    ∃ g0 g1 g2 g3 t0 t1,
      (setupTargets gl0 status).st.gBuffer.tex_ids = [g0, g1, g2, g3] ∧
      (setupTargets gl0 status).st.sBuffer.tex_ids = [t0, t1] ∧
      (issuedBefore GLCall.isQuadDraw
        (issued a.gl (lightingPass S (setupTargets gl0 status).st
          (geometryPass S (setupTargets gl0 status).st a)).gl)).length = 1 ∧
      (∀ pre ∈ issuedBefore GLCall.isQuadDraw
        (issued a.gl (lightingPass S (setupTargets gl0 status).st
          (geometryPass S (setupTargets gl0 status).st a)).gl),
        (t.run pre).bound GL_TEXTURE0 GL_TEXTURE_2D = g0 ∧
        (t.run pre).bound (GL_TEXTURE0 + 1) GL_TEXTURE_2D = g1 ∧
        (t.run pre).bound (GL_TEXTURE0 + 2) GL_TEXTURE_2D = g2 ∧
        (t.run pre).bound (GL_TEXTURE0 + 3) GL_TEXTURE_2D = g3 ∧
        (t.run pre).bound GL_TEXTURE4 GL_TEXTURE_2D = t0 ∧
        (t.run pre).active = GL_TEXTURE4 ∧
        (s0.run pre).drawFramebuffer = 0 ∧
        (s0.run pre).drawBuffers 0 = [GL_BACK]) ∧
      (issuedBefore GLCall.isUnit4Switch
        (issued a.gl (lightingPass S (setupTargets gl0 status).st
          (geometryPass S (setupTargets gl0 status).st a)).gl)).length = 1 ∧
      (∀ pre ∈ issuedBefore GLCall.isUnit4Switch
        (issued a.gl (lightingPass S (setupTargets gl0 status).st
          (geometryPass S (setupTargets gl0 status).st a)).gl),
        (t.run pre).active = GL_TEXTURE0 + 3) := by
  have hr := setupTargets_ready gl0 status h4
  obtain ⟨t0, t1, ht⟩ := ready_s_ids _ hr
  obtain ⟨g0, g1, g2, g3, hg⟩ := ready_g_ids _ hr
  refine ⟨g0, g1, g2, g3, t0, t1, hg, ht, ?_⟩
  rw [geometryPass_eq S _ a hr ha,
    lightingPass_eq S _ _ t0 t1 g0 g1 g2 g3 ht hg (by exact ha) (by exact hm),
    renderQuad_eq _ (by exact ha)]
  have u4 : GL_TEXTURE4 = GL_TEXTURE0 + 4 := by decide
  by_cases hq : a.quadVAO = 0
  · simp [hq, issued, GLContext.calls, issuedBefore, GLCall.isQuadDraw, GLCall.isUnit4Switch,
      quadSetup, TexUnits.run, TexUnits.step, GLState.run, GLState.step, u4]
  · simp [hq, issued, GLContext.calls, issuedBefore, GLCall.isQuadDraw, GLCall.isUnit4Switch,
      TexUnits.run, TexUnits.step, GLState.run, GLState.step, u4]

/-- C25 witness: the first frame of the sample run. -/
theorem C25_lighting_inputs_witness :
    (4 : Int) ≤ (GLContext.fresh 8).maxColorAttachments ∧
    sampleApp.result = Outcome.ok ∧ sampleApp.gBufferMode = 0 ∧
    ∃ g0 g1 g2 g3 t0 t1,
      (setupTargets (GLContext.fresh 8) GL_FRAMEBUFFER_COMPLETE).st.gBuffer.tex_ids =
        [g0, g1, g2, g3] ∧
      (setupTargets (GLContext.fresh 8) GL_FRAMEBUFFER_COMPLETE).st.sBuffer.tex_ids =
        [t0, t1] ∧
      (issuedBefore GLCall.isQuadDraw
        (issued sampleApp.gl (lightingPass sampleScene
          (setupTargets (GLContext.fresh 8) GL_FRAMEBUFFER_COMPLETE).st
          (geometryPass sampleScene
            (setupTargets (GLContext.fresh 8) GL_FRAMEBUFFER_COMPLETE).st
            sampleApp)).gl)).length = 1 :=
  ⟨by decide, rfl, rfl,
   (C25_lighting_inputs (GLContext.fresh 8) GL_FRAMEBUFFER_COMPLETE (by decide) sampleScene
     sampleApp TexUnits.initial GLState.initial rfl rfl).imp
     (fun _ h => h.imp (fun _ h => h.imp (fun _ h => h.imp (fun _ h => h.imp (fun _ h =>
       h.imp (fun _ h => ⟨h.1, h.2.1, h.2.2.1⟩))))))⟩

/-! ## What the rendering stages leave unchanged -/

theorem sameControls_refl (a : App) : a.sameControls a := rfl

theorem sameControls_trans {a b c : App} (h1 : a.sameControls b) (h2 : b.sameControls c) :
    a.sameControls c := by
  unfold App.sameControls at *
  rw [h2, h1]

theorem sameControls_calls (a : App) (cs : List GLCall) :
    a.sameControls { a with gl := a.gl.calls cs } := rfl

theorem keepsSwitches_nil : keepsSwitches [] := fun _ => ⟨rfl, rfl, rfl, rfl⟩

theorem run_append (s : GLState) (xs ys : List GLCall) :
    s.run (xs ++ ys) = (s.run xs).run ys := by
  simp [GLState.run, List.foldl_append]

theorem keepsSwitches_append {xs ys : List GLCall} (hx : keepsSwitches xs)
    (hy : keepsSwitches ys) : keepsSwitches (xs ++ ys) := by
  intro s
  rw [run_append]
  obtain ⟨a1, a2, a3, a4⟩ := hx s
  obtain ⟨b1, b2, b3, b4⟩ := hy (s.run xs)
  exact ⟨b1.trans a1, b2.trans a2, b3.trans a3, b4.trans a4⟩

theorem shadowPass_summary (S : Scene) (T : Targets) (a : App) (hr : T.ready)
    (ha : a.result = Outcome.ok) :
    ∃ cs, shadowPass S T a = { a with gl := a.gl.calls cs } ∧ keepsSwitches cs := by
  obtain ⟨t0, t1, ht⟩ := ready_s_ids T hr
  unfold shadowPass
  by_cases he : a.enableShadows = true
  · rw [if_pos he]
    dsimp only
    by_cases hm : a.ShadowMethod = 1
    · rw [if_pos (by rw [shadowCapture_method]; exact hm), shadowCapture_eq S T a hr ha,
        momentBlur_eq S T _ t0 t1 ht (by exact ha)]
      refine ⟨_, by simp only [GLContext.calls, List.append_assoc]; rfl, ?_⟩
      intro s
      simp [GLState.run, GLState.step]
    · rw [if_neg (by rw [shadowCapture_method]; exact hm), shadowCapture_eq S T a hr ha]
      refine ⟨_, rfl, ?_⟩
      intro s
      simp [GLState.run, GLState.step]
  · rw [if_neg he, shadowClear_eq T a hr ha]
    refine ⟨_, rfl, ?_⟩
    intro s
    simp [GLState.run, GLState.step]

theorem geometryPass_summary (S : Scene) (T : Targets) (a : App) (hr : T.ready)
    (ha : a.result = Outcome.ok) :
    ∃ cs, geometryPass S T a = { a with gl := a.gl.calls cs } ∧ keepsSwitches cs := by
  rw [geometryPass_eq S T a hr ha]
  refine ⟨_, rfl, ?_⟩
  intro s
  simp [GLState.run, GLState.step]

theorem renderQuad_summary (a : App) (ha : a.result = Outcome.ok) :
    a.sameControls (renderQuad a) ∧
    ∃ cs, (renderQuad a).gl.log = a.gl.log ++ cs ∧ keepsSwitches cs := by
  rw [renderQuad_eq a ha]
  by_cases hq : a.quadVAO = 0
  · rw [if_pos hq]
    refine ⟨rfl, _, rfl, ?_⟩
    intro s
    simp [GLState.run, GLState.step, quadSetup]
  · rw [if_neg hq]
    refine ⟨rfl, _, rfl, ?_⟩
    intro s
    simp [GLState.run, GLState.step]

theorem renderCube_summary (a : App) (ha : a.result = Outcome.ok) :
    a.sameControls (renderCube a) ∧
    ∃ cs, (renderCube a).gl.log = a.gl.log ++ cs ∧ keepsSwitches cs := by
  rw [renderCube_eq a ha]
  by_cases hq : a.cubeVAO = 0
  · rw [if_pos hq]
    refine ⟨rfl, _, rfl, ?_⟩
    intro s
    simp [GLState.run, GLState.step, cubeSetup]
  · rw [if_neg hq]
    refine ⟨rfl, _, rfl, ?_⟩
    intro s
    simp [GLState.run, GLState.step]

theorem summary_after_calls (a : App) (xs : List GLCall) (b : App)
    (hb : ({ a with gl := a.gl.calls xs } : App).sameControls b ∧
      ∃ cs, b.gl.log = (a.gl.calls xs).log ++ cs ∧ keepsSwitches cs)
    (hx : keepsSwitches xs) :
    a.sameControls b ∧ ∃ cs, b.gl.log = a.gl.log ++ cs ∧ keepsSwitches cs := by
  obtain ⟨q1, cs, q2, q3⟩ := hb
  refine ⟨sameControls_trans (sameControls_calls a xs) q1, xs ++ cs, ?_,
    keepsSwitches_append hx q3⟩
  rw [q2]
  simp only [GLContext.calls, List.append_assoc]

theorem lightingPass_summary (S : Scene) (T : Targets) (a : App) (hr : T.ready)
    (ha : a.result = Outcome.ok) :
    a.sameControls (lightingPass S T a) ∧
    ∃ cs, (lightingPass S T a).gl.log = a.gl.log ++ cs ∧ keepsSwitches cs := by
  obtain ⟨t0, t1, ht⟩ := ready_s_ids T hr
  obtain ⟨g0, g1, g2, g3, hg⟩ := ready_g_ids T hr
  by_cases hm : a.gBufferMode = 0
  · rw [lightingPass_eq S T a t0 t1 g0 g1 g2 g3 ht hg ha hm]
    exact summary_after_calls a _ _ (renderQuad_summary _ (by exact ha))
      (by intro s; simp [GLState.run, GLState.step])
  · rw [lightingPass_debug_eq S T a g0 g1 g2 g3 hg ha hm]
    exact summary_after_calls a _ _ (renderQuad_summary _ (by exact ha))
      (by intro s; simp [GLState.run, GLState.step])

theorem sameControls_result {a b : App} (h : a.sameControls b) : b.result = a.result := by
  have h2 : b = _ := h
  have h3 := congrArg App.result h2
  exact h3

theorem sameControls_mode {a b : App} (h : a.sameControls b) :
    b.gBufferMode = a.gBufferMode := by
  have h2 : b = _ := h
  have h3 := congrArg App.gBufferMode h2
  exact h3

theorem sameControls_lights {a b : App} (h : a.sameControls b) : b.lights = a.lights := by
  have h2 : b = _ := h
  have h3 := congrArg App.lights h2
  exact h3

theorem sameControls_dirty {a b : App} (h : a.sameControls b) :
    b.colorSizeBufferDirty = a.colorSizeBufferDirty := by
  have h2 : b = _ := h
  have h3 := congrArg App.colorSizeBufferDirty h2
  exact h3

theorem summary_of_eq {a b : App} {cs : List GLCall} (e : b = { a with gl := a.gl.calls cs }) :
    a.sameControls b ∧ b.gl.log = a.gl.log ++ cs := by
  subst e
  exact ⟨rfl, rfl⟩

/-- The frame up to the lighting pass: after the two commands of the frame start, commands
that leave the switches alone. -/
theorem beforePointLights_summary (S : Scene) (T : Targets) (a : App) (hr : T.ready)
    (ha : a.result = Outcome.ok) :
    a.sameControls (beforePointLights S T a) ∧
    ∃ cs, (beforePointLights S T a).gl.log =
        a.gl.log ++ ([GLCall.ClearColor 0 0 0 1, GLCall.Enable GL_DEPTH_TEST] ++ cs) ∧
      keepsSwitches cs := by
  unfold beforePointLights
  obtain ⟨s0, l0⟩ := summary_of_eq (frameStart_eq a ha)
  have r0 := (sameControls_result s0).trans ha
  obtain ⟨c1, e1, k1⟩ := shadowPass_summary S T (frameStart a) hr r0
  obtain ⟨s1, l1⟩ := summary_of_eq e1
  have r1 := (sameControls_result s1).trans r0
  obtain ⟨c2, e2, k2⟩ := geometryPass_summary S T _ hr r1
  obtain ⟨s2, l2⟩ := summary_of_eq e2
  have r2 := (sameControls_result s2).trans r1
  obtain ⟨s3, c3, l3, k3⟩ := lightingPass_summary S T _ hr r2
  refine ⟨sameControls_trans (sameControls_trans (sameControls_trans s0 s1) s2) s3,
    c1 ++ (c2 ++ c3), ?_, keepsSwitches_append k1 (keepsSwitches_append k2 k3)⟩
  rw [l3, l2, l1, l0]
  simp only [List.append_assoc]

theorem pointLightPass_summary (S : Scene) (T : Targets) (a : App) (hr : T.ready)
    (ha : a.result = Outcome.ok)
    (hl : LIGHT_GRID_WIDTH * LIGHT_GRID_WIDTH * LIGHT_GRID_HEIGHT ≤
      a.lights.modelColorSizes.length) :
    a.sameControls (pointLightPass S T a) ∧
    ∃ cs, (pointLightPass S T a).gl.log = a.gl.log ++ cs := by
  obtain ⟨g0, g1, g2, g3, hg⟩ := ready_g_ids T hr
  by_cases hm : a.gBufferMode = 0
  · rw [pointLightPass_eq S T a g0 g1 g2 g3 hg ha hm hl]
    exact ⟨rfl, _, rfl⟩
  · unfold pointLightPass
    rw [if_neg hm]
    exact ⟨rfl, [], by simp⟩

theorem adds_after_calls (a : App) (xs : List GLCall) (b : App)
    (hb : ({ a with gl := a.gl.calls xs } : App).sameControls b ∧
      ∃ cs, b.gl.log = (a.gl.calls xs).log ++ cs ∧ keepsSwitches cs) :
    a.sameControls b ∧ ∃ cs, b.gl.log = a.gl.log ++ cs := by
  obtain ⟨q1, cs, q2, -⟩ := hb
  refine ⟨sameControls_trans (sameControls_calls a xs) q1, xs ++ cs, ?_⟩
  rw [q2]
  simp only [GLContext.calls, List.append_assoc]

theorem environmentComposite_summary (S : Scene) (T : Targets) (a : App)
    (ha : a.result = Outcome.ok) :
    a.sameControls (environmentComposite S T a) ∧
    ∃ cs, (environmentComposite S T a).gl.log = a.gl.log ++ cs := by
  by_cases hm : a.gBufferMode = 0
  · rw [environmentComposite_eq S T a ha hm]
    exact adds_after_calls a _ _ (renderCube_summary _ (by exact ha))
  · unfold environmentComposite
    rw [if_neg hm]
    exact ⟨rfl, [], by simp⟩

theorem cmds_eq (a : App) (cs : List GLCall) (ha : a.result = Outcome.ok) :
    a.cmds cs = { a with gl := a.gl.calls cs } := by
  unfold App.cmds
  rw [if_pos ha]

theorem lightVolumes_summary (S : Scene) (a : App) (ha : a.result = Outcome.ok) :
    a.sameControls (lightVolumes S a) ∧
    ∃ cs, (lightVolumes S a).gl.log = a.gl.log ++ cs := by
  unfold lightVolumes
  by_cases h : a.drawPointLights = true ∧ a.gBufferMode = 0
  · rw [if_pos h, cmds_eq _ _ ha]
    exact ⟨rfl, _, rfl⟩
  · rw [if_neg h]
    exact ⟨rfl, [], by simp⟩

theorem depthMapView_eq (S : Scene) (T : Targets) (a : App) (t0 t1 : Nat)
    (ht : T.sBuffer.tex_ids = [t0, t1]) (ha : a.result = Outcome.ok)
    (hs : a.showDepthMap = true) :
    depthMapView S T a = renderQuad
      { a with
        gl := a.gl.calls
          [GLCall.UseProgram S.shaderDebugDepthMap,
           GLCall.Uniform S.shaderDebugDepthMap "transform",
           GLCall.Uniform S.shaderDebugDepthMap "zNear",
           GLCall.Uniform S.shaderDebugDepthMap "zFar",
           GLCall.ActiveTexture GL_TEXTURE0,
           GLCall.BindTexture GL_TEXTURE_2D t0] } := by
  simp [depthMapView, App.cmds, App.method, ha, hs, (bindTex_s T t0 t1 ht _).2,
    GLContext.calls]

theorem depthMapView_summary (S : Scene) (T : Targets) (a : App) (hr : T.ready)
    (ha : a.result = Outcome.ok) :
    a.sameControls (depthMapView S T a) ∧
    ∃ cs, (depthMapView S T a).gl.log = a.gl.log ++ cs := by
  obtain ⟨t0, t1, ht⟩ := ready_s_ids T hr
  by_cases hs : a.showDepthMap = true
  · rw [depthMapView_eq S T a t0 t1 ht ha hs]
    exact adds_after_calls a _ _ (renderQuad_summary _ (by exact ha))
  · unfold depthMapView
    rw [if_neg hs]
    exact ⟨rfl, [], by simp⟩

/-- The rendering part of a frame leaves outcome, option variables, lights and dirty flag as
they are. -/
theorem renderStages_summary (S : Scene) (T : Targets) (a : App) (hr : T.ready)
    (ha : a.result = Outcome.ok)
    (hl : LIGHT_GRID_WIDTH * LIGHT_GRID_WIDTH * LIGHT_GRID_HEIGHT ≤
      a.lights.modelColorSizes.length) :
    a.sameControls (renderStages S T a) := by
  unfold renderStages
  obtain ⟨s1, -⟩ := beforePointLights_summary S T a hr ha
  have r1 := (sameControls_result s1).trans ha
  obtain ⟨s2, -⟩ := pointLightPass_summary S T _ hr r1 (by rw [sameControls_lights s1]; exact hl)
  have r2 := (sameControls_result s2).trans r1
  obtain ⟨s3, -⟩ := environmentComposite_summary S T _ r2
  have r3 := (sameControls_result s3).trans r2
  obtain ⟨s4, -⟩ := lightVolumes_summary S _ r3
  have r4 := (sameControls_result s4).trans r3
  obtain ⟨s5, -⟩ := depthMapView_summary S T _ hr r4
  exact sameControls_trans (sameControls_trans (sameControls_trans (sameControls_trans s1 s2)
    s3) s4) s5

/-! ## C26: the switches around the point-light pass -/

theorem issued_of_log {g h : GLContext} {cs : List GLCall} (e : h.log = g.log ++ cs) :
    issued g h = cs := by
  simp [issued, e]

theorem before_switches (S : Scene) (T : Targets) (a : App) (s : GLState) (hr : T.ready)
    (ha : a.result = Outcome.ok) :
    (s.run (issued a.gl (beforePointLights S T a).gl)).depthTest = true ∧
    (s.run (issued a.gl (beforePointLights S T a).gl)).blend = s.blend ∧
    (s.run (issued a.gl (beforePointLights S T a).gl)).cullFace = s.cullFace ∧
    (s.run (issued a.gl (beforePointLights S T a).gl)).frontFace = s.frontFace := by
  obtain ⟨-, cs, e, k⟩ := beforePointLights_summary S T a hr ha
  rw [issued_of_log e, run_append]
  obtain ⟨k1, k2, k3, k4⟩ := k (s.run [GLCall.ClearColor 0 0 0 1, GLCall.Enable GL_DEPTH_TEST])
  rw [k1, k2, k3, k4]
  simp [GLState.run, GLState.step]

theorem pointLight_switches (S : Scene) (T : Targets) (a : App) (s : GLState) (hr : T.ready)
    (ha : a.result = Outcome.ok) (hm : a.gBufferMode = 0)
    (hl : LIGHT_GRID_WIDTH * LIGHT_GRID_WIDTH * LIGHT_GRID_HEIGHT ≤
      a.lights.modelColorSizes.length) :
    (s.run (issued a.gl (pointLightPass S T a).gl)).blend = false ∧
    (s.run (issued a.gl (pointLightPass S T a).gl)).cullFace = false ∧
    (s.run (issued a.gl (pointLightPass S T a).gl)).frontFace = GL_CCW ∧
    (s.run (issued a.gl (pointLightPass S T a).gl)).depthTest = false := by
  obtain ⟨g0, g1, g2, g3, hg⟩ := ready_g_ids T hr
  have d1 : GL_CULL_FACE ≠ GL_DEPTH_TEST := by decide
  have d2 : GL_BLEND ≠ GL_DEPTH_TEST := by decide
  have d3 : GL_BLEND ≠ GL_CULL_FACE := by decide
  rw [pointLightPass_eq S T a g0 g1 g2 g3 hg ha hm hl, issued_calls]
  by_cases hd : a.colorSizeBufferDirty = true
  · simp [hd, GLState.run, GLState.step, d1, d2, d3]
  · simp [hd, GLState.run, GLState.step, d1, d2, d3]

theorem environment_switches (S : Scene) (T : Targets) (a : App) (s : GLState)
    (ha : a.result = Outcome.ok) (hm : a.gBufferMode = 0) :
    (s.run (issued a.gl (environmentComposite S T a).gl)).depthTest = true ∧
    (s.run (issued a.gl (environmentComposite S T a).gl)).blend = s.blend ∧
    (s.run (issued a.gl (environmentComposite S T a).gl)).cullFace = s.cullFace ∧
    (s.run (issued a.gl (environmentComposite S T a).gl)).frontFace = s.frontFace := by
  have r1 : ¬ (GL_READ_FRAMEBUFFER = GL_FRAMEBUFFER ∨
      GL_READ_FRAMEBUFFER = GL_DRAW_FRAMEBUFFER) := by decide
  rw [environmentComposite_eq S T a ha hm, renderCube_eq _ (by exact ha)]
  by_cases hq : a.cubeVAO = 0
  · simp [hq, issued, GLContext.calls, GLState.run, GLState.step, cubeSetup, r1]
  · simp [hq, issued, GLContext.calls, GLState.run, GLState.step, r1]

theorem sample_lit : sampleApp.lit :=
  ⟨rfl,
   Nat.le_of_eq (configureLoops_spec jitterRun INITIAL_POINT_LIGHT_RADIUS
     (binary32.round (620 / 1000)) (binary32.round (1205 / 1000))).1.symm,
   Nat.le_of_eq (configureLoops_spec jitterRun INITIAL_POINT_LIGHT_RADIUS
     (binary32.round (620 / 1000)) (binary32.round (1205 / 1000))).2.1.symm⟩

/-- C26 (counterexample): in the first frame of the sample run, a non-debug frame that starts
from the state of a new context, depth testing is enabled when the PointLightAccumulation
step begins and disabled when the step ends. -/
theorem C26_depth_test_left_disabled :
    sampleApp.result = Outcome.ok ∧ sampleApp.gBufferMode = 0 ∧
    (GLState.initial.run (issued sampleApp.gl
      (beforePointLights sampleScene sampleTargets sampleApp).gl)).depthTest = true ∧
    ((GLState.initial.run (issued sampleApp.gl
      (beforePointLights sampleScene sampleTargets sampleApp).gl)).run
      (issued (beforePointLights sampleScene sampleTargets sampleApp).gl
        (pointLightPass sampleScene sampleTargets
          (beforePointLights sampleScene sampleTargets sampleApp)).gl)).depthTest = false := by
  obtain ⟨sc, -⟩ := beforePointLights_summary sampleScene sampleTargets sampleApp
    sample_ready rfl
  exact ⟨rfl, rfl,
    (before_switches sampleScene sampleTargets sampleApp GLState.initial sample_ready rfl).1,
    (pointLight_switches sampleScene sampleTargets _ _ sample_ready
      ((sameControls_result sc).trans rfl) ((sameControls_mode sc).trans rfl)
      (by rw [sameControls_lights sc]; exact sample_lit.2.2)).2.2.2⟩

/-! ## C27: the dirty flag -/

theorem updateLights_lit (S : Scene) (a : App) (h : a.lit) :
    (App.updateLights S a).lit ∧
    (App.updateLights S a).colorSizeBufferDirty = a.colorSizeBufferDirty := by
  obtain ⟨hok, hmm, hcs⟩ := h
  unfold App.updateLights
  rw [if_neg (by simp [hok])]
  dsimp only
  by_cases hs : a.pointLightSeparation.lt (FloatVal.finite 0) = true
  · obtain ⟨r, l1, l2, -, -⟩ := updatePointLights_negative S.matrixBuffer a.lights a.gl
      a.pointLightSeparation a.pointLightVerticalOffset a.pointLightRadius hs
    exact ⟨⟨r, by rw [l1]; exact hmm, by rw [l2]; exact hcs⟩, rfl⟩
  · obtain ⟨r, e⟩ := updatePointLights_spec S.matrixBuffer a.lights a.gl
      a.pointLightSeparation a.pointLightVerticalOffset a.pointLightRadius
      (by simpa using hs) hmm hcs
    obtain ⟨-, l1, l2, -, -⟩ := updateLoops_spec a.pointLightSeparation
      a.pointLightVerticalOffset a.pointLightRadius a.lights hmm hcs
    exact ⟨⟨r, by rw [e, l1]; exact hmm, by rw [e, l2]; exact hcs⟩, rfl⟩


theorem setDirty_lit (a : App) (v : Bool) (h : a.lit) :
    (a.setDirty v).lit ∧ (a.setDirty v).colorSizeBufferDirty = v := by
  unfold App.setDirty
  rw [if_pos h.1]
  exact ⟨h, rfl⟩

theorem radiusSlider_spec (S : Scene) (w : Widgets) (a : App) (h : a.lit) :
    (radiusSlider S w a).lit ∧
    (radiusSlider S w a).colorSizeBufferDirty = w.radius.isSome := by
  unfold radiusSlider
  rw [if_neg (not_not.mpr h.1)]
  cases w.radius with
  | none => exact setDirty_lit a false h
  | some v =>
    exact setDirty_lit _ true (updateLights_lit S { a with pointLightRadius := v } h).1

theorem separationSlider_spec (S : Scene) (w : Widgets) (a : App) (h : a.lit) :
    (separationSlider S w a).lit ∧
    (separationSlider S w a).colorSizeBufferDirty = a.colorSizeBufferDirty := by
  unfold separationSlider
  rw [if_neg (not_not.mpr h.1)]
  cases w.separation with
  | none => exact ⟨h, rfl⟩
  | some v => exact updateLights_lit S { a with pointLightSeparation := v } h

theorem verticalOffsetSlider_spec (S : Scene) (w : Widgets) (a : App) (h : a.lit) :
    (verticalOffsetSlider S w a).lit ∧
    (verticalOffsetSlider S w a).colorSizeBufferDirty = a.colorSizeBufferDirty := by
  unfold verticalOffsetSlider
  rw [if_neg (not_not.mpr h.1)]
  cases w.verticalOffset with
  | none => exact ⟨h, rfl⟩
  | some v => exact updateLights_lit S { a with pointLightVerticalOffset := v } h

theorem pointLightControls_spec (S : Scene) (w : Widgets) (a : App) (h : a.lit) :
    (pointLightControls S w a).lit ∧
    (pointLightControls S w a).colorSizeBufferDirty = w.radius.isSome := by
  unfold pointLightControls
  obtain ⟨l1, d1⟩ := radiusSlider_spec S w a h
  obtain ⟨l2, d2⟩ := separationSlider_spec S w _ l1
  obtain ⟨l3, d3⟩ := verticalOffsetSlider_spec S w _ l2
  exact ⟨l3, by rw [d3, d2, d1]⟩

theorem shadowControls_spec (w : Widgets) (a : App) (h : a.lit) :
    (shadowControls w a).lit ∧
    (shadowControls w a).colorSizeBufferDirty = a.colorSizeBufferDirty := by
  unfold shadowControls
  rw [if_pos h.1]
  exact ⟨h, rfl⟩

theorem debugControls_spec (S : Scene) (w : Widgets) (a : App) (h : a.lit) :
    (debugControls S w a).lit ∧
    (debugControls S w a).colorSizeBufferDirty = a.colorSizeBufferDirty := by
  unfold debugControls
  rw [if_pos h.1]
  exact ⟨h, rfl⟩

theorem cmds_lit (a : App) (cs : List GLCall) (h : a.lit) :
    (a.cmds cs).lit ∧ (a.cmds cs).colorSizeBufferDirty = a.colorSizeBufferDirty := by
  rw [cmds_eq a cs h.1]
  exact ⟨h, rfl⟩

theorem controls_spec (S : Scene) (w : Widgets) (a : App) (h : a.lit) :
    (controls S w a).lit ∧
    (controls S w a).colorSizeBufferDirty =
      (if w.lightingConfig = true ∧ w.pointLights = true then w.radius.isSome
       else a.colorSizeBufferDirty) := by
  have h1 : (if w.lightingConfig = true then lightingControls S w a else a).lit ∧
      (if w.lightingConfig = true then lightingControls S w a else a).colorSizeBufferDirty =
        (if w.lightingConfig = true ∧ w.pointLights = true then w.radius.isSome
         else a.colorSizeBufferDirty) := by
    by_cases hl : w.lightingConfig = true
    · rw [if_pos hl]
      unfold lightingControls
      dsimp only
      by_cases hp : w.pointLights = true
      · rw [if_pos hp, if_pos (And.intro hl hp)]
        obtain ⟨l1, d1⟩ := pointLightControls_spec S w a h
        by_cases hs : w.shadows = true
        · rw [if_pos hs]
          obtain ⟨l2, d2⟩ := shadowControls_spec w _ l1
          exact ⟨l2, d2.trans d1⟩
        · rw [if_neg hs]
          exact ⟨l1, d1⟩
      · rw [if_neg hp, if_neg (show ¬ (w.lightingConfig = true ∧ w.pointLights = true) from
          fun hh => hp hh.2)]
        by_cases hs : w.shadows = true
        · rw [if_pos hs]
          exact shadowControls_spec w a h
        · rw [if_neg hs]
          exact ⟨h, rfl⟩
    · rw [if_neg hl, if_neg (show ¬ (w.lightingConfig = true ∧ w.pointLights = true) from
        fun hh => hl hh.1)]
      exact ⟨h, rfl⟩
  unfold controls
  dsimp only
  obtain ⟨l1, d1⟩ := h1
  by_cases hd : w.debug = true
  · rw [if_pos hd]
    obtain ⟨l2, d2⟩ := debugControls_spec S w _ l1
    exact ⟨l2, d2.trans d1⟩
  · rw [if_neg hd]
    exact ⟨l1, d1⟩

theorem renderStages_lit (S : Scene) (T : Targets) (a : App) (hr : T.ready) (h : a.lit) :
    (renderStages S T a).lit ∧
    (renderStages S T a).colorSizeBufferDirty = a.colorSizeBufferDirty := by
  have sc := renderStages_summary S T a hr h.1 h.2.2
  refine ⟨⟨(sameControls_result sc).trans h.1, ?_, ?_⟩, sameControls_dirty sc⟩
  · rw [sameControls_lights sc]; exact h.2.1
  · rw [sameControls_lights sc]; exact h.2.2

/-- The dirty flag after a frame: decided by the slider "Radius" when the point-light
controls are shown, kept otherwise. -/
theorem frame_dirty (S : Scene) (T : Targets) (w : Widgets) (a : App) (hr : T.ready)
    (h : a.lit) :
    (frame S T w a).lit ∧
    (frame S T w a).colorSizeBufferDirty =
      (if w.lightingConfig = true ∧ w.pointLights = true then w.radius.isSome
       else a.colorSizeBufferDirty) := by
  unfold frame
  dsimp only
  obtain ⟨l1, d1⟩ := renderStages_lit S T a hr h
  obtain ⟨l2, d2⟩ := cmds_lit _ [GLCall.Library "ImGui_ImplOpenGL3_NewFrame"] l1
  obtain ⟨l3, d3⟩ := controls_spec S w _ l2
  obtain ⟨l4, d4⟩ := cmds_lit _ [GLCall.Library "ImGui_ImplOpenGL3_RenderDrawData",
    GLCall.Library "glfwSwapBuffers", GLCall.Library "glfwPollEvents"] l3
  refine ⟨l4, ?_⟩
  rw [d4, d3, d2, d1]

/-- The uploads of the point-light pass: the colour/size records when the frame is not a
debug frame and the flag is set, nothing otherwise. -/
theorem pointLightPass_uploads (S : Scene) (T : Targets) (a : App) (hr : T.ready)
    (h : a.lit) :
    (issued a.gl (pointLightPass S T a).gl).filter GLCall.isBufferData =
      (if a.gBufferMode = 0 ∧ a.colorSizeBufferDirty = true then
        [GLCall.BufferData GL_ARRAY_BUFFER
          (LIGHT_GRID_WIDTH * LIGHT_GRID_WIDTH * LIGHT_GRID_HEIGHT * SIZEOF_VEC4)
          ((a.lights.modelColorSizes.take
            (LIGHT_GRID_WIDTH * LIGHT_GRID_WIDTH * LIGHT_GRID_HEIGHT)).flatMap Vec4.floats)
          GL_STATIC_DRAW]
       else []) := by
  obtain ⟨g0, g1, g2, g3, hg⟩ := ready_g_ids T hr
  by_cases hm : a.gBufferMode = 0
  · rw [pointLightPass_eq S T a g0 g1 g2 g3 hg h.1 hm h.2.2, issued_calls]
    by_cases hd : a.colorSizeBufferDirty = true
    · simp [hm, hd, GLCall.isBufferData]
    · simp [hm, hd, GLCall.isBufferData]
  · unfold pointLightPass
    rw [if_neg hm, if_neg (show ¬ (a.gBufferMode = 0 ∧ a.colorSizeBufferDirty = true) from
      fun hh => hm hh.1)]
    simp [issued]


theorem pass_uploads_in_frame (S : Scene) (T : Targets) (a : App) (hr : T.ready)
    (h : a.lit) :
    (issued (beforePointLights S T a).gl
        (pointLightPass S T (beforePointLights S T a)).gl).filter GLCall.isBufferData =
      (if a.gBufferMode = 0 ∧ a.colorSizeBufferDirty = true then
        [GLCall.BufferData GL_ARRAY_BUFFER
          (LIGHT_GRID_WIDTH * LIGHT_GRID_WIDTH * LIGHT_GRID_HEIGHT * SIZEOF_VEC4)
          ((a.lights.modelColorSizes.take
            (LIGHT_GRID_WIDTH * LIGHT_GRID_WIDTH * LIGHT_GRID_HEIGHT)).flatMap Vec4.floats)
          GL_STATIC_DRAW]
       else []) := by
  obtain ⟨sc, -⟩ := beforePointLights_summary S T a hr h.1
  have hb : (beforePointLights S T a).lit :=
    ⟨(sameControls_result sc).trans h.1, by rw [sameControls_lights sc]; exact h.2.1,
      by rw [sameControls_lights sc]; exact h.2.2⟩
  rw [pointLightPass_uploads S T _ hr hb, sameControls_mode sc, sameControls_dirty sc,
    sameControls_lights sc]

theorem updateLights_separation (S : Scene) (a : App) :
    (App.updateLights S a).pointLightSeparation = a.pointLightSeparation := by
  unfold App.updateLights
  split_ifs <;> rfl

theorem setDirty_separation (a : App) (v : Bool) :
    (a.setDirty v).pointLightSeparation = a.pointLightSeparation := by
  unfold App.setDirty
  split_ifs <;> rfl

theorem cmds_separation (a : App) (cs : List GLCall) :
    (a.cmds cs).pointLightSeparation = a.pointLightSeparation := by
  unfold App.cmds
  split_ifs <;> rfl

theorem sample_separation :
    (frame sampleScene sampleTargets separationDragged sampleApp).pointLightSeparation =
      FloatVal.finite 1 := by
  obtain ⟨l1, -⟩ := renderStages_lit sampleScene sampleTargets sampleApp sample_ready
    sample_lit
  obtain ⟨l2, -⟩ := cmds_lit _ [GLCall.Library "ImGui_ImplOpenGL3_NewFrame"] l1
  obtain ⟨l3, -⟩ := radiusSlider_spec sampleScene separationDragged _ l2
  unfold frame
  dsimp only
  rw [cmds_separation]
  simp only [controls, lightingControls, pointLightControls, separationDragged, idleWidgets,
    if_true, Bool.false_eq_true, if_false]
  have e3 : ∀ b : App, verticalOffsetSlider sampleScene separationDragged b = b := by
    intro b
    unfold verticalOffsetSlider
    split_ifs <;> rfl
  have e2 : ∀ b : App, b.result = Outcome.ok →
      (separationSlider sampleScene separationDragged b).pointLightSeparation =
        FloatVal.finite 1 := by
    intro b hb
    unfold separationSlider
    rw [if_neg (not_not.mpr hb)]
    exact updateLights_separation sampleScene _
  exact (congrArg App.pointLightSeparation (e3 _)).trans (e2 _ l3.1)

/-- C27 (counterexample): in the first frame of the sample run the point-light controls are
shown and the slider "Separation" changes the separation from 0.620 to 1, the other two
sliders reporting no change; the frame ends with the dirty flag clear, and the point-light
pass of the following frame uploads no colour/size records. -/
theorem C27_separation_change_leaves_flag_clear :
    sampleApp.result = Outcome.ok ∧
    separationDragged.lightingConfig = true ∧ separationDragged.pointLights = true ∧
    separationDragged.separation = some (FloatVal.finite 1) ∧
    sampleApp.pointLightSeparation ≠ FloatVal.finite 1 ∧
    (frame sampleScene sampleTargets separationDragged sampleApp).pointLightSeparation =
      FloatVal.finite 1 ∧
    (frame sampleScene sampleTargets separationDragged sampleApp).result = Outcome.ok ∧
    (frame sampleScene sampleTargets separationDragged sampleApp).colorSizeBufferDirty
      = false ∧
    (issued
      (beforePointLights sampleScene sampleTargets
        (frame sampleScene sampleTargets separationDragged sampleApp)).gl
      (pointLightPass sampleScene sampleTargets
        (beforePointLights sampleScene sampleTargets
          (frame sampleScene sampleTargets separationDragged sampleApp))).gl).filter
      GLCall.isBufferData = [] := by
  obtain ⟨l1, d1⟩ := frame_dirty sampleScene sampleTargets separationDragged sampleApp
    sample_ready sample_lit
  have d2 : (frame sampleScene sampleTargets separationDragged sampleApp).colorSizeBufferDirty
      = false := by
    rw [d1]; rfl
  refine ⟨rfl, rfl, rfl, rfl, ?_, sample_separation, l1.1, d2, ?_⟩
  · show binary32.round (620 / 1000) ≠ FloatVal.finite 1
    rw [round_620]
    intro h
    injection h with h
    norm_num at h
  · rw [pass_uploads_in_frame sampleScene sampleTargets _ sample_ready l1, d2]
    simp

/-- C27 (amended): across frames (the targets being those `main` builds on a context with at
least four colour attachments, the lights being in place), the point-light pass of a frame
uploads the colour/size records exactly when the frame is not a debug frame and the dirty
flag is set on entry, and uploads nothing else; the frame runs to its end with the lights in
place, and leaves the flag set if the point-light controls were shown and the slider "Radius"
changed value, clear if they were shown and it did not (whatever the sliders "Separation" and
"Vertical Offset" did), and as it was if the controls were not shown. -/
theorem C27_dirty_flag_follows_radius (gl0 : GLContext) (status : Nat)
    (h4 : 4 ≤ gl0.maxColorAttachments) (S : Scene) (w : Widgets) (a : App) (h : a.lit) :
    (issued (beforePointLights S (setupTargets gl0 status).st a).gl
        (pointLightPass S (setupTargets gl0 status).st
          (beforePointLights S (setupTargets gl0 status).st a)).gl).filter
        GLCall.isBufferData =
      (if a.gBufferMode = 0 ∧ a.colorSizeBufferDirty = true then
        [GLCall.BufferData GL_ARRAY_BUFFER
          (LIGHT_GRID_WIDTH * LIGHT_GRID_WIDTH * LIGHT_GRID_HEIGHT * SIZEOF_VEC4)
          ((a.lights.modelColorSizes.take
            (LIGHT_GRID_WIDTH * LIGHT_GRID_WIDTH * LIGHT_GRID_HEIGHT)).flatMap Vec4.floats)
          GL_STATIC_DRAW]
       else []) ∧
    (frame S (setupTargets gl0 status).st w a).lit ∧
    (frame S (setupTargets gl0 status).st w a).colorSizeBufferDirty =
      (if w.lightingConfig = true ∧ w.pointLights = true then w.radius.isSome
       else a.colorSizeBufferDirty) := by
  have hr := setupTargets_ready gl0 status h4
  exact ⟨pass_uploads_in_frame S _ a hr h, frame_dirty S _ w a hr h⟩

/-- C27 witness: the first frame of the sample run, with the slider "Separation" dragged. -/
theorem C27_dirty_flag_follows_radius_witness :
    (4 : Int) ≤ (GLContext.fresh 8).maxColorAttachments ∧ sampleApp.lit ∧
    (frame sampleScene (setupTargets (GLContext.fresh 8) GL_FRAMEBUFFER_COMPLETE).st
      separationDragged sampleApp).lit :=
  ⟨by decide, sample_lit,
   (C27_dirty_flag_follows_radius (GLContext.fresh 8) GL_FRAMEBUFFER_COMPLETE (by decide)
     sampleScene separationDragged sampleApp sample_lit).2.1⟩

/-! ## C22: what the blur dispatches read and write -/

theorem blur_access (S : Scene) (T : Targets) (a : App) (t0 t1 : Nat) (s0 : GLState)
    (ht : T.sBuffer.tex_ids = [t0, t1]) (ha : a.result = Outcome.ok) :
    (issuedBefore GLCall.isDispatch (issued a.gl (momentBlur S T a).gl)).map
      (fun pre => blurAccess (s0.run pre)) =
      [⟨t0, t1⟩, ⟨t1, t0⟩, ⟨t0, t1⟩, ⟨t1, t0⟩] := by
  rw [momentBlur_eq S T a t0 t1 ht ha]
  simp [issued_calls, issuedBefore, GLCall.isDispatch, GLState.run, GLState.step, blurAccess]

theorem lighting_samples (S : Scene) (T : Targets) (a : App) (t0 t1 : Nat) (t : TexUnits)
    (ht : T.sBuffer.tex_ids = [t0, t1]) (hr : T.ready) (ha : a.result = Outcome.ok)
    (hm : a.gBufferMode = 0) :
    (issuedBefore GLCall.isQuadDraw (issued a.gl (lightingPass S T a).gl)).map
      (fun pre => (t.run pre).bound GL_TEXTURE4 GL_TEXTURE_2D) = [t0] := by
  obtain ⟨g0, g1, g2, g3, hg⟩ := ready_g_ids T hr
  rw [lightingPass_eq S T a t0 t1 g0 g1 g2 g3 ht hg ha hm, renderQuad_eq _ (by exact ha)]
  have u4 : GL_TEXTURE4 = GL_TEXTURE0 + 4 := by decide
  by_cases hq : a.quadVAO = 0
  · simp [hq, issued, GLContext.calls, issuedBefore, GLCall.isQuadDraw, quadSetup,
      TexUnits.run, TexUnits.step, u4]
  · simp [hq, issued, GLContext.calls, issuedBefore, GLCall.isQuadDraw,
      TexUnits.run, TexUnits.step, u4]

/-- C22: in every frame with shadows enabled and the moment technique selected (the targets
being those `main` builds on a context with at least four colour attachments), the MomentBlur
stage runs after the capture and issues exactly four compute dispatches, the only ones of the
frame, each with 64 work groups; every dispatch is immediately followed by
`glMemoryBarrier(GL_SHADER_IMAGE_ACCESS_BARRIER_BIT)`; the first two run the horizontal and
the last two the vertical program; at the first dispatch of each direction image unit 0 holds
attachment 0 and unit 1 attachment 1 of the shadow target, at the second unit 0 holds
attachment 1 and unit 1 attachment 0.  With the blur programs reading unit 0 and writing
unit 1 (`blurAccess`), the first dispatch of each direction reads attachment 0 and writes
attachment 1 and the second reads attachment 1 and writes attachment 0; attachment 0 is the
texture that the lighting pass of the frame, when it is not a debug frame, has on texture
unit 4 at its quad draw.  A frame of any other kind issues no compute dispatch. -/
theorem C22_blur_dispatches (gl0 : GLContext) (status : Nat)
    (h4 : 4 ≤ gl0.maxColorAttachments) (S : Scene) (w : Widgets) (a : App) (s0 : GLState)
    (ha : a.result = Outcome.ok) (he : a.enableShadows = true) (hm : a.ShadowMethod = 1) :
    shadowPass S (setupTargets gl0 status).st (frameStart a) =
      momentBlur S (setupTargets gl0 status).st
        (shadowCapture S (setupTargets gl0 status).st (frameStart a)) ∧
    (issued (shadowCapture S (setupTargets gl0 status).st (frameStart a)).gl
        (shadowPass S (setupTargets gl0 status).st (frameStart a)).gl).filter
        GLCall.isDispatch =
      [GLCall.DispatchCompute 64 1 1, GLCall.DispatchCompute 64 1 1,
       GLCall.DispatchCompute 64 1 1, GLCall.DispatchCompute 64 1 1] ∧
    (issued a.gl (frame S (setupTargets gl0 status).st w a).gl).filter GLCall.isDispatch =
      [GLCall.DispatchCompute 64 1 1, GLCall.DispatchCompute 64 1 1,
       GLCall.DispatchCompute 64 1 1, GLCall.DispatchCompute 64 1 1] ∧
    followedBy GLCall.isDispatch GLCall.isImageBarrier
      (issued (shadowCapture S (setupTargets gl0 status).st (frameStart a)).gl
        (shadowPass S (setupTargets gl0 status).st (frameStart a)).gl) = true ∧
    (∃ t0 t1, (setupTargets gl0 status).st.sBuffer.tex_ids = [t0, t1] ∧
      (issuedBefore GLCall.isDispatch
        (issued (shadowCapture S (setupTargets gl0 status).st (frameStart a)).gl
          (shadowPass S (setupTargets gl0 status).st (frameStart a)).gl)).map
        (fun pre => ((s0.run pre).program, (s0.run pre).imageUnits 0,
          (s0.run pre).imageUnits 1)) =
        [(S.computeBlurShaderH, t0, t1), (S.computeBlurShaderH, t1, t0),
         (S.computeBlurShaderV, t0, t1), (S.computeBlurShaderV, t1, t0)] ∧
      (issuedBefore GLCall.isDispatch
        (issued (shadowCapture S (setupTargets gl0 status).st (frameStart a)).gl
          (shadowPass S (setupTargets gl0 status).st (frameStart a)).gl)).map
        (fun pre => blurAccess (s0.run pre)) =
        [⟨t0, t1⟩, ⟨t1, t0⟩, ⟨t0, t1⟩, ⟨t1, t0⟩] ∧
      (a.gBufferMode = 0 → ∀ t : TexUnits,
        (issuedBefore GLCall.isQuadDraw
          (issued
            (geometryPass S (setupTargets gl0 status).st
              (shadowPass S (setupTargets gl0 status).st (frameStart a))).gl
            (lightingPass S (setupTargets gl0 status).st
              (geometryPass S (setupTargets gl0 status).st
                (shadowPass S (setupTargets gl0 status).st (frameStart a)))).gl)).map
          (fun pre => (t.run pre).bound GL_TEXTURE4 GL_TEXTURE_2D) = [t0])) ∧
    (∀ (w2 : Widgets) (b : App), ¬ (b.enableShadows = true ∧ b.ShadowMethod = 1) →
      (issued b.gl (frame S (setupTargets gl0 status).st w2 b).gl).filter
        GLCall.isDispatch = []) := by
  have hr := setupTargets_ready gl0 status h4
  obtain ⟨t0, t1, ht⟩ := ready_s_ids _ hr
  obtain ⟨f1, f2, f3, f4⟩ := frameStart_fields a
  have hok : (shadowCapture S (setupTargets gl0 status).st (frameStart a)).result
      = Outcome.ok := by
    rw [shadowCapture_eq S _ _ hr (by rw [f3]; exact ha)]
    exact f3.trans ha
  have hsp : shadowPass S (setupTargets gl0 status).st (frameStart a) =
      momentBlur S (setupTargets gl0 status).st
        (shadowCapture S (setupTargets gl0 status).st (frameStart a)) := by
    unfold shadowPass
    rw [if_pos (by rw [f1]; exact he)]
    dsimp only
    rw [if_pos (by rw [shadowCapture_method, f2]; exact hm)]
  obtain ⟨b1, b2, b3⟩ := blur_commands S _ _ t0 t1 s0 ht hok
  have b4 := blur_access S _ _ t0 t1 s0 ht hok
  refine ⟨hsp, ?_, ?_, ?_, ⟨t0, t1, ht, ?_, ?_, ?_⟩, ?_⟩
  · rw [hsp]; exact b1
  · have n1 := nd_trans f4 (nd_shadowCapture S (setupTargets gl0 status).st (frameStart a))
    have e2 : ∃ y, (momentBlur S (setupTargets gl0 status).st
        (shadowCapture S (setupTargets gl0 status).st (frameStart a))).gl.log =
        (shadowCapture S (setupTargets gl0 status).st (frameStart a)).gl.log ++ y := by
      rw [momentBlur_eq S _ _ t0 t1 ht hok]
      exact ⟨_, rfl⟩
    have n3 := nd_afterShadows S (setupTargets gl0 status).st w
      (momentBlur S (setupTargets gl0 status).st
        (shadowCapture S (setupTargets gl0 status).st (frameStart a)))
    rw [frame_unfold, hsp]
    rw [issued_trans a.gl (momentBlur S (setupTargets gl0 status).st
        (shadowCapture S (setupTargets gl0 status).st (frameStart a))).gl _
        (by obtain ⟨x, hx⟩ := nd_adds n1
            obtain ⟨y, hy⟩ := e2
            exact ⟨x ++ y, by rw [hy, hx, List.append_assoc]⟩)
        (nd_adds n3),
      issued_trans a.gl (shadowCapture S (setupTargets gl0 status).st (frameStart a)).gl _
        (nd_adds n1) e2,
      List.filter_append, List.filter_append, nd_issued n1, nd_issued n3, b1]
    rfl
  · rw [hsp]; exact b2
  · rw [hsp]; exact b3
  · rw [hsp]; exact b4
  · intro hg t
    obtain ⟨c1, e1, -⟩ := shadowPass_summary S (setupTargets gl0 status).st (frameStart a) hr
      (f3.trans ha)
    obtain ⟨s1, -⟩ := summary_of_eq e1
    have r1 := (sameControls_result s1).trans (f3.trans ha)
    obtain ⟨c2, e2, -⟩ := geometryPass_summary S (setupTargets gl0 status).st _ hr r1
    obtain ⟨s2, -⟩ := summary_of_eq e2
    have m0 : (frameStart a).gBufferMode = a.gBufferMode := by
      rw [frameStart_eq a ha]
    exact lighting_samples S _ _ t0 t1 t ht hr ((sameControls_result s2).trans r1)
      ((sameControls_mode s2).trans ((sameControls_mode s1).trans (m0.trans hg)))
  · intro w2 b hb
    exact frame_no_dispatch S _ w2 b hb


/-- C22 witness: the first frame of the sample run. -/
theorem C22_blur_dispatches_witness :
    (4 : Int) ≤ (GLContext.fresh 8).maxColorAttachments ∧
    sampleApp.result = Outcome.ok ∧ sampleApp.enableShadows = true ∧
    sampleApp.ShadowMethod = 1 ∧
    (issued sampleApp.gl (frame sampleScene
      (setupTargets (GLContext.fresh 8) GL_FRAMEBUFFER_COMPLETE).st idleWidgets
      sampleApp).gl).filter GLCall.isDispatch =
      [GLCall.DispatchCompute 64 1 1, GLCall.DispatchCompute 64 1 1,
       GLCall.DispatchCompute 64 1 1, GLCall.DispatchCompute 64 1 1] :=
  ⟨by decide, rfl, rfl, rfl,
   (C22_blur_dispatches (GLContext.fresh 8) GL_FRAMEBUFFER_COMPLETE (by decide) sampleScene
     idleWidgets sampleApp GLState.initial rfl rfl rfl).2.2.1⟩

/-! ## Commands that leave blending and face culling alone -/

theorem kb_refl (g : GLContext) : keepsBlendingBetween g g := ⟨[], by simp, rfl⟩

theorem kb_trans {g h k : GLContext} (h1 : keepsBlendingBetween g h)
    (h2 : keepsBlendingBetween h k) : keepsBlendingBetween g k := by
  obtain ⟨c1, e1, f1⟩ := h1
  obtain ⟨c2, e2, f2⟩ := h2
  exact ⟨c1 ++ c2, by rw [e2, e1, List.append_assoc], by rw [List.filter_append, f1, f2]; rfl⟩

theorem kb_calls (g : GLContext) (cs : List GLCall) (h : cs.filter GLCall.setsBlending = []) :
    keepsBlendingBetween g (g.calls cs) := ⟨cs, rfl, h⟩

theorem kb_call (g : GLContext) (c : GLCall) (h : c.setsBlending = false) :
    keepsBlendingBetween g (g.call c) := ⟨[c], rfl, by simp [h]⟩

theorem kb_issued {g h : GLContext} (h1 : keepsBlendingBetween g h) :
    (issued g h).filter GLCall.setsBlending = [] := by
  obtain ⟨cs, e, f⟩ := h1
  simp [issued, e, f]

theorem kb_cmds (a : App) (cs : List GLCall) (h : cs.filter GLCall.setsBlending = []) :
    keepsBlendingBetween a.gl (a.cmds cs).gl := by
  unfold App.cmds
  split_ifs
  · exact kb_calls _ _ h
  · exact kb_refl _

theorem kb_method (a : App) (m : GLContext → Step FrameBuffer)
    (h : ∀ g, keepsBlendingBetween g (m g).gl) : keepsBlendingBetween a.gl (a.method m).gl := by
  unfold App.method
  split_ifs
  · exact h _
  · exact kb_refl _

theorem kb_unbind (a : App) : keepsBlendingBetween a.gl a.unbind.gl := by
  unfold App.unbind
  split_ifs
  · exact kb_calls _ _ (by rfl)
  · exact kb_refl _

theorem kb_ite (c : Prop) [Decidable c] (g : GLContext) (x y : App)
    (hx : keepsBlendingBetween g x.gl) (hy : keepsBlendingBetween g y.gl) :
    keepsBlendingBetween g (if c then x else y).gl := by
  split_ifs
  · exact hx
  · exact hy

theorem kb_bindOutput (fb : FrameBuffer) (g : GLContext) :
    keepsBlendingBetween g (fb.bindOutput g).gl := by
  unfold FrameBuffer.bindOutput
  split_ifs
  · exact kb_refl _
  · split
    · exact kb_trans (kb_call _ _ (by rfl)) (kb_call _ _ (by rfl))
    · exact kb_call _ _ (by rfl)
  · split
    · exact kb_trans (kb_call _ _ (by rfl)) (kb_call _ _ (by rfl))
    · exact kb_call _ _ (by rfl)

theorem kb_bindInput (fb : FrameBuffer) (g : GLContext) :
    keepsBlendingBetween g (fb.bindInput g).gl := by
  rw [bindInput_gl]
  refine kb_calls _ _ ?_
  unfold bindInputCommands
  rw [List.filter_eq_nil_iff]
  intro c hc
  simp only [List.mem_flatMap, List.mem_range] at hc
  obtain ⟨i, -, hi⟩ := hc
  simp only [List.mem_cons, List.mem_singleton, List.not_mem_nil, or_false] at hi
  rcases hi with rfl | rfl <;> simp [GLCall.setsBlending]

theorem kb_bindInput_num (fb : FrameBuffer) (num : Int) (g : GLContext) :
    keepsBlendingBetween g (fb.bindInput_num g num).gl := by
  unfold FrameBuffer.bindInput_num
  split_ifs
  · exact kb_refl _
  · exact kb_refl _
  · split
    · exact kb_refl _
    · exact kb_call _ _ (by rfl)

theorem kb_bindRead (fb : FrameBuffer) (g : GLContext) :
    keepsBlendingBetween g (fb.bindRead g).gl := kb_call _ _ (by rfl)

theorem kb_renderQuad (a : App) : keepsBlendingBetween a.gl (renderQuad a).gl := by
  unfold renderQuad
  split_ifs with h1 h2
  · exact kb_refl _
  · refine kb_trans ?_ (kb_cmds _ _ (by rfl))
    exact ⟨GLCall.GenVertexArrays a.gl.nextVertexArray :: GLCall.GenBuffers a.gl.nextBuffer ::
      quadSetup a.gl.nextVertexArray a.gl.nextBuffer,
      by simp [GLContext.calls, GLContext.genBuffer, GLContext.genVertexArray], rfl⟩
  · exact kb_cmds _ _ (by rfl)

theorem kb_renderCube (a : App) : keepsBlendingBetween a.gl (renderCube a).gl := by
  unfold renderCube
  split_ifs with h1 h2
  · exact kb_refl _
  · refine kb_trans ?_ (kb_cmds _ _ (by rfl))
    exact ⟨GLCall.GenVertexArrays a.gl.nextVertexArray :: GLCall.GenBuffers a.gl.nextBuffer ::
      cubeSetup a.gl.nextVertexArray a.gl.nextBuffer,
      by simp [GLContext.calls, GLContext.genBuffer, GLContext.genVertexArray], rfl⟩
  · exact kb_cmds _ _ (by rfl)

theorem kb_shadowCapture (S : Scene) (T : Targets) (a : App) :
    keepsBlendingBetween a.gl (shadowCapture S T a).gl := by
  unfold shadowCapture
  dsimp only
  refine kb_trans (kb_trans (kb_trans (kb_trans (kb_cmds _ _ (by rfl))
    (kb_method _ _ (kb_bindOutput _))) (kb_cmds _ _ (by rfl))) (kb_cmds _ _ ?_)) (kb_unbind _)
  rw [objects_flatMap]
  rfl

theorem kb_shadowClear (T : Targets) (a : App) :
    keepsBlendingBetween a.gl (shadowClear T a).gl := by
  unfold shadowClear
  dsimp only
  exact kb_trans (kb_trans (kb_cmds _ _ (by rfl)) (kb_method _ _ (kb_bindOutput _)))
    (kb_cmds _ _ (by rfl))

theorem kb_geometryPass (S : Scene) (T : Targets) (a : App) :
    keepsBlendingBetween a.gl (geometryPass S T a).gl := by
  unfold geometryPass
  dsimp only
  refine kb_trans (kb_trans (kb_trans (kb_trans (kb_cmds _ _ (by rfl))
    (kb_method _ _ (kb_bindOutput _))) (kb_cmds _ _ (by rfl))) (kb_cmds _ _ ?_)) (kb_unbind _)
  rw [objects_flatMap]
  rfl

theorem kb_lightingPass (S : Scene) (T : Targets) (a : App) :
    keepsBlendingBetween a.gl (lightingPass S T a).gl := by
  unfold lightingPass
  dsimp only
  refine kb_trans ?_ (kb_renderQuad _)
  split_ifs
  · exact kb_trans (kb_trans (kb_trans (kb_trans (kb_trans (kb_cmds _ _ (by rfl))
      (kb_cmds _ _ (by rfl))) (kb_method _ _ (kb_bindInput _))) (kb_cmds _ _ (by rfl)))
      (kb_method _ _ (fun g => kb_bindInput_num _ _ g))) (kb_cmds _ _ (by rfl))
  · exact kb_trans (kb_trans (kb_cmds _ _ (by rfl)) (kb_cmds _ _ (by rfl)))
      (kb_method _ _ (kb_bindInput _))

theorem kb_uploadColorSizes (S : Scene) (a : App) :
    keepsBlendingBetween a.gl (uploadColorSizes S a).gl := by
  unfold uploadColorSizes
  split_ifs
  · exact kb_refl _
  · exact kb_call _ _ (by rfl)
  · exact kb_cmds _ _ (by rfl)

theorem kb_environmentComposite (S : Scene) (T : Targets) (a : App) :
    keepsBlendingBetween a.gl (environmentComposite S T a).gl := by
  unfold environmentComposite
  dsimp only
  split_ifs
  · exact kb_trans (kb_trans (kb_trans (kb_trans (kb_method _ _ (kb_bindRead _))
      (kb_cmds _ _ (by rfl))) (kb_unbind _)) (kb_cmds _ _ (by rfl))) (kb_renderCube _)
  · exact kb_refl _

theorem kb_lightVolumes (S : Scene) (a : App) :
    keepsBlendingBetween a.gl (lightVolumes S a).gl := by
  unfold lightVolumes
  exact kb_ite _ _ _ _ (kb_cmds _ _ (by rfl)) (kb_refl _)

theorem kb_depthMapView (S : Scene) (T : Targets) (a : App) :
    keepsBlendingBetween a.gl (depthMapView S T a).gl := by
  unfold depthMapView
  dsimp only
  split_ifs
  · exact kb_trans (kb_trans (kb_cmds _ _ (by rfl))
      (kb_method _ _ (fun g => kb_bindInput_num _ _ g))) (kb_renderQuad _)
  · exact kb_refl _

set_option maxRecDepth 10000 in
theorem kb_updatePointLights (mb : Nat) (L : Lights) (g : GLContext) (s y r : FloatVal) :
    keepsBlendingBetween g (updatePointLights mb L g s y r).gl := by
  unfold updatePointLights
  split_ifs
  · exact kb_refl _
  · dsimp only
    split
    · exact kb_calls _ _ (by simp [GLCall.setsBlending])
    · exact kb_refl _

set_option maxRecDepth 10000 in
theorem kb_updateLights (S : Scene) (a : App) :
    keepsBlendingBetween a.gl (App.updateLights S a).gl := by
  unfold App.updateLights
  split_ifs
  · exact kb_refl _
  · exact kb_updatePointLights _ _ _ _ _ _

theorem kb_pointLightControls (S : Scene) (w : Widgets) (a : App) :
    keepsBlendingBetween a.gl (pointLightControls S w a).gl := by
  have h1 : ∀ b : App, keepsBlendingBetween b.gl (radiusSlider S w b).gl := by
    intro b
    unfold radiusSlider
    refine kb_ite _ _ _ _ (kb_refl _) ?_
    cases w.radius with
    | none =>
      simp only [setDirty_gl]
      exact kb_refl _
    | some v =>
      simp only [setDirty_gl]
      exact kb_updateLights S { b with pointLightRadius := v }
  have h2 : ∀ b : App, keepsBlendingBetween b.gl (separationSlider S w b).gl := by
    intro b
    unfold separationSlider
    refine kb_ite _ _ _ _ (kb_refl _) ?_
    cases w.separation with
    | none => exact kb_refl _
    | some v => exact kb_updateLights S { b with pointLightSeparation := v }
  have h3 : ∀ b : App, keepsBlendingBetween b.gl (verticalOffsetSlider S w b).gl := by
    intro b
    unfold verticalOffsetSlider
    refine kb_ite _ _ _ _ (kb_refl _) ?_
    cases w.verticalOffset with
    | none => exact kb_refl _
    | some v => exact kb_updateLights S { b with pointLightVerticalOffset := v }
  exact kb_trans (kb_trans (h1 _) (h2 _)) (h3 _)

theorem kb_controls (S : Scene) (w : Widgets) (a : App) :
    keepsBlendingBetween a.gl (controls S w a).gl := by
  have h0 : ∀ b : App, keepsBlendingBetween b.gl (shadowControls w b).gl := by
    intro b
    unfold shadowControls
    exact kb_ite _ _ _ _ (kb_refl _) (kb_refl _)
  have h1 : ∀ b : App, keepsBlendingBetween b.gl (lightingControls S w b).gl := by
    intro b
    unfold lightingControls
    dsimp only
    have hp : keepsBlendingBetween b.gl (if w.pointLights = true then pointLightControls S w b
        else b).gl := kb_ite _ _ _ _ (kb_pointLightControls S w b) (kb_refl _)
    exact kb_ite _ _ _ _ (kb_trans hp (h0 _)) hp
  have h2 : ∀ b : App, keepsBlendingBetween b.gl (debugControls S w b).gl := by
    intro b
    unfold debugControls
    exact kb_ite _ _ _ _ (kb_calls _ _ (by rfl)) (kb_refl _)
  unfold controls
  dsimp only
  have hl : keepsBlendingBetween a.gl (if w.lightingConfig = true then lightingControls S w a
      else a).gl := kb_ite _ _ _ _ (h1 a) (kb_refl _)
  exact kb_ite _ _ _ _ (kb_trans hl (h2 _)) hl


theorem kb_bindImage (fb : FrameBuffer) (unit : Nat) (num : Int) (format access : Nat)
    (g : GLContext) : keepsBlendingBetween g (fb.bindImage g unit num format access).gl := by
  unfold FrameBuffer.bindImage
  split_ifs
  · exact kb_refl _
  · exact kb_refl _
  · split
    · exact kb_refl _
    · exact kb_call _ _ (by rfl)

theorem kb_momentBlur (S : Scene) (T : Targets) (a : App) :
    keepsBlendingBetween a.gl (momentBlur S T a).gl := by
  unfold momentBlur
  dsimp only
  exact kb_trans (kb_trans (kb_trans (kb_trans (kb_trans (kb_trans (kb_trans (kb_trans
    (kb_trans (kb_trans (kb_trans (kb_trans (kb_trans
    (kb_cmds _ _ (by rfl))
    (kb_method _ _ (fun g => kb_bindImage _ _ _ _ _ g)))
    (kb_method _ _ (fun g => kb_bindImage _ _ _ _ _ g)))
    (kb_cmds _ _ (by rfl)))
    (kb_method _ _ (fun g => kb_bindImage _ _ _ _ _ g)))
    (kb_method _ _ (fun g => kb_bindImage _ _ _ _ _ g)))
    (kb_cmds _ _ (by rfl)))
    (kb_cmds _ _ (by rfl)))
    (kb_method _ _ (fun g => kb_bindImage _ _ _ _ _ g)))
    (kb_method _ _ (fun g => kb_bindImage _ _ _ _ _ g)))
    (kb_cmds _ _ (by rfl)))
    (kb_method _ _ (fun g => kb_bindImage _ _ _ _ _ g)))
    (kb_method _ _ (fun g => kb_bindImage _ _ _ _ _ g)))
    (kb_cmds _ _ (by rfl))

theorem kb_shadowPass (S : Scene) (T : Targets) (a : App) :
    keepsBlendingBetween a.gl (shadowPass S T a).gl := by
  unfold shadowPass
  refine kb_ite _ _ _ _ ?_ (kb_shadowClear T a)
  dsimp only
  exact kb_ite _ _ _ _ (kb_trans (kb_shadowCapture S T a) (kb_momentBlur S T _))
    (kb_shadowCapture S T a)

theorem kb_beforePointLights (S : Scene) (T : Targets) (a : App) :
    keepsBlendingBetween a.gl (beforePointLights S T a).gl := by
  unfold beforePointLights frameStart
  exact kb_trans (kb_trans (kb_trans (kb_cmds _ _ (by rfl)) (kb_shadowPass S T _))
    (kb_geometryPass S T _)) (kb_lightingPass S T _)

/-- What follows the point-light pass in a frame: environment, light volumes, depth-map view,
the Dear ImGui frame with the controls, and the presentation. -/
theorem kb_afterPointLights (S : Scene) (T : Targets) (w : Widgets) (a : App) :
    keepsBlendingBetween a.gl
      ((controls S w ((depthMapView S T (lightVolumes S (environmentComposite S T a))).cmds
          [GLCall.Library "ImGui_ImplOpenGL3_NewFrame"])).cmds
        [GLCall.Library "ImGui_ImplOpenGL3_RenderDrawData",
         GLCall.Library "glfwSwapBuffers",
         GLCall.Library "glfwPollEvents"]).gl :=
  kb_trans (kb_trans (kb_trans (kb_trans (kb_trans
    (kb_environmentComposite S T a) (kb_lightVolumes S _)) (kb_depthMapView S T _))
    (kb_cmds _ _ (by rfl))) (kb_controls S w _)) (kb_cmds _ _ (by rfl))

theorem kb_step (s : GLState) (c : GLCall) (h : c.setsBlending = false) :
    (s.step c).blend = s.blend ∧ (s.step c).cullFace = s.cullFace ∧
    (s.step c).frontFace = s.frontFace ∧ (s.step c).blendFunc = s.blendFunc := by
  cases c <;> simp only [GLCall.setsBlending] at h <;>
    first
    | exact ⟨rfl, rfl, rfl, rfl⟩
    | exact absurd h (by decide)
    | (simp only [GLState.step]; split_ifs <;> simp_all)

theorem kb_run_list (cs : List GLCall) (h : cs.filter GLCall.setsBlending = []) (s : GLState) :
    (s.run cs).blend = s.blend ∧ (s.run cs).cullFace = s.cullFace ∧
    (s.run cs).frontFace = s.frontFace ∧ (s.run cs).blendFunc = s.blendFunc := by
  induction cs generalizing s with
  | nil => exact ⟨rfl, rfl, rfl, rfl⟩
  | cons c cs ih =>
    have hc : c.setsBlending = false := by
      by_contra hc
      simp [List.filter_cons, hc] at h
    have hcs : cs.filter GLCall.setsBlending = [] := by
      simpa [List.filter_cons, hc] using h
    obtain ⟨a1, a2, a3, a4⟩ := kb_step s c hc
    obtain ⟨b1, b2, b3, b4⟩ := ih hcs (s.step c)
    exact ⟨b1.trans a1, b2.trans a2, b3.trans a3, b4.trans a4⟩

theorem kb_run {g h : GLContext} (k : keepsBlendingBetween g h) (s : GLState) :
    (s.run (issued g h)).blend = s.blend ∧ (s.run (issued g h)).cullFace = s.cullFace ∧
    (s.run (issued g h)).frontFace = s.frontFace ∧
    (s.run (issued g h)).blendFunc = s.blendFunc := by
  obtain ⟨cs, e, f⟩ := k
  rw [issued_of_log e]
  exact kb_run_list cs f s

theorem kb_adds {g h : GLContext} (k : keepsBlendingBetween g h) :
    ∃ x, h.log = g.log ++ x := by
  obtain ⟨cs, e, -⟩ := k
  exact ⟨cs, e⟩

theorem pointLight_blendFunc (S : Scene) (T : Targets) (a : App) (s : GLState) (hr : T.ready)
    (ha : a.result = Outcome.ok) (hm : a.gBufferMode = 0)
    (hl : LIGHT_GRID_WIDTH * LIGHT_GRID_WIDTH * LIGHT_GRID_HEIGHT ≤
      a.lights.modelColorSizes.length) :
    (s.run (issued a.gl (pointLightPass S T a).gl)).blendFunc =
      (GL_SRC_ALPHA, GL_ONE_MINUS_SRC_ALPHA) := by
  obtain ⟨g0, g1, g2, g3, hg⟩ := ready_g_ids T hr
  have d1 : GL_CULL_FACE ≠ GL_DEPTH_TEST := by decide
  have d2 : GL_BLEND ≠ GL_DEPTH_TEST := by decide
  have d3 : GL_BLEND ≠ GL_CULL_FACE := by decide
  rw [pointLightPass_eq S T a g0 g1 g2 g3 hg ha hm hl, issued_calls]
  by_cases hd : a.colorSizeBufferDirty = true
  · simp [hd, GLState.run, GLState.step, d1, d2, d3]
  · simp [hd, GLState.run, GLState.step, d1, d2, d3]

theorem stateAt_trans (s0 : GLState) (a b c : App) (h1 : ∃ x, b.gl.log = a.gl.log ++ x)
    (h2 : ∃ y, c.gl.log = b.gl.log ++ y) :
    glStateAt s0 a c = (glStateAt s0 a b).run (issued b.gl c.gl) := by
  unfold glStateAt
  rw [issued_trans a.gl b.gl c.gl h1 h2, run_append]

/-- A debug frame issues no command that touches blending or face culling. -/
theorem kb_frame_debug (S : Scene) (T : Targets) (w : Widgets) (a : App) (hr : T.ready)
    (ha : a.result = Outcome.ok) (hm : a.gBufferMode ≠ 0) :
    keepsBlendingBetween a.gl (frame S T w a).gl := by
  obtain ⟨sc, -⟩ := beforePointLights_summary S T a hr ha
  have e : pointLightPass S T (beforePointLights S T a) = beforePointLights S T a := by
    unfold pointLightPass
    rw [if_neg (by rw [sameControls_mode sc]; exact hm)]
  have k := kb_afterPointLights S T w (pointLightPass S T (beforePointLights S T a))
  rw [e] at k
  have f : frame S T w a =
      (controls S w ((depthMapView S T (lightVolumes S (environmentComposite S T
        (pointLightPass S T (beforePointLights S T a))))).cmds
          [GLCall.Library "ImGui_ImplOpenGL3_NewFrame"])).cmds
        [GLCall.Library "ImGui_ImplOpenGL3_RenderDrawData",
         GLCall.Library "glfwSwapBuffers",
         GLCall.Library "glfwPollEvents"] := rfl
  rw [f, e]
  exact kb_trans (kb_beforePointLights S T a) k

/-- C26 (amended): take a non-debug frame that begins with blending and face culling disabled
and counter-clockwise winding (the targets being those `main` builds on a context with at
least four colour attachments, the lights being in place).  When the PointLightAccumulation
step begins, depth testing is enabled, blending and face culling are disabled and the winding
is counter-clockwise; when the step ends, the blending switch, the face-culling switch and the
winding have the values they had when it began (disabled, disabled, counter-clockwise), the
blend function is (`GL_SRC_ALPHA`, `GL_ONE_MINUS_SRC_ALPHA`) whatever it was when the step
began, and depth testing is disabled; the EnvironmentComposite step that follows enables
depth testing again and leaves the other three alone.  The frame ends, for whatever the
controls report, with blending and face culling disabled and counter-clockwise winding, as
does a debug frame, which also keeps the blend function; a new context has these values too,
so every frame of a run begins with them. -/
theorem C26_point_light_pass_restores (gl0 : GLContext) (status : Nat)
    (h4 : 4 ≤ gl0.maxColorAttachments) (S : Scene) (w : Widgets) (a : App) (s0 : GLState)
    (ha : a.lit) (hm : a.gBufferMode = 0) (hs : s0.blendingOff) :
    ((glStateAt s0 a (beforePointLights S (setupTargets gl0 status).st a)).depthTest = true ∧
      (glStateAt s0 a (beforePointLights S (setupTargets gl0 status).st a)).blendingOff ∧
      (glStateAt s0 a (beforePointLights S (setupTargets gl0 status).st a)).blendFunc =
        s0.blendFunc) ∧
    ((glStateAt s0 a (pointLightPass S (setupTargets gl0 status).st
          (beforePointLights S (setupTargets gl0 status).st a))).blend =
        (glStateAt s0 a (beforePointLights S (setupTargets gl0 status).st a)).blend ∧
      (glStateAt s0 a (pointLightPass S (setupTargets gl0 status).st
          (beforePointLights S (setupTargets gl0 status).st a))).cullFace =
        (glStateAt s0 a (beforePointLights S (setupTargets gl0 status).st a)).cullFace ∧
      (glStateAt s0 a (pointLightPass S (setupTargets gl0 status).st
          (beforePointLights S (setupTargets gl0 status).st a))).frontFace =
        (glStateAt s0 a (beforePointLights S (setupTargets gl0 status).st a)).frontFace ∧
      (glStateAt s0 a (pointLightPass S (setupTargets gl0 status).st
          (beforePointLights S (setupTargets gl0 status).st a))).blendingOff ∧
      (glStateAt s0 a (pointLightPass S (setupTargets gl0 status).st
          (beforePointLights S (setupTargets gl0 status).st a))).blendFunc =
        (GL_SRC_ALPHA, GL_ONE_MINUS_SRC_ALPHA) ∧
      (glStateAt s0 a (pointLightPass S (setupTargets gl0 status).st
          (beforePointLights S (setupTargets gl0 status).st a))).depthTest = false) ∧
    ((glStateAt s0 a (environmentComposite S (setupTargets gl0 status).st
          (pointLightPass S (setupTargets gl0 status).st
            (beforePointLights S (setupTargets gl0 status).st a)))).depthTest = true ∧
      (glStateAt s0 a (environmentComposite S (setupTargets gl0 status).st
          (pointLightPass S (setupTargets gl0 status).st
            (beforePointLights S (setupTargets gl0 status).st a)))).blendingOff) ∧
    ((frame S (setupTargets gl0 status).st w a).lit ∧
      (glStateAt s0 a (frame S (setupTargets gl0 status).st w a)).blendingOff ∧
      (glStateAt s0 a (frame S (setupTargets gl0 status).st w a)).blendFunc =
        (GL_SRC_ALPHA, GL_ONE_MINUS_SRC_ALPHA)) ∧
    (∀ (w2 : Widgets) (b : App) (s : GLState), b.lit → b.gBufferMode ≠ 0 → s.blendingOff →
      (frame S (setupTargets gl0 status).st w2 b).lit ∧
      (glStateAt s b (frame S (setupTargets gl0 status).st w2 b)).blendingOff ∧
      (glStateAt s b (frame S (setupTargets gl0 status).st w2 b)).blendFunc = s.blendFunc) ∧
    GLState.initial.blendingOff := by
  have hr := setupTargets_ready gl0 status h4
  obtain ⟨hok, hmm, hcs⟩ := ha
  obtain ⟨sc, -⟩ := beforePointLights_summary S _ a hr hok
  have r1 := (sameControls_result sc).trans hok
  have m1 := (sameControls_mode sc).trans hm
  have l1 : LIGHT_GRID_WIDTH * LIGHT_GRID_WIDTH * LIGHT_GRID_HEIGHT ≤
      (beforePointLights S (setupTargets gl0 status).st a).lights.modelColorSizes.length := by
    rw [sameControls_lights sc]; exact hcs
  obtain ⟨sp, cp, ep⟩ := pointLightPass_summary S _ _ hr r1 l1
  have r2 := (sameControls_result sp).trans r1
  have m2 := (sameControls_mode sp).trans m1
  obtain ⟨-, ce, ee⟩ := environmentComposite_summary S (setupTargets gl0 status).st _ r2
  have kb1 := kb_beforePointLights S (setupTargets gl0 status).st a
  obtain ⟨b1, b2, b3, b4⟩ := kb_run kb1 s0
  obtain ⟨hs1, hs2, hs3⟩ := hs
  have hb : (glStateAt s0 a (beforePointLights S (setupTargets gl0 status).st a)).blendingOff :=
    ⟨b1.trans hs1, b2.trans hs2, b3.trans hs3⟩
  have tp := stateAt_trans s0 a _ _ (kb_adds kb1) ⟨cp, ep⟩
  obtain ⟨p1, p2, p3, p4⟩ := pointLight_switches S _ _
    (glStateAt s0 a (beforePointLights S (setupTargets gl0 status).st a)) hr r1 m1 l1
  have p5 := pointLight_blendFunc S _ _
    (glStateAt s0 a (beforePointLights S (setupTargets gl0 status).st a)) hr r1 m1 l1
  have hp : (glStateAt s0 a (pointLightPass S (setupTargets gl0 status).st
      (beforePointLights S (setupTargets gl0 status).st a))).blendingOff := by
    rw [tp]; exact ⟨p1, p2, p3⟩
  have ap : ∃ x, (pointLightPass S (setupTargets gl0 status).st
      (beforePointLights S (setupTargets gl0 status).st a)).gl.log = a.gl.log ++ x := by
    obtain ⟨x, hx⟩ := kb_adds kb1
    exact ⟨x ++ cp, by rw [ep, hx, List.append_assoc]⟩
  have te := stateAt_trans s0 a _ _ ap ⟨ce, ee⟩
  obtain ⟨e1, e2, e3, e4⟩ := environment_switches S (setupTargets gl0 status).st _
    (glStateAt s0 a (pointLightPass S (setupTargets gl0 status).st
      (beforePointLights S (setupTargets gl0 status).st a))) r2 m2
  have ka := kb_afterPointLights S (setupTargets gl0 status).st w
    (pointLightPass S (setupTargets gl0 status).st
      (beforePointLights S (setupTargets gl0 status).st a))
  have tf := stateAt_trans s0 a _ _ ap (kb_adds ka)
  obtain ⟨f1, f2, f3, f4⟩ := kb_run ka
    (glStateAt s0 a (pointLightPass S (setupTargets gl0 status).st
      (beforePointLights S (setupTargets gl0 status).st a)))
  have ff : frame S (setupTargets gl0 status).st w a =
      (controls S w ((depthMapView S (setupTargets gl0 status).st
        (lightVolumes S (environmentComposite S (setupTargets gl0 status).st
          (pointLightPass S (setupTargets gl0 status).st
            (beforePointLights S (setupTargets gl0 status).st a))))).cmds
          [GLCall.Library "ImGui_ImplOpenGL3_NewFrame"])).cmds
        [GLCall.Library "ImGui_ImplOpenGL3_RenderDrawData",
         GLCall.Library "glfwSwapBuffers",
         GLCall.Library "glfwPollEvents"] := rfl
  refine ⟨⟨?_, hb, b4⟩, ⟨?_, ?_, ?_, hp, ?_, ?_⟩, ⟨?_, ?_⟩, ⟨?_, ?_, ?_⟩, ?_, ⟨rfl, rfl, rfl⟩⟩
  · exact (before_switches S _ a s0 hr hok).1
  · rw [hp.1, hb.1]
  · rw [hp.2.1, hb.2.1]
  · rw [hp.2.2, hb.2.2]
  · rw [tp]; exact p5
  · rw [tp]; exact p4
  · rw [te]; exact e1
  · rw [te]; exact ⟨e2.trans hp.1, e3.trans hp.2.1, e4.trans hp.2.2⟩
  · exact (frame_dirty S _ w a hr ⟨hok, hmm, hcs⟩).1
  · rw [ff, tf]; exact ⟨f1.trans hp.1, f2.trans hp.2.1, f3.trans hp.2.2⟩
  · rw [ff, tf, f4, tp]; exact p5
  · intro w2 b s hb2 hm2 hs2
    obtain ⟨g1, g2, g3, g4⟩ := kb_run (kb_frame_debug S _ w2 b hr hb2.1 hm2) s
    exact ⟨(frame_dirty S _ w2 b hr hb2).1,
      ⟨g1.trans hs2.1, g2.trans hs2.2.1, g3.trans hs2.2.2⟩, g4⟩

/-- C26 witness: the first frame of the sample run, begun in the state of a new context. -/
theorem C26_point_light_pass_restores_witness :
    (4 : Int) ≤ (GLContext.fresh 8).maxColorAttachments ∧ sampleApp.lit ∧
    sampleApp.gBufferMode = 0 ∧ GLState.initial.blendingOff ∧
    (glStateAt GLState.initial sampleApp (pointLightPass sampleScene
        (setupTargets (GLContext.fresh 8) GL_FRAMEBUFFER_COMPLETE).st
        (beforePointLights sampleScene
          (setupTargets (GLContext.fresh 8) GL_FRAMEBUFFER_COMPLETE).st sampleApp))).blendingOff :=
  ⟨by decide, sample_lit, rfl, ⟨rfl, rfl, rfl⟩,
   (C26_point_light_pass_restores (GLContext.fresh 8) GL_FRAMEBUFFER_COMPLETE (by decide)
     sampleScene idleWidgets sampleApp GLState.initial sample_lit rfl ⟨rfl, rfl, rfl⟩).2.1.2.2.2.1⟩

/-! ## Values the formats hold exactly -/

theorem binary32_unitRoundoff : binary32.unitRoundoff = 1 / 2 ^ 24 := by
  unfold FloatFormat.unitRoundoff binary32
  rw [zpow_neg]
  norm_num

theorem binary32_halfMin : binary32.halfMin = 1 / 2 ^ 150 := by
  unfold FloatFormat.halfMin binary32
  have : (1 - (127 : Int) - ((24 : Nat) : Int)) = -(150 : Int) := by norm_num
  rw [this, zpow_neg]
  norm_num

/-- A quotient `m / 2^k` with `|m| < 2^24` and `k <= 149` is a `float`. -/
theorem round32_dyadic (m : Int) (k : Nat) (hm : |(m : ℚ)| < 2 ^ 24) (hk : k ≤ 149) :
    binary32.round ((m : ℚ) / 2 ^ k) = FloatVal.finite ((m : ℚ) / 2 ^ k) :=
  represents_dyadic binary32 _ m k rfl hm
    (by unfold binary32; push_cast; omega) (by unfold binary32; norm_num)

/-- A quotient `m / 2^k` with `|m| < 2^53` and `k <= 1074` is a `double`. -/
theorem round64_dyadic (m : Int) (k : Nat) (hm : |(m : ℚ)| < 2 ^ 53) (hk : k ≤ 1074) :
    binary64.round ((m : ℚ) / 2 ^ k) = FloatVal.finite ((m : ℚ) / 2 ^ k) :=
  represents_dyadic binary64 _ m k rfl hm
    (by unfold binary64; push_cast; omega) (by unfold binary64; norm_num)

theorem round32_int (m : Int) (hm : |(m : ℚ)| < 2 ^ 24) :
    binary32.round (m : ℚ) = FloatVal.finite (m : ℚ) := by
  have h := round32_dyadic m 0 hm (by norm_num)
  simpa using h

theorem round32_half (m : Int) (hm : |(m : ℚ)| < 2 ^ 24) :
    binary32.round ((m : ℚ) / 2) = FloatVal.finite ((m : ℚ) / 2) := by
  have h := round32_dyadic m 1 hm (by norm_num)
  simpa using h

theorem gridCoord_width (x : Nat) (hx : x < LIGHT_GRID_WIDTH) :
    gridCoord LIGHT_GRID_WIDTH x = FloatVal.finite ((x : ℚ) - 2) := by
  have h5 : binary32.round ((5 : Nat) : ℚ) = FloatVal.finite 5 := by
    have := round32_int 5 (by norm_num)
    simpa using this
  have h4 : binary32.round (5 + -1 : ℚ) = FloatVal.finite 4 := by
    have := round32_int 4 (by norm_num)
    norm_num at this ⊢
    exact this
  have h2 : binary32.round (4 / 2 : ℚ) = FloatVal.finite 2 := by
    have := round32_int 2 (by norm_num)
    norm_num at this ⊢
    exact this
  have hx0 : binary32.round ((x : Nat) : ℚ) = FloatVal.finite (x : ℚ) := by
    have := round32_int (x : Int) (by
      unfold LIGHT_GRID_WIDTH at hx
      push_cast
      rw [abs_of_nonneg (by positivity)]
      have : (x : ℚ) < 5 := by exact_mod_cast hx
      linarith)
    simpa using this
  have hx2 : binary32.round ((x : ℚ) + -2) = FloatVal.finite ((x : ℚ) - 2) := by
    have := round32_int ((x : Int) - 2) (by
      unfold LIGHT_GRID_WIDTH at hx
      push_cast
      have h1 : (x : ℚ) < 5 := by exact_mod_cast hx
      have h0 : (0 : ℚ) ≤ (x : ℚ) := by positivity
      rw [abs_lt]
      constructor <;> linarith)
    push_cast at this
    rw [← sub_eq_add_neg]
    exact this
  unfold gridCoord LIGHT_GRID_WIDTH FloatFormat.sub FloatFormat.ofNat
  rw [h5]
  simp only [FloatVal.neg, FloatFormat.add, FloatFormat.div]
  rw [h4]
  simp only [FloatFormat.div]
  rw [if_neg (by norm_num), h2, hx0]
  simp only [FloatVal.neg, FloatFormat.add]
  exact hx2

theorem gridCoord_height (y : Nat) (hy : y < LIGHT_GRID_HEIGHT) :
    gridCoord LIGHT_GRID_HEIGHT y = FloatVal.finite ((y : ℚ) - 3 / 2) := by
  have h5 : binary32.round ((4 : Nat) : ℚ) = FloatVal.finite 4 := by
    have := round32_int 4 (by norm_num)
    simpa using this
  have h4 : binary32.round (4 + -1 : ℚ) = FloatVal.finite 3 := by
    have := round32_int 3 (by norm_num)
    norm_num at this ⊢
    exact this
  have h2 : binary32.round (3 / 2 : ℚ) = FloatVal.finite (3 / 2) := by
    have := round32_half 3 (by norm_num)
    norm_num at this ⊢
    exact this
  have hx0 : binary32.round ((y : Nat) : ℚ) = FloatVal.finite (y : ℚ) := by
    have := round32_int (y : Int) (by
      unfold LIGHT_GRID_HEIGHT at hy
      push_cast
      rw [abs_of_nonneg (by positivity)]
      have : (y : ℚ) < 4 := by exact_mod_cast hy
      linarith)
    simpa using this
  have hx2 : binary32.round ((y : ℚ) + -(3 / 2)) = FloatVal.finite ((y : ℚ) - 3 / 2) := by
    have := round32_half (2 * (y : Int) - 3) (by
      unfold LIGHT_GRID_HEIGHT at hy
      push_cast
      have h1 : (y : ℚ) < 4 := by exact_mod_cast hy
      have h0 : (0 : ℚ) ≤ (y : ℚ) := by positivity
      rw [abs_lt]
      constructor <;> linarith)
    push_cast at this
    have e : (2 * (y : ℚ) - 3) / 2 = (y : ℚ) + -(3 / 2) := by ring
    have e2 : (y : ℚ) - 3 / 2 = (y : ℚ) + -(3 / 2) := by ring
    rw [e] at this
    rw [e2]
    exact this
  unfold gridCoord LIGHT_GRID_HEIGHT FloatFormat.sub FloatFormat.ofNat
  rw [h5]
  simp only [FloatVal.neg, FloatFormat.add, FloatFormat.div]
  rw [h4]
  simp only [FloatFormat.div]
  rw [if_neg (by norm_num), h2, hx0]
  simp only [FloatVal.neg, FloatFormat.add]
  exact hx2

/-- The local `diameter` of `updatePointLights`: twice the `float` 0.870f, exactly. -/
theorem update_diameter :
    binary32.mul (FloatVal.finite 2) INITIAL_POINT_LIGHT_RADIUS =
      FloatVal.finite (7298089 / 4194304) := by
  rw [radius_value]
  simp only [FloatFormat.mul]
  have := round32_dyadic 7298089 22 (by norm_num) (by norm_num)
  norm_num at this ⊢
  exact this

/-! ## Operations on finite operands -/

theorem mul_fin (f : FloatFormat) (a b : ℚ) :
    f.mul (FloatVal.finite a) (FloatVal.finite b) = f.round (a * b) := rfl

theorem add_fin (f : FloatFormat) (a b : ℚ) :
    f.add (FloatVal.finite a) (FloatVal.finite b) = f.round (a + b) := rfl

theorem div_fin (f : FloatFormat) (a b : ℚ) (hb : b ≠ 0) :
    f.div (FloatVal.finite a) (FloatVal.finite b) = f.round (a / b) := by
  show (if b = 0 then _ else _) = _
  rw [if_neg hb]

theorem cast_fin (f : FloatFormat) (a : ℚ) : f.cast (FloatVal.finite a) = f.round a := rfl

theorem ofNat_zero (f : FloatFormat) : f.ofNat 0 = FloatVal.finite 0 := by
  show f.round ((0 : Nat) : ℚ) = FloatVal.finite 0
  rw [Nat.cast_zero, round_zero]

/-! ## Propagation of rounding errors -/

theorem unitRoundoff_nonneg (f : FloatFormat) : 0 ≤ f.unitRoundoff :=
  le_of_lt (two_zpow_pos _)

theorem halfMin_nonneg (f : FloatFormat) : 0 ≤ f.halfMin :=
  le_of_lt (two_zpow_pos _)

/-- Rounding error of a product one of whose factors carries an error itself. -/
theorem mul_round_near (f : FloatFormat) (c x X r a t : ℚ)
    (hx : |x - X| ≤ r * |X| + a) (ht : f.round (c * x) = FloatVal.finite t) :
    |t - c * X| ≤ (f.unitRoundoff * (1 + r) + r) * |c * X| +
      (|c| * a * (1 + f.unitRoundoff) + f.halfMin) := by
  have e := round_err f (c * x) t ht
  have hu := unitRoundoff_nonneg f
  have hc := abs_nonneg c
  have hX := abs_nonneg X
  rw [abs_mul] at e
  rw [abs_mul]
  have h1 : |x| ≤ |X| + (r * |X| + a) := by
    have : |x| = |X + (x - X)| := by congr 1; ring
    rw [this]
    exact le_trans (abs_add _ _) (by linarith)
  have h2 : |t - c * X| ≤ |t - c * x| + |c| * |x - X| := by
    have : t - c * X = (t - c * x) + c * (x - X) := by ring
    rw [this, ← abs_mul]
    exact abs_add _ _
  have h3 : |c| * |x - X| ≤ |c| * (r * |X| + a) := mul_le_mul_of_nonneg_left hx hc
  have h4 : |c| * |x| * f.unitRoundoff ≤ |c| * (|X| + (r * |X| + a)) * f.unitRoundoff :=
    mul_le_mul_of_nonneg_right (mul_le_mul_of_nonneg_left h1 hc) hu
  have h5 : |t - c * X| ≤ |c| * (|X| + (r * |X| + a)) * f.unitRoundoff + f.halfMin +
      |c| * (r * |X| + a) := by linarith
  refine le_trans h5 (le_of_eq ?_)
  ring

/-- Rounding error of a sum whose first term carries an error itself. -/
theorem add_round_near (f : FloatFormat) (x X y r a t : ℚ)
    (hx : |x - X| ≤ r * |X| + a) (ht : f.round (x + y) = FloatVal.finite t) :
    |t - (X + y)| ≤ (f.unitRoundoff * (1 + r) + r) * |X| + f.unitRoundoff * |y| +
      (a * (1 + f.unitRoundoff) + f.halfMin) := by
  have e := round_err f (x + y) t ht
  have hu := unitRoundoff_nonneg f
  have hX := abs_nonneg X
  have h1 : |x + y| ≤ |X| + |y| + (r * |X| + a) := by
    have : x + y = X + y + (x - X) := by ring
    rw [this]
    exact le_trans (abs_add _ _) (by linarith [abs_add X y])
  have h2 : |t - (X + y)| ≤ |t - (x + y)| + |x - X| := by
    have : t - (X + y) = (t - (x + y)) + (x - X) := by ring
    rw [this]
    exact abs_add _ _
  have h4 : |x + y| * f.unitRoundoff ≤ (|X| + |y| + (r * |X| + a)) * f.unitRoundoff :=
    mul_le_mul_of_nonneg_right h1 hu
  have h5 : |t - (X + y)| ≤ (|X| + |y| + (r * |X| + a)) * f.unitRoundoff + f.halfMin +
      (r * |X| + a) := by linarith
  refine le_trans h5 (le_of_eq ?_)
  ring

/-- The product `c * (d * s)` of both light routines, computed in `float`, against the exact
product `c * (D * s)` when `d` stands for `D` with relative error `r0` and absolute error
`a0`. -/
theorem spaced_near (c d D sv r0 a0 kv t : ℚ) (hc : |c| ≤ 2)
    (hr1 : r0 ≤ 1 / 2 ^ 24) (ha0 : 0 ≤ a0) (hd : |d - D| ≤ r0 * |D| + a0)
    (hk : binary32.round (d * sv) = FloatVal.finite kv)
    (ht : binary32.round (c * kv) = FloatVal.finite t) :
    |t - c * (D * sv)| ≤ 1 / 2 ^ 22 * |c * (D * sv)| + (3 * (|sv| * a0) + 1 / 2 ^ 148) := by
  rw [mul_comm d sv] at hk
  have h1 := mul_round_near binary32 sv d D r0 a0 kv hd hk
  rw [binary32_unitRoundoff, binary32_halfMin] at h1
  have h2 := mul_round_near binary32 c kv (sv * D) _ _ t h1 ht
  rw [binary32_unitRoundoff, binary32_halfMin, mul_comm sv D] at h2
  have hX := abs_nonneg (c * (D * sv))
  have hs := abs_nonneg sv
  have hP : 0 ≤ |sv| * a0 := mul_nonneg hs ha0
  have hcoef : (1 / 2 ^ 24 * (1 + (1 / 2 ^ 24 * (1 + r0) + r0)) + (1 / 2 ^ 24 * (1 + r0) + r0) : ℚ)
      ≤ 1 / 2 ^ 22 := by
    norm_num at hr1 ⊢
    linarith
  have h3 := mul_le_mul_of_nonneg_right hcoef hX
  have ha1 : (0 : ℚ) ≤ |sv| * a0 * (1 + 1 / 2 ^ 24) + 1 / 2 ^ 150 := by positivity
  have h4 : |c| * (|sv| * a0 * (1 + 1 / 2 ^ 24) + 1 / 2 ^ 150) ≤
      2 * (|sv| * a0 * (1 + 1 / 2 ^ 24) + 1 / 2 ^ 150) := mul_le_mul_of_nonneg_right hc ha1
  have h5 : |c| * (|sv| * a0 * (1 + 1 / 2 ^ 24) + 1 / 2 ^ 150) * (1 + 1 / 2 ^ 24) ≤
      2 * (|sv| * a0 * (1 + 1 / 2 ^ 24) + 1 / 2 ^ 150) * (1 + 1 / 2 ^ 24) :=
    mul_le_mul_of_nonneg_right h4 (by norm_num)
  have h6 : (2 * (|sv| * a0 * (1 + 1 / 2 ^ 24) + 1 / 2 ^ 150) * (1 + 1 / 2 ^ 24) + 1 / 2 ^ 150 : ℚ)
      ≤ 3 * (|sv| * a0) + 1 / 2 ^ 148 := by
    norm_num
    linarith
  linarith

/-- The sum `c * (d * s) + w` of both light routines, computed in `float`, against the exact
one. -/
theorem spaced_add_near (c d D sv r0 a0 kv t w v : ℚ) (hc : |c| ≤ 2)
    (hr1 : r0 ≤ 1 / 2 ^ 24) (ha0 : 0 ≤ a0) (hd : |d - D| ≤ r0 * |D| + a0)
    (hk : binary32.round (d * sv) = FloatVal.finite kv)
    (ht : binary32.round (c * kv) = FloatVal.finite t)
    (hv : binary32.round (t + w) = FloatVal.finite v) :
    |v - (c * (D * sv) + w)| ≤ 1 / 2 ^ 21 * |c * (D * sv)| + 1 / 2 ^ 24 * |w| +
      (4 * (|sv| * a0) + 1 / 2 ^ 147) := by
  have h1 := spaced_near c d D sv r0 a0 kv t hc hr1 ha0 hd hk ht
  have h2 := add_round_near binary32 t (c * (D * sv)) w _ _ v h1 hv
  rw [binary32_unitRoundoff, binary32_halfMin] at h2
  have hX := abs_nonneg (c * (D * sv))
  have hs := abs_nonneg sv
  have hP : 0 ≤ |sv| * a0 := mul_nonneg hs ha0
  have hcoef : (1 / 2 ^ 24 * (1 + 1 / 2 ^ 22) + 1 / 2 ^ 22 : ℚ) ≤ 1 / 2 ^ 21 := by norm_num
  have h3 := mul_le_mul_of_nonneg_right hcoef hX
  have h6 : ((3 * (|sv| * a0) + 1 / 2 ^ 148) * (1 + 1 / 2 ^ 24) + 1 / 2 ^ 150 : ℚ)
      ≤ 4 * (|sv| * a0) + 1 / 2 ^ 147 := by
    norm_num
    linarith
  linarith

/-! ## Results that do not overflow -/

theorem roundMag_some (f : FloatFormat) (a : ℚ) (ha : 0 ≤ a)
    (hb : a * (1 + f.unitRoundoff) + f.halfMin < 2 ^ (f.emax + 1)) :
    ∃ m, f.roundMag a = some m := by
  rcases eq_or_lt_of_le ha with h0 | hpos
  · rw [← h0]
    exact ⟨0, roundMag_zero f⟩
  · have hq := two_zpow_pos (f.ulpExp a)
    have e := nearestEven_err (a / 2 ^ f.ulpExp a)
    have hh := half_ulp_le f a hpos
    have e2 : |(nearestEven (a / 2 ^ f.ulpExp a) : ℚ) * 2 ^ f.ulpExp a - a| ≤
        2 ^ f.ulpExp a / 2 := by
      have : (nearestEven (a / 2 ^ f.ulpExp a) : ℚ) * 2 ^ f.ulpExp a - a =
          ((nearestEven (a / 2 ^ f.ulpExp a) : ℚ) - a / 2 ^ f.ulpExp a) * 2 ^ f.ulpExp a := by
        field_simp
      rw [this, abs_mul, abs_of_pos hq]
      calc |(nearestEven (a / 2 ^ f.ulpExp a) : ℚ) - a / 2 ^ f.ulpExp a| * 2 ^ f.ulpExp a
          ≤ 1 / 2 * 2 ^ f.ulpExp a := mul_le_mul_of_nonneg_right e (le_of_lt hq)
        _ = 2 ^ f.ulpExp a / 2 := by ring
    have e3 := (abs_le.mp e2).2
    have hlt : (nearestEven (a / 2 ^ f.ulpExp a) : ℚ) * 2 ^ f.ulpExp a < 2 ^ (f.emax + 1) := by
      linarith
    refine ⟨(nearestEven (a / 2 ^ f.ulpExp a) : ℚ) * 2 ^ f.ulpExp a, ?_⟩
    unfold FloatFormat.roundMag
    dsimp only
    rw [if_pos hlt]

/-- Rounding gives a finite value when the result stays below the overflow threshold. -/
theorem round_finite (f : FloatFormat) (q : ℚ)
    (hb : |q| * (1 + f.unitRoundoff) + f.halfMin < 2 ^ (f.emax + 1)) :
    ∃ v, f.round q = FloatVal.finite v := by
  obtain ⟨m, hm⟩ := roundMag_some f |q| (abs_nonneg q) hb
  unfold FloatFormat.round
  rw [hm]
  exact ⟨_, rfl⟩

/-- A `float` result of magnitude at most `B <= 2^126` (exactly computed) is finite, of
magnitude at most `2*B + 1`. -/
theorem round32_bounded (q B : ℚ) (hq : |q| ≤ B) (hB : B ≤ 2 ^ 126) :
    ∃ v, binary32.round q = FloatVal.finite v ∧ |v| ≤ 2 * B + 1 := by
  have h0 := abs_nonneg q
  obtain ⟨v, hv⟩ := round_finite binary32 q (by
    rw [binary32_unitRoundoff, binary32_halfMin]
    have e : ((2 : ℚ) ^ (binary32.emax + 1)) = 2 ^ 128 := by
      unfold binary32
      norm_num
    rw [e]
    have : |q| ≤ 2 ^ 126 := le_trans hq hB
    norm_num at this ⊢
    linarith)
  refine ⟨v, hv, ?_⟩
  have e := round_err binary32 q v hv
  rw [binary32_unitRoundoff, binary32_halfMin] at e
  have h1 : |v| ≤ |q| + |v - q| := by
    have : v = q + (v - q) := by ring
    nth_rewrite 1 [this]
    exact abs_add _ _
  norm_num at e ⊢
  linarith

/-- One coordinate `c * (2*r*s) + w` of a light is finite when the radius, the separation
and the offset are of magnitude at most `2^40`. -/
theorem spaced_finite (c rv sv w : ℚ) (hc : |c| ≤ 2) (hr : |rv| ≤ 2 ^ 40) (hs : |sv| ≤ 2 ^ 40)
    (hw : |w| ≤ 2 ^ 40) :
    ∃ p v : ℚ, binary32.mul (FloatVal.finite c)
        (binary32.mul (binary32.mul (FloatVal.finite 2) (FloatVal.finite rv))
          (FloatVal.finite sv)) = FloatVal.finite p ∧
      binary32.add (FloatVal.finite p) (FloatVal.finite w) = FloatVal.finite v := by
  obtain ⟨d, hd, bd⟩ := round32_bounded (2 * rv) (2 ^ 41) (by
    rw [abs_mul, abs_of_pos (by norm_num : (0 : ℚ) < 2)]
    linarith) (by norm_num)
  obtain ⟨k, hk, bk⟩ := round32_bounded (d * sv) (2 ^ 83) (by
    rw [abs_mul]
    calc |d| * |sv| ≤ (2 * 2 ^ 41 + 1) * 2 ^ 40 :=
          mul_le_mul bd hs (abs_nonneg _) (by norm_num)
      _ ≤ 2 ^ 83 := by norm_num) (by norm_num)
  obtain ⟨p, hp, bp⟩ := round32_bounded (c * k) (2 ^ 86) (by
    rw [abs_mul]
    calc |c| * |k| ≤ 2 * (2 * 2 ^ 83 + 1) := mul_le_mul hc bk (abs_nonneg _) (by norm_num)
      _ ≤ 2 ^ 86 := by norm_num) (by norm_num)
  obtain ⟨v, hv, -⟩ := round32_bounded (p + w) (2 ^ 88) (by
    refine le_trans (abs_add _ _) ?_
    have : (2 * 2 ^ 86 + 1 + 2 ^ 40 : ℚ) ≤ 2 ^ 88 := by norm_num
    linarith) (by norm_num)
  refine ⟨p, v, ?_, ?_⟩
  · rw [mul_fin, hd, mul_fin, hk, mul_fin, hp]
  · rw [add_fin, hv]

/-! ## C28: positions written by `updatePointLights` -/

theorem width_coord_le (x : Nat) (hx : x < LIGHT_GRID_WIDTH) : |(x : ℚ) - 2| ≤ 2 := by
  unfold LIGHT_GRID_WIDTH at hx
  have h1 : (x : ℚ) ≤ 4 := by exact_mod_cast Nat.le_of_lt_succ hx
  have h0 : (0 : ℚ) ≤ (x : ℚ) := by positivity
  rw [abs_le]
  constructor <;> linarith

theorem height_coord_le (y : Nat) (hy : y < LIGHT_GRID_HEIGHT) : |(y : ℚ) - 3 / 2| ≤ 2 := by
  unfold LIGHT_GRID_HEIGHT at hy
  have h1 : (y : ℚ) ≤ 3 := by exact_mod_cast Nat.le_of_lt_succ hy
  have h0 : (0 : ℚ) ≤ (y : ℚ) := by positivity
  rw [abs_le]
  constructor <;> linarith

/-- The translation `updatePointLights` computes, with the constant operands evaluated. -/
theorem updateTranslation_eq (s yOffset : FloatVal) (x z y : Nat)
    (hx : x < LIGHT_GRID_WIDTH) (hz : z < LIGHT_GRID_WIDTH) (hy : y < LIGHT_GRID_HEIGHT) :
    updateTranslation s yOffset x z y =
      ⟨binary32.mul (FloatVal.finite ((x : ℚ) - 2))
         (binary32.mul (FloatVal.finite (7298089 / 4194304)) s),
       binary32.add (binary32.mul (FloatVal.finite ((y : ℚ) - 3 / 2))
         (binary32.mul (FloatVal.finite (7298089 / 4194304)) s)) yOffset,
       binary32.mul (FloatVal.finite ((z : ℚ) - 2))
         (binary32.mul (FloatVal.finite (7298089 / 4194304)) s),
       FloatVal.finite 1⟩ := by
  unfold updateTranslation
  simp only [gridCoord_width x hx, gridCoord_width z hz, gridCoord_height y hy, update_diameter]

/-- The `float` diameter of `updatePointLights` against twice the decimal 0.870. -/
theorem update_diameter_near :
    |(7298089 / 4194304 : ℚ) - 2 * (870 / 1000)| ≤ 1 / 2 ^ 27 * |(2 * (870 / 1000) : ℚ)| + 0 := by
  have e1 : (7298089 / 4194304 : ℚ) - 2 * (870 / 1000) = 1 / 104857600 := by norm_num
  rw [e1, abs_of_pos (by norm_num), abs_of_pos (by norm_num)]
  norm_num

theorem update_product_near (c sv t : ℚ) (hc : |c| ≤ 2)
    (h : binary32.mul (FloatVal.finite c)
      (binary32.mul (FloatVal.finite (7298089 / 4194304)) (FloatVal.finite sv)) =
        FloatVal.finite t) :
    |t - c * 2 * (870 / 1000) * sv| ≤ 1 / 2 ^ 22 * |c * 2 * (870 / 1000) * sv| + 1 / 2 ^ 148 := by
  obtain ⟨a, b, ea, eb, hr⟩ := mul_finite binary32 _ _ _ h
  injection ea with ea
  subst ea
  have hk : binary32.round (7298089 / 4194304 * sv) = FloatVal.finite b := eb
  have h1 := spaced_near c (7298089 / 4194304) (2 * (870 / 1000)) sv (1 / 2 ^ 27) 0 b t hc
    (by norm_num) (le_refl _) update_diameter_near hk hr
  have e : c * 2 * (870 / 1000) * sv = c * (2 * (870 / 1000) * sv) := by ring
  rw [e]
  simpa using h1

theorem update_sum_near (c sv ov t : ℚ) (hc : |c| ≤ 2)
    (h : binary32.add (binary32.mul (FloatVal.finite c)
      (binary32.mul (FloatVal.finite (7298089 / 4194304)) (FloatVal.finite sv)))
        (FloatVal.finite ov) = FloatVal.finite t) :
    |t - (c * 2 * (870 / 1000) * sv + ov)| ≤
      1 / 2 ^ 21 * |c * 2 * (870 / 1000) * sv| + 1 / 2 ^ 24 * |ov| + 1 / 2 ^ 147 := by
  obtain ⟨p, o2, ep, eo, hv⟩ := add_finite binary32 _ _ _ h
  injection eo with eo
  subst eo
  obtain ⟨a, b, ea, eb, hr⟩ := mul_finite binary32 _ _ _ ep
  injection ea with ea
  subst ea
  have hk : binary32.round (7298089 / 4194304 * sv) = FloatVal.finite b := eb
  have h1 := spaced_add_near c (7298089 / 4194304) (2 * (870 / 1000)) sv (1 / 2 ^ 27) 0 b p
    ov t hc (by norm_num) (le_refl _) update_diameter_near hk hr hv
  have e : c * 2 * (870 / 1000) * sv = c * (2 * (870 / 1000) * sv) := by ring
  rw [e]
  simpa using h1

/-- The coordinates `updatePointLights` computes are finite when the separation and the
offset are of magnitude at most `2^40`. -/
theorem update_coord_finite (c sv w : ℚ) (hc : |c| ≤ 2) (hs : |sv| ≤ 2 ^ 40)
    (hw : |w| ≤ 2 ^ 40) :
    ∃ p v : ℚ, binary32.mul (FloatVal.finite c)
        (binary32.mul (FloatVal.finite (7298089 / 4194304)) (FloatVal.finite sv)) =
          FloatVal.finite p ∧
      binary32.add (FloatVal.finite p) (FloatVal.finite w) = FloatVal.finite v := by
  have hdm := update_diameter
  rw [radius_value] at hdm
  have h := spaced_finite c (7298089 / 8388608) sv w hc
    (by rw [abs_of_pos (by norm_num)]; norm_num) hs hw
  rw [hdm] at h
  exact h

theorem round32_neg_dyadic (m : Nat) (k : Nat) (hm : (m : ℚ) < 2 ^ 24) (hk : k ≤ 149) :
    binary32.round (-((m : ℚ) / 2 ^ k)) = FloatVal.finite (-((m : ℚ) / 2 ^ k)) := by
  have h := round32_dyadic (-(m : Int)) k (by
    push_cast
    rw [abs_neg, abs_of_nonneg (by positivity)]
    exact hm) hk
  push_cast at h
  rw [neg_div] at h
  exact h

/-- The product `-1.5 * 1.74...` of cell `y = 0` lies half way between two `float`s. -/
theorem round_tie_261 :
    binary32.round (21894267 / 8388608) = FloatVal.finite (5473567 / 2097152) := by
  have h := round_eval_tie binary32 (21894267 / 8388608) 1 (-22) 10947133 (by norm_num)
    (by norm_num) (by norm_num) (by norm_num [binary32]) (by norm_num)
    (by norm_num [binary32])
  rw [h]
  norm_num

theorem update_cell0 :
    updateTranslation (FloatVal.finite 1) (FloatVal.finite 0) 0 0 0 =
      ⟨FloatVal.finite (-7298089 / 2097152), FloatVal.finite (-5473567 / 2097152),
       FloatVal.finite (-7298089 / 2097152), FloatVal.finite 1⟩ := by
  rw [updateTranslation_eq _ _ 0 0 0 (by decide) (by decide) (by decide)]
  have hk : binary32.round (7298089 / 4194304 * 1) = FloatVal.finite (7298089 / 4194304) := by
    have := round32_dyadic 7298089 22 (by norm_num) (by norm_num)
    norm_num at this ⊢
    exact this
  have hx : binary32.round ((((0 : Nat) : ℚ) - 2) * (7298089 / 4194304)) =
      FloatVal.finite (-7298089 / 2097152) := by
    have := round32_neg_dyadic 7298089 21 (by norm_num) (by norm_num)
    norm_num at this ⊢
    exact this
  have hy : binary32.round ((((0 : Nat) : ℚ) - 3 / 2) * (7298089 / 4194304)) =
      FloatVal.finite (-5473567 / 2097152) := by
    have e : (((0 : Nat) : ℚ) - 3 / 2) * (7298089 / 4194304) = -(21894267 / 8388608) := by
      norm_num
    rw [e, round_neg, round_tie_261]
    simp only [FloatVal.neg]
    norm_num
  have hs : binary32.round (-5473567 / 2097152 + 0) = FloatVal.finite (-5473567 / 2097152) := by
    have := round32_neg_dyadic 5473567 21 (by norm_num) (by norm_num)
    norm_num at this ⊢
    exact this
  simp only [FloatFormat.mul, FloatFormat.add, hk, hx, hy, hs]

/-- The grid cell of an instance index below `W*W*H`. -/
theorem gridIndex_of_index (i : Nat)
    (hi : i < LIGHT_GRID_WIDTH * LIGHT_GRID_WIDTH * LIGHT_GRID_HEIGHT) :
    i / 20 < LIGHT_GRID_WIDTH ∧ i / 4 % 5 < LIGHT_GRID_WIDTH ∧ i % 4 < LIGHT_GRID_HEIGHT ∧
    gridIndex LIGHT_GRID_WIDTH LIGHT_GRID_HEIGHT (i / 20) (i / 4 % 5) (i % 4) = i := by
  unfold gridIndex LIGHT_GRID_WIDTH LIGHT_GRID_HEIGHT at *
  omega

theorem updateLoops_matrices_radius (separation yOffset radius radius2 : FloatVal) (L : Lights)
    (hmm : LIGHT_GRID_WIDTH * LIGHT_GRID_WIDTH * LIGHT_GRID_HEIGHT ≤ L.modelMatrices.length)
    (hcs : LIGHT_GRID_WIDTH * LIGHT_GRID_WIDTH * LIGHT_GRID_HEIGHT ≤ L.modelColorSizes.length) :
    (updateLoops separation yOffset radius L).2.modelMatrices =
      (updateLoops separation yOffset radius2 L).2.modelMatrices := by
  obtain ⟨-, -, -, hout, hcell⟩ := updateLoops_spec separation yOffset radius L hmm hcs
  obtain ⟨-, -, -, hout2, hcell2⟩ := updateLoops_spec separation yOffset radius2 L hmm hcs
  apply List.ext_getElem?
  intro i
  rcases Nat.lt_or_ge i (LIGHT_GRID_WIDTH * LIGHT_GRID_WIDTH * LIGHT_GRID_HEIGHT) with hi | hi
  · obtain ⟨x, z, y, hx, hz, hy, hg⟩ := gridIndex_surjective _ _ i hi
    rw [← hg, (hcell x z y hx hz hy).1, (hcell2 x z y hx hz hy).1]
  · rw [(hout i hi).1, (hout2 i hi).1]

/-- The transform `updatePointLights` leaves at grid cell `(x, z, y)`. -/
theorem updated_cell (matrixBuffer : Nat) (L : Lights) (gl : GLContext)
    (s yOffset radius : FloatVal) (hs : s.lt (FloatVal.finite 0) = false)
    (hmm : LIGHT_GRID_WIDTH * LIGHT_GRID_WIDTH * LIGHT_GRID_HEIGHT ≤ L.modelMatrices.length)
    (hcs : LIGHT_GRID_WIDTH * LIGHT_GRID_WIDTH * LIGHT_GRID_HEIGHT ≤ L.modelColorSizes.length)
    (x z y : Nat) (hx : x < LIGHT_GRID_WIDTH) (hz : z < LIGHT_GRID_WIDTH)
    (hy : y < LIGHT_GRID_HEIGHT) :
    ∃ (m : Mat4) (c : Vec4),
      (updatePointLights matrixBuffer L gl s yOffset radius).st.modelMatrices[
        gridIndex LIGHT_GRID_WIDTH LIGHT_GRID_HEIGHT x z y]? = some m ∧
      (updatePointLights matrixBuffer L gl s yOffset radius).st.modelColorSizes[
        gridIndex LIGHT_GRID_WIDTH LIGHT_GRID_HEIGHT x z y]? = some c ∧
      m.c3 = updateTranslation s yOffset x z y ∧ c.w = radius := by
  obtain ⟨-, r2⟩ := updatePointLights_spec matrixBuffer L gl s yOffset radius hs hmm hcs
  obtain ⟨-, -, -, -, hcell⟩ := updateLoops_spec s yOffset radius L hmm hcs
  have hlt := gridIndex_lt LIGHT_GRID_WIDTH LIGHT_GRID_HEIGHT x z y hx hz hy
  obtain ⟨u1, u2⟩ := hcell x z y hx hz hy
  obtain ⟨m0, e1⟩ : ∃ m0, L.modelMatrices[
      gridIndex LIGHT_GRID_WIDTH LIGHT_GRID_HEIGHT x z y]? = some m0 :=
    ⟨_, List.getElem?_eq_getElem (Nat.lt_of_lt_of_le hlt hmm)⟩
  obtain ⟨c0, e2⟩ : ∃ c0, L.modelColorSizes[
      gridIndex LIGHT_GRID_WIDTH LIGHT_GRID_HEIGHT x z y]? = some c0 :=
    ⟨_, List.getElem?_eq_getElem (Nat.lt_of_lt_of_le hlt hcs)⟩
  rw [e1] at u1
  rw [e2] at u2
  rw [r2]
  exact ⟨_, _, u1, u2, rfl, rfl⟩

/-- C28 (counterexample): on the grid generated in the run `jitterRun`, `updatePointLights`
with separation 1, yOffset 0 and radius 2 stores for cell `(0, 0, 0)` the x translation
`-7298089/2097152`, which is not `(0 - (W-1)/2) * 2 * 0.870 * 1 = -3.48`: the constant is the
`float` nearest to 0.870, `7298089/8388608`.  The y translation it stores is
`-5473567/2097152`, which is not `(0 - (H-1)/2) * 2 * R0 * 1 + 0` for that `float` `R0`
either: the product lies half way between two `float`s and is rounded. -/
theorem C28_positions_are_rounded :
    (FloatVal.finite 1).lt (FloatVal.finite 0) = false ∧
    INITIAL_POINT_LIGHT_RADIUS = FloatVal.finite (7298089 / 8388608) ∧
    ∃ m : Mat4,
      (updatePointLights 7
        (configurePointLights jitterRun ⟨[], []⟩ (FloatVal.finite 1) (FloatVal.finite 1)
          (FloatVal.finite 0))
        (GLContext.fresh 8) (FloatVal.finite 1) (FloatVal.finite 0)
        (FloatVal.finite 2)).st.modelMatrices[
          gridIndex LIGHT_GRID_WIDTH LIGHT_GRID_HEIGHT 0 0 0]? = some m ∧
      m.c3.x = FloatVal.finite (-7298089 / 2097152) ∧
      m.c3.x ≠ FloatVal.finite
        ((((0 : Nat) : ℚ) - ((LIGHT_GRID_WIDTH : ℚ) - 1) / 2) * 2 * (870 / 1000) * 1) ∧
      m.c3.y = FloatVal.finite (-5473567 / 2097152) ∧
      m.c3.y ≠ FloatVal.finite
        ((((0 : Nat) : ℚ) - ((LIGHT_GRID_HEIGHT : ℚ) - 1) / 2) * 2 * (7298089 / 8388608) * 1
          + 0) := by
  refine ⟨by norm_num [FloatVal.lt], radius_value, ?_⟩
  obtain ⟨m, c, hm, -, hc3, -⟩ := updated_cell 7
    (configurePointLights jitterRun ⟨[], []⟩ (FloatVal.finite 1) (FloatVal.finite 1)
      (FloatVal.finite 0))
    (GLContext.fresh 8) (FloatVal.finite 1) (FloatVal.finite 0) (FloatVal.finite 2)
    (by norm_num [FloatVal.lt])
    (Nat.le_of_eq (configureLoops_spec jitterRun _ _ _).1.symm)
    (Nat.le_of_eq (configureLoops_spec jitterRun _ _ _).2.1.symm)
    0 0 0 (by decide) (by decide) (by decide)
  rw [update_cell0] at hc3
  refine ⟨m, hm, ?_, ?_, ?_, ?_⟩
  · rw [hc3]
  · rw [hc3]
    intro h
    injection h with h
    norm_num [LIGHT_GRID_WIDTH] at h
  · rw [hc3]
  · rw [hc3]
    intro h
    injection h with h
    norm_num [LIGHT_GRID_HEIGHT] at h

/-- C28 (amended): for every separation `s` that is not below zero, every yOffset and every
radius argument, on sequences that hold the `W*W*H` instances, `updatePointLights` returns
normally and sets the translation of grid cell `(x, z, y)` to the `float` results
`(x-(W-1)/2) * (d*s)`, `(y-(H-1)/2) * (d*s) + yOffset`, `(z-(W-1)/2) * (d*s)`, each operation
rounded to the nearest `float`, where `d = 7298089/4194304` is twice the constant
`INITIAL_POINT_LIGHT_RADIUS`, the `float` nearest to 0.870.  Where the stored components are
finite they agree with `((x-(W-1)/2)*2*R0*s, (y-(H-1)/2)*2*R0*s + yOffset, (z-(W-1)/2)*2*R0*s)`
for `R0 = 0.870` up to rounding: relative error `2^-22` and absolute error `2^-148` in x and
z; `2^-21` of the spaced term, `2^-24` of yOffset and `2^-147` in y; and they are finite
whenever `s` and yOffset are of magnitude at most `2^40`.  Component `w` of the
colour/size record of the cell becomes the radius argument, and the instance transforms are
the same for every radius argument. -/
theorem C28_update_positions (matrixBuffer : Nat) (L : Lights) (gl : GLContext)
    (s yOffset radius : FloatVal) (hs : s.lt (FloatVal.finite 0) = false)
    (hmm : LIGHT_GRID_WIDTH * LIGHT_GRID_WIDTH * LIGHT_GRID_HEIGHT ≤ L.modelMatrices.length)
    (hcs : LIGHT_GRID_WIDTH * LIGHT_GRID_WIDTH * LIGHT_GRID_HEIGHT ≤ L.modelColorSizes.length) :
    (updatePointLights matrixBuffer L gl s yOffset radius).result = Outcome.ok ∧
    binary32.mul (FloatVal.finite 2) INITIAL_POINT_LIGHT_RADIUS =
      FloatVal.finite (7298089 / 4194304) ∧
    (∀ x z y, x < LIGHT_GRID_WIDTH → z < LIGHT_GRID_WIDTH → y < LIGHT_GRID_HEIGHT →
      ∃ (m : Mat4) (c : Vec4),
        (updatePointLights matrixBuffer L gl s yOffset radius).st.modelMatrices[
          gridIndex LIGHT_GRID_WIDTH LIGHT_GRID_HEIGHT x z y]? = some m ∧
        (updatePointLights matrixBuffer L gl s yOffset radius).st.modelColorSizes[
          gridIndex LIGHT_GRID_WIDTH LIGHT_GRID_HEIGHT x z y]? = some c ∧
        m.c3.x = binary32.mul
          (FloatVal.finite ((x : ℚ) - ((LIGHT_GRID_WIDTH : ℚ) - 1) / 2))
          (binary32.mul (FloatVal.finite (7298089 / 4194304)) s) ∧
        m.c3.y = binary32.add
          (binary32.mul (FloatVal.finite ((y : ℚ) - ((LIGHT_GRID_HEIGHT : ℚ) - 1) / 2))
            (binary32.mul (FloatVal.finite (7298089 / 4194304)) s)) yOffset ∧
        m.c3.z = binary32.mul
          (FloatVal.finite ((z : ℚ) - ((LIGHT_GRID_WIDTH : ℚ) - 1) / 2))
          (binary32.mul (FloatVal.finite (7298089 / 4194304)) s) ∧
        c.w = radius ∧
        (∀ sv ov tx ty tz : ℚ, s = FloatVal.finite sv → yOffset = FloatVal.finite ov →
          m.c3.x = FloatVal.finite tx → m.c3.y = FloatVal.finite ty →
          m.c3.z = FloatVal.finite tz →
          |tx - ((x : ℚ) - ((LIGHT_GRID_WIDTH : ℚ) - 1) / 2) * 2 * (870 / 1000) * sv| ≤
            1 / 2 ^ 22 *
              |((x : ℚ) - ((LIGHT_GRID_WIDTH : ℚ) - 1) / 2) * 2 * (870 / 1000) * sv| +
            1 / 2 ^ 148 ∧
          |ty - (((y : ℚ) - ((LIGHT_GRID_HEIGHT : ℚ) - 1) / 2) * 2 * (870 / 1000) * sv + ov)| ≤
            1 / 2 ^ 21 *
              |((y : ℚ) - ((LIGHT_GRID_HEIGHT : ℚ) - 1) / 2) * 2 * (870 / 1000) * sv| +
            1 / 2 ^ 24 * |ov| + 1 / 2 ^ 147 ∧
          |tz - ((z : ℚ) - ((LIGHT_GRID_WIDTH : ℚ) - 1) / 2) * 2 * (870 / 1000) * sv| ≤
            1 / 2 ^ 22 *
              |((z : ℚ) - ((LIGHT_GRID_WIDTH : ℚ) - 1) / 2) * 2 * (870 / 1000) * sv| +
            1 / 2 ^ 148) ∧
        ∀ sv ov : ℚ, s = FloatVal.finite sv → yOffset = FloatVal.finite ov →
          |sv| ≤ 2 ^ 40 → |ov| ≤ 2 ^ 40 →
          ∃ tx ty tz : ℚ, m.c3.x = FloatVal.finite tx ∧ m.c3.y = FloatVal.finite ty ∧
            m.c3.z = FloatVal.finite tz) ∧
    (∀ radius2 : FloatVal,
      (updatePointLights matrixBuffer L gl s yOffset radius2).st.modelMatrices =
        (updatePointLights matrixBuffer L gl s yOffset radius).st.modelMatrices) := by
  obtain ⟨r1, r2⟩ := updatePointLights_spec matrixBuffer L gl s yOffset radius hs hmm hcs
  have eW : ((LIGHT_GRID_WIDTH : ℚ) - 1) / 2 = 2 := by norm_num [LIGHT_GRID_WIDTH]
  have eH : ((LIGHT_GRID_HEIGHT : ℚ) - 1) / 2 = 3 / 2 := by norm_num [LIGHT_GRID_HEIGHT]
  refine ⟨r1, update_diameter, ?_, ?_⟩
  · intro x z y hx hz hy
    obtain ⟨m, c, hm, hc, hc3, hw⟩ :=
      updated_cell matrixBuffer L gl s yOffset radius hs hmm hcs x z y hx hz hy
    rw [updateTranslation_eq s yOffset x z y hx hz hy] at hc3
    rw [eW, eH]
    refine ⟨m, c, hm, hc, by rw [hc3], by rw [hc3], by rw [hc3], hw, ?_, ?_⟩
    · intro sv ov tx ty tz es eo ex ey ez
      rw [hc3] at ex ey ez
      subst es eo
      exact ⟨update_product_near _ sv tx (width_coord_le x hx) ex,
        update_sum_near _ sv ov ty (height_coord_le y hy) ey,
        update_product_near _ sv tz (width_coord_le z hz) ez⟩
    · intro sv ov es eo bs bo
      subst es eo
      obtain ⟨px, -, ex, -⟩ := update_coord_finite ((x : ℚ) - 2) sv ov (width_coord_le x hx)
        bs bo
      obtain ⟨py, vy, ey, ey2⟩ := update_coord_finite ((y : ℚ) - 3 / 2) sv ov
        (height_coord_le y hy) bs bo
      obtain ⟨pz, -, ez, -⟩ := update_coord_finite ((z : ℚ) - 2) sv ov (width_coord_le z hz)
        bs bo
      refine ⟨px, vy, pz, ?_, ?_, ?_⟩
      · rw [hc3]; exact ex
      · rw [hc3]
        show binary32.add (binary32.mul (FloatVal.finite ((y : ℚ) - 3 / 2))
          (binary32.mul (FloatVal.finite (7298089 / 4194304)) (FloatVal.finite sv)))
          (FloatVal.finite ov) = FloatVal.finite vy
        rw [ey]; exact ey2
      · rw [hc3]; exact ez
  · intro radius2
    obtain ⟨-, r3⟩ := updatePointLights_spec matrixBuffer L gl s yOffset radius2 hs hmm hcs
    rw [r2, r3]
    exact updateLoops_matrices_radius s yOffset radius2 radius L hmm hcs

/-- C28 witness: the grid generated in the run `jitterRun`, updated with separation 1,
yOffset 0 and radius 2; the x translation stored for cell `(0, 0, 0)`, `-7298089/2097152`,
is within the bound of `-3.48`. -/
theorem C28_update_positions_witness :
    (FloatVal.finite 1).lt (FloatVal.finite 0) = false ∧
    (updatePointLights 7
      (configurePointLights jitterRun ⟨[], []⟩ (FloatVal.finite 1) (FloatVal.finite 1)
        (FloatVal.finite 0))
      (GLContext.fresh 8) (FloatVal.finite 1) (FloatVal.finite 0)
      (FloatVal.finite 2)).result = Outcome.ok ∧
    |(-7298089 / 2097152 : ℚ) -
        (((0 : Nat) : ℚ) - ((LIGHT_GRID_WIDTH : ℚ) - 1) / 2) * 2 * (870 / 1000) * 1| ≤
      1 / 2 ^ 22 *
        |(((0 : Nat) : ℚ) - ((LIGHT_GRID_WIDTH : ℚ) - 1) / 2) * 2 * (870 / 1000) * 1| +
      1 / 2 ^ 148 := by
  have h := C28_update_positions 7
    (configurePointLights jitterRun ⟨[], []⟩ (FloatVal.finite 1) (FloatVal.finite 1)
      (FloatVal.finite 0))
    (GLContext.fresh 8) (FloatVal.finite 1) (FloatVal.finite 0) (FloatVal.finite 2)
    (by norm_num [FloatVal.lt])
    (Nat.le_of_eq (configureLoops_spec jitterRun _ _ _).1.symm)
    (Nat.le_of_eq (configureLoops_spec jitterRun _ _ _).2.1.symm)
  refine ⟨by norm_num [FloatVal.lt], h.1, ?_⟩
  obtain ⟨m, c, hm, -, -, -, -, -, hb, -⟩ := h.2.2.1 0 0 0 (by decide) (by decide) (by decide)
  obtain ⟨m2, c2, hm2, -, hc3, -⟩ := updated_cell 7
    (configurePointLights jitterRun ⟨[], []⟩ (FloatVal.finite 1) (FloatVal.finite 1)
      (FloatVal.finite 0))
    (GLContext.fresh 8) (FloatVal.finite 1) (FloatVal.finite 0) (FloatVal.finite 2)
    (by norm_num [FloatVal.lt])
    (Nat.le_of_eq (configureLoops_spec jitterRun _ _ _).1.symm)
    (Nat.le_of_eq (configureLoops_spec jitterRun _ _ _).2.1.symm)
    0 0 0 (by decide) (by decide) (by decide)
  have em : m = m2 := Option.some.inj (hm.symm.trans hm2)
  rw [← em, update_cell0] at hc3
  have e1 : m.c3.x = FloatVal.finite (-7298089 / 2097152) := by rw [hc3]
  have e2 : m.c3.y = FloatVal.finite (-5473567 / 2097152) := by rw [hc3]
  have e3 : m.c3.z = FloatVal.finite (-7298089 / 2097152) := by rw [hc3]
  have hb2 := hb 1 0 (-7298089 / 2097152) (-5473567 / 2097152) (-7298089 / 2097152) rfl rfl
    e1 e2 e3
  exact hb2.1

/-! ## C30: the grid written by `updatePointLights` against its centre -/

theorem add_neg_neg (f : FloatFormat) (a b : FloatVal) :
    f.add a.neg b.neg = (f.add a b).neg := by
  cases a with
  | finite x =>
    cases b with
    | finite y =>
      show f.round (-x + -y) = (f.round (x + y)).neg
      rw [← neg_add, round_neg]
    | infinite t => rfl
    | nan => rfl
  | infinite s =>
    cases b with
    | finite y => rfl
    | infinite t => cases s <;> cases t <;> rfl
    | nan => rfl
  | nan => cases b <;> rfl

theorem neg_finite_zero : (FloatVal.finite 0).neg = FloatVal.finite 0 := by
  simp [FloatVal.neg]

/-- The translations `updatePointLights` computes for a cell and for the opposite cell. -/
theorem updateTranslation_reflect (s yOffset : FloatVal) (x z y : Nat)
    (hx : x < LIGHT_GRID_WIDTH) (hz : z < LIGHT_GRID_WIDTH) (hy : y < LIGHT_GRID_HEIGHT) :
    (updateTranslation s yOffset (LIGHT_GRID_WIDTH - 1 - x) (LIGHT_GRID_WIDTH - 1 - z)
        (LIGHT_GRID_HEIGHT - 1 - y)).x = (updateTranslation s yOffset x z y).x.neg ∧
    (updateTranslation s yOffset (LIGHT_GRID_WIDTH - 1 - x) (LIGHT_GRID_WIDTH - 1 - z)
        (LIGHT_GRID_HEIGHT - 1 - y)).z = (updateTranslation s yOffset x z y).z.neg ∧
    (updateTranslation s yOffset x z y).y =
      binary32.add (binary32.mul (FloatVal.finite ((y : ℚ) - 3 / 2))
        (binary32.mul (FloatVal.finite (7298089 / 4194304)) s)) yOffset ∧
    (updateTranslation s yOffset (LIGHT_GRID_WIDTH - 1 - x) (LIGHT_GRID_WIDTH - 1 - z)
        (LIGHT_GRID_HEIGHT - 1 - y)).y =
      binary32.add (binary32.mul (FloatVal.finite ((y : ℚ) - 3 / 2))
        (binary32.mul (FloatVal.finite (7298089 / 4194304)) s)).neg yOffset := by
  have hx2 : LIGHT_GRID_WIDTH - 1 - x < LIGHT_GRID_WIDTH := by
    unfold LIGHT_GRID_WIDTH at *; omega
  have hz2 : LIGHT_GRID_WIDTH - 1 - z < LIGHT_GRID_WIDTH := by
    unfold LIGHT_GRID_WIDTH at *; omega
  have hy2 : LIGHT_GRID_HEIGHT - 1 - y < LIGHT_GRID_HEIGHT := by
    unfold LIGHT_GRID_HEIGHT at *; omega
  have ex : (((LIGHT_GRID_WIDTH - 1 - x : Nat) : ℚ) - 2) = -((x : ℚ) - 2) := by
    unfold LIGHT_GRID_WIDTH at *
    rw [Nat.cast_sub (show x ≤ 5 - 1 by omega)]
    push_cast
    ring
  have ez : (((LIGHT_GRID_WIDTH - 1 - z : Nat) : ℚ) - 2) = -((z : ℚ) - 2) := by
    unfold LIGHT_GRID_WIDTH at *
    rw [Nat.cast_sub (show z ≤ 5 - 1 by omega)]
    push_cast
    ring
  have ey : (((LIGHT_GRID_HEIGHT - 1 - y : Nat) : ℚ) - 3 / 2) = -((y : ℚ) - 3 / 2) := by
    unfold LIGHT_GRID_HEIGHT at *
    rw [Nat.cast_sub (show y ≤ 4 - 1 by omega)]
    push_cast
    ring
  have en : ∀ q : ℚ, FloatVal.finite (-q) = (FloatVal.finite q).neg := fun q => rfl
  rw [updateTranslation_eq s yOffset x z y hx hz hy,
    updateTranslation_eq s yOffset _ _ _ hx2 hz2 hy2]
  simp only [ex, ez, ey, en, mul_neg_left]
  refine ⟨?_, ?_, ?_, ?_⟩ <;> trivial

/-- The two `float` sums `p + o` and `-p + o` against their centre `o`. -/
theorem reflected_sum_near (c sv ov ty ty2 : ℚ) (hc : |c| ≤ 2)
    (h1 : binary32.add (binary32.mul (FloatVal.finite c)
      (binary32.mul (FloatVal.finite (7298089 / 4194304)) (FloatVal.finite sv)))
        (FloatVal.finite ov) = FloatVal.finite ty)
    (h2 : binary32.add (binary32.mul (FloatVal.finite c)
      (binary32.mul (FloatVal.finite (7298089 / 4194304)) (FloatVal.finite sv))).neg
        (FloatVal.finite ov) = FloatVal.finite ty2) :
    |ty + ty2 - 2 * ov| ≤ 1 / 2 ^ 23 * |ov| + 1 / 2 ^ 21 * |sv| + 1 / 2 ^ 148 := by
  obtain ⟨p, o2, ep, eo, hv⟩ := add_finite binary32 _ _ _ h1
  injection eo with eo
  subst eo
  rw [ep] at h2
  have hv2 : binary32.round (-p + ov) = FloatVal.finite ty2 := h2
  obtain ⟨a, b, ea, eb, hr⟩ := mul_finite binary32 _ _ _ ep
  injection ea with ea
  subst ea
  have hk : binary32.round (7298089 / 4194304 * sv) = FloatVal.finite b := eb
  have hp := spaced_near c (7298089 / 4194304) (2 * (870 / 1000)) sv (1 / 2 ^ 27) 0 b p hc
    (by norm_num) (le_refl _) update_diameter_near hk hr
  have e1 := round_err binary32 _ _ hv
  have e2 := round_err binary32 _ _ hv2
  rw [binary32_unitRoundoff, binary32_halfMin] at e1 e2
  have hX : |c * (2 * (870 / 1000) * sv)| ≤ 2 * (2 * (870 / 1000)) * |sv| := by
    rw [abs_mul, abs_mul, abs_of_pos (show (0 : ℚ) < 2 * (870 / 1000) by norm_num)]
    have := mul_le_mul_of_nonneg_right hc
      (mul_nonneg (show (0 : ℚ) ≤ 2 * (870 / 1000) by norm_num) (abs_nonneg sv))
    linarith
  have hpabs : |p| ≤ |c * (2 * (870 / 1000) * sv)| + |p - c * (2 * (870 / 1000) * sv)| := by
    have : p = c * (2 * (870 / 1000) * sv) + (p - c * (2 * (870 / 1000) * sv)) := by ring
    nth_rewrite 1 [this]
    exact abs_add _ _
  have t1 : |p + ov| ≤ |p| + |ov| := abs_add _ _
  have t2 : |-p + ov| ≤ |p| + |ov| := by
    have := abs_add (-p) ov
    rwa [abs_neg] at this
  have t3 : |ty + ty2 - 2 * ov| ≤ |ty - (p + ov)| + |ty2 - (-p + ov)| := by
    have : ty + ty2 - 2 * ov = (ty - (p + ov)) + (ty2 - (-p + ov)) := by ring
    rw [this]
    exact abs_add _ _
  have hs := abs_nonneg sv
  have ho := abs_nonneg ov
  have hXn := abs_nonneg (c * (2 * (870 / 1000) * sv))
  norm_num at e1 e2 hp hX ⊢
  nlinarith [t1, t2, t3, hpabs, hX, hp, e1, e2, hs, ho, hXn]

theorem list_sum_range (g : Nat → ℚ) (n : Nat) :
    ((List.range n).map g).sum = (Finset.range n).sum g := by
  induction n with
  | zero => simp
  | succ n ih =>
    rw [List.range_succ, List.map_append, List.sum_append, ih, Finset.sum_range_succ]
    simp

theorem list_eq_map_range (l : List ℚ) :
    l = (List.range l.length).map (fun i => l[i]?.getD 0) := by
  apply List.ext_getElem?
  intro i
  rcases Nat.lt_or_ge i l.length with hi | hi
  · rw [List.getElem?_map, List.getElem?_range hi, List.getElem?_eq_getElem hi]
    simp [List.getElem?_eq_getElem hi]
  · rw [List.getElem?_eq_none hi, List.getElem?_eq_none (by simp; omega)]

/-- A sequence whose entry `n-1-i` is the negative of entry `i` sums to zero. -/
theorem sum_reflect_zero (l : List ℚ)
    (h : ∀ i, i < l.length → l[l.length - 1 - i]?.getD 0 = -(l[i]?.getD 0)) : l.sum = 0 := by
  rw [list_eq_map_range l, list_sum_range]
  have e := Finset.sum_range_reflect (fun i => l[i]?.getD 0) l.length
  have e2 : (Finset.range l.length).sum (fun j => l[l.length - 1 - j]?.getD 0) =
      (Finset.range l.length).sum (fun j => -(l[j]?.getD 0)) :=
    Finset.sum_congr rfl (fun i hi => h i (Finset.mem_range.mp hi))
  rw [e2, Finset.sum_neg_distrib] at e
  simp only [List.length_map, List.length_range] at *
  linarith

/-- A sequence whose entries `i` and `n-1-i` add up to `2*o` within `B` sums to `n*o` within
`n*B/2`. -/
theorem sum_reflect_near (l : List ℚ) (o B : ℚ)
    (h : ∀ i, i < l.length → |l[i]?.getD 0 + l[l.length - 1 - i]?.getD 0 - 2 * o| ≤ B) :
    |l.sum - l.length * o| ≤ l.length / 2 * B := by
  have hl : l.sum = (Finset.range l.length).sum (fun i => l[i]?.getD 0) := by
    conv_lhs => rw [list_eq_map_range l, list_sum_range]
  have e := Finset.sum_range_reflect (fun i => l[i]?.getD 0) l.length
  have e3 : (Finset.range l.length).sum
      (fun i => l[i]?.getD 0 + l[l.length - 1 - i]?.getD 0 - 2 * o) =
      2 * l.sum - 2 * (l.length * o) := by
    rw [Finset.sum_sub_distrib, Finset.sum_add_distrib, e, ← hl, Finset.sum_const,
      Finset.card_range, nsmul_eq_mul]
    ring
  have e4 := Finset.abs_sum_le_sum_abs
    (fun i => l[i]?.getD 0 + l[l.length - 1 - i]?.getD 0 - 2 * o) (Finset.range l.length)
  have e5 : (Finset.range l.length).sum
      (fun i => |l[i]?.getD 0 + l[l.length - 1 - i]?.getD 0 - 2 * o|) ≤
      (Finset.range l.length).sum (fun _ => B) :=
    Finset.sum_le_sum (fun i hi => h i (Finset.mem_range.mp hi))
  rw [Finset.sum_const, Finset.card_range, nsmul_eq_mul] at e5
  rw [e3] at e4
  have e6 : |2 * l.sum - 2 * (l.length * o)| = 2 * |l.sum - l.length * o| := by
    rw [← mul_sub, abs_mul, abs_of_pos (by norm_num : (0 : ℚ) < 2)]
  rw [e6] at e4
  linarith

theorem translation_some (m : Mat4) (P : Point) (h : m.translation = some P) :
    m.c3.x = FloatVal.finite P.x ∧ m.c3.y = FloatVal.finite P.y ∧
    m.c3.z = FloatVal.finite P.z := by
  unfold Mat4.translation at h
  split at h
  · rename_i a b c e1 e2 e3
    injection h with h
    subst h
    exact ⟨e1, e2, e3⟩
  · cases h

theorem translation_of_finite (m : Mat4) (tx ty tz : ℚ) (hx : m.c3.x = FloatVal.finite tx)
    (hy : m.c3.y = FloatVal.finite ty) (hz : m.c3.z = FloatVal.finite tz) :
    m.translation = some ⟨tx, ty, tz⟩ := by
  unfold Mat4.translation
  rw [hx, hy, hz]

theorem all_some_exists {α : Type} (l : List (Option α)) (h : ∀ o ∈ l, ∃ a, o = some a) :
    ∃ ps : List α, l = ps.map some := by
  induction l with
  | nil => exact ⟨[], rfl⟩
  | cons o rest ih =>
    obtain ⟨a, ha⟩ := h o (List.mem_cons_self _ _)
    obtain ⟨ps, hps⟩ := ih (fun o2 ho2 => h o2 (List.mem_cons_of_mem _ ho2))
    exact ⟨a :: ps, by rw [ha, hps]; rfl⟩

/-- The translation `updatePointLights` computes for a cell is finite when the separation and
the yOffset are of magnitude at most `2^40`. -/
theorem updateTranslation_finite (sv ov : ℚ) (x z y : Nat)
    (hx : x < LIGHT_GRID_WIDTH) (hz : z < LIGHT_GRID_WIDTH) (hy : y < LIGHT_GRID_HEIGHT)
    (bs : |sv| ≤ 2 ^ 40) (bo : |ov| ≤ 2 ^ 40) :
    ∃ tx ty tz : ℚ, updateTranslation (FloatVal.finite sv) (FloatVal.finite ov) x z y =
      ⟨FloatVal.finite tx, FloatVal.finite ty, FloatVal.finite tz, FloatVal.finite 1⟩ := by
  obtain ⟨px, -, ex, -⟩ := update_coord_finite ((x : ℚ) - 2) sv ov (width_coord_le x hx) bs bo
  obtain ⟨py, vy, ey, ey2⟩ := update_coord_finite ((y : ℚ) - 3 / 2) sv ov
    (height_coord_le y hy) bs bo
  obtain ⟨pz, -, ez, -⟩ := update_coord_finite ((z : ℚ) - 2) sv ov (width_coord_le z hz) bs bo
  refine ⟨px, vy, pz, ?_⟩
  rw [updateTranslation_eq _ _ x z y hx hz hy, ex, ey, ey2, ez]

/-- The sum `1.205f + 1.5 * 1.74...` of cell `y = 3` lies half way between two `float`s. -/
theorem round_tie_3815 :
    binary32.round (32002541 / 8388608) = FloatVal.finite (8000635 / 2097152) := by
  have h := round_eval_tie binary32 (32002541 / 8388608) 1 (-22) 16001270 (by norm_num)
    (by norm_num) (by norm_num) (by norm_num [binary32]) (by norm_num)
    (by norm_num [binary32])
  rw [h]
  norm_num

theorem update_y_low :
    (updateTranslation (FloatVal.finite 1) (FloatVal.finite (10108273 / 8388608)) 0 0 0).y =
      FloatVal.finite (-11785995 / 8388608) := by
  rw [updateTranslation_eq _ _ 0 0 0 (by decide) (by decide) (by decide)]
  have hk : binary32.round (7298089 / 4194304 * 1) = FloatVal.finite (7298089 / 4194304) := by
    have := round32_dyadic 7298089 22 (by norm_num) (by norm_num)
    norm_num at this ⊢
    exact this
  have hy : binary32.round ((((0 : Nat) : ℚ) - 3 / 2) * (7298089 / 4194304)) =
      FloatVal.finite (-5473567 / 2097152) := by
    have e : (((0 : Nat) : ℚ) - 3 / 2) * (7298089 / 4194304) = -(21894267 / 8388608) := by
      norm_num
    rw [e, round_neg, round_tie_261]
    simp only [FloatVal.neg]
    norm_num
  have hs : binary32.round (-5473567 / 2097152 + 10108273 / 8388608) =
      FloatVal.finite (-11785995 / 8388608) := by
    have := round32_neg_dyadic 11785995 23 (by norm_num) (by norm_num)
    norm_num at this ⊢
    exact this
  simp only [FloatFormat.mul, FloatFormat.add, hk, hy, hs]

theorem update_y_high :
    (updateTranslation (FloatVal.finite 1) (FloatVal.finite (10108273 / 8388608))
      (LIGHT_GRID_WIDTH - 1 - 0) (LIGHT_GRID_WIDTH - 1 - 0) (LIGHT_GRID_HEIGHT - 1 - 0)).y =
      FloatVal.finite (8000635 / 2097152) := by
  rw [updateTranslation_eq _ _ _ _ _ (by decide) (by decide) (by decide)]
  have hk : binary32.round (7298089 / 4194304 * 1) = FloatVal.finite (7298089 / 4194304) := by
    have := round32_dyadic 7298089 22 (by norm_num) (by norm_num)
    norm_num at this ⊢
    exact this
  have hy : binary32.round ((((LIGHT_GRID_HEIGHT - 1 - 0 : Nat) : ℚ) - 3 / 2) *
      (7298089 / 4194304)) = FloatVal.finite (5473567 / 2097152) := by
    have e : (((LIGHT_GRID_HEIGHT - 1 - 0 : Nat) : ℚ) - 3 / 2) * (7298089 / 4194304) =
        21894267 / 8388608 := by
      norm_num [LIGHT_GRID_HEIGHT]
    rw [e, round_tie_261]
  have hs : binary32.round (5473567 / 2097152 + 10108273 / 8388608) =
      FloatVal.finite (8000635 / 2097152) := by
    have e : (5473567 / 2097152 + 10108273 / 8388608 : ℚ) = 32002541 / 8388608 := by norm_num
    rw [e, round_tie_3815]
  simp only [FloatFormat.mul, FloatFormat.add, hk, hy, hs]

/-- C30 (counterexample): on the grid generated in the run `jitterRun`, `updatePointLights`
with separation 1 and yOffset 1.205f (the `float` `10108273/8388608`) stores the y
translation `-11785995/8388608` for cell `(0, 0, 0)` and `8000635/2097152` for the opposite
cell `(W-1, W-1, H-1)`; the point reflection of the first through yOffset is
`32002541/8388608`, half way between two `float`s, and is not what the opposite cell
holds. -/
theorem C30_reflection_is_rounded :
    (FloatVal.finite 1).lt (FloatVal.finite 0) = false ∧
    binary32.round (1205 / 1000) = FloatVal.finite (10108273 / 8388608) ∧
    ∃ m r : Mat4,
      (updatePointLights 7
        (configurePointLights jitterRun ⟨[], []⟩ (FloatVal.finite 1) (FloatVal.finite 1)
          (FloatVal.finite 0))
        (GLContext.fresh 8) (FloatVal.finite 1) (FloatVal.finite (10108273 / 8388608))
        (FloatVal.finite 2)).st.modelMatrices[
          gridIndex LIGHT_GRID_WIDTH LIGHT_GRID_HEIGHT 0 0 0]? = some m ∧
      (updatePointLights 7
        (configurePointLights jitterRun ⟨[], []⟩ (FloatVal.finite 1) (FloatVal.finite 1)
          (FloatVal.finite 0))
        (GLContext.fresh 8) (FloatVal.finite 1) (FloatVal.finite (10108273 / 8388608))
        (FloatVal.finite 2)).st.modelMatrices[
          gridIndex LIGHT_GRID_WIDTH LIGHT_GRID_HEIGHT (LIGHT_GRID_WIDTH - 1 - 0)
            (LIGHT_GRID_WIDTH - 1 - 0) (LIGHT_GRID_HEIGHT - 1 - 0)]? = some r ∧
      m.c3.y = FloatVal.finite (-11785995 / 8388608) ∧
      r.c3.y = FloatVal.finite (8000635 / 2097152) ∧
      r.c3.y ≠ FloatVal.finite (2 * (10108273 / 8388608) - -11785995 / 8388608) := by
  refine ⟨by norm_num [FloatVal.lt], round_1205, ?_⟩
  obtain ⟨m, -, hm, -, hc3, -⟩ := updated_cell 7
    (configurePointLights jitterRun ⟨[], []⟩ (FloatVal.finite 1) (FloatVal.finite 1)
      (FloatVal.finite 0))
    (GLContext.fresh 8) (FloatVal.finite 1) (FloatVal.finite (10108273 / 8388608))
    (FloatVal.finite 2) (by norm_num [FloatVal.lt])
    (Nat.le_of_eq (configureLoops_spec jitterRun _ _ _).1.symm)
    (Nat.le_of_eq (configureLoops_spec jitterRun _ _ _).2.1.symm)
    0 0 0 (by decide) (by decide) (by decide)
  obtain ⟨r, -, hr, -, hr3, -⟩ := updated_cell 7
    (configurePointLights jitterRun ⟨[], []⟩ (FloatVal.finite 1) (FloatVal.finite 1)
      (FloatVal.finite 0))
    (GLContext.fresh 8) (FloatVal.finite 1) (FloatVal.finite (10108273 / 8388608))
    (FloatVal.finite 2) (by norm_num [FloatVal.lt])
    (Nat.le_of_eq (configureLoops_spec jitterRun _ _ _).1.symm)
    (Nat.le_of_eq (configureLoops_spec jitterRun _ _ _).2.1.symm)
    (LIGHT_GRID_WIDTH - 1 - 0) (LIGHT_GRID_WIDTH - 1 - 0) (LIGHT_GRID_HEIGHT - 1 - 0)
    (by decide) (by decide) (by decide)
  have e1 : m.c3.y = FloatVal.finite (-11785995 / 8388608) := by rw [hc3, update_y_low]
  have e2 : r.c3.y = FloatVal.finite (8000635 / 2097152) := by rw [hr3, update_y_high]
  refine ⟨m, r, hm, hr, e1, e2, ?_⟩
  rw [e2]
  intro h
  injection h with h
  norm_num at h

/-- C30 (amended): for every separation `s` that is not below zero and every yOffset, after
`updatePointLights` (on sequences that hold the `W*W*H` instances) the x and z translations
of cell `(W-1-x, W-1-z, H-1-y)` are exactly the negatives of those of cell `(x, z, y)`; the y
translations of the two cells are the `float` sums `p + yOffset` and `-p + yOffset` for one
`float` `p`, each rounded on its own, so they are the reflections of each other through
yOffset exactly when yOffset is 0 and, where they are finite, up to rounding otherwise:
their sum differs from `2*yOffset` by at most `2^-23*|yOffset| + 2^-21*|s| + 2^-148`.
All translations are finite when `s` and yOffset are of magnitude at most `2^40`; and when
they are finite, their x and z components sum to 0 and their y components sum to
`W*W*H*yOffset` up to `W*W*H/2` times that bound. -/
theorem C30_grid_centred (matrixBuffer : Nat) (L : Lights) (gl : GLContext)
    (s yOffset radius : FloatVal) (hs : s.lt (FloatVal.finite 0) = false)
    (hmm : LIGHT_GRID_WIDTH * LIGHT_GRID_WIDTH * LIGHT_GRID_HEIGHT ≤ L.modelMatrices.length)
    (hcs : LIGHT_GRID_WIDTH * LIGHT_GRID_WIDTH * LIGHT_GRID_HEIGHT ≤ L.modelColorSizes.length) :
    (updatePointLights matrixBuffer L gl s yOffset radius).result = Outcome.ok ∧
    (∀ x z y, x < LIGHT_GRID_WIDTH → z < LIGHT_GRID_WIDTH → y < LIGHT_GRID_HEIGHT →
      ∃ (m r : Mat4),
        (updatePointLights matrixBuffer L gl s yOffset radius).st.modelMatrices[
          gridIndex LIGHT_GRID_WIDTH LIGHT_GRID_HEIGHT x z y]? = some m ∧
        (updatePointLights matrixBuffer L gl s yOffset radius).st.modelMatrices[
          gridIndex LIGHT_GRID_WIDTH LIGHT_GRID_HEIGHT (LIGHT_GRID_WIDTH - 1 - x)
            (LIGHT_GRID_WIDTH - 1 - z) (LIGHT_GRID_HEIGHT - 1 - y)]? = some r ∧
        r.c3.x = m.c3.x.neg ∧ r.c3.z = m.c3.z.neg ∧
        (∃ p : FloatVal, m.c3.y = binary32.add p yOffset ∧
          r.c3.y = binary32.add p.neg yOffset) ∧
        (yOffset = FloatVal.finite 0 → r.c3.y = m.c3.y.neg) ∧
        ∀ sv ov ty ty2 : ℚ, s = FloatVal.finite sv → yOffset = FloatVal.finite ov →
          m.c3.y = FloatVal.finite ty → r.c3.y = FloatVal.finite ty2 →
          |ty + ty2 - 2 * ov| ≤ 1 / 2 ^ 23 * |ov| + 1 / 2 ^ 21 * |sv| + 1 / 2 ^ 148) ∧
    (∀ sv ov : ℚ, s = FloatVal.finite sv → yOffset = FloatVal.finite ov →
      |sv| ≤ 2 ^ 40 → |ov| ≤ 2 ^ 40 →
      ∃ ps : List Point,
        ((updatePointLights matrixBuffer L gl s yOffset radius).st.modelMatrices.take
          (LIGHT_GRID_WIDTH * LIGHT_GRID_WIDTH * LIGHT_GRID_HEIGHT)).map Mat4.translation =
        ps.map some) ∧
    (∀ (sv ov : ℚ) (ps : List Point), s = FloatVal.finite sv → yOffset = FloatVal.finite ov →
      ((updatePointLights matrixBuffer L gl s yOffset radius).st.modelMatrices.take
          (LIGHT_GRID_WIDTH * LIGHT_GRID_WIDTH * LIGHT_GRID_HEIGHT)).map Mat4.translation =
        ps.map some →
      (ps.map Point.x).sum =
        ((LIGHT_GRID_WIDTH * LIGHT_GRID_WIDTH * LIGHT_GRID_HEIGHT : Nat) : ℚ) * 0 ∧
      (ps.map Point.z).sum =
        ((LIGHT_GRID_WIDTH * LIGHT_GRID_WIDTH * LIGHT_GRID_HEIGHT : Nat) : ℚ) * 0 ∧
      |(ps.map Point.y).sum -
          ((LIGHT_GRID_WIDTH * LIGHT_GRID_WIDTH * LIGHT_GRID_HEIGHT : Nat) : ℚ) * ov| ≤
        ((LIGHT_GRID_WIDTH * LIGHT_GRID_WIDTH * LIGHT_GRID_HEIGHT : Nat) : ℚ) / 2 *
          (1 / 2 ^ 23 * |ov| + 1 / 2 ^ 21 * |sv| + 1 / 2 ^ 148)) := by
  obtain ⟨r1, r2⟩ := updatePointLights_spec matrixBuffer L gl s yOffset radius hs hmm hcs
  have hrefl : ∀ x z y, x < LIGHT_GRID_WIDTH → z < LIGHT_GRID_WIDTH → y < LIGHT_GRID_HEIGHT →
      LIGHT_GRID_WIDTH - 1 - x < LIGHT_GRID_WIDTH ∧ LIGHT_GRID_WIDTH - 1 - z < LIGHT_GRID_WIDTH ∧
      LIGHT_GRID_HEIGHT - 1 - y < LIGHT_GRID_HEIGHT := by
    intro x z y hx hz hy
    unfold LIGHT_GRID_WIDTH LIGHT_GRID_HEIGHT at *
    omega
  refine ⟨r1, ?_, ?_, ?_⟩
  · intro x z y hx hz hy
    obtain ⟨hx2, hz2, hy2⟩ := hrefl x z y hx hz hy
    obtain ⟨m, -, hm, -, hc3, -⟩ :=
      updated_cell matrixBuffer L gl s yOffset radius hs hmm hcs x z y hx hz hy
    obtain ⟨r, -, hr, -, hr3, -⟩ :=
      updated_cell matrixBuffer L gl s yOffset radius hs hmm hcs _ _ _ hx2 hz2 hy2
    obtain ⟨fx, fz, fy, fy2⟩ := updateTranslation_reflect s yOffset x z y hx hz hy
    rw [← hc3, ← hr3] at fx fz
    rw [← hc3] at fy
    rw [← hr3] at fy2
    refine ⟨m, r, hm, hr, fx, fz, ⟨_, fy, fy2⟩, ?_, ?_⟩
    · intro e0
      rw [fy, fy2, e0]
      nth_rewrite 1 [← neg_finite_zero]
      exact add_neg_neg _ _ _
    · intro sv ov ty ty2 es eo e1 e2
      subst es eo
      rw [fy] at e1
      rw [fy2] at e2
      exact reflected_sum_near _ sv ov ty ty2 (height_coord_le y hy) e1 e2
  · intro sv ov es eo bs bo
    have h100 : LIGHT_GRID_WIDTH * LIGHT_GRID_WIDTH * LIGHT_GRID_HEIGHT = 100 := by decide
    apply all_some_exists
    intro o ho
    obtain ⟨m, hm, rfl⟩ := List.mem_map.mp ho
    obtain ⟨i, hi⟩ := List.mem_iff_getElem?.mp hm
    have hi100 : i < 100 := by
      by_contra hge
      rw [h100, List.getElem?_take_eq_none (Nat.le_of_not_lt hge)] at hi
      cases hi
    rw [h100, List.getElem?_take_of_lt hi100] at hi
    obtain ⟨hx, hz, hy, hg⟩ := gridIndex_of_index i (by rw [h100]; exact hi100)
    obtain ⟨m2, -, hm2, -, hc3, -⟩ :=
      updated_cell matrixBuffer L gl s yOffset radius hs hmm hcs _ _ _ hx hz hy
    rw [hg, hi] at hm2
    have em : m = m2 := Option.some.inj hm2
    subst es eo
    obtain ⟨tx, ty, tz, et⟩ := updateTranslation_finite sv ov _ _ _ hx hz hy bs bo
    rw [← em, et] at hc3
    exact ⟨_, translation_of_finite m tx ty tz (by rw [hc3]) (by rw [hc3]) (by rw [hc3])⟩
  · intro sv ov ps es eo hps
    have h100 : LIGHT_GRID_WIDTH * LIGHT_GRID_WIDTH * LIGHT_GRID_HEIGHT = 100 := by decide
    have hlen : ps.length = 100 := by
      have := congrArg List.length hps
      rw [List.length_map, List.length_map, List.length_take, r2,
        (updateLoops_spec s yOffset radius L hmm hcs).2.1, h100] at this
      rw [h100] at hmm
      omega
    have hidx : ∀ i, i < 100 → ∃ P : Point, ps[i]? = some P ∧
        updateTranslation s yOffset (i / 20) (i / 4 % 5) (i % 4) =
          ⟨FloatVal.finite P.x, FloatVal.finite P.y, FloatVal.finite P.z,
            FloatVal.finite 1⟩ := by
      intro i hi
      obtain ⟨hx, hz, hy, hg⟩ := gridIndex_of_index i (by rw [h100]; exact hi)
      obtain ⟨m, -, hm, -, hc3, -⟩ :=
        updated_cell matrixBuffer L gl s yOffset radius hs hmm hcs _ _ _ hx hz hy
      rw [hg] at hm
      have h2 := congrArg (fun l => l[i]?) hps
      simp only [List.getElem?_map, h100, List.getElem?_take_of_lt hi, hm, Option.map_some']
        at h2
      have hi2 : i < ps.length := by omega
      have hP : ps[i]? = some ps[i] := List.getElem?_eq_getElem hi2
      rw [hP, Option.map_some'] at h2
      injection h2 with h2
      obtain ⟨tx, ty, tz⟩ := translation_some m _ h2
      refine ⟨_, hP, ?_⟩
      rw [← hc3]
      have hw : m.c3.w = FloatVal.finite 1 := by rw [hc3]; rfl
      cases hm3 : m.c3 with
      | mk a b c d =>
        rw [hm3] at tx ty tz hw
        simp only at tx ty tz hw
        rw [tx, ty, tz, hw]
    have hpair : ∀ i, i < 100 → ∃ P Q : Point, ps[i]? = some P ∧ ps[100 - 1 - i]? = some Q ∧
        Q.x = -P.x ∧ Q.z = -P.z ∧
        |P.y + Q.y - 2 * ov| ≤ 1 / 2 ^ 23 * |ov| + 1 / 2 ^ 21 * |sv| + 1 / 2 ^ 148 := by
      intro i hi
      obtain ⟨hx, hz, hy, -⟩ := gridIndex_of_index i (by rw [h100]; exact hi)
      obtain ⟨P, hP, eP⟩ := hidx i hi
      obtain ⟨Q, hQ, eQ⟩ := hidx (100 - 1 - i) (by omega)
      obtain ⟨fx, fz, fy, fy2⟩ := updateTranslation_reflect s yOffset _ _ _ hx hz hy
      have c1 : LIGHT_GRID_WIDTH - 1 - i / 20 = (100 - 1 - i) / 20 := by
        unfold LIGHT_GRID_WIDTH; omega
      have c2 : LIGHT_GRID_WIDTH - 1 - i / 4 % 5 = (100 - 1 - i) / 4 % 5 := by
        unfold LIGHT_GRID_WIDTH; omega
      have c3 : LIGHT_GRID_HEIGHT - 1 - i % 4 = (100 - 1 - i) % 4 := by
        unfold LIGHT_GRID_HEIGHT; omega
      rw [c1, c2, c3, eQ, eP] at fx fz
      rw [c1, c2, c3, eQ] at fy2
      rw [eP] at fy
      simp only [FloatVal.neg, FloatVal.finite.injEq] at fx fz
      subst es eo
      exact ⟨P, Q, hP, hQ, fx, fz,
        reflected_sum_near _ sv ov P.y Q.y (height_coord_le _ hy) fy.symm fy2.symm⟩
    refine ⟨?_, ?_, ?_⟩
    · rw [mul_zero]
      apply sum_reflect_zero
      intro i hi
      rw [List.length_map, hlen] at hi ⊢
      obtain ⟨P, Q, hP, hQ, ex, -, -⟩ := hpair i hi
      rw [List.getElem?_map, List.getElem?_map, hP, hQ]
      exact ex
    · rw [mul_zero]
      apply sum_reflect_zero
      intro i hi
      rw [List.length_map, hlen] at hi ⊢
      obtain ⟨P, Q, hP, hQ, -, ez, -⟩ := hpair i hi
      rw [List.getElem?_map, List.getElem?_map, hP, hQ]
      exact ez
    · have h := sum_reflect_near (ps.map Point.y) ov
        (1 / 2 ^ 23 * |ov| + 1 / 2 ^ 21 * |sv| + 1 / 2 ^ 148) (by
          intro i hi
          rw [List.length_map, hlen] at hi ⊢
          obtain ⟨P, Q, hP, hQ, -, -, ey⟩ := hpair i hi
          rw [List.getElem?_map, List.getElem?_map, hP, hQ]
          exact ey)
      rw [List.length_map, hlen] at h
      rw [h100]
      exact h

/-- C30 witness: the grid generated in the run `jitterRun`, updated with separation 1,
yOffset 1.205f and radius 2: the x and z translations of the cells `(0, 0, 0)` and
`(W-1, W-1, H-1)` are negatives of each other. -/
theorem C30_grid_centred_witness :
    (FloatVal.finite 1).lt (FloatVal.finite 0) = false ∧
    ∃ m r : Mat4,
      (updatePointLights 7
        (configurePointLights jitterRun ⟨[], []⟩ (FloatVal.finite 1) (FloatVal.finite 1)
          (FloatVal.finite 0))
        (GLContext.fresh 8) (FloatVal.finite 1) (FloatVal.finite (10108273 / 8388608))
        (FloatVal.finite 2)).st.modelMatrices[
          gridIndex LIGHT_GRID_WIDTH LIGHT_GRID_HEIGHT 0 0 0]? = some m ∧
      (updatePointLights 7
        (configurePointLights jitterRun ⟨[], []⟩ (FloatVal.finite 1) (FloatVal.finite 1)
          (FloatVal.finite 0))
        (GLContext.fresh 8) (FloatVal.finite 1) (FloatVal.finite (10108273 / 8388608))
        (FloatVal.finite 2)).st.modelMatrices[
          gridIndex LIGHT_GRID_WIDTH LIGHT_GRID_HEIGHT (LIGHT_GRID_WIDTH - 1 - 0)
            (LIGHT_GRID_WIDTH - 1 - 0) (LIGHT_GRID_HEIGHT - 1 - 0)]? = some r ∧
      r.c3.x = m.c3.x.neg ∧ r.c3.z = m.c3.z.neg := by
  obtain ⟨m, r, hm, hr, ex, ez, -⟩ := (C30_grid_centred 7
    (configurePointLights jitterRun ⟨[], []⟩ (FloatVal.finite 1) (FloatVal.finite 1)
      (FloatVal.finite 0))
    (GLContext.fresh 8) (FloatVal.finite 1) (FloatVal.finite (10108273 / 8388608))
    (FloatVal.finite 2) (by norm_num [FloatVal.lt])
    (Nat.le_of_eq (configureLoops_spec jitterRun _ _ _).1.symm)
    (Nat.le_of_eq (configureLoops_spec jitterRun _ _ _).2.1.symm)).2.1 0 0 0
    (by decide) (by decide) (by decide)
  exact ⟨by norm_num [FloatVal.lt], m, r, hm, hr, ex, ez⟩

/-! ## The transforms `configurePointLights` generates -/

/-- A `float` result that is finite is held exactly by the format. -/
theorem add_represents (a b : FloatVal) (v : ℚ) (h : binary32.add a b = FloatVal.finite v) :
    binary32.round v = FloatVal.finite v := by
  obtain ⟨x, y, -, -, hr⟩ := add_finite binary32 a b v h
  exact round_represents binary32 (by decide) _ _ hr

/-- The translation of `glm::translate(glm::mat4(1.0f), v)` is `v`, when it is finite and
the components of `v` are values of type `float`. -/
theorem translate_identity_inv (v : Vec3)
    (hx : ∀ q, v.x = FloatVal.finite q → binary32.round q = FloatVal.finite q)
    (hy : ∀ q, v.y = FloatVal.finite q → binary32.round q = FloatVal.finite q)
    (hz : ∀ q, v.z = FloatVal.finite q → binary32.round q = FloatVal.finite q)
    (P : Point) (h : (translate Mat4.identity v).translation = some P) :
    v.x = FloatVal.finite P.x ∧ v.y = FloatVal.finite P.y ∧ v.z = FloatVal.finite P.z := by
  obtain ⟨tx, ty, tz⟩ := translation_some _ P h
  have tx2 : binary32.add (binary32.add (binary32.add
      (binary32.mul (FloatVal.finite 1) v.x) (binary32.mul (FloatVal.finite 0) v.y))
      (binary32.mul (FloatVal.finite 0) v.z)) (FloatVal.finite 0) = FloatVal.finite P.x := tx
  have ty2 : binary32.add (binary32.add (binary32.add
      (binary32.mul (FloatVal.finite 0) v.x) (binary32.mul (FloatVal.finite 1) v.y))
      (binary32.mul (FloatVal.finite 0) v.z)) (FloatVal.finite 0) = FloatVal.finite P.y := ty
  have tz2 : binary32.add (binary32.add (binary32.add
      (binary32.mul (FloatVal.finite 0) v.x) (binary32.mul (FloatVal.finite 0) v.y))
      (binary32.mul (FloatVal.finite 1) v.z)) (FloatVal.finite 0) = FloatVal.finite P.z := tz
  obtain ⟨s1, -, e1, -, -⟩ := add_finite binary32 _ _ _ tx2
  obtain ⟨s2, s3, e2, e3, -⟩ := add_finite binary32 _ _ _ e1
  obtain ⟨s4, s5, e4, e5, -⟩ := add_finite binary32 _ _ _ e2
  obtain ⟨-, a, -, ea, -⟩ := mul_finite binary32 _ _ _ e4
  obtain ⟨-, b, -, eb, -⟩ := mul_finite binary32 _ _ _ e5
  obtain ⟨-, c, -, ec, -⟩ := mul_finite binary32 _ _ _ e3
  have ra := hx a ea
  have rb := hy b eb
  have rc := hz c ec
  rw [ea, eb, ec] at tx2 ty2 tz2
  simp only [FloatFormat.mul, FloatFormat.add, one_mul, zero_mul, add_zero, zero_add,
    round_zero, ra, rb, rc, FloatVal.finite.injEq] at tx2 ty2 tz2
  rw [ea, eb, ec, tx2, ty2, tz2]
  exact ⟨rfl, rfl, rfl⟩

/-- The translation of `glm::translate(glm::mat4(1.0f), v)` for finite `float` components. -/
theorem translate_identity_eval (a b c : ℚ) (ra : binary32.round a = FloatVal.finite a)
    (rb : binary32.round b = FloatVal.finite b) (rc : binary32.round c = FloatVal.finite c) :
    (translate Mat4.identity
      ⟨FloatVal.finite a, FloatVal.finite b, FloatVal.finite c⟩).translation =
        some ⟨a, b, c⟩ := by
  simp only [translate, Mat4.identity, Vec4.add, Vec4.scale, Mat4.translation,
    FloatFormat.mul, FloatFormat.add, one_mul, zero_mul, add_zero, zero_add, mul_one, mul_zero,
    round_zero, ra, rb, rc]

/-- The `float` coordinates of the light `configurePointLights` places in a cell, when the
translation of its transform is finite. -/
theorem cellModel_translation (C : CLib) (radius separation yOffset : FloatVal)
    (x z y k : Nat) (P : Point)
    (h : (cellModel C radius separation yOffset x z y k).translation = some P) :
    binary32.add (binary32.mul (gridCoord LIGHT_GRID_WIDTH x)
      (binary32.mul (binary32.mul (FloatVal.finite 2) radius) separation)) (xOffset C k) =
        FloatVal.finite P.x ∧
    binary32.add (binary32.mul (gridCoord LIGHT_GRID_HEIGHT y)
      (binary32.mul (binary32.mul (FloatVal.finite 2) radius) separation)) yOffset =
        FloatVal.finite P.y ∧
    binary32.add (binary32.mul (gridCoord LIGHT_GRID_WIDTH z)
      (binary32.mul (binary32.mul (FloatVal.finite 2) radius) separation)) (zOffset C k) =
        FloatVal.finite P.z := by
  unfold cellModel at h
  exact translate_identity_inv _ (fun q e => add_represents _ _ q e)
    (fun q e => add_represents _ _ q e) (fun q e => add_represents _ _ q e) P h

/-- The transform `configurePointLights` builds for a cell whose three `float` coordinates
are finite. -/
theorem cellModel_eval (C : CLib) (radius separation yOffset : FloatVal)
    (x z y k : Nat) (a b c : ℚ)
    (hx : binary32.add (binary32.mul (gridCoord LIGHT_GRID_WIDTH x)
      (binary32.mul (binary32.mul (FloatVal.finite 2) radius) separation)) (xOffset C k) =
        FloatVal.finite a)
    (hy : binary32.add (binary32.mul (gridCoord LIGHT_GRID_HEIGHT y)
      (binary32.mul (binary32.mul (FloatVal.finite 2) radius) separation)) yOffset =
        FloatVal.finite b)
    (hz : binary32.add (binary32.mul (gridCoord LIGHT_GRID_WIDTH z)
      (binary32.mul (binary32.mul (FloatVal.finite 2) radius) separation)) (zOffset C k) =
        FloatVal.finite c) :
    (cellModel C radius separation yOffset x z y k).translation = some ⟨a, b, c⟩ := by
  unfold cellModel
  simp only [hx, hy, hz]
  exact translate_identity_eval a b c (add_represents _ _ a hx) (add_represents _ _ b hy)
    (add_represents _ _ c hz)

theorem generatedTranslation_eq (C : CLib) (radius separation yOffset : FloatVal)
    (x z y : Nat) (hx : x < LIGHT_GRID_WIDTH) (hz : z < LIGHT_GRID_WIDTH)
    (hy : y < LIGHT_GRID_HEIGHT) :
    generatedTranslation C radius separation yOffset x z y =
      (cellModel C radius separation yOffset x z y
        (5 * gridIndex LIGHT_GRID_WIDTH LIGHT_GRID_HEIGHT x z y)).translation := by
  unfold generatedTranslation
  rw [((configureLoops_spec C radius separation yOffset).2.2 x z y hx hz hy).1]
  rfl

/-- One coordinate `c * (2*r*s) + w` of a generated light, computed in `float`, against the
exact one. -/
theorem spaced_coord_near (c rv sv v : ℚ) (W : FloatVal) (hc : |c| ≤ 2)
    (h : binary32.add (binary32.mul (FloatVal.finite c)
      (binary32.mul (binary32.mul (FloatVal.finite 2) (FloatVal.finite rv))
        (FloatVal.finite sv))) W = FloatVal.finite v) :
    ∃ w : ℚ, W = FloatVal.finite w ∧
      |v - (c * (2 * rv * sv) + w)| ≤
        1 / 2 ^ 19 * |rv * sv| + 1 / 2 ^ 24 * |w| + 1 / 2 ^ 148 * |sv| + 1 / 2 ^ 147 := by
  obtain ⟨p, w, ep, ew, hv⟩ := add_finite binary32 _ _ _ h
  obtain ⟨a, b, ea, eb, hr⟩ := mul_finite binary32 _ _ _ ep
  injection ea with ea
  subst ea
  obtain ⟨d, s2, ed, es, hk⟩ := mul_finite binary32 _ _ _ eb
  injection es with es
  subst es
  have hd : binary32.round (2 * rv) = FloatVal.finite d := ed
  have e0 := round_err binary32 _ _ hd
  rw [binary32_unitRoundoff, binary32_halfMin] at e0
  have hd2 : |d - 2 * rv| ≤ 1 / 2 ^ 24 * |2 * rv| + 1 / 2 ^ 150 := by linarith
  have h1 := spaced_add_near c d (2 * rv) sv (1 / 2 ^ 24) (1 / 2 ^ 150) b p w v hc
    (le_refl _) (by norm_num) hd2 hk hr hv
  refine ⟨w, ew, ?_⟩
  have hX : |c * (2 * rv * sv)| ≤ 4 * |rv * sv| := by
    have e : c * (2 * rv * sv) = c * 2 * (rv * sv) := by ring
    rw [e, abs_mul, abs_mul, abs_of_pos (by norm_num : (0 : ℚ) < 2)]
    have := mul_le_mul_of_nonneg_right hc (abs_nonneg (rv * sv))
    linarith
  have hs := abs_nonneg sv
  norm_num at h1 ⊢
  linarith

/-- The coordinates of a generated light against the spaced position plus its jitter. -/
theorem generated_near (C : CLib) (rv sv ov : ℚ) (x z y : Nat)
    (hx : x < LIGHT_GRID_WIDTH) (hz : z < LIGHT_GRID_WIDTH) (hy : y < LIGHT_GRID_HEIGHT)
    (P : Point)
    (h : generatedTranslation C (FloatVal.finite rv) (FloatVal.finite sv) (FloatVal.finite ov)
      x z y = some P) :
    ∃ jx jz : ℚ,
      xOffset C (5 * gridIndex LIGHT_GRID_WIDTH LIGHT_GRID_HEIGHT x z y) = FloatVal.finite jx ∧
      zOffset C (5 * gridIndex LIGHT_GRID_WIDTH LIGHT_GRID_HEIGHT x z y) = FloatVal.finite jz ∧
      |P.x - (((x : ℚ) - 2) * (2 * rv * sv) + jx)| ≤
        1 / 2 ^ 19 * |rv * sv| + 1 / 2 ^ 24 * |jx| + 1 / 2 ^ 148 * |sv| + 1 / 2 ^ 147 ∧
      |P.y - (((y : ℚ) - 3 / 2) * (2 * rv * sv) + ov)| ≤
        1 / 2 ^ 19 * |rv * sv| + 1 / 2 ^ 24 * |ov| + 1 / 2 ^ 148 * |sv| + 1 / 2 ^ 147 ∧
      |P.z - (((z : ℚ) - 2) * (2 * rv * sv) + jz)| ≤
        1 / 2 ^ 19 * |rv * sv| + 1 / 2 ^ 24 * |jz| + 1 / 2 ^ 148 * |sv| + 1 / 2 ^ 147 := by
  rw [generatedTranslation_eq C _ _ _ x z y hx hz hy] at h
  obtain ⟨tx, ty, tz⟩ := cellModel_translation C _ _ _ x z y _ P h
  rw [gridCoord_width x hx] at tx
  rw [gridCoord_height y hy] at ty
  rw [gridCoord_width z hz] at tz
  obtain ⟨jx, ejx, bx⟩ := spaced_coord_near _ rv sv P.x _ (width_coord_le x hx) tx
  obtain ⟨o2, eo, by2⟩ := spaced_coord_near _ rv sv P.y _ (height_coord_le y hy) ty
  obtain ⟨jz, ejz, bz⟩ := spaced_coord_near _ rv sv P.z _ (width_coord_le z hz) tz
  injection eo with eo
  subst eo
  exact ⟨jx, jz, ejx, ejz, bx, by2, bz⟩

/-! ## Distances of neighbours -/

theorem sqrt_three_bounds (a b c : ℝ) :
    |a| ≤ Real.sqrt (a ^ 2 + b ^ 2 + c ^ 2) ∧ |b| ≤ Real.sqrt (a ^ 2 + b ^ 2 + c ^ 2) ∧
    |c| ≤ Real.sqrt (a ^ 2 + b ^ 2 + c ^ 2) ∧
    Real.sqrt (a ^ 2 + b ^ 2 + c ^ 2) ≤ |a| + |b| + |c| := by
  have ha := sq_nonneg a
  have hb := sq_nonneg b
  have hc := sq_nonneg c
  refine ⟨Real.abs_le_sqrt (by linarith), Real.abs_le_sqrt (by linarith),
    Real.abs_le_sqrt (by linarith), ?_⟩
  rw [Real.sqrt_le_left (by positivity)]
  have h1 := abs_nonneg a
  have h2 := abs_nonneg b
  have h3 := abs_nonneg c
  have e : (|a| + |b| + |c|) ^ 2 =
      a ^ 2 + b ^ 2 + c ^ 2 + 2 * (|a| * |b| + |a| * |c| + |b| * |c|) := by
    have ea := sq_abs a
    have eb := sq_abs b
    have ec := sq_abs c
    nlinarith
  rw [e]
  have := mul_nonneg h1 h2
  have := mul_nonneg h1 h3
  have := mul_nonneg h2 h3
  linarith

/-- The distance of two points whose difference is a step `S` along one axis, up to a jitter
`(Jx, 0, Jz)` and errors `Ex`, `Ey`, `Ez`. -/
theorem dist_near (P Q : Point) (gx gy gz S Jx Jz Ex Ey Ez : ℚ)
    (hg : (|gx| = 1 ∧ gy = 0 ∧ gz = 0) ∨ (gx = 0 ∧ |gy| = 1 ∧ gz = 0) ∨
      (gx = 0 ∧ gy = 0 ∧ |gz| = 1))
    (hx : |Q.x - P.x - (gx * S + Jx)| ≤ Ex) (hy : |Q.y - P.y - gy * S| ≤ Ey)
    (hz : |Q.z - P.z - (gz * S + Jz)| ≤ Ez) :
    |Real.sqrt ((P.distSq Q : ℚ) : ℝ) - ((|S| : ℚ) : ℝ)| ≤
      ((|Jx| + |Jz| + (Ex + Ey + Ez) : ℚ) : ℝ) := by
  have hd : ((P.distSq Q : ℚ) : ℝ) =
      ((Q.x - P.x : ℚ) : ℝ) ^ 2 + ((Q.y - P.y : ℚ) : ℝ) ^ 2 + ((Q.z - P.z : ℚ) : ℝ) ^ 2 := by
    unfold Point.distSq
    push_cast
    ring
  obtain ⟨b1, b2, b3, b4⟩ := sqrt_three_bounds ((Q.x - P.x : ℚ) : ℝ) ((Q.y - P.y : ℚ) : ℝ)
    ((Q.z - P.z : ℚ) : ℝ)
  rw [← hd] at b1 b2 b3 b4
  rw [← Rat.cast_abs] at b1 b2 b3 b4
  have hEx : 0 ≤ Ex := le_trans (abs_nonneg _) hx
  have hEy : 0 ≤ Ey := le_trans (abs_nonneg _) hy
  have hEz : 0 ≤ Ez := le_trans (abs_nonneg _) hz
  have hJx := abs_nonneg Jx
  have hJz := abs_nonneg Jz
  -- the three differences against their targets, in the rationals
  have ux : |Q.x - P.x| ≤ |gx * S| + |Jx| + Ex := by
    have : Q.x - P.x = (Q.x - P.x - (gx * S + Jx)) + (gx * S + Jx) := by ring
    rw [this]
    exact le_trans (abs_add _ _) (by linarith [abs_add (gx * S) Jx])
  have uy : |Q.y - P.y| ≤ |gy * S| + Ey := by
    have : Q.y - P.y = (Q.y - P.y - gy * S) + gy * S := by ring
    rw [this]
    exact le_trans (abs_add _ _) (by linarith)
  have uz : |Q.z - P.z| ≤ |gz * S| + |Jz| + Ez := by
    have : Q.z - P.z = (Q.z - P.z - (gz * S + Jz)) + (gz * S + Jz) := by ring
    rw [this]
    exact le_trans (abs_add _ _) (by linarith [abs_add (gz * S) Jz])
  have lx : |gx * S| - |Jx| - Ex ≤ |Q.x - P.x| := by
    have : gx * S = (Q.x - P.x) + (-(Q.x - P.x - (gx * S + Jx)) + -Jx) := by ring
    have h1 := abs_add (Q.x - P.x) (-(Q.x - P.x - (gx * S + Jx)) + -Jx)
    have h2 := abs_add (-(Q.x - P.x - (gx * S + Jx))) (-Jx)
    rw [← this] at h1
    rw [abs_neg, abs_neg] at h2
    linarith
  have ly : |gy * S| - Ey ≤ |Q.y - P.y| := by
    have : gy * S = (Q.y - P.y) + -(Q.y - P.y - gy * S) := by ring
    have h1 := abs_add (Q.y - P.y) (-(Q.y - P.y - gy * S))
    rw [← this, abs_neg] at h1
    linarith
  have lz : |gz * S| - |Jz| - Ez ≤ |Q.z - P.z| := by
    have : gz * S = (Q.z - P.z) + (-(Q.z - P.z - (gz * S + Jz)) + -Jz) := by ring
    have h1 := abs_add (Q.z - P.z) (-(Q.z - P.z - (gz * S + Jz)) + -Jz)
    have h2 := abs_add (-(Q.z - P.z - (gz * S + Jz))) (-Jz)
    rw [← this] at h1
    rw [abs_neg, abs_neg] at h2
    linarith
  have hsum : |gx * S| + |gy * S| + |gz * S| = |S| := by
    rcases hg with ⟨h1, h2, h3⟩ | ⟨h1, h2, h3⟩ | ⟨h1, h2, h3⟩
    · rw [abs_mul, h1, h2, h3]; simp
    · rw [abs_mul gy, h1, h2, h3]; simp
    · rw [abs_mul gz, h1, h2, h3]; simp
  have hup : |Q.x - P.x| + |Q.y - P.y| + |Q.z - P.z| ≤ |S| + (|Jx| + |Jz| + (Ex + Ey + Ez)) := by
    linarith
  have hlo : |S| - (|Jx| + |Jz| + (Ex + Ey + Ez)) ≤
      max |Q.x - P.x| (max |Q.y - P.y| |Q.z - P.z|) := by
    rcases hg with ⟨h1, h2, h3⟩ | ⟨h1, h2, h3⟩ | ⟨h1, h2, h3⟩
    · have e : |gx * S| = |S| := by rw [abs_mul, h1, one_mul]
      rw [e] at lx
      exact le_trans (by linarith) (le_max_left _ _)
    · have e : |gy * S| = |S| := by rw [abs_mul, h2, one_mul]
      rw [e] at ly
      exact le_trans (by linarith) (le_trans (le_max_left _ _) (le_max_right _ _))
    · have e : |gz * S| = |S| := by rw [abs_mul, h3, one_mul]
      rw [e] at lz
      exact le_trans (by linarith) (le_trans (le_max_right _ _) (le_max_right _ _))
  have hmax : ((max |Q.x - P.x| (max |Q.y - P.y| |Q.z - P.z|) : ℚ) : ℝ) ≤
      Real.sqrt ((P.distSq Q : ℚ) : ℝ) := by
    rw [Rat.cast_max, Rat.cast_max]
    exact max_le b1 (max_le b2 b3)
  have hup2 : Real.sqrt ((P.distSq Q : ℚ) : ℝ) ≤
      ((|S| + (|Jx| + |Jz| + (Ex + Ey + Ez)) : ℚ) : ℝ) := by
    refine le_trans b4 ?_
    have : (((|Q.x - P.x| + |Q.y - P.y| + |Q.z - P.z| : ℚ)) : ℝ) ≤
        ((|S| + (|Jx| + |Jz| + (Ex + Ey + Ez)) : ℚ) : ℝ) := by exact_mod_cast hup
    push_cast at this ⊢
    linarith
  have hlo2 : ((|S| - (|Jx| + |Jz| + (Ex + Ey + Ez)) : ℚ) : ℝ) ≤
      Real.sqrt ((P.distSq Q : ℚ) : ℝ) :=
    le_trans (by exact_mod_cast hlo) hmax
  rw [abs_le]
  push_cast at hup2 hlo2 ⊢
  constructor <;> linarith

theorem axisAdjacent_step (x z y x2 z2 y2 : Nat) (h : axisAdjacent x z y x2 z2 y2) :
    (|(x2 : ℚ) - x| = 1 ∧ (y2 : ℚ) - y = 0 ∧ (z2 : ℚ) - z = 0) ∨
    ((x2 : ℚ) - x = 0 ∧ |(y2 : ℚ) - y| = 1 ∧ (z2 : ℚ) - z = 0) ∨
    ((x2 : ℚ) - x = 0 ∧ (y2 : ℚ) - y = 0 ∧ |(z2 : ℚ) - z| = 1) := by
  unfold axisAdjacent at h
  rcases h with ⟨h1 | h1, h2, h3⟩ | ⟨h1, h2 | h2, h3⟩ | ⟨h1, h2, h3 | h3⟩ <;>
    subst h1 h2 h3 <;> push_cast <;> norm_num

/-- The distance of two generated lights in axis-adjacent cells is `|2*r*s|` up to the
difference of their jitter and the rounding margin. -/
theorem generated_distance_near (C : CLib) (rv sv ov : ℚ) (x z y x2 z2 y2 : Nat)
    (hx : x < LIGHT_GRID_WIDTH) (hz : z < LIGHT_GRID_WIDTH) (hy : y < LIGHT_GRID_HEIGHT)
    (hx2 : x2 < LIGHT_GRID_WIDTH) (hz2 : z2 < LIGHT_GRID_WIDTH) (hy2 : y2 < LIGHT_GRID_HEIGHT)
    (hadj : axisAdjacent x z y x2 z2 y2) (P Q : Point)
    (hP : generatedTranslation C (FloatVal.finite rv) (FloatVal.finite sv) (FloatVal.finite ov)
      x z y = some P)
    (hQ : generatedTranslation C (FloatVal.finite rv) (FloatVal.finite sv) (FloatVal.finite ov)
      x2 z2 y2 = some Q)
    (jx jz jx2 jz2 : ℚ)
    (e1 : xOffset C (5 * gridIndex LIGHT_GRID_WIDTH LIGHT_GRID_HEIGHT x z y) =
      FloatVal.finite jx)
    (e2 : zOffset C (5 * gridIndex LIGHT_GRID_WIDTH LIGHT_GRID_HEIGHT x z y) =
      FloatVal.finite jz)
    (e3 : xOffset C (5 * gridIndex LIGHT_GRID_WIDTH LIGHT_GRID_HEIGHT x2 z2 y2) =
      FloatVal.finite jx2)
    (e4 : zOffset C (5 * gridIndex LIGHT_GRID_WIDTH LIGHT_GRID_HEIGHT x2 z2 y2) =
      FloatVal.finite jz2) :
    |Real.sqrt ((P.distSq Q : ℚ) : ℝ) - ((|2 * rv * sv| : ℚ) : ℝ)| ≤
      ((|jx2 - jx| + |jz2 - jz| +
        spacingMargin rv sv ov (|jx| + |jx2| + |jz| + |jz2|) : ℚ) : ℝ) := by
  obtain ⟨a1, a2, f1, f2, px, py, pz⟩ := generated_near C rv sv ov x z y hx hz hy P hP
  obtain ⟨a3, a4, f3, f4, qx, qy, qz⟩ := generated_near C rv sv ov x2 z2 y2 hx2 hz2 hy2 Q hQ
  rw [e1] at f1
  rw [e2] at f2
  rw [e3] at f3
  rw [e4] at f4
  injection f1 with f1
  injection f2 with f2
  injection f3 with f3
  injection f4 with f4
  subst f1 f2 f3 f4
  have hxx : |Q.x - P.x - (((x2 : ℚ) - x) * (2 * rv * sv) + (jx2 - jx))| ≤
      (1 / 2 ^ 19 * |rv * sv| + 1 / 2 ^ 24 * |jx2| + 1 / 2 ^ 148 * |sv| + 1 / 2 ^ 147) +
      (1 / 2 ^ 19 * |rv * sv| + 1 / 2 ^ 24 * |jx| + 1 / 2 ^ 148 * |sv| + 1 / 2 ^ 147) := by
    have : Q.x - P.x - (((x2 : ℚ) - x) * (2 * rv * sv) + (jx2 - jx)) =
        (Q.x - (((x2 : ℚ) - 2) * (2 * rv * sv) + jx2)) +
          -(P.x - (((x : ℚ) - 2) * (2 * rv * sv) + jx)) := by ring
    rw [this]
    have h := abs_add (Q.x - (((x2 : ℚ) - 2) * (2 * rv * sv) + jx2))
      (-(P.x - (((x : ℚ) - 2) * (2 * rv * sv) + jx)))
    rw [abs_neg] at h
    linarith
  have hyy : |Q.y - P.y - ((y2 : ℚ) - y) * (2 * rv * sv)| ≤
      (1 / 2 ^ 19 * |rv * sv| + 1 / 2 ^ 24 * |ov| + 1 / 2 ^ 148 * |sv| + 1 / 2 ^ 147) +
      (1 / 2 ^ 19 * |rv * sv| + 1 / 2 ^ 24 * |ov| + 1 / 2 ^ 148 * |sv| + 1 / 2 ^ 147) := by
    have : Q.y - P.y - ((y2 : ℚ) - y) * (2 * rv * sv) =
        (Q.y - (((y2 : ℚ) - 3 / 2) * (2 * rv * sv) + ov)) +
          -(P.y - (((y : ℚ) - 3 / 2) * (2 * rv * sv) + ov)) := by ring
    rw [this]
    have h := abs_add (Q.y - (((y2 : ℚ) - 3 / 2) * (2 * rv * sv) + ov))
      (-(P.y - (((y : ℚ) - 3 / 2) * (2 * rv * sv) + ov)))
    rw [abs_neg] at h
    linarith
  have hzz : |Q.z - P.z - (((z2 : ℚ) - z) * (2 * rv * sv) + (jz2 - jz))| ≤
      (1 / 2 ^ 19 * |rv * sv| + 1 / 2 ^ 24 * |jz2| + 1 / 2 ^ 148 * |sv| + 1 / 2 ^ 147) +
      (1 / 2 ^ 19 * |rv * sv| + 1 / 2 ^ 24 * |jz| + 1 / 2 ^ 148 * |sv| + 1 / 2 ^ 147) := by
    have : Q.z - P.z - (((z2 : ℚ) - z) * (2 * rv * sv) + (jz2 - jz)) =
        (Q.z - (((z2 : ℚ) - 2) * (2 * rv * sv) + jz2)) +
          -(P.z - (((z : ℚ) - 2) * (2 * rv * sv) + jz)) := by ring
    rw [this]
    have h := abs_add (Q.z - (((z2 : ℚ) - 2) * (2 * rv * sv) + jz2))
      (-(P.z - (((z : ℚ) - 2) * (2 * rv * sv) + jz)))
    rw [abs_neg] at h
    linarith
  have hg := axisAdjacent_step x z y x2 z2 y2 hadj
  have hg2 : (|(x2 : ℚ) - x| = 1 ∧ (y2 : ℚ) - y = 0 ∧ (z2 : ℚ) - z = 0) ∨
      ((x2 : ℚ) - x = 0 ∧ |(y2 : ℚ) - y| = 1 ∧ (z2 : ℚ) - z = 0) ∨
      ((x2 : ℚ) - x = 0 ∧ (y2 : ℚ) - y = 0 ∧ |(z2 : ℚ) - z| = 1) := hg
  have h := dist_near P Q ((x2 : ℚ) - x) ((y2 : ℚ) - y) ((z2 : ℚ) - z) (2 * rv * sv)
    (jx2 - jx) (jz2 - jz) _ _ _ hg2 hxx hyy hzz
  refine le_trans h ?_
  have hm : |jx2 - jx| + |jz2 - jz| +
      ((1 / 2 ^ 19 * |rv * sv| + 1 / 2 ^ 24 * |jx2| + 1 / 2 ^ 148 * |sv| + 1 / 2 ^ 147 +
        (1 / 2 ^ 19 * |rv * sv| + 1 / 2 ^ 24 * |jx| + 1 / 2 ^ 148 * |sv| + 1 / 2 ^ 147)) +
       (1 / 2 ^ 19 * |rv * sv| + 1 / 2 ^ 24 * |ov| + 1 / 2 ^ 148 * |sv| + 1 / 2 ^ 147 +
        (1 / 2 ^ 19 * |rv * sv| + 1 / 2 ^ 24 * |ov| + 1 / 2 ^ 148 * |sv| + 1 / 2 ^ 147)) +
       (1 / 2 ^ 19 * |rv * sv| + 1 / 2 ^ 24 * |jz2| + 1 / 2 ^ 148 * |sv| + 1 / 2 ^ 147 +
        (1 / 2 ^ 19 * |rv * sv| + 1 / 2 ^ 24 * |jz| + 1 / 2 ^ 148 * |sv| + 1 / 2 ^ 147))) ≤
      |jx2 - jx| + |jz2 - jz| + spacingMargin rv sv ov (|jx| + |jx2| + |jz| + |jz2|) := by
    unfold spacingMargin
    have h1 := abs_nonneg (rv * sv)
    have h2 := abs_nonneg sv
    norm_num
    linarith
  exact_mod_cast hm

/-! ## The run `jitterRun` -/

/-- Rounding of a number the `float` format holds: `q = m / 2^k` with `|m| < 2^24`. -/
theorem round32_v (q v : ℚ) (m : Int) (k : Nat) (hq : q = (m : ℚ) / 2 ^ k) (hv : v = q)
    (h1 : -(2 ^ 24) < (m : ℚ)) (h2 : (m : ℚ) < 2 ^ 24) (hk : k ≤ 149) :
    binary32.round q = FloatVal.finite v := by
  rw [hv, hq]
  exact round32_dyadic m k (abs_lt.mpr ⟨h1, h2⟩) hk

/-- Rounding of a number the `double` format holds: `q = m / 2^k` with `|m| < 2^53`. -/
theorem round64_v (q v : ℚ) (m : Int) (k : Nat) (hq : q = (m : ℚ) / 2 ^ k) (hv : v = q)
    (h1 : -(2 ^ 53) < (m : ℚ)) (h2 : (m : ℚ) < 2 ^ 53) (hk : k ≤ 1074) :
    binary64.round q = FloatVal.finite v := by
  rw [hv, hq]
  exact round64_dyadic m k (abs_lt.mpr ⟨h1, h2⟩) hk

theorem jitterRun_rand_max : binary64.ofNat jitterRun.RAND_MAX = FloatVal.finite 32767 := by
  show binary64.round ((32767 : Nat) : ℚ) = FloatVal.finite 32767
  exact round64_v _ _ 32767 0 (by norm_num) (by norm_num) (by norm_num) (by norm_num)
    (by norm_num)

theorem jitterRun_rand_zero (k : Nat) (hk : k ≠ 1) : jitterRun.rand k = 0 := by
  show (if k = 1 then 32767 else 0) = 0
  rw [if_neg hk]

theorem jitterRun_length_zero (k : Nat) (hk : k ≠ 0) :
    binary64.div (binary64.mul (binary64.ofNat (jitterRun.rand (k + 1)))
      (FloatVal.finite (1 / 2))) (binary64.ofNat jitterRun.RAND_MAX) = FloatVal.finite 0 := by
  rw [jitterRun_rand_zero (k + 1) (by omega), jitterRun_rand_max, ofNat_zero, mul_fin,
    zero_mul, round_zero, div_fin _ _ _ (by norm_num), zero_div, round_zero]

theorem jitterRun_angle_zero (k : Nat) (hk : k ≠ 1) :
    binary64.div (binary64.mul (binary64.mul (binary64.ofNat (jitterRun.rand k))
      (FloatVal.finite 2)) jitterRun.pi) (binary64.ofNat jitterRun.RAND_MAX) =
        FloatVal.finite 0 := by
  have hp : jitterRun.pi = FloatVal.finite (13176795 / 4194304) := rfl
  rw [jitterRun_rand_zero k hk, jitterRun_rand_max, ofNat_zero, hp, mul_fin, zero_mul,
    round_zero, mul_fin, zero_mul, round_zero, div_fin _ _ _ (by norm_num), zero_div,
    round_zero]

theorem jitterRun_cos_zero : jitterRun.cos (FloatVal.finite 0) = FloatVal.finite 1 := by
  show binary64.round (1 - 0 * 0 / 2) = FloatVal.finite 1
  exact round64_v _ _ 1 0 (by norm_num) (by norm_num) (by norm_num) (by norm_num) (by norm_num)

theorem jitterRun_sin_zero : jitterRun.sin (FloatVal.finite 0) = FloatVal.finite 0 := by
  show binary64.round 0 = FloatVal.finite 0
  exact round_zero _

/-- In the run `jitterRun` a light whose first `rand()` call has a number from 2 on carries
no jitter. -/
theorem jitterRun_offsets_zero (k : Nat) (hk : 2 ≤ k) :
    xOffset jitterRun k = FloatVal.finite 0 ∧ zOffset jitterRun k = FloatVal.finite 0 := by
  unfold xOffset zOffset
  simp only
  rw [jitterRun_angle_zero k (by omega), jitterRun_length_zero k (by omega),
    jitterRun_cos_zero, jitterRun_sin_zero]
  simp only [mul_fin, cast_fin, mul_zero, round_zero, and_self]

/-- In the run `jitterRun` the first light is moved by `xOffset = 1/2`. -/
theorem jitterRun_offsets_first :
    xOffset jitterRun 0 = FloatVal.finite (1 / 2) ∧ zOffset jitterRun 0 = FloatVal.finite 0 := by
  have hl : binary64.div (binary64.mul (binary64.ofNat (jitterRun.rand (0 + 1)))
      (FloatVal.finite (1 / 2))) (binary64.ofNat jitterRun.RAND_MAX) =
        FloatVal.finite (1 / 2) := by
    have hr : binary64.ofNat (jitterRun.rand (0 + 1)) = FloatVal.finite 32767 :=
      jitterRun_rand_max
    have r2 : binary64.round (32767 * (1 / 2)) = FloatVal.finite (32767 / 2) :=
      round64_v _ _ 32767 1 (by norm_num) (by norm_num) (by norm_num) (by norm_num)
        (by norm_num)
    have r3 : binary64.round (32767 / 2 / 32767) = FloatVal.finite (1 / 2) :=
      round64_v _ _ 1 1 (by norm_num) (by norm_num) (by norm_num) (by norm_num) (by norm_num)
    rw [hr, jitterRun_rand_max, mul_fin, r2, div_fin _ _ _ (by norm_num), r3]
  have r4 : binary64.round (1 * (1 / 2)) = FloatVal.finite (1 / 2) :=
    round64_v _ _ 1 1 (by norm_num) (by norm_num) (by norm_num) (by norm_num) (by norm_num)
  have r5 : binary32.round (1 / 2) = FloatVal.finite (1 / 2) :=
    round32_v _ _ 1 1 (by norm_num) (by norm_num) (by norm_num) (by norm_num) (by norm_num)
  unfold xOffset zOffset
  simp only
  rw [jitterRun_angle_zero 0 (by omega), hl, jitterRun_cos_zero, jitterRun_sin_zero]
  simp only [mul_fin, cast_fin, r4, r5, zero_mul, round_zero, and_self]

/-- One coordinate `c * (2*r*s) + j` computed in `float`, from the four roundings. -/
theorem spaced_value (c r s j d k p v : ℚ) (h1 : binary32.round (2 * r) = FloatVal.finite d)
    (h2 : binary32.round (d * s) = FloatVal.finite k)
    (h3 : binary32.round (c * k) = FloatVal.finite p)
    (h4 : binary32.round (p + j) = FloatVal.finite v) :
    binary32.add (binary32.mul (FloatVal.finite c)
      (binary32.mul (binary32.mul (FloatVal.finite 2) (FloatVal.finite r))
        (FloatVal.finite s))) (FloatVal.finite j) = FloatVal.finite v := by
  rw [mul_fin, h1, mul_fin, h2, mul_fin, h3, add_fin, h4]

/-- The translation read back for a cell, from its three `float` coordinates. -/
theorem generated_eval (C : CLib) (r s o : FloatVal) (x z y : Nat) (jx jz a b c : ℚ)
    (hx : x < LIGHT_GRID_WIDTH) (hz : z < LIGHT_GRID_WIDTH) (hy : y < LIGHT_GRID_HEIGHT)
    (e1 : xOffset C (5 * gridIndex LIGHT_GRID_WIDTH LIGHT_GRID_HEIGHT x z y) =
      FloatVal.finite jx)
    (e2 : zOffset C (5 * gridIndex LIGHT_GRID_WIDTH LIGHT_GRID_HEIGHT x z y) =
      FloatVal.finite jz)
    (tx : binary32.add (binary32.mul (FloatVal.finite ((x : ℚ) - 2))
      (binary32.mul (binary32.mul (FloatVal.finite 2) r) s)) (FloatVal.finite jx) =
        FloatVal.finite a)
    (ty : binary32.add (binary32.mul (FloatVal.finite ((y : ℚ) - 3 / 2))
      (binary32.mul (binary32.mul (FloatVal.finite 2) r) s)) o = FloatVal.finite b)
    (tz : binary32.add (binary32.mul (FloatVal.finite ((z : ℚ) - 2))
      (binary32.mul (binary32.mul (FloatVal.finite 2) r) s)) (FloatVal.finite jz) =
        FloatVal.finite c) :
    generatedTranslation C r s o x z y = some ⟨a, b, c⟩ := by
  rw [generatedTranslation_eq C r s o x z y hx hz hy]
  apply cellModel_eval
  · rw [gridCoord_width x hx, e1]; exact tx
  · rw [gridCoord_height y hy]; exact ty
  · rw [gridCoord_width z hz, e2]; exact tz

/-- The translation generated for a cell is finite when the radius, the separation, the
yOffset and the jitter of the light are finite, of magnitude at most `2^40`. -/
theorem generated_finite (C : CLib) (rv sv ov : ℚ) (x z y : Nat) (jx jz : ℚ)
    (hx : x < LIGHT_GRID_WIDTH) (hz : z < LIGHT_GRID_WIDTH) (hy : y < LIGHT_GRID_HEIGHT)
    (e1 : xOffset C (5 * gridIndex LIGHT_GRID_WIDTH LIGHT_GRID_HEIGHT x z y) =
      FloatVal.finite jx)
    (e2 : zOffset C (5 * gridIndex LIGHT_GRID_WIDTH LIGHT_GRID_HEIGHT x z y) =
      FloatVal.finite jz)
    (br : |rv| ≤ 2 ^ 40) (bs : |sv| ≤ 2 ^ 40) (bo : |ov| ≤ 2 ^ 40) (bx : |jx| ≤ 2 ^ 40)
    (bz : |jz| ≤ 2 ^ 40) :
    ∃ P : Point, generatedTranslation C (FloatVal.finite rv) (FloatVal.finite sv)
      (FloatVal.finite ov) x z y = some P := by
  obtain ⟨px, vx, ex, ex2⟩ := spaced_finite ((x : ℚ) - 2) rv sv jx (width_coord_le x hx) br bs bx
  obtain ⟨py, vy, ey, ey2⟩ := spaced_finite ((y : ℚ) - 3 / 2) rv sv ov (height_coord_le y hy)
    br bs bo
  obtain ⟨pz, vz, ez, ez2⟩ := spaced_finite ((z : ℚ) - 2) rv sv jz (width_coord_le z hz) br bs bz
  exact ⟨⟨vx, vy, vz⟩, generated_eval C _ _ _ x z y jx jz vx vy vz hx hz hy e1 e2
    (by rw [ex]; exact ex2) (by rw [ey]; exact ey2) (by rw [ez]; exact ez2)⟩

/-! ## C10 -/

theorem round_two_one : binary32.round (2 * 1) = FloatVal.finite 2 :=
  round32_v _ _ 2 0 (by norm_num) (by norm_num) (by norm_num) (by norm_num) (by norm_num)

/-- The light of cell `(0, 0, 0)` in the run `jitterRun` with radius 1, separation 1 and
yOffset 0. -/
theorem jitterRun_unit_first :
    generatedTranslation jitterRun (FloatVal.finite 1) (FloatVal.finite 1) (FloatVal.finite 0)
      0 0 0 = some ⟨-7 / 2, -3, -4⟩ :=
  generated_eval jitterRun _ _ _ 0 0 0 (1 / 2) 0 _ _ _ (by decide) (by decide) (by decide)
    jitterRun_offsets_first.1 jitterRun_offsets_first.2
    (spaced_value _ 1 1 (1 / 2) 2 2 (-4) (-7 / 2) round_two_one round_two_one
      (round32_v _ _ (-4) 0 (by norm_num) (by norm_num) (by norm_num) (by norm_num)
        (by norm_num))
      (round32_v _ _ (-7) 1 (by norm_num) (by norm_num) (by norm_num) (by norm_num)
        (by norm_num)))
    (spaced_value _ 1 1 0 2 2 (-3) (-3) round_two_one round_two_one
      (round32_v _ _ (-3) 0 (by norm_num) (by norm_num) (by norm_num) (by norm_num)
        (by norm_num))
      (round32_v _ _ (-3) 0 (by norm_num) (by norm_num) (by norm_num) (by norm_num)
        (by norm_num)))
    (spaced_value _ 1 1 0 2 2 (-4) (-4) round_two_one round_two_one
      (round32_v _ _ (-4) 0 (by norm_num) (by norm_num) (by norm_num) (by norm_num)
        (by norm_num))
      (round32_v _ _ (-4) 0 (by norm_num) (by norm_num) (by norm_num) (by norm_num)
        (by norm_num)))

/-- The lights of the cells `(0, 0, y)`, `y = 1, 2`, in the run `jitterRun` with radius 1,
separation 1 and yOffset 0. -/
theorem jitterRun_unit_column (y : Nat) (hy : y = 1 ∨ y = 2) :
    generatedTranslation jitterRun (FloatVal.finite 1) (FloatVal.finite 1) (FloatVal.finite 0)
      0 0 y = some ⟨-4, 2 * (y : ℚ) - 3, -4⟩ := by
  have hy4 : y < LIGHT_GRID_HEIGHT := by
    unfold LIGHT_GRID_HEIGHT
    omega
  have hk : 2 ≤ 5 * gridIndex LIGHT_GRID_WIDTH LIGHT_GRID_HEIGHT 0 0 y := by
    unfold gridIndex
    omega
  have hyq : (y : ℚ) = 1 ∨ (y : ℚ) = 2 := by
    rcases hy with h | h <;> subst h <;> norm_num
  refine generated_eval jitterRun _ _ _ 0 0 y 0 0 _ _ _ (by decide) (by decide) hy4
    (jitterRun_offsets_zero _ hk).1 (jitterRun_offsets_zero _ hk).2
    (spaced_value _ 1 1 0 2 2 (-4) (-4) round_two_one round_two_one
      (round32_v _ _ (-4) 0 (by norm_num) (by norm_num) (by norm_num) (by norm_num)
        (by norm_num))
      (round32_v _ _ (-4) 0 (by norm_num) (by norm_num) (by norm_num) (by norm_num)
        (by norm_num)))
    (spaced_value _ 1 1 0 2 2 (2 * (y : ℚ) - 3) (2 * (y : ℚ) - 3) round_two_one round_two_one
      ?_ ?_)
    (spaced_value _ 1 1 0 2 2 (-4) (-4) round_two_one round_two_one
      (round32_v _ _ (-4) 0 (by norm_num) (by norm_num) (by norm_num) (by norm_num)
        (by norm_num))
      (round32_v _ _ (-4) 0 (by norm_num) (by norm_num) (by norm_num) (by norm_num)
        (by norm_num)))
  · rcases hyq with h | h <;> rw [h]
    · exact round32_v _ _ (-1) 0 (by norm_num) (by norm_num) (by norm_num) (by norm_num)
        (by norm_num)
    · exact round32_v _ _ 1 0 (by norm_num) (by norm_num) (by norm_num) (by norm_num)
        (by norm_num)
  · rcases hyq with h | h <;> rw [h]
    · exact round32_v _ _ (-1) 0 (by norm_num) (by norm_num) (by norm_num) (by norm_num)
        (by norm_num)
    · exact round32_v _ _ 1 0 (by norm_num) (by norm_num) (by norm_num) (by norm_num)
        (by norm_num)

theorem round_diameter_870 :
    binary32.round (2 * (7298089 / 8388608)) = FloatVal.finite (7298089 / 4194304) :=
  round32_v _ _ 7298089 22 (by norm_num) (by norm_num) (by norm_num) (by norm_num)
    (by norm_num)

theorem round_diameter_870_one :
    binary32.round (7298089 / 4194304 * 1) = FloatVal.finite (7298089 / 4194304) :=
  round32_v _ _ 7298089 22 (by norm_num) (by norm_num) (by norm_num) (by norm_num)
    (by norm_num)

/-- The lights of the cells `(1, 0, 0)` and `(1, 0, 1)` in the run `jitterRun` with radius
0.870f, separation 1 and yOffset 0. -/
theorem jitterRun_870_pair :
    generatedTranslation jitterRun (FloatVal.finite (7298089 / 8388608)) (FloatVal.finite 1)
      (FloatVal.finite 0) 1 0 0 =
        some ⟨-7298089 / 4194304, -5473567 / 2097152, -7298089 / 2097152⟩ ∧
    generatedTranslation jitterRun (FloatVal.finite (7298089 / 8388608)) (FloatVal.finite 1)
      (FloatVal.finite 0) 1 0 1 =
        some ⟨-7298089 / 4194304, -7298089 / 8388608, -7298089 / 2097152⟩ := by
  have hx : ∀ j : ℚ, j = 0 → binary32.add (binary32.mul (FloatVal.finite (((1 : Nat) : ℚ) - 2))
      (binary32.mul (binary32.mul (FloatVal.finite 2) (FloatVal.finite (7298089 / 8388608)))
        (FloatVal.finite 1))) (FloatVal.finite j) = FloatVal.finite (-7298089 / 4194304) := by
    intro j hj
    subst hj
    exact spaced_value _ _ 1 0 _ _ (-7298089 / 4194304) _ round_diameter_870
      round_diameter_870_one
      (round32_v _ _ (-7298089) 22 (by norm_num) (by norm_num) (by norm_num) (by norm_num)
        (by norm_num))
      (round32_v _ _ (-7298089) 22 (by norm_num) (by norm_num) (by norm_num) (by norm_num)
        (by norm_num))
  have hz : ∀ j : ℚ, j = 0 → binary32.add (binary32.mul (FloatVal.finite (((0 : Nat) : ℚ) - 2))
      (binary32.mul (binary32.mul (FloatVal.finite 2) (FloatVal.finite (7298089 / 8388608)))
        (FloatVal.finite 1))) (FloatVal.finite j) = FloatVal.finite (-7298089 / 2097152) := by
    intro j hj
    subst hj
    exact spaced_value _ _ 1 0 _ _ (-7298089 / 2097152) _ round_diameter_870
      round_diameter_870_one
      (round32_v _ _ (-7298089) 21 (by norm_num) (by norm_num) (by norm_num) (by norm_num)
        (by norm_num))
      (round32_v _ _ (-7298089) 21 (by norm_num) (by norm_num) (by norm_num) (by norm_num)
        (by norm_num))
  have hy0 : binary32.round ((((0 : Nat) : ℚ) - 3 / 2) * (7298089 / 4194304)) =
      FloatVal.finite (-5473567 / 2097152) := by
    have e : (((0 : Nat) : ℚ) - 3 / 2) * (7298089 / 4194304) = -(21894267 / 8388608) := by
      norm_num
    rw [e, round_neg, round_tie_261]
    simp only [FloatVal.neg]
    norm_num
  have k0 : 2 ≤ 5 * gridIndex LIGHT_GRID_WIDTH LIGHT_GRID_HEIGHT 1 0 0 := by decide
  have k1 : 2 ≤ 5 * gridIndex LIGHT_GRID_WIDTH LIGHT_GRID_HEIGHT 1 0 1 := by decide
  constructor
  · exact generated_eval jitterRun _ _ _ 1 0 0 0 0 _ _ _ (by decide) (by decide) (by decide)
      (jitterRun_offsets_zero _ k0).1 (jitterRun_offsets_zero _ k0).2 (hx 0 rfl)
      (spaced_value _ _ 1 0 _ _ (-5473567 / 2097152) _ round_diameter_870
        round_diameter_870_one hy0
        (round32_v _ _ (-5473567) 21 (by norm_num) (by norm_num) (by norm_num) (by norm_num)
          (by norm_num)))
      (hz 0 rfl)
  · exact generated_eval jitterRun _ _ _ 1 0 1 0 0 _ _ _ (by decide) (by decide) (by decide)
      (jitterRun_offsets_zero _ k1).1 (jitterRun_offsets_zero _ k1).2 (hx 0 rfl)
      (spaced_value _ _ 1 0 _ _ (-7298089 / 8388608) _ round_diameter_870
        round_diameter_870_one
        (round32_v _ _ (-7298089) 23 (by norm_num) (by norm_num) (by norm_num) (by norm_num)
          (by norm_num))
        (round32_v _ _ (-7298089) 23 (by norm_num) (by norm_num) (by norm_num) (by norm_num)
          (by norm_num)))
      (hz 0 rfl)

theorem sqrt_rat_sq (q : ℚ) (hq : 0 ≤ q) : Real.sqrt (((q ^ 2 : ℚ)) : ℝ) = (q : ℝ) := by
  push_cast
  exact Real.sqrt_sq (by exact_mod_cast hq)

/-- C10 (counterexample): in the run `jitterRun` with radius 1, separation 1 and yOffset 0 the
lights of the y-adjacent cells `(0, 0, 0)` and `(0, 0, 1)` are at `(-7/2, -3, -4)` and
`(-4, -1, -4)`, at squared distance `17/4`, not `(2 * 1)^2 = 4`: the first light is moved by
its random jitter `xOffset = 1/2`, the second one is not moved.  Their distance is therefore
not `2 * radius`.  With radius 0.870f (the `float` `7298089/8388608`) the lights of the
y-adjacent cells `(1, 0, 0)` and `(1, 0, 1)`, neither of which is moved by jitter, are at
distance `14596179/8388608`, not `2 * radius = 14596178/8388608`: the product `-1.5 * 1.74`
of the first one is rounded. -/
theorem C10_jitter_breaks_touching :
    axisAdjacent 0 0 0 0 0 1 ∧
    (∃ P Q : Point,
      generatedTranslation jitterRun (FloatVal.finite 1) (FloatVal.finite 1)
        (FloatVal.finite 0) 0 0 0 = some P ∧
      generatedTranslation jitterRun (FloatVal.finite 1) (FloatVal.finite 1)
        (FloatVal.finite 0) 0 0 1 = some Q ∧
      P.distSq Q = 17 / 4 ∧
      Real.sqrt ((P.distSq Q : ℚ) : ℝ) ≠ 2 * (1 : ℝ)) ∧
    axisAdjacent 1 0 0 1 0 1 ∧
    binary32.round (870 / 1000) = FloatVal.finite (7298089 / 8388608) ∧
    xOffset jitterRun (5 * gridIndex LIGHT_GRID_WIDTH LIGHT_GRID_HEIGHT 1 0 0) =
      FloatVal.finite 0 ∧
    zOffset jitterRun (5 * gridIndex LIGHT_GRID_WIDTH LIGHT_GRID_HEIGHT 1 0 0) =
      FloatVal.finite 0 ∧
    xOffset jitterRun (5 * gridIndex LIGHT_GRID_WIDTH LIGHT_GRID_HEIGHT 1 0 1) =
      FloatVal.finite 0 ∧
    zOffset jitterRun (5 * gridIndex LIGHT_GRID_WIDTH LIGHT_GRID_HEIGHT 1 0 1) =
      FloatVal.finite 0 ∧
    ∃ P Q : Point,
      generatedTranslation jitterRun (FloatVal.finite (7298089 / 8388608)) (FloatVal.finite 1)
        (FloatVal.finite 0) 1 0 0 = some P ∧
      generatedTranslation jitterRun (FloatVal.finite (7298089 / 8388608)) (FloatVal.finite 1)
        (FloatVal.finite 0) 1 0 1 = some Q ∧
      Real.sqrt ((P.distSq Q : ℚ) : ℝ) = ((14596179 / 8388608 : ℚ) : ℝ) ∧
      Real.sqrt ((P.distSq Q : ℚ) : ℝ) ≠ 2 * ((7298089 / 8388608 : ℚ) : ℝ) := by
  have k0 : 2 ≤ 5 * gridIndex LIGHT_GRID_WIDTH LIGHT_GRID_HEIGHT 1 0 0 := by decide
  have k1 : 2 ≤ 5 * gridIndex LIGHT_GRID_WIDTH LIGHT_GRID_HEIGHT 1 0 1 := by decide
  refine ⟨Or.inr (Or.inr ⟨rfl, rfl, Or.inl rfl⟩),
    ⟨⟨-7 / 2, -3, -4⟩, ⟨-4, -1, -4⟩, jitterRun_unit_first, ?_, ?_, ?_⟩,
    Or.inr (Or.inr ⟨rfl, rfl, Or.inl rfl⟩), round_870,
    (jitterRun_offsets_zero _ k0).1, (jitterRun_offsets_zero _ k0).2,
    (jitterRun_offsets_zero _ k1).1, (jitterRun_offsets_zero _ k1).2,
    _, _, jitterRun_870_pair.1, jitterRun_870_pair.2, ?_⟩
  · have h := jitterRun_unit_column 1 (Or.inl rfl)
    norm_num at h
    exact h
  · unfold Point.distSq
    norm_num
  · have hd : Point.distSq ⟨-7 / 2, -3, -4⟩ ⟨-4, -1, -4⟩ = 17 / 4 := by
      unfold Point.distSq
      norm_num
    rw [hd]
    intro hsq
    have h2 : Real.sqrt (((17 / 4 : ℚ)) : ℝ) ^ 2 = (((17 / 4 : ℚ)) : ℝ) :=
      Real.sq_sqrt (by norm_num)
    rw [hsq] at h2
    norm_num at h2
  · have hd : Point.distSq ⟨-7298089 / 4194304, -5473567 / 2097152, -7298089 / 2097152⟩
        ⟨-7298089 / 4194304, -7298089 / 8388608, -7298089 / 2097152⟩ =
        (14596179 / 8388608) ^ 2 := by
      unfold Point.distSq
      norm_num
    rw [hd, sqrt_rat_sq _ (by norm_num)]
    refine ⟨rfl, ?_⟩
    intro h
    have h2 : ((14596179 / 8388608 : ℚ) : ℝ) = ((2 * (7298089 / 8388608) : ℚ) : ℝ) := by
      rw [h]
      push_cast
      ring
    have h3 : (14596179 / 8388608 : ℚ) = 2 * (7298089 / 8388608) := by exact_mod_cast h2
    norm_num at h3

/-- C10 (amended): for every radius `r > 0` and every yOffset, after
`configurePointLights(radius = r, separation = 1.0)` on empty sequences, the distance between
the translations of two axis-adjacent grid cells (where both are finite) is `2*r` up to the
difference of the two lights' random XZ jitter and the rounding of the `float` operations:
it differs from `2*r` by at most `|jx2 - jx| + |jz2 - jz|` plus the margin
`2^-16*r + 2^-23*|yOffset| + 2^-24*(|jx| + |jx2| + |jz| + |jz2|) + 2^-143`, where
`(jx, jz)` and `(jx2, jz2)` are the offsets `(xOffset, zOffset)` drawn for the two lights.
Both translations are finite whenever these offsets are finite and they, `r` and yOffset are
of magnitude at most `2^40`. -/
theorem C10_neighbour_distance_up_to_jitter (C : CLib) (rv ov : ℚ) (hr : 0 < rv)
    (x z y x2 z2 y2 : Nat)
    (hx : x < LIGHT_GRID_WIDTH) (hz : z < LIGHT_GRID_WIDTH) (hy : y < LIGHT_GRID_HEIGHT)
    (hx2 : x2 < LIGHT_GRID_WIDTH) (hz2 : z2 < LIGHT_GRID_WIDTH) (hy2 : y2 < LIGHT_GRID_HEIGHT)
    (hadj : axisAdjacent x z y x2 z2 y2) :
    (∀ P Q : Point,
      generatedTranslation C (FloatVal.finite rv) (FloatVal.finite 1) (FloatVal.finite ov)
        x z y = some P →
      generatedTranslation C (FloatVal.finite rv) (FloatVal.finite 1) (FloatVal.finite ov)
        x2 z2 y2 = some Q →
      ∃ jx jz jx2 jz2 : ℚ,
        xOffset C (5 * gridIndex LIGHT_GRID_WIDTH LIGHT_GRID_HEIGHT x z y) =
          FloatVal.finite jx ∧
        zOffset C (5 * gridIndex LIGHT_GRID_WIDTH LIGHT_GRID_HEIGHT x z y) =
          FloatVal.finite jz ∧
        xOffset C (5 * gridIndex LIGHT_GRID_WIDTH LIGHT_GRID_HEIGHT x2 z2 y2) =
          FloatVal.finite jx2 ∧
        zOffset C (5 * gridIndex LIGHT_GRID_WIDTH LIGHT_GRID_HEIGHT x2 z2 y2) =
          FloatVal.finite jz2 ∧
        |Real.sqrt ((P.distSq Q : ℚ) : ℝ) - 2 * (rv : ℝ)| ≤
          ((|jx2 - jx| + |jz2 - jz| +
            (1 / 2 ^ 16 * rv + 1 / 2 ^ 23 * |ov| +
              1 / 2 ^ 24 * (|jx| + |jx2| + |jz| + |jz2|) + 1 / 2 ^ 143) : ℚ) : ℝ)) ∧
    (∀ jx jz jx2 jz2 : ℚ,
      xOffset C (5 * gridIndex LIGHT_GRID_WIDTH LIGHT_GRID_HEIGHT x z y) =
        FloatVal.finite jx →
      zOffset C (5 * gridIndex LIGHT_GRID_WIDTH LIGHT_GRID_HEIGHT x z y) =
        FloatVal.finite jz →
      xOffset C (5 * gridIndex LIGHT_GRID_WIDTH LIGHT_GRID_HEIGHT x2 z2 y2) =
        FloatVal.finite jx2 →
      zOffset C (5 * gridIndex LIGHT_GRID_WIDTH LIGHT_GRID_HEIGHT x2 z2 y2) =
        FloatVal.finite jz2 →
      rv ≤ 2 ^ 40 → |ov| ≤ 2 ^ 40 →
      |jx| ≤ 2 ^ 40 → |jz| ≤ 2 ^ 40 → |jx2| ≤ 2 ^ 40 → |jz2| ≤ 2 ^ 40 →
      ∃ P Q : Point,
        generatedTranslation C (FloatVal.finite rv) (FloatVal.finite 1) (FloatVal.finite ov)
          x z y = some P ∧
        generatedTranslation C (FloatVal.finite rv) (FloatVal.finite 1) (FloatVal.finite ov)
          x2 z2 y2 = some Q) := by
  constructor
  · intro P Q hP hQ
    obtain ⟨jx, jz, e1, e2, -⟩ := generated_near C rv 1 ov x z y hx hz hy P hP
    obtain ⟨jx2, jz2, e3, e4, -⟩ := generated_near C rv 1 ov x2 z2 y2 hx2 hz2 hy2 Q hQ
    have h := generated_distance_near C rv 1 ov x z y x2 z2 y2 hx hz hy hx2 hz2 hy2 hadj P Q
      hP hQ jx jz jx2 jz2 e1 e2 e3 e4
    refine ⟨jx, jz, jx2, jz2, e1, e2, e3, e4, ?_⟩
    have es : |2 * rv * 1| = 2 * rv := by
      rw [mul_one, abs_of_pos (by linarith)]
    have em : |jx2 - jx| + |jz2 - jz| +
        spacingMargin rv 1 ov (|jx| + |jx2| + |jz| + |jz2|) ≤
        |jx2 - jx| + |jz2 - jz| +
          (1 / 2 ^ 16 * rv + 1 / 2 ^ 23 * |ov| + 1 / 2 ^ 24 * (|jx| + |jx2| + |jz| + |jz2|) +
            1 / 2 ^ 143) := by
      unfold spacingMargin
      rw [mul_one, abs_of_pos hr, abs_one]
      norm_num
      linarith
    rw [es] at h
    have em2 : ((|jx2 - jx| + |jz2 - jz| +
        spacingMargin rv 1 ov (|jx| + |jx2| + |jz| + |jz2|) : ℚ) : ℝ) ≤
        ((|jx2 - jx| + |jz2 - jz| +
          (1 / 2 ^ 16 * rv + 1 / 2 ^ 23 * |ov| + 1 / 2 ^ 24 * (|jx| + |jx2| + |jz| + |jz2|) +
            1 / 2 ^ 143) : ℚ) : ℝ) := by exact_mod_cast em
    have h3 := le_trans h em2
    push_cast at h3 ⊢
    exact h3
  · intro jx jz jx2 jz2 e1 e2 e3 e4 br bo b1 b2 b3 b4
    have br2 : |rv| ≤ 2 ^ 40 := by rw [abs_of_pos hr]; exact br
    have bs : |(1 : ℚ)| ≤ 2 ^ 40 := by rw [abs_one]; norm_num
    obtain ⟨P, hP⟩ := generated_finite C rv 1 ov x z y jx jz hx hz hy e1 e2 br2 bs bo b1 b2
    obtain ⟨Q, hQ⟩ := generated_finite C rv 1 ov x2 z2 y2 jx2 jz2 hx2 hz2 hy2 e3 e4 br2 bs bo
      b3 b4
    exact ⟨P, Q, hP, hQ⟩

/-- C10 witness: radius 1 in the run `jitterRun`, for the y-adjacent cells `(0, 0, 1)` and
`(0, 0, 2)`, whose lights are at `(-4, -1, -4)` and `(-4, 1, -4)`; neither is moved by
jitter. -/
theorem C10_neighbour_distance_up_to_jitter_witness :
    (0 : ℚ) < 1 ∧ axisAdjacent 0 0 1 0 0 2 ∧
    generatedTranslation jitterRun (FloatVal.finite 1) (FloatVal.finite 1) (FloatVal.finite 0)
      0 0 1 = some ⟨-4, -1, -4⟩ ∧
    generatedTranslation jitterRun (FloatVal.finite 1) (FloatVal.finite 1) (FloatVal.finite 0)
      0 0 2 = some ⟨-4, 1, -4⟩ ∧
    ∃ jx jz jx2 jz2 : ℚ,
      xOffset jitterRun (5 * gridIndex LIGHT_GRID_WIDTH LIGHT_GRID_HEIGHT 0 0 1) =
        FloatVal.finite jx ∧
      zOffset jitterRun (5 * gridIndex LIGHT_GRID_WIDTH LIGHT_GRID_HEIGHT 0 0 1) =
        FloatVal.finite jz ∧
      xOffset jitterRun (5 * gridIndex LIGHT_GRID_WIDTH LIGHT_GRID_HEIGHT 0 0 2) =
        FloatVal.finite jx2 ∧
      zOffset jitterRun (5 * gridIndex LIGHT_GRID_WIDTH LIGHT_GRID_HEIGHT 0 0 2) =
        FloatVal.finite jz2 ∧
      |Real.sqrt (((Point.distSq ⟨-4, -1, -4⟩ ⟨-4, 1, -4⟩ : ℚ)) : ℝ) - 2 * ((1 : ℚ) : ℝ)| ≤
        ((|jx2 - jx| + |jz2 - jz| +
          (1 / 2 ^ 16 * 1 + 1 / 2 ^ 23 * |(0 : ℚ)| +
            1 / 2 ^ 24 * (|jx| + |jx2| + |jz| + |jz2|) + 1 / 2 ^ 143) : ℚ) : ℝ) := by
  have h1 : generatedTranslation jitterRun (FloatVal.finite 1) (FloatVal.finite 1)
      (FloatVal.finite 0) 0 0 1 = some ⟨-4, -1, -4⟩ := by
    have h := jitterRun_unit_column 1 (Or.inl rfl)
    norm_num at h
    exact h
  have h2 : generatedTranslation jitterRun (FloatVal.finite 1) (FloatVal.finite 1)
      (FloatVal.finite 0) 0 0 2 = some ⟨-4, 1, -4⟩ := by
    have h := jitterRun_unit_column 2 (Or.inr rfl)
    norm_num at h
    exact h
  exact ⟨by norm_num, Or.inr (Or.inr ⟨rfl, rfl, Or.inl rfl⟩), h1, h2,
    (C10_neighbour_distance_up_to_jitter jitterRun 1 0 (by norm_num) 0 0 1 0 0 2
      (by decide) (by decide) (by decide) (by decide) (by decide) (by decide)
      (Or.inr (Or.inr ⟨rfl, rfl, Or.inl rfl⟩))).1 _ _ h1 h2⟩

/-! ## C11 -/

end MomentShadows
